import Mathlib

/-!
# Athena user-space network stack: sequence arithmetic, TCP forward queue, sessions

A shallow embedding of the C sources under `app/src/main/cpp`:
`utils/util.c` (`compare_u32`, `calc_checksum`), `protocols/tcp.c` (the TCP engine and the
buffer of `write_tcp`), `protocols/udp.c` (the UDP relay and `write_udp`), `session/ip.c`
(`handle_ip`) and the session count and TUN branch of `handle_events` of `session/session.c`.

Conventions.
* Machine integers are `Nat`/`Int`; a `uint32_t` computation is reduced `% 2^32`
  where the C code can wrap, a `uint16_t` one `% 2^16`.
* A singly linked list (`struct segment *forward`, `struct ng_session *next`) is a `List`.
* Every answer of the kernel or of libc (`time`, `rand`, `write`, `send`, `recv`, `close`,
  `epoll_ctl`, `getsockopt`, `ioctl`) is an explicit input of the function that asks for it.
* Packets written to the TUN device are returned as values: as a record of the header fields
  where only those matter, as the list of the bytes of the buffer where the layout or a checksum
  matters. Memory is that of a little-endian machine.
-/

namespace Athena

/-! ## utils/util.c -/

/-- The function `compare_u32` of `utils/util.c`, lines 98-109. Both arguments are `uint32_t`. -/
def compare_u32 (s1 s2 : Nat) : Int :=
  if s1 = s2 then 0
  else if (s1 < s2 ∧ s2 - s1 < 0x7FFFFFFF) ∨ (s1 > s2 ∧ s1 - s2 > 0x7FFFFFFF) then -1
  else 1

/-- The signed-delta rule as the specification words it: `a` precedes `b` iff
`(b - a) mod 2^32 < 2^31`; the result is 0 on equality, -1 when `a` precedes `b`, +1 otherwise. -/
def compare_u32_spec (a b : Nat) : Int :=
  if a = b then 0
  else if (b + 2 ^ 32 - a) % 2 ^ 32 < 2 ^ 31 then -1
  else 1

/-- Byte swap of a 32-bit value: `htonl` on the little-endian ABIs the library is built for. -/
def htonl (x : Nat) : Nat :=
  (x % 256) * 2 ^ 24 + (x / 2 ^ 8 % 256) * 2 ^ 16 + (x / 2 ^ 16 % 256) * 2 ^ 8 + x / 2 ^ 24 % 256

/-- Byte swap of a 32-bit value: `ntohl`, the same permutation as `htonl`. -/
def ntohl (x : Nat) : Nat := htonl x

/-- Byte swap of a 16-bit value: `htons`; the argument is converted to `uint16_t` first. -/
def htons (x : Nat) : Nat := (x % 256) * 256 + x / 256 % 256

/-- Byte swap of a 16-bit value: `ntohs`, the same permutation as `htons`. -/
def ntohs (x : Nat) : Nat := htons x

/-- System constant `IPPROTO_ICMP`. -/
@[reducible] def IPPROTO_ICMP : Nat := 1
/-- System constant `IPPROTO_TCP`. -/
@[reducible] def IPPROTO_TCP : Nat := 6
/-- System constant `IPPROTO_UDP`. -/
@[reducible] def IPPROTO_UDP : Nat := 17
/-- System constant `IPPROTO_ICMPV6`. -/
@[reducible] def IPPROTO_ICMPV6 : Nat := 58

/-- System constant `EPOLLIN` of `<sys/epoll.h>`. -/
@[reducible] def EPOLLIN : Nat := 1
/-- System constant `EPOLLOUT` of `<sys/epoll.h>`. -/
@[reducible] def EPOLLOUT : Nat := 4
/-- System constant `EPOLLERR` of `<sys/epoll.h>`. -/
@[reducible] def EPOLLERR : Nat := 8

/-- TCP state `TCP_ESTABLISHED` of `<netinet/tcp.h>`. -/
@[reducible] def TCP_ESTABLISHED : Nat := 1
/-- TCP state `TCP_SYN_RECV` of `<netinet/tcp.h>`. -/
@[reducible] def TCP_SYN_RECV : Nat := 3
/-- TCP state `TCP_FIN_WAIT1` of `<netinet/tcp.h>`. -/
@[reducible] def TCP_FIN_WAIT1 : Nat := 4
/-- TCP state `TCP_CLOSE` of `<netinet/tcp.h>`. -/
@[reducible] def TCP_CLOSE : Nat := 7
/-- TCP state `TCP_CLOSE_WAIT` of `<netinet/tcp.h>`. -/
@[reducible] def TCP_CLOSE_WAIT : Nat := 8
/-- TCP state `TCP_LAST_ACK` of `<netinet/tcp.h>`. -/
@[reducible] def TCP_LAST_ACK : Nat := 9
/-- TCP state `TCP_LISTEN` of `<netinet/tcp.h>`. -/
@[reducible] def TCP_LISTEN : Nat := 10
/-- TCP state `TCP_CLOSING` of `<netinet/tcp.h>`. -/
@[reducible] def TCP_CLOSING : Nat := 11

/-- Modelled from the spec: SOCKS5 sub-state `NONE` of the absent header `athena.h`; the five
sub-states are distinct and differ from the literal 0 that `check_tcp_socket` stores on a
protocol error. -/
@[reducible] def SOCKS5_NONE : Nat := 1
/-- Modelled from the spec: SOCKS5 sub-state `HELLO` of the absent header `athena.h`. -/
@[reducible] def SOCKS5_HELLO : Nat := 2
/-- Modelled from the spec: SOCKS5 sub-state `AUTH` of the absent header `athena.h`. -/
@[reducible] def SOCKS5_AUTH : Nat := 3
/-- Modelled from the spec: SOCKS5 sub-state `CONNECT` of the absent header `athena.h`. -/
@[reducible] def SOCKS5_CONNECT : Nat := 4
/-- Modelled from the spec: SOCKS5 sub-state `CONNECTED` of the absent header `athena.h`. -/
@[reducible] def SOCKS5_CONNECTED : Nat := 5

/-- Modelled from the spec: UDP state `ACTIVE` of the absent header `athena.h`. -/
@[reducible] def UDP_ACTIVE : Nat := 0
/-- Modelled from the spec: UDP state `FINISHING` of the absent header `athena.h`. -/
@[reducible] def UDP_FINISHING : Nat := 1
/-- Modelled from the spec: UDP state `CLOSED` of the absent header `athena.h`. -/
@[reducible] def UDP_CLOSED : Nat := 2

/-- Modelled from the spec: per-session `mss` of an IPv4 UDP session (`UDP4_MAXMSG` of the absent
header `athena.h`), 65507. -/
@[reducible] def UDP4_MAXMSG : Nat := 65507
/-- Modelled from the spec: per-session `mss` of an IPv6 UDP session (`UDP6_MAXMSG` of the absent
header `athena.h`), 65487. -/
@[reducible] def UDP6_MAXMSG : Nat := 65487

/-- Modelled from the spec: the timeouts and sizes that the absent header `athena.h` defines and
the code under `protocols/` and `session/` names. They are parameters of the model. -/
structure athena_h where
  TCP_INIT_TIMEOUT : Int
  TCP_IDLE_TIMEOUT : Int
  TCP_CLOSE_TIMEOUT : Int
  TCP_KEEP_TIMEOUT : Int
  UDP_TIMEOUT_53 : Int
  UDP_TIMEOUT_ANY : Int
  UDP_KEEP_TIMEOUT : Int
  EPOLL_MIN_CHECK : Int
  SEND_BUF_DEFAULT : Int
deriving DecidableEq, Repr

/-! ## Data model -/

/-- Modelled from the spec: the address union `{ip4, ip6}` of the absent header `athena.h`.
`ip4` is the `__be32` member as stored, `ip6` the 16 bytes of the `in6_addr` member. The C union
overlays the two; a session reads only the member that its `version` selects, and the model keeps
the members side by side. -/
structure ng_addr where
  ip4 : Nat
  ip6 : List Nat
deriving DecidableEq, Repr, Inhabited

/-! ## protocols/tcp.c: the forward queue -/

/-- Modelled from the spec: `struct segment` of the absent header `athena.h`
(`segment{seq, len, sent, psh, data}`); `seq` is a `uint32_t`, `len` and `sent` are `uint16_t`,
`data` is the byte buffer, `next` is the tail of the list that holds the segment. -/
structure segment where
  seq : Nat
  len : Nat
  sent : Nat
  psh : Bool
  data : List Nat
deriving DecidableEq, Repr

/-- The scan and the three-way branch of `queue_tcp` (`protocols/tcp.c`, lines 156-183) over the
linked list `cur->forward`: skip the segments that compare below `seq`, then insert a new segment
before the first one that compares above it, or overwrite length and data of an equal-seq segment
of a different length. `memcpy(n->data, data, datalen)` copies `datalen` bytes. -/
def queue_tcp_scan (seq datalen : Nat) (psh : Bool) (data : List Nat) :
    List segment → List segment
  | [] => [{ seq := seq, len := datalen, sent := 0, psh := psh, data := data.take datalen }]
  | s :: rest =>
    if compare_u32 s.seq seq < 0 then
      s :: queue_tcp_scan seq datalen psh data rest
    else if compare_u32 s.seq seq > 0 then
      { seq := seq, len := datalen, sent := 0, psh := psh, data := data.take datalen } :: s :: rest
    else if s.seq = seq then
      if s.len ≠ datalen then
        { s with len := datalen, data := data.take datalen } :: rest
      else s :: rest
    else s :: rest

/-- Modelled from the spec: `struct tcp_session` of the absent header `athena.h`, with the
attributes that section 3 of the specification lists and the code under `protocols/tcp.c`
reads and writes. `version`, sequence numbers, `acked` and the windows are `uint32_t`/`int`
values, `mss` and `unconfirmed` are `uint16_t`, the scales `uint8_t`, `source`/`dest` are
`__be16` as stored, `forward` is the forward queue. -/
structure tcp_session where
  uid : Int
  time : Int
  version : Nat
  mss : Nat
  recv_scale : Nat
  send_scale : Nat
  recv_window : Nat
  send_window : Nat
  unconfirmed : Nat
  remote_seq : Nat
  local_seq : Nat
  remote_start : Nat
  local_start : Nat
  acked : Nat
  last_keep_alive : Int
  sent : Nat
  received : Nat
  saddr : ng_addr
  source : Nat
  daddr : ng_addr
  dest : Nat
  state : Nat
  socks5 : Nat
  forward : List segment
deriving DecidableEq, Repr, Inhabited

/-- Modelled from the spec: `struct udp_session` of the absent header `athena.h`: endpoints,
state, `mss`, activity time and byte counters. -/
structure udp_session where
  time : Int
  uid : Int
  version : Nat
  mss : Nat
  sent : Nat
  received : Nat
  saddr : ng_addr
  source : Nat
  daddr : ng_addr
  dest : Nat
  state : Nat
deriving DecidableEq, Repr, Inhabited

/-- Modelled from the spec: `struct icmp_session` of the absent header `athena.h`; only the
members that the code under `src/` reads are kept. -/
structure icmp_session where
  time : Int
  uid : Int
  version : Nat
  stop : Bool
deriving DecidableEq, Repr, Inhabited

/-- Modelled from the spec: `struct ng_session` of the absent header `athena.h`: the protocol tag,
the host socket descriptor (-1 when absent), the readiness subscription mask `ev.events`, and the
union of the three per-protocol records. The code selects the member by `protocol`; the model
keeps the three members side by side, and `next` is the tail of the list that holds the
session. -/
structure ng_session where
  protocol : Nat
  socket : Int
  ev_events : Nat
  icmp : icmp_session
  udp : udp_session
  tcp : tcp_session
deriving DecidableEq, Repr, Inhabited

/-- The fields of `struct tcphdr` that the code reads from a guest segment, as stored in the
packet (network byte order for the multi-byte ones). -/
structure tcphdr where
  source : Nat
  dest : Nat
  seq : Nat
  ack_seq : Nat
  doff : Nat
  fin : Bool
  syn : Bool
  rst : Bool
  psh : Bool
  ack : Bool
  urg : Bool
  window : Nat
deriving DecidableEq, Repr, Inhabited

/-- What `write_tcp` puts into the buffer it hands to `write(args->tun, ...)`: the address pair
and the TCP header fields as stored, the option bytes, the payload and the total length. -/
structure tcp_packet where
  version : Nat
  saddr : ng_addr
  daddr : ng_addr
  source : Nat
  dest : Nat
  seq : Nat
  ack_seq : Nat
  doff : Nat
  syn : Bool
  ack : Bool
  fin : Bool
  rst : Bool
  window : Nat
  options : List Nat
  data : List Nat
  len : Nat
deriving DecidableEq, Repr, Inhabited

/-! ## session/ip.c -/

/-- The function `get_mtu` of `session/ip.c`. -/
def get_mtu : Nat := 10000

/-- The function `get_default_mss` of `session/ip.c`; `sizeof(struct iphdr)` is 20,
`sizeof(struct ip6_hdr)` is 40 and `sizeof(struct tcphdr)` is 20. -/
def get_default_mss (version : Nat) : Nat :=
  if version = 4 then (get_mtu - 20 - 20) % 2 ^ 16 else (get_mtu - 40 - 20) % 2 ^ 16

/-! ## protocols/tcp.c -/

/-- The function `get_tcp_timeout` of `protocols/tcp.c`, lines 37-50; `/` is C division of
`int`s, which truncates toward zero. For `maxsessions = 0` the C code divides by zero and the
process is killed; `Int.tdiv` gives 0 there, which is no value of the program, so statements
about the value of this function or of its callers are made for `0 < maxsessions`. -/
def get_tcp_timeout (h : athena_h) (t : tcp_session) (sessions maxsessions : Int) : Int :=
  let timeout :=
    if t.state = TCP_LISTEN ∨ t.state = TCP_SYN_RECV then h.TCP_INIT_TIMEOUT
    else if t.state = TCP_ESTABLISHED then h.TCP_IDLE_TIMEOUT
    else h.TCP_CLOSE_TIMEOUT
  let scale := 100 - Int.tdiv (sessions * 100) maxsessions
  Int.tdiv (timeout * scale) 100

/-- The function `get_send_window` of `protocols/tcp.c`, lines 140-151, in `uint32_t`
arithmetic. -/
def get_send_window (cur : tcp_session) : Nat :=
  let behind0 :=
    if cur.acked ≤ cur.local_seq then (cur.local_seq - cur.acked)
    else (0x10000 + cur.local_seq + 2 ^ 32 - cur.acked) % 2 ^ 32
  let behind := (behind0 + (cur.unconfirmed + 1) * 40) % 2 ^ 32
  if behind < cur.send_window then cur.send_window - behind else 0

/-- The function `queue_tcp` of `protocols/tcp.c`, lines 153-185. -/
def queue_tcp (tcphdr : tcphdr) (cur : tcp_session) (data : List Nat) (datalen : Nat) :
    tcp_session :=
  let seq := ntohl tcphdr.seq
  if compare_u32 seq cur.remote_seq ≥ 0 then
    { cur with forward := queue_tcp_scan seq datalen tcphdr.psh data cur.forward }
  else cur

/-- The answers of the kernel that `get_receive_buffer` asks for: the return value of
`getsockopt(SO_SNDBUF)` and the value it stores, the return value of `ioctl(SIOCOUTQ)` and the
value it stores. -/
structure sndbuf_probe where
  getsockopt_res : Int
  sendbuf : Int
  ioctl_res : Int
  unsent : Int
deriving DecidableEq, Repr, Inhabited

/-- The function `get_receive_buffer` of `protocols/tcp.c`, lines 187-206. -/
def get_receive_buffer (h : athena_h) (k : sndbuf_probe) (cur : ng_session) : Nat :=
  if cur.socket < 0 then 0
  else if k.getsockopt_res < 0 then 0
  else
    let sendbuf := if k.sendbuf = 0 then h.SEND_BUF_DEFAULT else k.sendbuf
    if k.ioctl_res ≠ 0 then 0
    else if k.unsent < sendbuf then ((sendbuf - k.unsent) % 2 ^ 32).toNat else 0

/-- The loop of `get_receive_window` that adds up `q->len - q->sent` over the forward queue
into a `uint32_t`. -/
def get_receive_window_toforward : List segment → Nat → Nat
  | [], toforward => toforward
  | q :: rest, toforward =>
    get_receive_window_toforward rest
      (((toforward : Int) + ((q.len : Int) - (q.sent : Int))) % 2 ^ 32).toNat

/-- The function `get_receive_window` of `protocols/tcp.c`, lines 232-249. The shift
`0xFFFF << recv_scale` is that of C for `recv_scale < 32`; for a larger count the C shift is
undefined and this value is not that of the binary. -/
def get_receive_window (h : athena_h) (k : sndbuf_probe) (cur : ng_session) : Nat :=
  let toforward := get_receive_window_toforward cur.tcp.forward 0
  let window0 := get_receive_buffer h k cur
  let max := (0xFFFF <<< cur.tcp.recv_scale) % 2 ^ 32
  let window := if window0 > max then max else window0
  if toforward < window then window - toforward else 0

/-- The header that `write_tcp` (`protocols/tcp.c`, lines 757-865) builds, and its return value
for the given result `res` of `write(args->tun, buffer, len)`. Addresses and ports are swapped,
options are present on a SYN only, `ack_seq` is cleared without ACK. The option bytes hold
`get_default_mss` as the `uint16_t` store of a little-endian machine leaves it. The shift
`recv_window >> recv_scale` is that of C for `recv_scale < 32`; for a larger count the C shift
is undefined and the window of this record is not that of the binary. -/
def write_tcp (res : Int) (cur : tcp_session) (data : List Nat) (datalen : Nat)
    (syn ack fin rst : Bool) : tcp_packet × Int :=
  let optlen : Nat := if syn then 4 + 3 + 1 else 0
  let len : Nat := (if cur.version = 4 then 20 else 40) + 20 + optlen + datalen
  let pkt : tcp_packet :=
    { version := if cur.version = 4 then 4 else 6
      saddr := cur.daddr
      daddr := cur.saddr
      source := cur.dest
      dest := cur.source
      seq := htonl cur.local_seq
      ack_seq := if ack then htonl cur.remote_seq else 0
      doff := (20 + optlen) / 4
      syn := syn
      ack := ack
      fin := fin
      rst := rst
      window := htons (cur.recv_window >>> cur.recv_scale)
      options :=
        if syn then
          [2, 4, get_default_mss cur.version % 256, get_default_mss cur.version / 256,
            3, 3, cur.recv_scale, 0]
        else []
      data := data.take datalen
      len := len }
  (pkt, if res ≠ (len : Int) then -1 else res)

/-- The function `write_ack` of `protocols/tcp.c`, lines 738-744: session after the call, the
segment written, the return value. -/
def write_ack (res : Int) (cur : tcp_session) : tcp_session × tcp_packet × Int :=
  let w := write_tcp res cur [] 0 false true false false
  if w.2 < 0 then ({ cur with state := TCP_CLOSING }, w.1, -1) else (cur, w.1, 0)

/-- The function `write_data` of `protocols/tcp.c`, lines 208-214. -/
def write_data (res : Int) (cur : tcp_session) (buffer : List Nat) (length : Nat) :
    tcp_session × tcp_packet × Int :=
  let w := write_tcp res cur buffer length false true false false
  if w.2 < 0 then ({ cur with state := TCP_CLOSING }, w.1, -1) else (cur, w.1, 0)

/-- The function `write_syn_ack` of `protocols/tcp.c`, lines 216-222. -/
def write_syn_ack (res : Int) (cur : tcp_session) : tcp_session × tcp_packet × Int :=
  let w := write_tcp res cur [] 0 true true false false
  if w.2 < 0 then ({ cur with state := TCP_CLOSING }, w.1, -1) else (cur, w.1, 0)

/-- The function `write_fin_ack` of `protocols/tcp.c`, lines 224-230. -/
def write_fin_ack (res : Int) (cur : tcp_session) : tcp_session × tcp_packet × Int :=
  let w := write_tcp res cur [] 0 false true true false
  if w.2 < 0 then ({ cur with state := TCP_CLOSING }, w.1, -1) else (cur, w.1, 0)

/-- The function `write_rst` of `protocols/tcp.c`, lines 746-755: session after the call and the
segment written. -/
def write_rst (res : Int) (cur : tcp_session) : tcp_session × tcp_packet :=
  let ack := decide (cur.state = TCP_LISTEN)
  let cur1 :=
    if cur.state = TCP_LISTEN then { cur with remote_seq := (cur.remote_seq + 1) % 2 ^ 32 }
    else cur
  let w := write_tcp res cur1 [] 0 false ack false true
  (if cur1.state ≠ TCP_CLOSE then { cur1 with state := TCP_CLOSING } else cur1, w.1)

/-- The process-wide SOCKS5 configuration of `protocols/tcp.c`, lines 22-25: `socks5_addr` and
the credentials as the bytes before the terminating NUL, `socks5_port`. -/
structure socks5_config where
  socks5_addr : List Nat
  socks5_port : Int
  socks5_username : List Nat
  socks5_password : List Nat
deriving DecidableEq, Repr, Inhabited

/-- The test `*socks5_addr && socks5_port` of `protocols/tcp.c`. -/
def socks5_enabled (c : socks5_config) : Bool :=
  decide (c.socks5_addr ≠ [] ∧ c.socks5_port ≠ 0)

/-- The answers that `check_tcp_session` gets: `time(NULL)` at entry, the result of the TUN
write of a RST, the result of `close`, `time(NULL)` after the close. -/
structure check_tcp_session_env where
  now : Int
  tun_write : Int
  close_res : Int
  now_close : Int
deriving DecidableEq, Repr, Inhabited

/-- The expiry test of `check_tcp_session` (`protocols/tcp.c`, lines 65-72): a session idle past
its timeout goes from LISTEN to CLOSING, from another live state it is reset. -/
def check_tcp_session_expire (h : athena_h) (env : check_tcp_session_env) (s : ng_session)
    (sessions maxsessions : Int) : ng_session × List tcp_packet :=
  let timeout := get_tcp_timeout h s.tcp sessions maxsessions
  if s.tcp.state ≠ TCP_CLOSING ∧ s.tcp.state ≠ TCP_CLOSE ∧ s.tcp.time + timeout < env.now then
    if s.tcp.state = TCP_LISTEN then
      ({ s with tcp := { s.tcp with state := TCP_CLOSING } }, [])
    else
      let w := write_rst env.tun_write s.tcp
      ({ s with tcp := w.1 }, [w.2])
  else (s, [])

/-- The closing step of `check_tcp_session` (`protocols/tcp.c`, lines 74-86): a session in
CLOSING has its socket closed (the descriptor becomes -1 whether `close` succeeds or not) and
enters CLOSE. -/
def check_tcp_session_close (env : check_tcp_session_env) (s1 : ng_session) : ng_session :=
  if s1.tcp.state = TCP_CLOSING then
    let s1c : ng_session := if s1.socket ≥ 0 then { s1 with socket := -1 } else s1
    { s1c with tcp := { s1c.tcp with time := env.now_close, state := TCP_CLOSE } }
  else s1

/-- The counter reset of `check_tcp_session` (`protocols/tcp.c`, lines 88-91). -/
def check_tcp_session_counters (s2 : ng_session) : ng_session :=
  if (s2.tcp.state = TCP_CLOSING ∨ s2.tcp.state = TCP_CLOSE)
      ∧ (s2.tcp.sent ≠ 0 ∨ s2.tcp.received ≠ 0) then
    { s2 with tcp := { s2.tcp with sent := 0, received := 0 } }
  else s2

/-- The function `check_tcp_session` of `protocols/tcp.c`, lines 52-97: the session after the
call, the segments written to the TUN, and the return value (1 = reap). -/
def check_tcp_session (h : athena_h) (env : check_tcp_session_env) (s : ng_session)
    (sessions maxsessions : Int) : ng_session × List tcp_packet × Int :=
  let r1 := check_tcp_session_expire h env s sessions maxsessions
  let s3 := check_tcp_session_counters (check_tcp_session_close env r1.1)
  if s3.tcp.state = TCP_CLOSE ∧ s3.tcp.time + h.TCP_KEEP_TIMEOUT < env.now then (s3, r1.2, 1)
  else (s3, r1.2, 0)

/-- The answers that `monitor_tcp_session` gets: `get_ms()`, the result of the TUN write of the
keep-alive ACK, the kernel's answers to `get_receive_buffer`, the result of `epoll_ctl`. -/
structure monitor_tcp_session_env where
  ms : Int
  tun_write : Int
  probe : sndbuf_probe
  epoll_ctl_res : Int
deriving DecidableEq, Repr, Inhabited

/-- The send-window test of `monitor_tcp_session` in ESTABLISHED or CLOSE_WAIT
(`protocols/tcp.c`, lines 109-120): the session, the keep-alive ACK written if any, `recheck`
and the event mask so far. The keep-alive is written with `remote_seq - 1`, and `remote_seq` is
put back afterwards. -/
def monitor_tcp_session_window (h : athena_h) (env : monitor_tcp_session_env)
    (s : ng_session) : ng_session × List tcp_packet × Int × Nat :=
  if get_send_window s.tcp > 0 then (s, [], 0, EPOLLERR ||| EPOLLIN)
  else if env.ms - s.tcp.last_keep_alive > h.EPOLL_MIN_CHECK then
    let t1 : tcp_session :=
      { s.tcp with last_keep_alive := env.ms,
                   remote_seq := (s.tcp.remote_seq + 2 ^ 32 - 1) % 2 ^ 32 }
    let w := write_ack env.tun_write t1
    ({ s with tcp := { w.1 with remote_seq := (w.1.remote_seq + 1) % 2 ^ 32 } },
      [w.2.1], 1, EPOLLERR)
  else (s, [], 1, EPOLLERR)

/-- The forward-queue test of `monitor_tcp_session` in ESTABLISHED or CLOSE_WAIT
(`protocols/tcp.c`, lines 122-128) on the outcome `a` of the send-window test. -/
def monitor_tcp_session_forward (h : athena_h) (env : monitor_tcp_session_env)
    (a : ng_session × List tcp_packet × Int × Nat) : ng_session × List tcp_packet × Int × Nat :=
  match a.1.tcp.forward with
  | [] => a
  | f :: _ =>
    let buffer_size := get_receive_buffer h env.probe a.1
    if f.seq = a.1.tcp.remote_seq
        ∧ (((f.len : Int) - (f.sent : Int)) % 2 ^ 32).toNat < buffer_size then
      (a.1, a.2.1, a.2.2.1, a.2.2.2 ||| EPOLLOUT)
    else (a.1, a.2.1, 1, a.2.2.2)

/-- The function `monitor_tcp_session` of `protocols/tcp.c`, lines 99-138: the session after the
call, the segments written to the TUN, and the return value `recheck`. -/
def monitor_tcp_session (h : athena_h) (env : monitor_tcp_session_env) (s : ng_session) :
    ng_session × List tcp_packet × Int :=
  let r : ng_session × List tcp_packet × Int × Nat :=
    if s.tcp.state = TCP_LISTEN then
      if s.tcp.socks5 = SOCKS5_NONE then (s, [], 0, EPOLLERR ||| EPOLLOUT)
      else (s, [], 0, EPOLLERR ||| EPOLLIN)
    else if s.tcp.state = TCP_ESTABLISHED ∨ s.tcp.state = TCP_CLOSE_WAIT then
      monitor_tcp_session_forward h env (monitor_tcp_session_window h env s)
    else (s, [], 0, EPOLLERR)
  let events := r.2.2.2
  if events ≠ r.1.ev_events then
    if env.epoll_ctl_res ≠ 0 then
      ({ r.1 with ev_events := events, tcp := { r.1.tcp with state := TCP_CLOSING } },
        r.2.1, r.2.2.1)
    else ({ r.1 with ev_events := events }, r.2.1, r.2.2.1)
  else (r.1, r.2.1, r.2.2.1)

/-- The two bytes of a 16-bit value in memory order (little-endian machine), as `memcpy` or a
`__be16` store leaves them. -/
def mem16 (x : Nat) : List Nat := [x % 256, x / 256 % 256]

/-- The four bytes of a 32-bit value in memory order (little-endian machine). -/
def mem32 (x : Nat) : List Nat :=
  [x % 256, x / 2 ^ 8 % 256, x / 2 ^ 16 % 256, x / 2 ^ 24 % 256]

/-- The answers that `check_tcp_socket` gets. `events` is `ev->events`; `now` is `time(NULL)` at
the sites before the read from the host socket, `now_in` at the site of line 403; `tun_write k`
is the result of the TUN write made when `k` segments were written before in this call;
`socks5_recv`/`socks5_buffer` are the result of the 32-byte `recv` of the SOCKS5 dialogue and
the buffer it leaves; `send k`/`send_again k` are the result of the `k`-th `send` of the drain
loop and whether `errno` is `EINTR` or `EAGAIN` after it; the two probes answer
`get_receive_buffer` before the drain and inside `get_receive_window`;
`recv`/`recv_again`/`recv_buffer` are the result of the data `recv`, the `errno` test and the
buffer; `close_res` is the result of `close`. -/
structure check_tcp_socket_env where
  events : Nat
  now : Int
  now_in : Int
  tun_write : Nat → Int
  socks5_recv : Int
  socks5_buffer : List Nat
  send : Nat → Int
  send_again : Nat → Bool
  probe_drain : sndbuf_probe
  probe_window : sndbuf_probe
  recv : Int
  recv_again : Bool
  recv_buffer : List Nat
  close_res : Int

/-- What one call of a socket handler leaves behind: the session, the segments written to the
TUN in order, and the buffers handed to `send` on the host socket in order. -/
structure socket_result where
  s : ng_session
  tun : List tcp_packet
  host : List (List Nat)
deriving DecidableEq, Repr, Inhabited

/-- The SOCKS5 reply handling of `check_tcp_socket` in state LISTEN (`protocols/tcp.c`, lines
276-319): the TCP record after it and the RST written, if any. -/
def check_tcp_socket_listen_reply (c : socks5_config) (env : check_tcp_socket_env)
    (t : tcp_session) : tcp_session × List tcp_packet :=
  if t.socks5 = SOCKS5_NONE then
    if env.events &&& EPOLLOUT ≠ 0 then
      if socks5_enabled c then ({ t with socks5 := SOCKS5_HELLO }, [])
      else ({ t with socks5 := SOCKS5_CONNECTED }, [])
    else (t, [])
  else if env.events &&& EPOLLIN ≠ 0 then
    let bytes := env.socks5_recv
    let b0 := env.socks5_buffer.getD 0 0
    let b1 := env.socks5_buffer.getD 1 0
    let fail : tcp_session × List tcp_packet :=
      let w := write_rst (env.tun_write 0) { t with socks5 := 0 }
      (w.1, [w.2])
    if bytes < 0 then
      let w := write_rst (env.tun_write 0) t
      (w.1, [w.2])
    else if t.socks5 = SOCKS5_HELLO ∧ bytes = 2 ∧ b0 = 5 then
      if b1 = 0 then ({ t with socks5 := SOCKS5_CONNECT }, [])
      else if b1 = 2 then ({ t with socks5 := SOCKS5_AUTH }, [])
      else fail
    else if t.socks5 = SOCKS5_AUTH ∧ bytes = 2 ∧ (b0 = 1 ∨ b0 = 5) then
      if b1 = 0 then ({ t with socks5 := SOCKS5_CONNECT }, [])
      else fail
    else if t.socks5 = SOCKS5_CONNECT ∧ bytes = 6 + (if t.version = 4 then 4 else 16)
        ∧ b0 = 5 then
      if b1 = 0 then ({ t with socks5 := SOCKS5_CONNECTED }, [])
      else fail
    else fail
  else (t, [])

/-- The second half of `check_tcp_socket` in state LISTEN (`protocols/tcp.c`, lines 321-357): the
SOCKS5 request sent for the current sub-state, or the SYN/ACK toward the guest once
CONNECTED. -/
def check_tcp_socket_listen_request (c : socks5_config) (env : check_tcp_socket_env)
    (s : ng_session) (out : List tcp_packet) : socket_result :=
  let t := s.tcp
  if t.socks5 = SOCKS5_HELLO then
    { s := s, tun := out, host := [[5, 2, 0, 2]] }
  else if t.socks5 = SOCKS5_AUTH then
    let ulen := c.socks5_username.length % 256
    let plen := c.socks5_password.length % 256
    { s := s, tun := out,
      host := [[1, ulen] ++ c.socks5_username.take ulen ++ [plen]
                ++ c.socks5_password.take plen] }
  else if t.socks5 = SOCKS5_CONNECT then
    if t.version = 4 then
      { s := s, tun := out, host := [[5, 1, 0, 1] ++ mem32 t.daddr.ip4 ++ mem16 t.dest] }
    else
      { s := s, tun := out, host := [[5, 1, 0, 4] ++ t.daddr.ip6.take 16 ++ mem16 t.dest] }
  else if t.socks5 = SOCKS5_CONNECTED then
    let t1 : tcp_session := { t with remote_seq := (t.remote_seq + 1) % 2 ^ 32 }
    let w := write_syn_ack (env.tun_write out.length) t1
    if w.2.2 ≥ 0 then
      { s := { s with tcp := { w.1 with time := env.now,
                                        local_seq := (w.1.local_seq + 1) % 2 ^ 32,
                                        state := TCP_SYN_RECV } },
        tun := out ++ [w.2.1], host := [] }
    else { s := { s with tcp := w.1 }, tun := out ++ [w.2.1], host := [] }
  else { s := s, tun := out, host := [] }

/-- The state of the drain loop of `check_tcp_socket` when it ends: the TCP record (with the
remaining forward queue), the flag `fwd`, the segments written to the TUN and the buffers
handed to `send`. -/
structure drain_result where
  t : tcp_session
  fwd : Bool
  tun : List tcp_packet
  host : List (List Nat)
deriving DecidableEq, Repr, Inhabited

/-- The drain loop of `check_tcp_socket` (`protocols/tcp.c`, lines 362-386) over the forward
queue. `i` counts the `send` calls made so far, `buffer_size` is the `uint32_t` headroom left,
`t` carries the fields of the session other than `forward`. Every iteration that does not leave
the loop unlinks the head, so the recursion is on the queue. -/
def check_tcp_socket_drain (env : check_tcp_socket_env) (i : Nat) (t : tcp_session)
    (buffer_size : Nat) (fwd : Bool) (host : List (List Nat)) : List segment → drain_result
  | [] => { t := { t with forward := [] }, fwd := fwd, tun := [], host := host }
  | f :: rest =>
    if f.seq = t.remote_seq ∧ (((f.len : Int) - (f.sent : Int)) % 2 ^ 32).toNat < buffer_size then
      let req := (f.data.drop f.sent).take ((((f.len : Int) - (f.sent : Int)) % 2 ^ 64).toNat)
      let sent := env.send i
      if sent < 0 then
        if env.send_again i then
          { t := { t with forward := f :: rest }, fwd := fwd, tun := [], host := host ++ [req] }
        else
          let w := write_rst (env.tun_write 0) { t with forward := f :: rest }
          { t := w.1, fwd := fwd, tun := [w.2], host := host ++ [req] }
      else
        let f1 : segment := { f with sent := (f.sent + sent.toNat) % 2 ^ 16 }
        let t1 : tcp_session := { t with sent := (t.sent + sent.toNat) % 2 ^ 64 }
        if f1.len = f1.sent then
          check_tcp_socket_drain env (i + 1)
            { t1 with remote_seq := (f1.seq + f1.sent) % 2 ^ 32 }
            ((buffer_size + 2 ^ 32 - sent.toNat % 2 ^ 32) % 2 ^ 32) true (host ++ [req]) rest
        else
          { t := { t1 with forward := f1 :: rest }, fwd := true, tun := [],
            host := host ++ [req] }
    else { t := { t with forward := f :: rest }, fwd := fwd, tun := [], host := host }

/-- The state change of `check_tcp_socket` after the FIN/ACK (`protocols/tcp.c`, lines
415-418): ESTABLISHED becomes FIN_WAIT1, CLOSE_WAIT becomes LAST_ACK. -/
def check_tcp_socket_fin_state (t : tcp_session) : tcp_session :=
  if t.state = TCP_ESTABLISHED then { t with state := TCP_FIN_WAIT1 }
  else if t.state = TCP_CLOSE_WAIT then { t with state := TCP_LAST_ACK }
  else t

/-- The end-of-stream handling of `check_tcp_socket` (`protocols/tcp.c`, lines 411-420), when
`recv` returned 0: with an empty forward queue a FIN/ACK is written, `local_seq` is advanced if
the write succeeded and the state follows `check_tcp_socket_fin_state`; with queued data the
guest is reset. `n` is the number of segments written before in this call. -/
def check_tcp_socket_eof (env : check_tcp_socket_env) (t : tcp_session) (n : Nat) :
    tcp_session × tcp_packet :=
  if t.forward = [] then
    let w := write_fin_ack (env.tun_write n) t
    (check_tcp_socket_fin_state
      (if w.2.2 ≥ 0 then { w.1 with local_seq := (w.1.local_seq + 1) % 2 ^ 32 } else w.1),
      w.2.1)
  else
    let w := write_rst (env.tun_write n) t
    (w.1, w.2)

/-- The read from the host socket of `check_tcp_socket` (`protocols/tcp.c`, lines 400-439) in
state ESTABLISHED or CLOSE_WAIT. After the end of the stream the socket is closed: the
descriptor becomes -1 whether `close` succeeds or not. -/
def check_tcp_socket_recv (env : check_tcp_socket_env) (s : ng_session)
    (out : List tcp_packet) : ng_session × List tcp_packet :=
  if s.tcp.state = TCP_ESTABLISHED ∨ s.tcp.state = TCP_CLOSE_WAIT then
    let send_window := get_send_window s.tcp
    if env.events &&& EPOLLIN ≠ 0 ∧ send_window > 0 then
      let s1 : ng_session := { s with tcp := { s.tcp with time := env.now_in } }
      let bytes := env.recv
      if bytes < 0 then
        if ¬ env.recv_again then
          let w := write_rst (env.tun_write out.length) s1.tcp
          ({ s1 with tcp := w.1 }, out ++ [w.2])
        else (s1, out)
      else if bytes = 0 then
        let e := check_tcp_socket_eof env s1.tcp out.length
        ({ s1 with socket := if s1.socket ≥ 0 then -1 else s1.socket, tcp := e.1 },
          out ++ [e.2])
      else
        let t2 : tcp_session :=
          { s1.tcp with received := (s1.tcp.received + bytes.toNat) % 2 ^ 64 }
        let w := write_data (env.tun_write out.length) t2 env.recv_buffer bytes.toNat
        if w.2.2 ≥ 0 then
          ({ s1 with tcp := { w.1 with local_seq := (w.1.local_seq + bytes.toNat) % 2 ^ 32,
                                       unconfirmed := (w.1.unconfirmed + 1) % 2 ^ 16 } },
            out ++ [w.2.1])
        else ({ s1 with tcp := w.1 }, out ++ [w.2.1])
    else (s, out)
  else (s, out)

/-- The window update of `check_tcp_socket` (`protocols/tcp.c`, lines 389-398) after the drain
`d`: the advertised window is recomputed, and an ACK is written when bytes were forwarded or the
window opened; `remote_seq` is advanced for the guest's FIN when the queue became empty in
CLOSE_WAIT. -/
def check_tcp_socket_window (h : athena_h) (env : check_tcp_socket_env) (s : ng_session)
    (d : drain_result) : ng_session × List tcp_packet :=
  let s1 : ng_session := { s with tcp := d.t }
  let window := get_receive_window h env.probe_window s1
  let prev := s1.tcp.recv_window
  let s2 : ng_session := { s1 with tcp := { s1.tcp with recv_window := window } }
  if d.fwd ∨ (prev = 0 ∧ window > 0) then
    let t3 : tcp_session :=
      if d.fwd ∧ s2.tcp.forward = [] ∧ s2.tcp.state = TCP_CLOSE_WAIT then
        { s2.tcp with remote_seq := (s2.tcp.remote_seq + 1) % 2 ^ 32 }
      else s2.tcp
    let w := write_ack (env.tun_write d.tun.length) t3
    if w.2.2 ≥ 0 then ({ s2 with tcp := { w.1 with time := env.now } }, d.tun ++ [w.2.1])
    else ({ s2 with tcp := w.1 }, d.tun ++ [w.2.1])
  else (s2, d.tun)

/-- The function `check_tcp_socket` of `protocols/tcp.c`, lines 251-445, for the session `s`
that `ev->data.ptr` points to. -/
def check_tcp_socket (h : athena_h) (c : socks5_config) (env : check_tcp_socket_env)
    (s : ng_session) : socket_result :=
  if env.events &&& EPOLLERR ≠ 0 then
    let w := write_rst (env.tun_write 0) { s.tcp with time := env.now }
    { s := { s with tcp := w.1 }, tun := [w.2], host := [] }
  else if s.tcp.state = TCP_LISTEN then
    let r := check_tcp_socket_listen_reply c env s.tcp
    check_tcp_socket_listen_request c env { s with tcp := r.1 } r.2
  else
    let d : drain_result :=
      if env.events &&& EPOLLOUT ≠ 0 then
        let buffer_size := get_receive_buffer h env.probe_drain s
        check_tcp_socket_drain env 0 s.tcp buffer_size false [] s.tcp.forward
      else { t := s.tcp, fwd := false, tun := [], host := [] }
    let a := check_tcp_socket_window h env s d
    let b := check_tcp_socket_recv env a.1 a.2
    { s := b.1, tun := b.2, host := d.host }

/-- Modelled from the spec: `struct allowed` of the absent header `athena.h`, the redirect
target `{addr, port}` that the classifier may return: the characters of `raddr` and `rport`. -/
structure allowed where
  raddr : List Nat
  rport : Nat
deriving DecidableEq, Repr, Inhabited

/-- The test `strstr(raddr, ":") == NULL ? 4 : 6` on an address string (58 is the colon). -/
def addr_version (raddr : List Nat) : Nat := if 58 ∈ raddr then 6 else 4

/-- The answers of the kernel that `open_tcp_socket` gets: the results of `socket`,
`setsockopt(TCP_NODELAY)`, `fcntl(F_GETFL)`, `fcntl(F_SETFL)`, `connect`, and whether `errno` is
`EINPROGRESS` after `connect`. -/
structure open_tcp_socket_env where
  socket_res : Int
  setsockopt_res : Int
  fcntl_getfl : Int
  fcntl_setfl : Int
  connect_res : Int
  connect_einprogress : Bool
deriving DecidableEq, Repr, Inhabited

/-- The return value of `open_tcp_socket` (`protocols/tcp.c`, lines 673-736). The address the
socket connects to (proxy, redirect target or the session's destination) does not enter the
return value and is not part of the model. -/
def open_tcp_socket (env : open_tcp_socket_env) : Int :=
  if env.socket_res < 0 then -1
  else if env.setsockopt_res < 0 then -1
  else if env.fcntl_getfl < 0 ∨ env.fcntl_setfl < 0 then -1
  else if env.connect_res < 0 ∧ ¬ env.connect_einprogress then -1
  else env.socket_res

/-- What `handle_tcp` reads from the guest packet at lines 448-455: the IP version nibble, the
address pair (`ip4->saddr`/`ip4->daddr` in the `ip4` members, `ip6->ip6_src`/`ip6->ip6_dst` in
the `ip6` members), the TCP header, the memory at `tcpoptions`, the memory at `data`, and
`datalen`, the `uint16_t` computed at line 455. -/
structure tcp_input where
  version : Nat
  saddr : ng_addr
  daddr : ng_addr
  tcphdr : tcphdr
  tcpoptions : List Nat
  data : List Nat
  datalen : Nat
deriving DecidableEq, Repr, Inhabited

/-- The answers that `handle_tcp` gets: `time(NULL)`, `rand()`, the kernel's answers to
`open_tcp_socket` and to `get_receive_window`, the result of `epoll_ctl`, and the result of the
one TUN write a call can make. -/
structure handle_tcp_env where
  now : Int
  rand : Int
  open_socket : open_tcp_socket_env
  probe : sndbuf_probe
  epoll_ctl_res : Int
  tun_write : Int
deriving DecidableEq, Repr, Inhabited

/-- What one call of `handle_tcp` leaves behind: the session list, the segments written to the
TUN, the return value. -/
structure tcp_result where
  sessions : List ng_session
  tun : List tcp_packet
  ret : Nat
deriving DecidableEq, Repr, Inhabited

/-- The loop condition of the session lookup of `handle_tcp` (`protocols/tcp.c`, line 458),
negated: `cur` is the session of the packet. -/
def handle_tcp_match (p : tcp_input) (cur : ng_session) : Bool :=
  decide (cur.protocol = IPPROTO_TCP ∧ cur.tcp.version = p.version
    ∧ cur.tcp.source = p.tcphdr.source ∧ cur.tcp.dest = p.tcphdr.dest
    ∧ (if p.version = 4 then
        cur.tcp.saddr.ip4 = p.saddr.ip4 ∧ cur.tcp.daddr.ip4 = p.daddr.ip4
       else cur.tcp.saddr.ip6.take 16 = p.saddr.ip6.take 16
        ∧ cur.tcp.daddr.ip6.take 16 = p.daddr.ip6.take 16))

/-- In-place update of the first session that the lookup stops at. -/
def session_update (f : ng_session → Bool) (s1 : ng_session) :
    List ng_session → List ng_session
  | [] => []
  | c :: rest => if f c then s1 :: rest else c :: session_update f s1 rest

/-- The option loop of `handle_tcp` (`protocols/tcp.c`, lines 480-498). `optlen` is the `int`
counter, `options` the memory at the cursor (a byte past the end of the record reads as 0).
The result is `(mss, ws)`, or `none` when the loop never ends: an option of kind other than 0
and 1 with length byte 0 leaves counter and cursor unchanged. The first argument bounds the
number of iterations; `optlen + 1` iterations always suffice because every other iteration
lowers the counter. -/
def handle_tcp_options : Nat → Int → List Nat → Nat → Nat → Option (Nat × Nat)
  | 0, _, _, _, _ => none
  | fuel + 1, optlen, options, mss, ws =>
    if optlen > 0 then
      let kind := options.getD 0 0
      let len := options.getD 1 0
      if kind = 0 then some (mss, ws)
      else
        let mss1 :=
          if kind = 2 ∧ len = 4 then ntohs (options.getD 2 0 + 256 * options.getD 3 0) else mss
        let ws1 :=
          if kind = 2 ∧ len = 4 then ws
          else if kind = 3 ∧ len = 3 then options.getD 2 0 else ws
        if kind = 1 then handle_tcp_options fuel (optlen - 1) (options.drop 1) mss1 ws1
        else if len = 0 then none
        else handle_tcp_options fuel (optlen - len) (options.drop len) mss1 ws1
    else some (mss, ws)

/-- The bookkeeping of `handle_tcp` for a packet that has a session (`protocols/tcp.c`, lines
595-598): activity time (not on a SYN), send window, `unconfirmed`. The shift
`window << send_scale` is that of C for `send_scale < 32`; for a larger count the C shift is
undefined and `send_window` is not that of the binary. -/
def handle_tcp_refresh (env : handle_tcp_env) (p : tcp_input) (t : tcp_session) : tcp_session :=
  let t1 : tcp_session := if ¬ p.tcphdr.syn then { t with time := env.now } else t
  { t1 with send_window := (ntohs p.tcphdr.window <<< t1.send_scale) % 2 ^ 32,
            unconfirmed := 0 }

/-- The flag analysis of `handle_tcp` for a packet that has a session (`protocols/tcp.c`, lines
612-666); `t3` is the TCP record of `cur` after the bookkeeping and the enqueueing of the
payload. The result is the session after the call, the segments written, the return value. -/
def handle_tcp_flags (env : handle_tcp_env) (p : tcp_input) (cur : ng_session)
    (t3 : tcp_session) : ng_session × List tcp_packet × Nat :=
  let tcphdr := p.tcphdr
  if tcphdr.rst then
    ({ cur with tcp := { t3 with state := TCP_CLOSING } }, [], 0)
  else if ¬ tcphdr.ack ∨ ntohl tcphdr.ack_seq = t3.local_seq then
    if tcphdr.syn then ({ cur with tcp := t3 }, [], 1)
    else if tcphdr.fin then
      if t3.state = TCP_ESTABLISHED then
        if t3.forward = [] then
          let w := write_ack env.tun_write
            { t3 with remote_seq := (t3.remote_seq + 1) % 2 ^ 32 }
          if w.2.2 ≥ 0 then
            ({ cur with tcp := { w.1 with state := TCP_CLOSE_WAIT } }, [w.2.1], 1)
          else ({ cur with tcp := w.1 }, [w.2.1], 1)
        else ({ cur with tcp := { t3 with state := TCP_CLOSE_WAIT } }, [], 1)
      else if t3.state = TCP_CLOSE_WAIT then ({ cur with tcp := t3 }, [], 1)
      else if t3.state = TCP_FIN_WAIT1 then
        let w := write_ack env.tun_write
          { t3 with remote_seq := (t3.remote_seq + 1) % 2 ^ 32 }
        if w.2.2 ≥ 0 then
          ({ cur with tcp := { w.1 with state := TCP_CLOSE } }, [w.2.1], 1)
        else ({ cur with tcp := w.1 }, [w.2.1], 1)
      else ({ cur with tcp := t3 }, [], 0)
    else if tcphdr.ack then
      let t4 : tcp_session := { t3 with acked := ntohl tcphdr.ack_seq }
      if t4.state = TCP_SYN_RECV then
        ({ cur with tcp := { t4 with state := TCP_ESTABLISHED } }, [], 1)
      else if t4.state = TCP_ESTABLISHED then ({ cur with tcp := t4 }, [], 1)
      else if t4.state = TCP_LAST_ACK then
        ({ cur with tcp := { t4 with state := TCP_CLOSING } }, [], 1)
      else if t4.state = TCP_CLOSE_WAIT then ({ cur with tcp := t4 }, [], 1)
      else if t4.state = TCP_FIN_WAIT1 then ({ cur with tcp := t4 }, [], 1)
      else ({ cur with tcp := t4 }, [], 0)
    else ({ cur with tcp := t3 }, [], 0)
  else
    let ack := ntohl tcphdr.ack_seq
    if (ack + 1) % 2 ^ 32 = t3.local_seq then ({ cur with tcp := t3 }, [], 1)
    else if compare_u32 ack t3.local_seq < 0 then
      if compare_u32 ack t3.acked ≤ 0 then ({ cur with tcp := t3 }, [], 1)
      else ({ cur with tcp := { t3 with acked := ack } }, [], 1)
    else
      let w := write_rst env.tun_write t3
      ({ cur with tcp := w.1 }, [w.2], 0)

/-- The branch of `handle_tcp` for a packet that has a session not in CLOSING or CLOSE
(`protocols/tcp.c`, lines 591-666): the session after the call, the segments written, the
return value. -/
def handle_tcp_session (env : handle_tcp_env) (p : tcp_input) (cur : ng_session) :
    ng_session × List tcp_packet × Nat :=
  let t2 := handle_tcp_refresh env p cur.tcp
  if p.datalen ≠ 0 ∧ cur.socket < 0 then
    let w := write_rst env.tun_write t2
    ({ cur with tcp := w.1 }, [w.2], 0)
  else if p.datalen ≠ 0 ∧ t2.state = TCP_CLOSE_WAIT then
    let w := write_rst env.tun_write t2
    ({ cur with tcp := w.1 }, [w.2], 0)
  else
    handle_tcp_flags env p cur
      (if p.datalen ≠ 0 then queue_tcp p.tcphdr t2 p.data p.datalen else t2)

/-- The session that `handle_tcp` builds for a SYN without session (`protocols/tcp.c`, lines
500-544 and 552-556), for the option values `mss` and `ws`, the descriptor `sock` that
`open_tcp_socket` returned, and before `recv_window` is set. Members of the unions that the
code does not write are left at their default. The shift `window << ws` is that of C for
`ws < 32`; for a larger count the C shift is undefined and `send_window` is not that of the
binary. -/
def handle_tcp_new (env : handle_tcp_env) (p : tcp_input) (uid : Int) (mss ws : Nat)
    (sock : Int) : ng_session :=
  let remote_seq := ntohl p.tcphdr.seq
  let local_seq := (env.rand % 2 ^ 32).toNat
  { protocol := IPPROTO_TCP
    socket := sock
    ev_events := EPOLLOUT ||| EPOLLERR
    icmp := default
    udp := default
    tcp :=
      { uid := uid
        time := env.now
        version := p.version
        mss := mss
        recv_scale := ws
        send_scale := ws
        recv_window := 0
        send_window := (ntohs p.tcphdr.window <<< ws) % 2 ^ 32
        unconfirmed := 0
        remote_seq := remote_seq
        local_seq := local_seq
        remote_start := remote_seq
        local_start := local_seq
        acked := 0
        last_keep_alive := 0
        sent := 0
        received := 0
        saddr := if p.version = 4 then { ip4 := p.saddr.ip4, ip6 := [] }
                 else { ip4 := 0, ip6 := p.saddr.ip6.take 16 }
        source := p.tcphdr.source
        daddr := if p.version = 4 then { ip4 := p.daddr.ip4, ip6 := [] }
                 else { ip4 := 0, ip6 := p.daddr.ip6.take 16 }
        dest := p.tcphdr.dest
        state := TCP_LISTEN
        socks5 := SOCKS5_NONE
        forward :=
          if p.datalen ≠ 0 then
            [{ seq := remote_seq, len := p.datalen, sent := 0, psh := p.tcphdr.psh,
               data := p.data.take p.datalen }]
          else [] } }

/-- The function `handle_tcp` of `protocols/tcp.c`, lines 447-671, on the session list
`args->ctx->ng_session`. `allowed` is the `int` argument; the redirect target only selects the
address `open_tcp_socket` connects to and is not a parameter of the model. The result is `none`
when the call never returns (the option loop of a SYN, see `handle_tcp_options`). -/
def handle_tcp (h : athena_h) (env : handle_tcp_env) (sessions : List ng_session)
    (p : tcp_input) (uid : Int) (allowed : Int) : Option tcp_result :=
  let tcphdr := p.tcphdr
  let tcpoptlen : Int := (((tcphdr.doff : Int) - 5) * 4) % 256
  if tcphdr.urg then some { sessions := sessions, tun := [], ret := 1 }
  else
    match sessions.find? (handle_tcp_match p) with
    | none =>
      if tcphdr.syn then
        match handle_tcp_options (tcpoptlen.toNat + 1) tcpoptlen p.tcpoptions
            (get_default_mss p.version) 0 with
        | none => none
        | some (mss, ws) =>
          let sock := open_tcp_socket env.open_socket
          if sock < 0 then some { sessions := sessions, tun := [], ret := 0 }
          else
            let s0 := handle_tcp_new env p uid mss ws sock
            let s : ng_session :=
              { s0 with tcp := { s0.tcp with recv_window := get_receive_window h env.probe s0 } }
            if env.epoll_ctl_res ≠ 0 then some { sessions := sessions, tun := [], ret := 0 }
            else if allowed = 0 then
              let w := write_rst env.tun_write s.tcp
              some { sessions := { s with tcp := w.1 } :: sessions, tun := [w.2], ret := 1 }
            else some { sessions := s :: sessions, tun := [], ret := 1 }
      else
        let rst : tcp_session :=
          { (default : tcp_session) with
            uid := 0, time := 0, version := p.version, mss := 0, recv_scale := 0,
            send_scale := 0, recv_window := 0, send_window := 0, unconfirmed := 0,
            local_seq := ntohl tcphdr.ack_seq,
            remote_seq := (ntohl tcphdr.seq + p.datalen
              + (if tcphdr.syn ∨ tcphdr.fin then 1 else 0)) % 2 ^ 32,
            remote_start := 0, local_start := 0, acked := 0, last_keep_alive := 0,
            sent := 0, received := 0,
            saddr := if p.version = 4 then { ip4 := p.saddr.ip4, ip6 := [] }
                     else { ip4 := 0, ip6 := p.saddr.ip6.take 16 },
            daddr := if p.version = 4 then { ip4 := p.daddr.ip4, ip6 := [] }
                     else { ip4 := 0, ip6 := p.daddr.ip6.take 16 },
            source := tcphdr.source, dest := tcphdr.dest, state := 0, socks5 := 0,
            forward := [] }
        let w := write_rst env.tun_write rst
        some { sessions := sessions, tun := [w.2], ret := 0 }
    | some cur =>
      if cur.tcp.state = TCP_CLOSING ∨ cur.tcp.state = TCP_CLOSE then
        let w := write_rst env.tun_write cur.tcp
        some { sessions := session_update (handle_tcp_match p) { cur with tcp := w.1 } sessions,
               tun := [w.2], ret := 0 }
      else
        let r := handle_tcp_session env p cur
        some { sessions := session_update (handle_tcp_match p) r.1 sessions,
               tun := r.2.1, ret := r.2.2 }

/-- The state of the option loop of `handle_tcp` (`protocols/tcp.c`, lines 476-498): the `int`
counter `optlen`, the memory at the cursor `options`, and the values `mss` and `ws`. -/
structure options_state where
  optlen : Int
  options : List Nat
  mss : Nat
  ws : Nat
deriving DecidableEq, Repr, Inhabited

/-- One test of the loop condition and one pass through the body of the option loop of
`handle_tcp` (`protocols/tcp.c`, lines 480-498) as the source has them, with no bound on the
passes: `Sum.inl` is `(mss, ws)` when the loop is left, `Sum.inr` the state at the next test. -/
def handle_tcp_options_pass (st : options_state) : (Nat × Nat) ⊕ options_state :=
  if st.optlen > 0 then
    let kind := st.options.getD 0 0
    let len := st.options.getD 1 0
    if kind = 0 then Sum.inl (st.mss, st.ws)
    else
      let mss1 :=
        if kind = 2 ∧ len = 4 then ntohs (st.options.getD 2 0 + 256 * st.options.getD 3 0)
        else st.mss
      let ws1 :=
        if kind = 2 ∧ len = 4 then st.ws
        else if kind = 3 ∧ len = 3 then st.options.getD 2 0 else st.ws
      if kind = 1 then
        Sum.inr { optlen := st.optlen - 1, options := st.options.drop 1, mss := mss1, ws := ws1 }
      else
        Sum.inr { optlen := st.optlen - len, options := st.options.drop len, mss := mss1,
                  ws := ws1 }
  else Sum.inl (st.mss, st.ws)

/-- The option loop of `handle_tcp` run for at most `n` passes: `none` when the loop has not
been left by then. -/
def handle_tcp_options_passes : Nat → options_state → Option (Nat × Nat)
  | 0, _ => none
  | n + 1, st =>
    match handle_tcp_options_pass st with
    | Sum.inl r => some r
    | Sum.inr st1 => handle_tcp_options_passes n st1

/-! ## protocols/udp.c -/

/-- The fields of `struct udphdr` as stored in the packet. -/
structure udphdr where
  source : Nat
  dest : Nat
  len : Nat
  check : Nat
deriving DecidableEq, Repr, Inhabited

/-- What `handle_udp` reads from the guest packet at lines 101-106: the IP version nibble, the
address pair, the UDP header, the memory at `data`, and `datalen`. -/
structure udp_input where
  version : Nat
  saddr : ng_addr
  daddr : ng_addr
  udphdr : udphdr
  data : List Nat
  datalen : Nat
deriving DecidableEq, Repr, Inhabited

/-- The destination that `handle_udp` hands to `sendto`: the session's IPv4 or IPv6 destination
and port as stored, or the redirect target (its address string and `htons(rport)`). -/
inductive udp_target where
  | addr4 (s_addr : Nat) (sin_port : Nat)
  | addr6 (sin6_addr : List Nat) (sin6_port : Nat)
  | redirect4 (raddr : List Nat) (sin_port : Nat)
  | redirect6 (raddr : List Nat) (sin6_port : Nat)
deriving DecidableEq, Repr

/-- The answers that `handle_udp` gets: `time(NULL)` when the session is built and before the
send, the result of `socket` in `open_udp_socket`, the result of `epoll_ctl`, the result of
`sendto` and whether `errno` is `EINTR` or `EAGAIN` after it. -/
structure handle_udp_env where
  now_new : Int
  now : Int
  socket_res : Int
  epoll_ctl_res : Int
  sendto_res : Int
  sendto_again : Bool
deriving DecidableEq, Repr, Inhabited

/-- What one call of `handle_udp` leaves behind: the session list, the datagrams handed to
`sendto` with their destination, the return value (`jboolean`, so -1 is 255). -/
structure udp_result where
  sessions : List ng_session
  host : List (udp_target × List Nat)
  ret : Nat
deriving DecidableEq, Repr

/-- The loop condition of the session lookup of `handle_udp` (`protocols/udp.c`, lines
109-112), negated: `cur` is the session of the datagram. -/
def handle_udp_match (p : udp_input) (cur : ng_session) : Bool :=
  decide (cur.protocol = IPPROTO_UDP ∧ cur.udp.version = p.version
    ∧ cur.udp.source = p.udphdr.source ∧ cur.udp.dest = p.udphdr.dest
    ∧ (if p.version = 4 then
        cur.udp.saddr.ip4 = p.saddr.ip4 ∧ cur.udp.daddr.ip4 = p.daddr.ip4
       else cur.udp.saddr.ip6.take 16 = p.saddr.ip6.take 16
        ∧ cur.udp.daddr.ip6.take 16 = p.daddr.ip6.take 16))

/-- The return value of `open_udp_socket` (`protocols/udp.c`, lines 220-248); the socket
options it sets do not enter the return value. -/
def open_udp_socket (env : handle_udp_env) : Int :=
  if env.socket_res < 0 then -1 else env.socket_res

/-- The session that `handle_udp` builds for a datagram without session (`protocols/udp.c`,
lines 129-169), with the DNS redirect of lines 144-150. -/
def handle_udp_new (env : handle_udp_env) (p : udp_input) (uid : Int)
    (redirect : Option allowed) (sock : Int) : ng_session :=
  let rversion :=
    match redirect with
    | none => p.version
    | some r => addr_version r.raddr
  let target_ip := htonl 0xC6120001
  let redirect_ip := htonl 0x01010101
  { protocol := IPPROTO_UDP
    socket := sock
    ev_events := EPOLLIN ||| EPOLLERR
    icmp := default
    tcp := default
    udp :=
      { time := env.now_new
        uid := uid
        version := p.version
        mss := if rversion = 4 then UDP4_MAXMSG else UDP6_MAXMSG
        sent := 0
        received := 0
        saddr := if p.version = 4 then { ip4 := p.saddr.ip4, ip6 := [] }
                 else { ip4 := 0, ip6 := p.saddr.ip6.take 16 }
        source := p.udphdr.source
        daddr :=
          if p.version = 4 then
            if p.daddr.ip4 = target_ip ∧ ntohs p.udphdr.dest = 53 then
              { ip4 := redirect_ip, ip6 := [] }
            else { ip4 := p.daddr.ip4, ip6 := [] }
          else { ip4 := 0, ip6 := p.daddr.ip6.take 16 }
        dest := p.udphdr.dest
        state := UDP_ACTIVE } }

/-- The tail of `handle_udp` (`protocols/udp.c`, lines 178-217) for the session `cur` of the
datagram: the session after the call, the datagram handed to `sendto`, the return value. -/
def handle_udp_send (env : handle_udp_env) (p : udp_input) (redirect : Option allowed)
    (cur : ng_session) : ng_session × List (udp_target × List Nat) × Nat :=
  let cur1 : ng_session := { cur with udp := { cur.udp with time := env.now } }
  let target : udp_target :=
    match redirect with
    | none =>
      if cur1.udp.version = 4 then udp_target.addr4 cur1.udp.daddr.ip4 cur1.udp.dest
      else udp_target.addr6 (cur1.udp.daddr.ip6.take 16) cur1.udp.dest
    | some r =>
      if addr_version r.raddr = 4 then udp_target.redirect4 r.raddr (htons r.rport)
      else udp_target.redirect6 r.raddr (htons r.rport)
  let dgram := (target, p.data.take p.datalen)
  if env.sendto_res ≠ (p.datalen : Int) then
    if ¬ env.sendto_again then
      ({ cur1 with udp := { cur1.udp with state := UDP_FINISHING } }, [dgram], 0)
    else (cur1, [dgram], 1)
  else
    ({ cur1 with udp := { cur1.udp with sent := (cur1.udp.sent + p.datalen) % 2 ^ 64 } },
      [dgram], 1)

/-- The function `handle_udp` of `protocols/udp.c`, lines 100-218, on the session list
`args->ctx->ng_session`. -/
def handle_udp (env : handle_udp_env) (sessions : List ng_session) (p : udp_input) (uid : Int)
    (redirect : Option allowed) : udp_result :=
  match sessions.find? (handle_udp_match p) with
  | some cur =>
    if cur.udp.state ≠ UDP_ACTIVE then { sessions := sessions, host := [], ret := 0 }
    else
      let r := handle_udp_send env p redirect cur
      { sessions := session_update (handle_udp_match p) r.1 sessions,
        host := r.2.1, ret := r.2.2 }
  | none =>
    let sock := open_udp_socket env
    if sock < 0 then { sessions := sessions, host := [], ret := 0 }
    else if env.epoll_ctl_res ≠ 0 then { sessions := sessions, host := [], ret := 255 }
    else
      let r := handle_udp_send env p redirect (handle_udp_new env p uid redirect sock)
      { sessions := r.1 :: sessions, host := r.2.1, ret := r.2.2 }

/-! ## Packets in memory -/

/-- The `uint16_t` that a load from the memory `m` at byte offset `off` yields on a little-endian
machine; this is what a field access through a cast such as `(struct udphdr *) payload` reads. -/
def load16 (m : List Nat) (off : Nat) : Nat := m.getD off 0 + 256 * m.getD (off + 1) 0

/-- The `uint32_t` that a load from the memory `m` at byte offset `off` yields on a little-endian
machine. -/
def load32 (m : List Nat) (off : Nat) : Nat :=
  m.getD off 0 + 2 ^ 8 * m.getD (off + 1) 0 + 2 ^ 16 * m.getD (off + 2) 0
    + 2 ^ 24 * m.getD (off + 3) 0

/-- The `n` bytes that `memcpy(dst, src, n)` leaves at `dst`; a byte past the end of the record
`src` reads as 0. -/
def memcpy_bytes : Nat → List Nat → List Nat
  | 0, _ => []
  | n + 1, [] => 0 :: memcpy_bytes n []
  | n + 1, b :: rest => b % 256 :: memcpy_bytes n rest

/-- The summation loop of `calc_checksum` (`utils/util.c`, lines 84-90) over the bytes of the
buffer: `*buf++` reads a `uint16_t` in memory order, a last single byte is added as it is; `sum`
is a `uint32_t`. -/
def calc_checksum_sum : Nat → List Nat → Nat
  | sum, [] => sum
  | sum, [b0] => (sum + b0) % 2 ^ 32
  | sum, b0 :: b1 :: rest => calc_checksum_sum ((sum + (b0 + 256 * b1)) % 2 ^ 32) rest

/-- The folding loop of `calc_checksum` (`utils/util.c`, lines 92-93): `sum >> 16` is
`sum / 2^16`, `sum & 0xFFFF` is `sum % 2^16`. The first argument bounds the number of iterations;
two iterations always suffice for a `uint32_t` (`calc_checksum_fold_done`). -/
def calc_checksum_fold : Nat → Nat → Nat
  | 0, sum => sum
  | fuel + 1, sum =>
    if sum / 2 ^ 16 ≠ 0 then calc_checksum_fold fuel ((sum % 2 ^ 16 + sum / 2 ^ 16) % 2 ^ 32)
    else sum

/-- The function `calc_checksum` of `utils/util.c`, lines 79-96, over the first `length` bytes
of `buffer`; `start` is a `uint16_t`, and so is the result. -/
def calc_checksum (start : Nat) (buffer : List Nat) (length : Nat) : Nat :=
  calc_checksum_fold 2 (calc_checksum_sum (start % 2 ^ 16) (buffer.take length)) % 2 ^ 16

/-- The memory image of the `struct iphdr` that `write_tcp` and `write_udp` fill in after the
`memset`: `ihl` 5 and `version` 4 share the first byte (`ihl` is the low nibble), `tos`, `id` and
`frag_off` stay 0, `ttl` is `IPDEFTTL` (64). -/
def iphdr_mem (tot_len protocol check saddr daddr : Nat) : List Nat :=
  [5 + 4 * 16, 0] ++ mem16 tot_len ++ [0, 0, 0, 0, 64, protocol % 256] ++ mem16 check
    ++ mem32 saddr ++ mem32 daddr

/-- The memory image of the `struct ip6_hdr` that `write_tcp` and `write_udp` fill in after the
`memset`: `ip6_un2_vfc` (0x60) is the first byte of the flow word, then `plen`, `nxt`, `hlim`
(`IPDEFTTL`, 64) and the two addresses. -/
def ip6_hdr_mem (plen nxt : Nat) (src dst : List Nat) : List Nat :=
  [0x60, 0, 0, 0] ++ mem16 plen ++ [nxt % 256, 64] ++ memcpy_bytes 16 src ++ memcpy_bytes 16 dst

/-- The memory image of `struct ippseudo` of `<netinet/ip.h>`: source, destination, a zero pad
byte, the protocol, the length. -/
def ippseudo_mem (src dst p len : Nat) : List Nat :=
  mem32 src ++ mem32 dst ++ [0, p % 256] ++ mem16 len

/-- Modelled from the spec: the memory image of `struct ip6_hdr_pseudo` of the absent header
`athena.h`, laid out as the standard IPv6 pseudo-header that the specification names: the members
`ip6ph_src`, `ip6ph_dst` (16 bytes each), `ip6ph_len` (a `uint32_t`), three zero bytes and
`ip6ph_nxt`. -/
def ip6_hdr_pseudo_mem (src dst : List Nat) (len nxt : Nat) : List Nat :=
  memcpy_bytes 16 src ++ memcpy_bytes 16 dst ++ mem32 len ++ [0, 0, 0, nxt % 256]

/-- The memory image of a `struct tcphdr` of `<netinet/tcp.h>` with the given `check` and a zero
`urg_ptr`, `res1`, `ece` and `cwr`: on a little-endian machine byte 12 holds `doff` in the high
nibble, byte 13 the flags `fin`, `syn`, `rst`, `psh`, `ack`, `urg` from bit 0 up. -/
def tcphdr_mem (t : tcphdr) (check : Nat) : List Nat :=
  mem16 t.source ++ mem16 t.dest ++ mem32 t.seq ++ mem32 t.ack_seq
    ++ [t.doff % 16 * 16,
        t.fin.toNat + 2 * t.syn.toNat + 4 * t.rst.toNat + 8 * t.psh.toNat + 16 * t.ack.toNat
          + 32 * t.urg.toNat]
    ++ mem16 t.window ++ mem16 check ++ mem16 0

/-- The fields that `handle_tcp` reads through the cast `(struct tcphdr *) payload`
(`protocols/tcp.c`, line 451) from the memory `m` of a segment. -/
def tcphdr_load (m : List Nat) : tcphdr :=
  { source := load16 m 0
    dest := load16 m 2
    seq := load32 m 4
    ack_seq := load32 m 8
    doff := m.getD 12 0 / 16
    fin := decide (m.getD 13 0 % 2 = 1)
    syn := decide (m.getD 13 0 / 2 % 2 = 1)
    rst := decide (m.getD 13 0 / 4 % 2 = 1)
    psh := decide (m.getD 13 0 / 8 % 2 = 1)
    ack := decide (m.getD 13 0 / 16 % 2 = 1)
    urg := decide (m.getD 13 0 / 32 % 2 = 1)
    window := load16 m 14 }

/-- The memory image of a `struct udphdr`. -/
def udphdr_mem (u : udphdr) : List Nat :=
  mem16 u.source ++ mem16 u.dest ++ mem16 u.len ++ mem16 u.check

/-! ## protocols/tcp.c: the buffer of `write_tcp` -/

/-- The value `optlen` of `write_tcp` (`protocols/tcp.c`, line 765). -/
def write_tcp_optlen (syn : Bool) : Nat := if syn then 4 + 3 + 1 else 0

/-- The IP header that `write_tcp` builds (`protocols/tcp.c`, lines 776-785 and 804-810). For
IPv4 the checksum field is the complement of `calc_checksum` over the header with a zero
checksum field. -/
def write_tcp_iphdr (cur : tcp_session) (datalen : Nat) (syn : Bool) : List Nat :=
  let optlen := write_tcp_optlen syn
  if cur.version = 4 then
    let len := 20 + 20 + optlen + datalen
    let ip4 := iphdr_mem (htons len) IPPROTO_TCP 0 cur.daddr.ip4 cur.saddr.ip4
    iphdr_mem (htons len) IPPROTO_TCP (0xFFFF - calc_checksum 0 ip4 20) cur.daddr.ip4
      cur.saddr.ip4
  else
    let len := 40 + 20 + optlen + datalen
    ip6_hdr_mem (htons (len - 40)) IPPROTO_TCP cur.daddr.ip6 cur.saddr.ip6

/-- The pseudo-header that `write_tcp` fills in (`protocols/tcp.c`, lines 787-792 and 812-817).
For IPv6 the code copies `ip6_dst` into `ip6ph_src` and `ip6_src` into `ip6ph_dst`, and stores
the 16-bit `plen` into the 32-bit `ip6ph_len`. -/
def write_tcp_pseudo (cur : tcp_session) (datalen : Nat) (syn : Bool) : List Nat :=
  let optlen := write_tcp_optlen syn
  if cur.version = 4 then
    ippseudo_mem cur.daddr.ip4 cur.saddr.ip4 IPPROTO_TCP (htons (20 + optlen + datalen))
  else
    ip6_hdr_pseudo_mem cur.saddr.ip6 cur.daddr.ip6 (htons (40 + 20 + optlen + datalen - 40))
      IPPROTO_TCP

/-- The TCP header fields that `write_tcp` stores (`protocols/tcp.c`, lines 822-835). The shift
`recv_window >> recv_scale` is that of C for `recv_scale < 32`; for a larger count the C shift
is undefined and the window of this record is not that of the binary. -/
def write_tcp_tcphdr (cur : tcp_session) (syn ack fin rst : Bool) : tcphdr :=
  { source := cur.dest
    dest := cur.source
    seq := htonl cur.local_seq
    ack_seq := if ack then htonl cur.remote_seq else 0
    doff := (20 + write_tcp_optlen syn) / 4
    fin := fin
    syn := syn
    rst := rst
    psh := false
    ack := ack
    urg := false
    window := htons (cur.recv_window >>> cur.recv_scale) }

/-- The option bytes that `write_tcp` stores on a SYN (`protocols/tcp.c`, lines 837-847): the
MSS option holds `get_default_mss` as a plain `uint16_t` store leaves it, then window scale and
the end-of-list byte. -/
def write_tcp_options (cur : tcp_session) (syn : Bool) : List Nat :=
  if syn then [2, 4] ++ mem16 (get_default_mss cur.version) ++ [3, 3, cur.recv_scale % 256, 0]
  else []

/-- The value of `csum` when `write_tcp` stores its complement (`protocols/tcp.c`, lines 794,
819 and 849-851): the pseudo-header, then the TCP header with a zero checksum field, the options
and the payload, each call starting from the result of the one before. -/
def write_tcp_csum (cur : tcp_session) (data : List Nat) (datalen : Nat)
    (syn ack fin rst : Bool) : Nat :=
  let csum0 := calc_checksum 0 (write_tcp_pseudo cur datalen syn)
    (if cur.version = 4 then 12 else 40)
  let csum1 := calc_checksum csum0 (tcphdr_mem (write_tcp_tcphdr cur syn ack fin rst) 0) 20
  let csum2 := calc_checksum csum1 (write_tcp_options cur syn) (write_tcp_optlen syn)
  calc_checksum csum2 data datalen

/-- The memory behind the IP header in the buffer of `write_tcp`: TCP header with its checksum,
options, payload. -/
def write_tcp_segment (cur : tcp_session) (data : List Nat) (datalen : Nat)
    (syn ack fin rst : Bool) : List Nat :=
  tcphdr_mem (write_tcp_tcphdr cur syn ack fin rst)
      (0xFFFF - write_tcp_csum cur data datalen syn ack fin rst)
    ++ write_tcp_options cur syn ++ data.take datalen

/-- The buffer that `write_tcp` hands to `write(args->tun, buffer, len)` (`protocols/tcp.c`,
line 857). -/
def write_tcp_buffer (cur : tcp_session) (data : List Nat) (datalen : Nat)
    (syn ack fin rst : Bool) : List Nat :=
  write_tcp_iphdr cur datalen syn ++ write_tcp_segment cur data datalen syn ack fin rst

/-! ## protocols/udp.c: `write_udp` -/

/-- The source address that `write_udp` stores for an IPv4 session (`protocols/udp.c`, lines
270-278): 198.18.0.1 when the session's destination is 1.1.1.1 port 53. -/
def write_udp_saddr (cur : udp_session) : Nat :=
  if cur.daddr.ip4 = htonl 0x01010101 ∧ ntohs cur.dest = 53 then htonl 0xC6120001
  else cur.daddr.ip4

/-- The IP header that `write_udp` builds (`protocols/udp.c`, lines 264-280 and 297-304). -/
def write_udp_iphdr (cur : udp_session) (datalen : Nat) : List Nat :=
  if cur.version = 4 then
    let len := 20 + 8 + datalen
    let ip4 := iphdr_mem (htons len) IPPROTO_UDP 0 (write_udp_saddr cur) cur.saddr.ip4
    iphdr_mem (htons len) IPPROTO_UDP (0xFFFF - calc_checksum 0 ip4 20) (write_udp_saddr cur)
      cur.saddr.ip4
  else
    let len := 40 + 8 + datalen
    ip6_hdr_mem (htons (len - 40)) IPPROTO_UDP cur.daddr.ip6 cur.saddr.ip6

/-- The pseudo-header that `write_udp` fills in (`protocols/udp.c`, lines 282-287 and
306-311). -/
def write_udp_pseudo (cur : udp_session) (datalen : Nat) : List Nat :=
  if cur.version = 4 then
    ippseudo_mem (write_udp_saddr cur) cur.saddr.ip4 IPPROTO_UDP (htons (8 + datalen))
  else
    ip6_hdr_pseudo_mem cur.saddr.ip6 cur.daddr.ip6 (htons (40 + 8 + datalen - 40)) IPPROTO_UDP

/-- The UDP header fields that `write_udp` stores (`protocols/udp.c`, lines 315-318), with the
given checksum field. -/
def write_udp_udphdr (cur : udp_session) (datalen : Nat) (check : Nat) : udphdr :=
  { source := cur.dest, dest := cur.source, len := htons (8 + datalen), check := check }

/-- The value of `csum` when `write_udp` stores its complement (`protocols/udp.c`, lines 288,
312 and 320-321). -/
def write_udp_csum (cur : udp_session) (data : List Nat) (datalen : Nat) : Nat :=
  let csum0 := calc_checksum 0 (write_udp_pseudo cur datalen) (if cur.version = 4 then 12 else 40)
  let csum1 := calc_checksum csum0 (udphdr_mem (write_udp_udphdr cur datalen 0)) 8
  calc_checksum csum1 data datalen

/-- The memory behind the IP header in the buffer of `write_udp`: UDP header with its checksum,
then the payload. -/
def write_udp_segment (cur : udp_session) (data : List Nat) (datalen : Nat) : List Nat :=
  udphdr_mem (write_udp_udphdr cur datalen (0xFFFF - write_udp_csum cur data datalen))
    ++ data.take datalen

/-- The function `write_udp` of `protocols/udp.c`, lines 250-331: the buffer handed to
`write(args->tun, buffer, len)` and the return value for the result `res` of that write. -/
def write_udp (res : Int) (cur : udp_session) (data : List Nat) (datalen : Nat) :
    List Nat × Int :=
  let len : Nat := (if cur.version = 4 then 20 else 40) + 8 + datalen
  (write_udp_iphdr cur datalen ++ write_udp_segment cur data datalen,
    if res ≠ (len : Int) then -1 else res)

/-! ## session/ip.c: `handle_ip` -/

/-- The constant `IP_MF` of `<netinet/ip.h>`. -/
@[reducible] def IP_MF : Nat := 0x2000
/-- The constant `ICMP_MINLEN` of `<netinet/ip_icmp.h>`. -/
@[reducible] def ICMP_MINLEN : Nat := 8
/-- The constant `ANDROID_LOG_WARN` of `<android/log.h>`. -/
@[reducible] def ANDROID_LOG_WARN : Int := 5
/-- The constant `IPPROTO_HOPOPTS` of `<netinet/in.h>`. -/
@[reducible] def IPPROTO_HOPOPTS : Nat := 0
/-- The constant `IPPROTO_IGMP` of `<netinet/in.h>`. -/
@[reducible] def IPPROTO_IGMP : Nat := 2
/-- The constant `IPPROTO_ESP` of `<netinet/in.h>`. -/
@[reducible] def IPPROTO_ESP : Nat := 50

/-- The function `is_lower_layer` of `session/ip.c`, lines 67-69. -/
def is_lower_layer (protocol : Nat) : Bool :=
  decide (protocol = 0 ∨ protocol = 60 ∨ protocol = 43 ∨ protocol = 44 ∨ protocol = 51
    ∨ protocol = 50 ∨ protocol = 135)

/-- The function `is_upper_layer` of `session/ip.c`, lines 71-73. -/
def is_upper_layer (protocol : Nat) : Bool :=
  decide (protocol = IPPROTO_TCP ∨ protocol = IPPROTO_UDP ∨ protocol = IPPROTO_ICMP
    ∨ protocol = IPPROTO_ICMPV6)

/-- The extension-header loop of `handle_ip` (`session/ip.c`, lines 138-142), entered with the
`uint16_t` cursor `off` and the `uint8_t` `protocol`; `pkt` is the memory at `pkt`, a byte past
its end reads as 0. The result is `(off, protocol)` when the loop is left, or `none` when it is
not left within the number of iterations that the first argument allows; the cursor takes at
most `2^16` values, so `2^16 + 1` iterations decide (`handle_ip_ext_fuel`). -/
def handle_ip_ext (pkt : List Nat) : Nat → Nat → Nat → Option (Nat × Nat)
  | 0, _, _ => none
  | fuel + 1, off, protocol =>
    if is_lower_layer (pkt.getD off 0) ∧ ¬ is_upper_layer protocol then
      handle_ip_ext pkt fuel ((off + (8 + pkt.getD (off + 1) 0)) % 2 ^ 16) (pkt.getD off 0)
    else some (off, protocol)

/-- The head of `handle_ip` (`session/ip.c`, lines 105-160): the version nibble, the checks of
the IP header, `protocol`, and the offset `payload - pkt`. `pkt` is the memory at `pkt` (bytes),
`length` the number of bytes read from the TUN, `loglevel` the global of that name. The result
is `some none` when `handle_ip` returns here, `some (some (protocol, offset))` when it goes on,
`none` when the extension-header loop never ends. `ip4hdr->frag_off` is loaded as the machine
loads it, `ihl` is the low nibble of the first byte. -/
def handle_ip_header (loglevel : Int) (pkt : List Nat) (length : Nat) :
    Option (Option (Nat × Nat)) :=
  let version := pkt.getD 0 0 / 16
  if version = 4 then
    if length < 20 then some none
    else if load16 pkt 6 &&& IP_MF ≠ 0 then some none
    else
      let ipoptlen := ((((pkt.getD 0 0 % 16 : Nat) : Int) - 5) * 4 % 256).toNat
      if ntohs (load16 pkt 2) ≠ length then some none
      else if loglevel < ANDROID_LOG_WARN ∧ calc_checksum 0 pkt 20 = 0 then some none
      else some (some (pkt.getD 9 0, 20 + ipoptlen))
  else if version = 6 then
    if length < 40 then some none
    else
      let nxt := pkt.getD 6 0
      if ¬ is_upper_layer nxt then
        match handle_ip_ext pkt (2 ^ 16 + 1) 40 nxt with
        | none => none
        | some (off, protocol) =>
          if ¬ is_upper_layer protocol then some (some (nxt, 40 + 0))
          else some (some (protocol, 40 + off))
      else some (some (nxt, 40 + 0))
  else some none

/-- The bounds checks of `handle_ip` (`session/ip.c`, lines 170-207) for the `protocol` and the
offset `payload - pkt` of the head: `length - (payload - pkt)` is a subtraction of `size_t`
(64 bits). The result is `none` when `handle_ip` returns here, else the value of `syn`. -/
def handle_ip_transport (pkt : List Nat) (length protocol payload : Nat) : Option Bool :=
  let rest : Nat := (((length : Int) - (payload : Int)) % 2 ^ 64).toNat
  if protocol = IPPROTO_ICMP ∨ protocol = IPPROTO_ICMPV6 then
    if rest < ICMP_MINLEN then none else some false
  else if protocol = IPPROTO_UDP then
    if rest < 8 then none else some false
  else if protocol = IPPROTO_TCP then
    if rest < 20 then none else some (tcphdr_load (pkt.drop payload)).syn
  else if protocol ≠ IPPROTO_HOPOPTS ∧ protocol ≠ IPPROTO_IGMP ∧ protocol ≠ IPPROTO_ESP then none
  else some false

/-- The fields that a cast `(struct udphdr *) payload` reads from the memory `m` of a
datagram. -/
def udphdr_load (m : List Nat) : udphdr :=
  { source := load16 m 0, dest := load16 m 2, len := load16 m 4, check := load16 m 6 }

/-- What `handle_tcp` reads from the packet at `pkt` (`protocols/tcp.c`, lines 448-455) for the
offset `payload - pkt`: the casts of `pkt` and `payload`, and `datalen`, a `uint16_t`. -/
def handle_tcp_input (pkt : List Nat) (length payload : Nat) : tcp_input :=
  let tcphdr := tcphdr_load (pkt.drop payload)
  let tcpoptlen := ((((tcphdr.doff : Int) - 5) * 4) % 256).toNat
  { version := pkt.getD 0 0 / 16
    saddr := { ip4 := load32 pkt 12, ip6 := (pkt.drop 8).take 16 }
    daddr := { ip4 := load32 pkt 16, ip6 := (pkt.drop 24).take 16 }
    tcphdr := tcphdr
    tcpoptions := pkt.drop (payload + 20)
    data := pkt.drop (payload + 20 + tcpoptlen)
    datalen := (((length : Int) - ((payload + 20 + tcpoptlen : Nat) : Int)) % 2 ^ 16).toNat }

/-- What `handle_udp` reads from the packet at `pkt` (`protocols/udp.c`, lines 101-106) for the
offset `payload - pkt`; `datalen` is a `size_t`. -/
def handle_udp_input (pkt : List Nat) (length payload : Nat) : udp_input :=
  { version := pkt.getD 0 0 / 16
    saddr := { ip4 := load32 pkt 12, ip6 := (pkt.drop 8).take 16 }
    daddr := { ip4 := load32 pkt 16, ip6 := (pkt.drop 24).take 16 }
    udphdr := udphdr_load (pkt.drop payload)
    data := pkt.drop (payload + 8)
    datalen := (((length : Int) - ((payload + 8 : Nat) : Int)) % 2 ^ 64).toNat }

/-- The loop condition of the session lookup of `has_udp_session` (`session/ip.c`, lines
84-89), negated. -/
def has_udp_session_match (pkt : List Nat) (payload : Nat) (cur : ng_session) : Bool :=
  let version := pkt.getD 0 0 / 16
  let udphdr := udphdr_load (pkt.drop payload)
  decide (cur.protocol = IPPROTO_UDP ∧ cur.udp.version = version
    ∧ cur.udp.source = udphdr.source ∧ cur.udp.dest = udphdr.dest
    ∧ (if version = 4 then
        cur.udp.saddr.ip4 = load32 pkt 12 ∧ cur.udp.daddr.ip4 = load32 pkt 16
       else cur.udp.saddr.ip6.take 16 = (pkt.drop 8).take 16
        ∧ cur.udp.daddr.ip6.take 16 = (pkt.drop 24).take 16))

/-- The function `has_udp_session` of `session/ip.c`, lines 75-92; `fwd53` is `args->fwd53`. -/
def has_udp_session (fwd53 : Bool) (sessions : List ng_session) (pkt : List Nat)
    (payload : Nat) : Bool :=
  if ntohs (udphdr_load (pkt.drop payload)).dest = 53 ∧ ¬ fwd53 then true
  else (sessions.find? (has_udp_session_match pkt payload)).isSome

/-- The answers that `handle_ip` gets: the global `loglevel`, `args->fwd53`, the results of the
callbacks `filter_icmp_packet`, `filter_udp_packet` and `filter_tcp_packet` of `athena.c`, and
the answers for `handle_udp` and `handle_tcp`. Modelled from the spec: `handle_icmp` is defined
in `protocols/icmp.c`, which is not among the sources; `icmp_sessions` is the session list that
a call of it leaves. -/
structure handle_ip_env where
  loglevel : Int
  fwd53 : Bool
  filter_icmp : Bool
  filter_udp : Bool
  filter_tcp : Bool
  icmp_sessions : List ng_session
  udp : handle_udp_env
  tcp : handle_tcp_env
deriving DecidableEq, Repr, Inhabited

/-- The handler that a call of `handle_ip` invokes, with the offset `payload - pkt` it passes
and, for `handle_tcp`, the value of `allowed`. -/
inductive ip_call where
  | no_handler
  | icmp (payload : Nat)
  | udp (payload : Nat)
  | tcp (payload : Nat) (allowed : Int)
deriving DecidableEq, Repr

/-- What one call of `handle_ip` leaves behind: the session list, the segments written to the
TUN, the datagrams handed to `sendto`, and the handler invoked. What `handle_icmp` sends is not
part of it. -/
structure ip_result where
  sessions : List ng_session
  tun : List tcp_packet
  host : List (udp_target × List Nat)
  call : ip_call
deriving DecidableEq, Repr

/-- The function `handle_ip` of `session/ip.c`, lines 94-270, on the session list `l`
(`args->ctx->ng_session`). `sessions` and `maxsessions` are the `int` arguments. The result is
`none` when the call never returns (the extension-header loop, or the option loop of
`handle_tcp`). `uid` is -1, `allowed` is 1 and `redirect` is `NULL` at the dispatch. -/
def handle_ip (h : athena_h) (env : handle_ip_env) (l : List ng_session) (pkt : List Nat)
    (length : Nat) (sessions maxsessions : Int) : Option ip_result :=
  let unchanged : ip_result :=
    { sessions := l, tun := [], host := [], call := ip_call.no_handler }
  match handle_ip_header env.loglevel pkt length with
  | none => none
  | some none => some unchanged
  | some (some (protocol, payload)) =>
    match handle_ip_transport pkt length protocol payload with
    | none => some unchanged
    | some syn =>
      if sessions ≥ maxsessions
          ∧ ((protocol = IPPROTO_ICMP ∨ protocol = IPPROTO_ICMPV6)
            ∨ (protocol = IPPROTO_UDP ∧ ¬ has_udp_session env.fwd53 l pkt payload)
            ∨ (protocol = IPPROTO_TCP ∧ syn)) then some unchanged
      else
        let uid : Int := -1
        let allowed : Int := 1
        if protocol = IPPROTO_ICMP ∨ protocol = IPPROTO_ICMPV6 then
          if env.filter_icmp then
            some { sessions := env.icmp_sessions, tun := [], host := [],
                   call := ip_call.icmp payload }
          else some unchanged
        else if protocol = IPPROTO_UDP then
          if env.filter_udp then
            let r := handle_udp env.udp l (handle_udp_input pkt length payload) uid none
            some { sessions := r.sessions, tun := [], host := r.host,
                   call := ip_call.udp payload }
          else some unchanged
        else if protocol = IPPROTO_TCP then
          if env.filter_tcp then
            match handle_tcp h env.tcp l (handle_tcp_input pkt length payload) uid allowed with
            | none => none
            | some r =>
              some { sessions := r.sessions, tun := r.tun, host := [],
                     call := ip_call.tcp payload allowed }
          else some unchanged
        else some unchanged

/-! ## session/session.c: the session count and the TUN branch of `handle_events` -/

/-- Whether the counting loop of `handle_events` (`session/session.c`, lines 81-95) counts the
session `s`. -/
def handle_events_counts (s : ng_session) : Bool :=
  if s.protocol = IPPROTO_ICMP ∨ s.protocol = IPPROTO_ICMPV6 then decide (s.icmp.stop = false)
  else if s.protocol = IPPROTO_UDP then decide (s.udp.state = UDP_ACTIVE)
  else if s.protocol = IPPROTO_TCP then
    decide (s.tcp.state ≠ TCP_CLOSING ∧ s.tcp.state ≠ TCP_CLOSE)
  else false

/-- The value `sessions` of `handle_events` (`session/session.c`, line 96) for the session
list `l`: `isessions + usessions + tsessions`. -/
def handle_events_sessions (l : List ng_session) : Int := (l.countP handle_events_counts : Nat)

/-- One datagram that `check_tun` reads (`session/ip.c`, lines 36-60): the bytes, their number
(positive), and the answers that the call of `handle_ip` for it gets. -/
structure tun_read where
  env : handle_ip_env
  pkt : List Nat
  length : Nat
deriving DecidableEq, Repr

/-- The TUN branch of one iteration of `handle_events` (`session/session.c`, lines 170-176)
with `check_tun`: while `count < TUN_YIELD` and the TUN is readable, one datagram is read and
handed to `handle_ip` with `sessions`, the value that the iteration computed at its start, and
`maxsessions`. The first argument is `TUN_YIELD - count`, the list holds the datagrams that the
reads return while the TUN is readable. The result is the session list after the loop, `none`
when a call of `handle_ip` never returns. -/
def handle_events_tun (h : athena_h) (sessions maxsessions : Int) :
    Nat → List tun_read → List ng_session → Option (List ng_session)
  | 0, _, l => some l
  | _ + 1, [], l => some l
  | n + 1, r :: rest, l =>
    match handle_ip h r.env l r.pkt r.length sessions maxsessions with
    | none => none
    | some res => handle_events_tun h sessions maxsessions n rest res.sessions

/-! ## Properties -/

/-- The forward queue is strictly ascending: each segment's `seq` compares below its
successor's `seq` under `compare_u32`. -/
def forward_sorted : List segment → Prop
  | [] => True
  | [_] => True
  | a :: b :: rest => compare_u32 a.seq b.seq < 0 ∧ forward_sorted (b :: rest)

instance forward_sorted_decidable : (q : List segment) → Decidable (forward_sorted q)
  | [] => isTrue trivial
  | [_] => isTrue trivial
  | a :: b :: rest =>
    have := forward_sorted_decidable (b :: rest)
    inferInstanceAs (Decidable (compare_u32 a.seq b.seq < 0 ∧ forward_sorted (b :: rest)))

/-- The forward queue is ascending throughout: each segment's `seq` compares below the `seq` of
every later segment under `compare_u32`. -/
def forward_ascending (q : List segment) : Prop :=
  q.Pairwise (fun a b => compare_u32 a.seq b.seq < 0)

instance forward_ascending_decidable (q : List segment) : Decidable (forward_ascending q) :=
  inferInstanceAs (Decidable (q.Pairwise (fun (a b : segment) => compare_u32 a.seq b.seq < 0)))

/-- The sequence number `x` lies in the byte range `[seq, seq + len)`, taken modulo 2^32. -/
def in_range (seq len x : Nat) : Prop := (x + 2 ^ 32 - seq) % 2 ^ 32 < len

instance in_range_decidable (seq len x : Nat) : Decidable (in_range seq len x) :=
  inferInstanceAs (Decidable ((x + 2 ^ 32 - seq) % 2 ^ 32 < len))

/-- The byte ranges `[seq1, seq1 + len1)` and `[seq2, seq2 + len2)` share no sequence number. -/
def range_disjoint (seq1 len1 seq2 len2 : Nat) : Prop :=
  ∀ x, x < 2 ^ 32 → ¬ (in_range seq1 len1 x ∧ in_range seq2 len2 x)

/-- The byte ranges `[seq, seq + len)` of two segments share no sequence number. -/
def seg_disjoint (a b : segment) : Prop := range_disjoint a.seq a.len b.seq b.len

/-- The byte ranges of the queued segments are pairwise disjoint. -/
def forward_disjoint (q : List segment) : Prop := q.Pairwise seg_disjoint

/-- The head of the queue, if any, does not precede `remote_seq`:
`compare_u32(head.seq, remote_seq) >= 0`. -/
def queue_head_ok (remote_seq : Nat) : List segment → Prop
  | [] => True
  | f :: _ => compare_u32 f.seq remote_seq ≥ 0

instance queue_head_ok_decidable (remote_seq : Nat) :
    (q : List segment) → Decidable (queue_head_ok remote_seq q)
  | [] => isTrue trivial
  | f :: _ => inferInstanceAs (Decidable (compare_u32 f.seq remote_seq ≥ 0))

/-- The head of the forward queue of the session, if any, does not precede its
`remote_seq`. -/
def head_ok (t : tcp_session) : Prop := queue_head_ok t.remote_seq t.forward

instance head_ok_decidable (t : tcp_session) : Decidable (head_ok t) :=
  inferInstanceAs (Decidable (queue_head_ok t.remote_seq t.forward))

/-- Every queued segment starts at or after the end of its predecessor:
`compare_u32(next.seq, seq + len) >= 0` for each segment and its successor. -/
def forward_chained : List segment → Prop
  | [] => True
  | [_] => True
  | a :: b :: rest =>
    compare_u32 b.seq ((a.seq + a.len) % 2 ^ 32) ≥ 0 ∧ forward_chained (b :: rest)

instance forward_chained_decidable : (q : List segment) → Decidable (forward_chained q)
  | [] => isTrue trivial
  | [_] => isTrue trivial
  | a :: b :: rest =>
    have := forward_chained_decidable (b :: rest)
    inferInstanceAs
      (Decidable (compare_u32 b.seq ((a.seq + a.len) % 2 ^ 32) ≥ 0 ∧ forward_chained (b :: rest)))

/-- The endpoint fields of a TCP record: family, source port, destination port, source and
destination address. -/
def tcp_key (t : tcp_session) : Nat × Nat × Nat × ng_addr × ng_addr :=
  (t.version, t.source, t.dest, t.saddr, t.daddr)

/-- The result `r` of a step on the session `cur` keeps the protocol tag of `cur` and the
endpoint fields of the TCP record `t`. -/
def same_flow (cur : ng_session) (t : tcp_session)
    (r : ng_session × List tcp_packet × Nat) : Prop :=
  r.1.protocol = cur.protocol ∧ tcp_key r.1.tcp = tcp_key t

/-- Two sessions are TCP sessions with the same (family, source address, source port,
destination address, destination port), compared the way the lookup of `handle_tcp` compares:
the IPv4 members for family 4, the 16 bytes of the IPv6 members otherwise. -/
def tcp_same_tuple (a b : ng_session) : Prop :=
  a.protocol = IPPROTO_TCP ∧ b.protocol = IPPROTO_TCP ∧ a.tcp.version = b.tcp.version
    ∧ a.tcp.source = b.tcp.source ∧ a.tcp.dest = b.tcp.dest
    ∧ (if a.tcp.version = 4 then
        a.tcp.saddr.ip4 = b.tcp.saddr.ip4 ∧ a.tcp.daddr.ip4 = b.tcp.daddr.ip4
       else a.tcp.saddr.ip6.take 16 = b.tcp.saddr.ip6.take 16
        ∧ a.tcp.daddr.ip6.take 16 = b.tcp.daddr.ip6.take 16)

/-- No two TCP sessions of the list share their tuple. -/
def tcp_unique (l : List ng_session) : Prop := l.Pairwise (fun a b => ¬ tcp_same_tuple a b)

/-- Two sessions are UDP sessions with the same (family, source address, source port,
destination address, destination port), compared the way the lookup of `handle_udp`
compares. -/
def udp_same_tuple (a b : ng_session) : Prop :=
  a.protocol = IPPROTO_UDP ∧ b.protocol = IPPROTO_UDP ∧ a.udp.version = b.udp.version
    ∧ a.udp.source = b.udp.source ∧ a.udp.dest = b.udp.dest
    ∧ (if a.udp.version = 4 then
        a.udp.saddr.ip4 = b.udp.saddr.ip4 ∧ a.udp.daddr.ip4 = b.udp.daddr.ip4
       else a.udp.saddr.ip6.take 16 = b.udp.saddr.ip6.take 16
        ∧ a.udp.daddr.ip6.take 16 = b.udp.daddr.ip6.take 16)

instance udp_same_tuple_decidable (a b : ng_session) : Decidable (udp_same_tuple a b) :=
  inferInstanceAs (Decidable (_ ∧ _))

/-- No two UDP sessions of the list share their tuple. -/
def udp_unique (l : List ng_session) : Prop := l.Pairwise (fun a b => ¬ udp_same_tuple a b)

/-- The states in which the host socket of a session has been closed: FIN_WAIT1, LAST_ACK,
CLOSE. -/
def closed_state (st : Nat) : Prop :=
  st = TCP_FIN_WAIT1 ∨ st = TCP_LAST_ACK ∨ st = TCP_CLOSE

instance closed_state_decidable (st : Nat) : Decidable (closed_state st) :=
  inferInstanceAs (Decidable (st = TCP_FIN_WAIT1 ∨ st = TCP_LAST_ACK ∨ st = TCP_CLOSE))

/-- A session in FIN_WAIT1, LAST_ACK or CLOSE has no open host socket. -/
def closed_no_socket (s : ng_session) : Prop := closed_state s.tcp.state → s.socket < 0

/-- The session lists that the event loop can reach from the empty list: a guest segment
handled by `handle_tcp`, and for a TCP session of the list a readiness event handled by
`check_tcp_socket`, the housekeeping of `monitor_tcp_session` (run for sessions with an open
socket) and of `check_tcp_session`, and the removal of a session by the reaper; each with
arbitrary answers of the kernel. -/
inductive reachable (h : athena_h) (c : socks5_config) : List ng_session → Prop
  | init : reachable h c []
  | handle (l : List ng_session) (env : handle_tcp_env) (p : tcp_input) (uid allowed : Int)
      (r : tcp_result) :
      reachable h c l → handle_tcp h env l p uid allowed = some r → reachable h c r.sessions
  | socket (pre : List ng_session) (s : ng_session) (post : List ng_session)
      (env : check_tcp_socket_env) :
      reachable h c (pre ++ s :: post) → s.protocol = IPPROTO_TCP →
      reachable h c (pre ++ (check_tcp_socket h c env s).s :: post)
  | monitor (pre : List ng_session) (s : ng_session) (post : List ng_session)
      (env : monitor_tcp_session_env) :
      reachable h c (pre ++ s :: post) → s.protocol = IPPROTO_TCP → s.socket ≥ 0 →
      reachable h c (pre ++ (monitor_tcp_session h env s).1 :: post)
  | check (pre : List ng_session) (s : ng_session) (post : List ng_session)
      (env : check_tcp_session_env) (sessions maxsessions : Int) :
      reachable h c (pre ++ s :: post) → s.protocol = IPPROTO_TCP →
      reachable h c (pre ++ (check_tcp_session h env s sessions maxsessions).1 :: post)
  | reap (pre : List ng_session) (s : ng_session) (post : List ng_session) :
      reachable h c (pre ++ s :: post) → reachable h c (pre ++ post)

/-- The endpoint fields of a UDP record: family, source port, destination port, source and
destination address. -/
def udp_key (u : udp_session) : Nat × Nat × Nat × ng_addr × ng_addr :=
  (u.version, u.source, u.dest, u.saddr, u.daddr)

/-- The datagram is one that the DNS redirect of `handle_udp` rewrites: IPv4, destination
198.18.0.1, destination port 53. -/
def dns_redirected (p : udp_input) : Prop :=
  p.version = 4 ∧ p.daddr.ip4 = htonl 0xC6120001 ∧ ntohs p.udphdr.dest = 53

/-- The property `Q` holds for the session list that a call of `handle_tcp` leaves, if the call
returns. -/
def after_handle_tcp (Q : List ng_session → Prop) (o : Option tcp_result) : Prop :=
  ∀ r, o = some r → Q r.sessions

/-- The property `Q` holds for the session that a step leaves. -/
def result_ok (Q : ng_session → Prop) (r : ng_session × List tcp_packet × Nat) : Prop :=
  Q r.1

/-- The sum of the 16-bit words of a buffer in memory order, a last single byte counted as it
is, without any reduction. -/
def word_sum : List Nat → Nat
  | [] => 0
  | [b0] => b0
  | b0 :: b1 :: rest => b0 + 256 * b1 + word_sum rest

/-- The ones'-complement representative of a sum: 0 for 0, otherwise the value in `1..0xFFFF`
that is congruent to it modulo `0xFFFF`. -/
def ones_fold (x : Nat) : Nat := if x = 0 then 0 else (x - 1) % 65535 + 1

/-- The send window as the specification words it: the guest's advertised window minus the
outstanding bytes, floored at 0, where outstanding is `(local_seq - acked) mod 2^16` plus
`(unconfirmed + 1) * 40`. -/
def get_send_window_spec (cur : tcp_session) : Nat :=
  cur.send_window
    - ((((cur.local_seq : Int) - (cur.acked : Int)) % 2 ^ 16).toNat + (cur.unconfirmed + 1) * 40)

/-- The base timeout of a TCP state as the specification lists it: `TCP_INIT_TIMEOUT` in LISTEN
and SYN_RECV, `TCP_IDLE_TIMEOUT` in ESTABLISHED, `TCP_CLOSE_TIMEOUT` in every other state. -/
def tcp_timeout_base (h : athena_h) (state : Nat) : Int :=
  if state = TCP_LISTEN then h.TCP_INIT_TIMEOUT
  else if state = TCP_SYN_RECV then h.TCP_INIT_TIMEOUT
  else if state = TCP_ESTABLISHED then h.TCP_IDLE_TIMEOUT
  else h.TCP_CLOSE_TIMEOUT

/-- The relation between a TCP record `t` and a later one `t1` that the steps of
`check_tcp_socket` before the read from the host socket keep: the state is the same or CLOSING,
and `acked`, `local_seq`, `unconfirmed` and `send_window`, the fields that `get_send_window`
reads, are the same. -/
def window_kept (t t1 : tcp_session) : Prop :=
  (t1.state = t.state ∨ t1.state = TCP_CLOSING) ∧ t1.acked = t.acked
    ∧ t1.local_seq = t.local_seq ∧ t1.unconfirmed = t.unconfirmed
    ∧ t1.send_window = t.send_window

/-- The forward queue of `s` at the read from the host socket of `check_tcp_socket`
(`protocols/tcp.c`, line 411): as the drain loop of this call leaves it, which runs on
`EPOLLOUT` only. -/
def queue_at_recv (h : athena_h) (env : check_tcp_socket_env) (s : ng_session) : List segment :=
  if env.events &&& EPOLLOUT ≠ 0 then
    (check_tcp_socket_drain env 0 s.tcp (get_receive_buffer h env.probe_drain s) false []
      s.tcp.forward).t.forward
  else s.tcp.forward

/-- The relation of `acked` and `local_seq` that the specification states for a TCP session:
`compare_u32(acked, local_seq) <= 0`. -/
def acked_behind (s : ng_session) : Prop := compare_u32 s.tcp.acked s.tcp.local_seq ≤ 0

/-- The distance from `acked` up to `local_seq` in `uint32_t` arithmetic. -/
def acked_distance (t : tcp_session) : Nat := (t.local_seq + 2 ^ 32 - t.acked) % 2 ^ 32

/-- The cursor of the extension-header loop of `handle_ip` after one more iteration. -/
def handle_ip_ext_next (pkt : List Nat) (off : Nat) : Nat :=
  (off + (8 + pkt.getD (off + 1) 0)) % 2 ^ 16

/-- A session in LISTEN has an open host socket. -/
def listen_has_socket (s : ng_session) : Prop := s.tcp.state = TCP_LISTEN → 0 ≤ s.socket

/-- The SOCKS5 reply table as a function: the sub-state that follows the sub-state `socks5` of a
session of IP version `version` when the proxy's reply has `bytes` bytes and `reply` holds
them, or `none` when the session is reset. In HELLO `05 00` leads to CONNECT and `05 02` to
AUTH; in AUTH `01 00` and `05 00` lead to CONNECT; in CONNECT a reply of 10 bytes (IPv4) or 22
bytes (IPv6) that starts `05 00` leads to CONNECTED. -/
def socks5_reply_spec (version socks5 : Nat) (bytes : Int) (reply : List Nat) : Option Nat :=
  if socks5 = SOCKS5_HELLO then
    if bytes = 2 ∧ reply.getD 0 0 = 5 ∧ reply.getD 1 0 = 0 then some SOCKS5_CONNECT
    else if bytes = 2 ∧ reply.getD 0 0 = 5 ∧ reply.getD 1 0 = 2 then some SOCKS5_AUTH
    else none
  else if socks5 = SOCKS5_AUTH then
    if bytes = 2 ∧ (reply.getD 0 0 = 1 ∨ reply.getD 0 0 = 5) ∧ reply.getD 1 0 = 0 then
      some SOCKS5_CONNECT
    else none
  else if socks5 = SOCKS5_CONNECT then
    if bytes = (if version = 4 then 10 else 22) ∧ reply.getD 0 0 = 5 ∧ reply.getD 1 0 = 0 then
      some SOCKS5_CONNECTED
    else none
  else none

/-- Every segment of the forward queue has `sent <= len`. -/
def forward_sent_ok (q : List segment) : Prop := ∀ f ∈ q, f.sent ≤ f.len

instance forward_sent_ok_decidable (q : List segment) : Decidable (forward_sent_ok q) :=
  inferInstanceAs (Decidable (∀ f ∈ q, f.sent ≤ f.len))

/-- A TCP option other than the end-of-list byte, as the option list of a segment names it: its
kind and the bytes that follow the length byte. An option of kind 1 (no-operation) is the single
byte 1 and has no length byte and no body. -/
structure tcp_option where
  kind : Nat
  body : List Nat
deriving DecidableEq, Repr

/-- The bytes of one option in the option area: the byte 1 for a no-operation, otherwise the
kind, the length byte (which counts kind and length byte too) and the body. -/
def tcp_option_bytes (o : tcp_option) : List Nat :=
  if o.kind = 1 then [1] else o.kind :: (o.body.length + 2) :: o.body

/-- The bytes of an option list, one option after the other. -/
def options_bytes : List tcp_option → List Nat
  | [] => []
  | o :: rest => tcp_option_bytes o ++ options_bytes rest

/-- The options are well formed: none has kind 0, and every option other than a no-operation
has a length byte that is a byte (so it is at least 2 and counts the body) and a body of
bytes. -/
def options_wf (opts : List tcp_option) : Prop :=
  ∀ o ∈ opts, o.kind ≠ 0 ∧ (o.kind ≠ 1 → o.body.length + 2 < 256 ∧ ∀ b ∈ o.body, b < 256)

instance options_wf_decidable (opts : List tcp_option) : Decidable (options_wf opts) :=
  inferInstanceAs (Decidable (∀ o ∈ opts,
    o.kind ≠ 0 ∧ (o.kind ≠ 1 → o.body.length + 2 < 256 ∧ ∀ b ∈ o.body, b < 256)))

/-- The value of the MSS option (kind 2, length byte 4) of an option list, the two body bytes
read as a big-endian number, or `d` if the list has none; of several the last one counts. -/
def options_mss_spec : List tcp_option → Nat → Nat
  | [], d => d
  | o :: rest, d =>
    options_mss_spec rest
      (if o.kind = 2 ∧ o.body.length = 2 then 256 * o.body.getD 0 0 + o.body.getD 1 0 else d)

/-- The value of the window scale option (kind 3, length byte 3) of an option list, or `d` if
the list has none; of several the last one counts. -/
def options_ws_spec : List tcp_option → Nat → Nat
  | [], d => d
  | o :: rest, d =>
    options_ws_spec rest (if o.kind = 3 ∧ o.body.length = 1 then o.body.getD 0 0 else d)

/-- The option area of `optlen` bytes at the start of the memory `mem` is the option list
`opts`: either the bytes of `opts` fill the area, or they are followed inside the area by an
end-of-list byte 0, after which the area may hold anything. -/
def option_area (optlen : Int) (mem : List Nat) (opts : List tcp_option) : Prop :=
  ∃ rest, mem = options_bytes opts ++ rest
    ∧ (((options_bytes opts).length : Int) = optlen
        ∨ (((options_bytes opts).length : Int) < optlen ∧ rest.getD 0 0 = 0))

/-- The descriptor of the session is an open one or -1. -/
def socket_known (s : ng_session) : Prop := -1 ≤ s.socket

instance socket_known_decidable (s : ng_session) : Decidable (socket_known s) :=
  inferInstanceAs (Decidable (-1 ≤ s.socket))

/-- The datagram of the read is a UDP datagram to port 53 while DNS forwarding is off: the
datagrams that `handle_ip` admits whatever the session count is. -/
def dns_exempt (r : tun_read) : Prop :=
  r.env.fwd53 = false
    ∧ ∃ payload,
        handle_ip_header r.env.loglevel r.pkt r.length = some (some (IPPROTO_UDP, payload))
          ∧ ntohs (udphdr_load (r.pkt.drop payload)).dest = 53

/-- The datagram of the read is an ICMP or ICMPv6 datagram and the classifier allows it: the
datagrams that `handle_ip` may hand to `handle_icmp`. -/
def icmp_allowed (r : tun_read) : Prop :=
  r.env.filter_icmp = true
    ∧ ∃ protocol payload,
        handle_ip_header r.env.loglevel r.pkt r.length = some (some (protocol, payload))
          ∧ (protocol = IPPROTO_ICMP ∨ protocol = IPPROTO_ICMPV6)

/-! ## Concrete inputs used in the evaluations below -/

/-- A guest TCP header that carries the sequence number `seq` (host order) and no flags. -/
def hdr_seq (seq : Nat) : tcphdr :=
  { source := 0, dest := 0, seq := htonl seq, ack_seq := 0, doff := 5, fin := false,
    syn := false, rst := false, psh := false, ack := false, urg := false, window := 0 }

/-- A TCP record in ESTABLISHED with `remote_seq` as given and the given forward queue. -/
def tcp_with (remote_seq : Nat) (forward : List segment) : tcp_session :=
  { (default : tcp_session) with
    version := 4, state := TCP_ESTABLISHED, remote_seq := remote_seq, forward := forward }

/-- A segment with the given `seq` and `len`, nothing sent, `len` bytes of value 7. -/
def seg (seq len : Nat) : segment :=
  { seq := seq, len := len, sent := 0, psh := false, data := List.replicate len 7 }

/-- A sample of the constants of `athena.h` for the evaluations (the values of upstream
NetGuard); the theorems that quantify over `athena_h` do not depend on it. -/
def consts : athena_h :=
  { TCP_INIT_TIMEOUT := 20, TCP_IDLE_TIMEOUT := 3600, TCP_CLOSE_TIMEOUT := 20,
    TCP_KEEP_TIMEOUT := 300, UDP_TIMEOUT_53 := 15, UDP_TIMEOUT_ANY := 300,
    UDP_KEEP_TIMEOUT := 60, EPOLL_MIN_CHECK := 100, SEND_BUF_DEFAULT := 163840 }

/-- No SOCKS5 proxy configured. -/
def no_socks5 : socks5_config :=
  { socks5_addr := [], socks5_port := 0, socks5_username := [], socks5_password := [] }

/-- A guest IPv4 SYN from 10.0.0.2:40000 to 93.184.216.34:80 with seq `0x1000`, window 65535,
no options, and one byte of data. -/
def syn_input : tcp_input :=
  { version := 4
    saddr := { ip4 := htonl 0x0A000002, ip6 := [] }
    daddr := { ip4 := htonl 0x5DB8D822, ip6 := [] }
    tcphdr :=
      { source := htons 40000, dest := htons 80, seq := htonl 0x1000, ack_seq := 0, doff := 5,
        fin := false, syn := true, rst := false, psh := false, ack := false, urg := false,
        window := htons 65535 }
    tcpoptions := []
    data := [72]
    datalen := 1 }

/-- Answers of the kernel for `handle_tcp`: the clock reads 1000, `rand()` returns 7, the host
socket is descriptor 5 and its `connect` is in progress, the send buffer is the default and
empty, `epoll_ctl` succeeds, a TUN write of 40 bytes succeeds. -/
def env_ok : handle_tcp_env :=
  { now := 1000
    rand := 7
    open_socket :=
      { socket_res := 5, setsockopt_res := 0, fcntl_getfl := 0, fcntl_setfl := 0,
        connect_res := -1, connect_einprogress := true }
    probe := { getsockopt_res := 0, sendbuf := 0, ioctl_res := 0, unsent := 0 }
    epoll_ctl_res := 0
    tun_write := 40 }

/-- The session that `handle_tcp` builds from `syn_input` with the answers `env_ok`. -/
def syn_session : ng_session :=
  { protocol := IPPROTO_TCP
    socket := 5
    ev_events := EPOLLOUT ||| EPOLLERR
    icmp := default
    udp := default
    tcp :=
      { uid := 0, time := 1000, version := 4, mss := 9960, recv_scale := 0, send_scale := 0,
        recv_window := 65534, send_window := 65535, unconfirmed := 0, remote_seq := 0x1000,
        local_seq := 7, remote_start := 0x1000, local_start := 7, acked := 0,
        last_keep_alive := 0, sent := 0, received := 0,
        saddr := { ip4 := htonl 0x0A000002, ip6 := [] }, source := htons 40000,
        daddr := { ip4 := htonl 0x5DB8D822, ip6 := [] }, dest := htons 80,
        state := TCP_LISTEN, socks5 := SOCKS5_NONE,
        forward := [{ seq := 0x1000, len := 1, sent := 0, psh := false, data := [72] }] } }

/-- Answers of the kernel for `check_tcp_socket`: the host socket is writable (`EPOLLOUT`),
every TUN write returns `w` (48 is the length of an IPv4 SYN/ACK, 40 of an IPv4 ACK), nothing
is read, every `send` takes 1 byte, the send buffer is the default and empty. -/
def env_writable (w : Int) : check_tcp_socket_env :=
  { events := EPOLLOUT
    now := 1001
    now_in := 1001
    tun_write := fun _ => w
    socks5_recv := 0
    socks5_buffer := []
    send := fun _ => 1
    send_again := fun _ => false
    probe_drain := { getsockopt_res := 0, sendbuf := 0, ioctl_res := 0, unsent := 0 }
    probe_window := { getsockopt_res := 0, sendbuf := 0, ioctl_res := 0, unsent := 0 }
    recv := 0
    recv_again := false
    recv_buffer := []
    close_res := 0 }

/-- The session `syn_session` after the handshake, in ESTABLISHED with an empty forward
queue. -/
def est_session : ng_session :=
  { syn_session with
    tcp := { syn_session.tcp with
             state := TCP_ESTABLISHED, socks5 := SOCKS5_CONNECTED, remote_seq := 0x1001,
             local_seq := 8, acked := 8, forward := [] } }

/-- A guest IPv4 segment of the flow of `syn_session` with PSH and ACK, seq `0x1001`, ack 8 and
two bytes of data. -/
def data_input : tcp_input :=
  { syn_input with
    tcphdr := { syn_input.tcphdr with
                syn := false, psh := true, ack := true, seq := htonl 0x1001,
                ack_seq := htonl 8 }
    data := [72, 73]
    datalen := 2 }

/-- Answers of the kernel for `check_tcp_session`: the clock reads 2000, a TUN write of 40
bytes succeeds, `close` succeeds. -/
def env_expired : check_tcp_session_env :=
  { now := 2000, tun_write := 40, close_res := 0, now_close := 2000 }

/-- A guest IPv4 datagram from 10.0.0.2:5353 to 198.18.0.1:53 with three bytes of payload. -/
def dns_input : udp_input :=
  { version := 4
    saddr := { ip4 := htonl 0x0A000002, ip6 := [] }
    daddr := { ip4 := htonl 0xC6120001, ip6 := [] }
    udphdr := { source := htons 5353, dest := htons 53, len := htons 11, check := 0 }
    data := [1, 2, 3]
    datalen := 3 }

/-- Answers of the kernel for `handle_udp`: the clock reads 1000, the host socket is
descriptor 6, `epoll_ctl` succeeds, `sendto` takes the three bytes. -/
def env_udp : handle_udp_env :=
  { now_new := 1000, now := 1000, socket_res := 6, epoll_ctl_res := 0, sendto_res := 3,
    sendto_again := false }

/-- The session that `handle_udp` builds from `dns_input` with the answers `env_udp`: its
destination is 1.1.1.1 port 53. -/
def dns_session : ng_session :=
  { protocol := IPPROTO_UDP
    socket := 6
    ev_events := EPOLLIN ||| EPOLLERR
    icmp := default
    tcp := default
    udp :=
      { time := 1000, uid := 0, version := 4, mss := 65507, sent := 3, received := 0,
        saddr := { ip4 := htonl 0x0A000002, ip6 := [] }, source := htons 5353,
        daddr := { ip4 := htonl 0x01010101, ip6 := [] }, dest := htons 53,
        state := UDP_ACTIVE } }

/-- The session `est_session` after `data_input` was handled: the two bytes are queued at
`remote_seq`. -/
def est_data_session : ng_session :=
  { est_session with
    tcp := { est_session.tcp with
             forward := [{ seq := 0x1001, len := 2, sent := 0, psh := true,
                           data := [72, 73] }] } }

/-- A guest IPv4 datagram from 10.0.0.2:5353 to 1.1.1.1:53 with three bytes of payload: a DNS
query that the guest addresses to 1.1.1.1 itself. -/
def direct_dns_input : udp_input :=
  { dns_input with daddr := { ip4 := htonl 0x01010101, ip6 := [] } }

/-- The TCP record of `est_session` with `0x20000` bytes sent, none of them acknowledged, and a
guest window of `0x30000`. -/
def far_session : tcp_session :=
  { est_session.tcp with local_seq := 0x20000, acked := 0, send_window := 0x30000 }

/-- A guest IPv4 segment from 10.0.0.2:40000 to 93.184.216.34:80 with ACK only, seq `0x2000`,
ack `0x3000` and no data. -/
def stray_input : tcp_input :=
  { syn_input with
    tcphdr := { syn_input.tcphdr with
                syn := false, ack := true, seq := htonl 0x2000, ack_seq := htonl 0x3000 }
    data := []
    datalen := 0 }

/-- The RST that `handle_tcp` writes for `stray_input` when no session matches: seq `0x3000`,
no ACK flag, a zero acknowledgment field. -/
def stray_rst : tcp_packet :=
  { version := 4
    saddr := { ip4 := htonl 0x5DB8D822, ip6 := [] }
    daddr := { ip4 := htonl 0x0A000002, ip6 := [] }
    source := htons 80
    dest := htons 40000
    seq := htonl 0x3000
    ack_seq := 0
    doff := 5
    syn := false
    ack := false
    fin := false
    rst := true
    window := 0
    options := []
    data := []
    len := 40 }

/-- Answers for `handle_ip`: `loglevel` is `ANDROID_LOG_WARN` (the value `jni_start` sets), DNS
forwarding is off, the three filter callbacks allow the packet, `handle_udp` gets `env_udp` and
`handle_tcp` gets `env_ok`. -/
def env_ip : handle_ip_env :=
  { loglevel := 5, fwd53 := false, filter_icmp := true, filter_udp := true, filter_tcp := true,
    icmp_sessions := [], udp := env_udp, tcp := env_ok }

/-- The 40 bytes of a guest IPv4 SYN from 10.0.0.2, port `port`, to 93.184.216.34:80 with seq
`0x1000`, window 65535, no options and no data. -/
def syn_packet (port : Nat) : List Nat :=
  iphdr_mem (htons 40) IPPROTO_TCP 0 (htonl 0x0A000002) (htonl 0x5DB8D822)
    ++ tcphdr_mem { syn_input.tcphdr with source := htons port } 0

/-- The 31 bytes of a guest IPv4 datagram from 10.0.0.2, port `port`, to 8.8.8.8:53 with three
bytes of payload. -/
def dns_packet (port : Nat) : List Nat :=
  iphdr_mem (htons 31) IPPROTO_UDP 0 (htonl 0x0A000002) (htonl 0x08080808)
    ++ udphdr_mem { source := htons port, dest := htons 53, len := htons 11, check := 0 }
    ++ [1, 2, 3]

/-- Answers for `handle_ip` as `env_ip`, but `filter_tcp_packet` returns false. -/
def env_ip_denied : handle_ip_env := { env_ip with filter_tcp := false }

/-- The UDP datagram `dns_packet 5353` with the More-Fragments flag set: byte 6 of the header is
`0x20`. -/
def mf_packet : List Nat := (dns_packet 5353).set 6 0x20

/-- The UDP datagram `dns_packet 5353` with More-Fragments clear and byte 7 of the header, the
low byte of the fragment offset, set to `0x20`. -/
def offset_packet : List Nat := (dns_packet 5353).set 7 0x20

/-- The 68 bytes of a guest IPv6 datagram whose fixed header names a hop-by-hop options header
(next header 0), followed by that extension header (8 bytes, next header 6) and the TCP header
of the SYN of `syn_packet 40000`. -/
def ext_packet : List Nat :=
  ip6_hdr_mem (htons 28) 0 [0xFD, 0, 0, 0, 0, 0, 0, 0, 0, 0, 0, 0, 0, 0, 0, 2]
      [0x20, 1, 0, 0, 0, 0, 0, 0, 0, 0, 0, 0, 0, 0, 0, 1]
    ++ [6, 0, 1, 4, 0, 0, 0, 0] ++ tcphdr_mem syn_input.tcphdr 0

/-- The 40 bytes of `syn_packet 40000` with the header length nibble `ihl` set to 15: the first
byte is `0x4F`, so the header claims 40 bytes of options, and the datagram ends where they
would begin to end. -/
def ihl_packet : List Nat := (syn_packet 40000).set 0 0x4F

/-- The result of a call of `handle_ip` that drops the datagram: the session list `l` as it
was, nothing written, no handler invoked. -/
def ip_dropped (l : List ng_session) : ip_result :=
  { sessions := l, tun := [], host := [], call := ip_call.no_handler }

/-- Answers of the kernel for `monitor_tcp_session`: the clock reads 5000 ms, a TUN write of 40
bytes succeeds, the send buffer is the default and empty, `epoll_ctl` succeeds. -/
def env_monitor : monitor_tcp_session_env :=
  { ms := 5000, tun_write := 40,
    probe := { getsockopt_res := 0, sendbuf := 0, ioctl_res := 0, unsent := 0 },
    epoll_ctl_res := 0 }

/-- The session `est_session` with a guest window of 0. -/
def zero_window_session : ng_session :=
  { est_session with tcp := { est_session.tcp with send_window := 0 } }

/-- Answers of the kernel for `check_tcp_socket` as `env_writable 40`, but the event is
`EPOLLIN`: the host socket is readable and not reported writable, and `recv` returns 0, the end
of the stream. -/
def env_eof : check_tcp_socket_env := { env_writable 40 with events := EPOLLIN }

/-- The session that `handle_tcp` builds from `syn_input` when `rand()` returns `0x7FFFFFFF`
(`RAND_MAX`) and the other answers are those of `env_ok`. -/
def rand_max_session : ng_session :=
  { syn_session with
    tcp := { syn_session.tcp with local_seq := 0x7FFFFFFF, local_start := 0x7FFFFFFF } }

/-- Answers for `handle_ip` as `env_ip`, but DNS forwarding is on and `filter_icmp_packet`
returns false. -/
def env_ip_fwd53 : handle_ip_env := { env_ip with fwd53 := true, filter_icmp := false }

/-- A guest IPv4 SYN of the flow of `syn_input` without data, with data offset 6 and the four
option bytes `02 00 00 00`: an option of kind 2 whose length byte is 0. -/
def zero_option_syn : tcp_input :=
  { syn_input with
    tcphdr := { syn_input.tcphdr with doff := 6 }
    tcpoptions := [2, 0, 0, 0]
    data := []
    datalen := 0 }

/-- A SOCKS5 proxy at 10.0.0.9 port 1080 with user name `u` and password `p`. -/
def with_socks5 : socks5_config :=
  { socks5_addr := [49, 48, 46, 48, 46, 48, 46, 57], socks5_port := 1080,
    socks5_username := [117], socks5_password := [112] }

/-- The session `syn_session` in the SOCKS5 sub-state AUTH: the user name and password have
been sent to the proxy. -/
def auth_session : ng_session :=
  { syn_session with tcp := { syn_session.tcp with socks5 := SOCKS5_AUTH } }

/-- Answers of the kernel for `check_tcp_socket`: the host socket is readable (`EPOLLIN`) and
`recv` returns the two bytes `b0 00`. -/
def env_reply (b0 : Nat) : check_tcp_socket_env :=
  { env_writable 40 with events := EPOLLIN, socks5_recv := 2, socks5_buffer := [b0, 0] }

/-- The SYN `syn_input` without its byte of data. -/
def plain_syn : tcp_input := { syn_input with data := [], datalen := 0 }

/-- The session that `handle_tcp` builds from `plain_syn` with the answers `env_ok`: in LISTEN
with an empty forward queue. -/
def listen_session : ng_session :=
  { syn_session with tcp := { syn_session.tcp with recv_window := 65535, forward := [] } }

/-- The session `listen_session` after `check_tcp_socket` wrote the SYN/ACK at time 1001. -/
def syn_recv_session : ng_session :=
  { listen_session with
    tcp := { listen_session.tcp with
             time := 1001, remote_seq := 0x1001, local_seq := 8, state := TCP_SYN_RECV,
             socks5 := SOCKS5_CONNECTED } }

/-- A guest IPv4 segment of the flow of `syn_session` with ACK only, seq `0x1001`, ack 8 and no
data: the third segment of the handshake. -/
def ack_input : tcp_input :=
  { syn_input with
    tcphdr := { syn_input.tcphdr with
                syn := false, ack := true, seq := htonl 0x1001, ack_seq := htonl 8 }
    data := []
    datalen := 0 }

/-- The session `syn_recv_session` after `handle_tcp` handled `ack_input`: in ESTABLISHED. -/
def open_session : ng_session :=
  { syn_recv_session with
    tcp := { syn_recv_session.tcp with time := 1000, acked := 8, state := TCP_ESTABLISHED } }

/-- The segment `data_input` with three bytes of data. -/
def data3_input : tcp_input := { data_input with data := [72, 73, 74], datalen := 3 }

/-- The segment `data_input` with one byte of data: the same sequence number as
`data3_input`, a shorter payload. -/
def data1_input : tcp_input := { data_input with data := [72], datalen := 1 }

/-- The session `open_session` after `handle_tcp` queued the three bytes of `data3_input`. -/
def queued_session : ng_session :=
  { open_session with
    tcp := { open_session.tcp with
             forward := [{ seq := 0x1001, len := 3, sent := 0, psh := true,
                           data := [72, 73, 74] }] } }

/-- The answers `env_writable 40` with a `send` that takes 2 bytes. -/
def env_send2 : check_tcp_socket_env := { env_writable 40 with send := fun _ => 2 }

/-- The session `queued_session` after `check_tcp_socket` forwarded two of the three bytes. -/
def part_session : ng_session :=
  { queued_session with
    tcp := { queued_session.tcp with
             time := 1001, recv_window := 65534, sent := 2,
             forward := [{ seq := 0x1001, len := 3, sent := 2, psh := true,
                           data := [72, 73, 74] }] } }

/-- The session `part_session` after `handle_tcp` handled `data1_input`: the queued segment
has length 1 and 2 bytes sent. -/
def short_session : ng_session :=
  { part_session with
    tcp := { part_session.tcp with
             time := 1000,
             forward := [{ seq := 0x1001, len := 1, sent := 2, psh := true, data := [72] }] } }

/-- A guest IPv4 segment of the flow of `syn_session` with FIN and ACK, seq `0x1001`, ack 8 and
no data. -/
def fin_input : tcp_input :=
  { ack_input with tcphdr := { ack_input.tcphdr with fin := true } }

/-- The session `open_session` after 100 bytes were written to the guest: `local_seq` is 108,
`acked` is still 8. -/
def sent_session : ng_session :=
  { open_session with tcp := { open_session.tcp with local_seq := 108 } }

/-- The segment `ack_input` with the acknowledgment 107, one below `local_seq` of
`sent_session`. -/
def partial_ack_input : tcp_input :=
  { ack_input with tcphdr := { ack_input.tcphdr with ack_seq := htonl 107 } }

/-- The session `sent_session` in CLOSE_WAIT. -/
def half_closed_session : ng_session :=
  { sent_session with tcp := { sent_session.tcp with state := TCP_CLOSE_WAIT } }

/-- The segment `data_input` with the acknowledgment 50. -/
def old_ack_data_input : tcp_input :=
  { data_input with tcphdr := { data_input.tcphdr with ack_seq := htonl 50 } }

/-- The SYN `plain_syn` with data offset 8 and the twelve option bytes
`02 04 05 b4 01 03 03 07 04 02 00 63`: MSS 1460, a no-operation, window scale 7,
SACK-permitted, end of list, and one more byte. -/
def options_syn : tcp_input :=
  { plain_syn with
    tcphdr := { plain_syn.tcphdr with doff := 8 }
    tcpoptions := [2, 4, 5, 180, 1, 3, 3, 7, 4, 2, 0, 99] }

/-- The option list of `options_syn` before its end-of-list byte. -/
def options_syn_list : List tcp_option :=
  [{ kind := 2, body := [5, 180] }, { kind := 1, body := [] }, { kind := 3, body := [7] },
   { kind := 4, body := [] }]

/-- The session built from the SYN `syn_input` after the handshake: in ESTABLISHED with
`remote_seq = 0x1001`, and the byte that the SYN carried still queued at seq `0x1000`. -/
def wedged_session : ng_session :=
  { est_session with tcp := { est_session.tcp with forward := syn_session.tcp.forward } }

/-- The segment `data1_input` with the sequence number `0x80001000`, which is `0x7FFFFFFF`
ahead of the `remote_seq` `0x1001` of `open_session`. -/
def far_input : tcp_input :=
  { data1_input with tcphdr := { data1_input.tcphdr with seq := htonl 0x80001000 } }

/-- The session `open_session` after `handle_tcp` queued the byte of `far_input`. -/
def far_queued_session : ng_session :=
  { open_session with
    tcp := { open_session.tcp with
             forward := [{ seq := 0x80001000, len := 1, sent := 0, psh := true,
                           data := [72] }] } }

/-- The session `far_queued_session` after `handle_tcp` queued the byte of `data1_input` at
`remote_seq`. -/
def two_queued_session : ng_session :=
  { open_session with
    tcp := { open_session.tcp with
             forward := [{ seq := 0x1001, len := 1, sent := 0, psh := true, data := [72] },
                         { seq := 0x80001000, len := 1, sent := 0, psh := true,
                           data := [72] }] } }

/-- The session `two_queued_session` after `handle_tcp` handled `far_input` a second time: the
queue holds the segment with seq `0x80001000` twice. -/
def dup_session : ng_session :=
  { open_session with
    tcp := { open_session.tcp with
             forward := [{ seq := 0x80001000, len := 1, sent := 0, psh := true, data := [72] },
                         { seq := 0x1001, len := 1, sent := 0, psh := true, data := [72] },
                         { seq := 0x80001000, len := 1, sent := 0, psh := true,
                           data := [72] }] } }

end Athena

/-! # Theorems -/

namespace Athena

/-! ## compare_u32 -/

/-- The result of `compare_u32` is 0 exactly on equal arguments. -/
theorem compare_u32_eq_zero_iff (a b : Nat) : compare_u32 a b = 0 ↔ a = b := by
  unfold compare_u32
  split_ifs <;> simp_all

/-- The result of `compare_u32` is -1, 0 or 1. -/
theorem compare_u32_cases (a b : Nat) :
    compare_u32 a b = -1 ∨ compare_u32 a b = 0 ∨ compare_u32 a b = 1 := by
  unfold compare_u32
  split_ifs <;> simp

/-- Off the two boundary distances, `compare_u32` is the signed-delta rule of the
specification: it differs from it only when `b = a + 0x7FFFFFFF` or `a = b + 0x80000000`. -/
theorem compare_u32_eq_spec (a b : Nat) (ha : a < 2 ^ 32) (hb : b < 2 ^ 32)
    (h1 : b ≠ a + 0x7FFFFFFF) (h2 : a ≠ b + 0x80000000) :
    compare_u32 a b = compare_u32_spec a b := by
  unfold compare_u32 compare_u32_spec
  by_cases hab : a = b
  · simp [hab]
  · simp only [hab, if_false]
    rcases Nat.lt_or_gt_of_ne hab with hlt | hgt
    · have e : (b + 2 ^ 32 - a) % 2 ^ 32 = b - a := by
        have : b + 2 ^ 32 - a = (b - a) + 2 ^ 32 := by omega
        rw [this, Nat.add_mod_right, Nat.mod_eq_of_lt (by omega)]
      rw [e]
      by_cases hd : b - a < 0x7FFFFFFF
      · rw [if_pos (Or.inl ⟨hlt, hd⟩), if_pos (by omega)]
      · rw [if_neg (by omega), if_neg (by omega)]
    · have e : (b + 2 ^ 32 - a) % 2 ^ 32 = b + 2 ^ 32 - a :=
        Nat.mod_eq_of_lt (by omega)
      rw [e]
      by_cases hd : a - b > 0x7FFFFFFF
      · rw [if_pos (Or.inr ⟨hgt, hd⟩), if_pos (by omega)]
      · rw [if_neg (by omega), if_neg (by omega)]

/-- Antisymmetry of `compare_u32` for two values whose distance is not `0x7FFFFFFF`. -/
theorem compare_u32_antisymm (a b : Nat) (h1 : b ≠ a + 0x7FFFFFFF) (h2 : a ≠ b + 0x7FFFFFFF) :
    compare_u32 a b = - compare_u32 b a := by
  unfold compare_u32
  by_cases hab : a = b
  · simp [hab]
  · have hba : ¬ b = a := fun h => hab h.symm
    simp only [hab, hba, if_false]
    rcases Nat.lt_or_gt_of_ne hab with hlt | hgt
    · by_cases hd : b - a < 0x7FFFFFFF
      · rw [if_pos (Or.inl ⟨hlt, hd⟩), if_neg (by omega)]
      · rw [if_neg (by omega), if_pos (by omega)]; rfl
    · by_cases hd : a - b > 0x7FFFFFFF
      · rw [if_pos (Or.inr ⟨hgt, hd⟩), if_neg (by omega)]
      · rw [if_neg (by omega), if_pos (by omega)]; rfl

/-- C1 (code bug). The claim gives -1 when `(b - a) mod 2^32 < 2^31` and +1 otherwise. At
`a = 0`, `b = 0x7FFFFFFF` the claimed value is -1 and `compare_u32` returns +1; at
`a = 0x80000000`, `b = 0` the claimed value is +1 and `compare_u32` returns -1. -/
theorem compare_u32_differs_from_rule :
    compare_u32_spec 0 0x7FFFFFFF = -1 ∧ compare_u32 0 0x7FFFFFFF = 1
      ∧ compare_u32_spec 0x80000000 0 = 1 ∧ compare_u32 0x80000000 0 = -1 := by
  decide

/-- C2 (code bug). For `a = 5` and `b = 0x80000004`, which differ, `compare_u32` returns +1 in
both directions, so `compare_u32 a b = -compare_u32 b a` fails. -/
theorem compare_u32_both_above :
    compare_u32 5 0x80000004 = 1 ∧ compare_u32 0x80000004 5 = 1
      ∧ compare_u32 5 0x80000004 ≠ - compare_u32 0x80000004 5 := by
  decide

/-! ## queue_tcp -/

/-- C3 (code bug). A session with `remote_seq = 0` and an empty forward queue receives a
one-byte segment with seq `0x7FFFFFFF` and then one with seq `0`. After the first call the
queue is strictly ascending; after the second it is `[0, 0x7FFFFFFF]`, where the first seq does
not compare below the second, so the queue is no longer strictly ascending. -/
theorem queue_tcp_order_lost :
    forward_sorted (queue_tcp (hdr_seq 0x7FFFFFFF) (tcp_with 0 []) [7] 1).forward
      ∧ (queue_tcp (hdr_seq 0)
          (queue_tcp (hdr_seq 0x7FFFFFFF) (tcp_with 0 []) [7] 1) [7] 1).forward
        = [seg 0 1, seg 0x7FFFFFFF 1]
      ∧ ¬ forward_sorted (queue_tcp (hdr_seq 0)
          (queue_tcp (hdr_seq 0x7FFFFFFF) (tcp_with 0 []) [7] 1) [7] 1).forward := by
  decide

/-- Whether a queue that starts with a given segment is strictly ascending depends on the
`seq` of that segment only. -/
theorem forward_sorted_cons_congr (a b : segment) (h : a.seq = b.seq) (q : List segment)
    (hs : forward_sorted (a :: q)) : forward_sorted (b :: q) := by
  cases q with
  | nil => trivial
  | cons c rest =>
    simp only [forward_sorted] at hs ⊢
    rw [← h]; exact hs

/-- The tail of a strictly ascending queue is strictly ascending. -/
theorem forward_sorted_tail (a : segment) (q : List segment) (hs : forward_sorted (a :: q)) :
    forward_sorted q := by
  cases q with
  | nil => trivial
  | cons c rest => exact hs.2

/-- The scan of `queue_tcp` behind a predecessor that compares below the incoming `seq` keeps
the queue strictly ascending, when `compare_u32` is antisymmetric between the incoming `seq` and
the queued ones (their distance is not `0x7FFFFFFF`). -/
theorem queue_tcp_scan_sorted_cons (seq datalen : Nat) (psh : Bool) (data : List Nat) :
    ∀ (q : List segment) (p : segment), compare_u32 p.seq seq < 0 → forward_sorted (p :: q) →
      (∀ s ∈ q, seq ≠ s.seq + 0x7FFFFFFF ∧ s.seq ≠ seq + 0x7FFFFFFF) →
      forward_sorted (p :: queue_tcp_scan seq datalen psh data q) := by
  intro q
  induction q with
  | nil =>
    intro p hp _ _
    exact ⟨hp, trivial⟩
  | cons s rest ih =>
    intro p hp hs ha
    have hps : compare_u32 p.seq s.seq < 0 := hs.1
    have hrest : forward_sorted (s :: rest) := hs.2
    unfold queue_tcp_scan
    by_cases h1 : compare_u32 s.seq seq < 0
    · rw [if_pos h1]
      exact ⟨hps, ih s h1 hrest (fun x hx => ha x (List.mem_cons_of_mem _ hx))⟩
    · rw [if_neg h1]
      by_cases h2 : compare_u32 s.seq seq > 0
      · rw [if_pos h2]
        have hanti := compare_u32_antisymm seq s.seq (ha s (List.mem_cons_self _ _)).2
          (ha s (List.mem_cons_self _ _)).1
        refine ⟨hp, ?_, hrest⟩
        show compare_u32 seq s.seq < 0
        omega
      · rw [if_neg h2]
        by_cases h3 : s.seq = seq
        · rw [if_pos h3]
          by_cases h4 : s.len ≠ datalen
          · rw [if_pos h4]
            refine ⟨hps, ?_⟩
            exact forward_sorted_cons_congr s { s with len := datalen, data := data.take datalen } rfl rest hrest
          · rw [if_neg h4]; exact hs
        · rw [if_neg h3]; exact hs

/-- The scan of `queue_tcp` keeps a strictly ascending queue strictly ascending, when
`compare_u32` is antisymmetric between the incoming `seq` and the queued ones (their distance is
not `0x7FFFFFFF`). -/
theorem queue_tcp_scan_sorted (seq datalen : Nat) (psh : Bool) (data : List Nat)
    (q : List segment) (hs : forward_sorted q)
    (ha : ∀ s ∈ q, seq ≠ s.seq + 0x7FFFFFFF ∧ s.seq ≠ seq + 0x7FFFFFFF) :
    forward_sorted (queue_tcp_scan seq datalen psh data q) := by
  cases q with
  | nil => trivial
  | cons s rest =>
    unfold queue_tcp_scan
    by_cases h1 : compare_u32 s.seq seq < 0
    · rw [if_pos h1]
      exact queue_tcp_scan_sorted_cons seq datalen psh data rest s h1 hs
        (fun x hx => ha x (List.mem_cons_of_mem _ hx))
    · rw [if_neg h1]
      by_cases h2 : compare_u32 s.seq seq > 0
      · rw [if_pos h2]
        have hanti := compare_u32_antisymm seq s.seq (ha s (List.mem_cons_self _ _)).2
          (ha s (List.mem_cons_self _ _)).1
        refine ⟨?_, hs⟩
        show compare_u32 seq s.seq < 0
        omega
      · rw [if_neg h2]
        by_cases h3 : s.seq = seq
        · rw [if_pos h3]
          by_cases h4 : s.len ≠ datalen
          · rw [if_pos h4]
            exact forward_sorted_cons_congr s { s with len := datalen, data := data.take datalen } rfl rest hs
          · rw [if_neg h4]; exact hs
        · rw [if_neg h3]; exact hs

/-- Off the distance `0x7FFFFFFF`, `queue_tcp` keeps the forward queue strictly ascending: for a
session whose forward queue is strictly ascending and an incoming segment whose `seq` is not
`0x7FFFFFFF` away from a queued `seq`, the forward queue after `queue_tcp` is again strictly
ascending. -/
theorem queue_tcp_sorted (hdr : tcphdr) (cur : tcp_session) (data : List Nat) (datalen : Nat)
    (hs : forward_sorted cur.forward)
    (ha : ∀ s ∈ cur.forward,
      ntohl hdr.seq ≠ s.seq + 0x7FFFFFFF ∧ s.seq ≠ ntohl hdr.seq + 0x7FFFFFFF) :
    forward_sorted (queue_tcp hdr cur data datalen).forward := by
  unfold queue_tcp
  by_cases h : compare_u32 (ntohl hdr.seq) cur.remote_seq ≥ 0
  · simp only [h, if_true]
    exact queue_tcp_scan_sorted _ _ _ _ _ hs ha
  · simp only [h, if_false]
    exact hs

/-- The scan of `queue_tcp` walks past every leading segment that compares below `seq`. -/
theorem queue_tcp_scan_skip (seq datalen : Nat) (psh : Bool) (data : List Nat)
    (pre rest : List segment) (hpre : ∀ a ∈ pre, compare_u32 a.seq seq < 0) :
    queue_tcp_scan seq datalen psh data (pre ++ rest)
      = pre ++ queue_tcp_scan seq datalen psh data rest := by
  induction pre with
  | nil => rfl
  | cons a pre ih =>
    have ha : compare_u32 a.seq seq < 0 := hpre a (List.mem_cons_self _ _)
    have ih1 := ih (fun x hx => hpre x (List.mem_cons_of_mem _ hx))
    show queue_tcp_scan seq datalen psh data (a :: (pre ++ rest)) = _
    rw [queue_tcp_scan, if_pos ha, ih1]
    rfl

/-- Every segment of the queue after the scan of `queue_tcp` is a segment of the queue before,
or carries the incoming `seq` and length. -/
theorem queue_tcp_scan_mem (seq datalen : Nat) (psh : Bool) (data : List Nat) :
    ∀ (q : List segment) (x : segment), x ∈ queue_tcp_scan seq datalen psh data q →
      x ∈ q ∨ (x.seq = seq ∧ x.len = datalen) := by
  intro q
  induction q with
  | nil =>
    intro x hx
    simp only [queue_tcp_scan, List.mem_singleton] at hx
    right; subst hx; exact ⟨rfl, rfl⟩
  | cons s rest ih =>
    intro x hx
    unfold queue_tcp_scan at hx
    split_ifs at hx with h1 h2 h3 h4
    · rcases List.mem_cons.mp hx with h | h
      · left; rw [h]; exact List.mem_cons_self _ _
      · rcases ih x h with h | h
        · left; exact List.mem_cons_of_mem _ h
        · right; exact h
    · rcases List.mem_cons.mp hx with h | h
      · right; subst h; exact ⟨rfl, rfl⟩
      · left; exact h
    · rcases List.mem_cons.mp hx with h | h
      · right; subst h; exact ⟨h3, rfl⟩
      · left; exact List.mem_cons_of_mem _ h
    · left; exact hx
    · left; exact hx

/-- Disjointness of two byte ranges is symmetric. -/
theorem range_disjoint_symm (a la b lb : Nat) (h : range_disjoint a la b lb) :
    range_disjoint b lb a la :=
  fun x hx hh => h x hx ⟨hh.2, hh.1⟩

/-- The scan of `queue_tcp` keeps the byte ranges pairwise disjoint when the queue is ascending
throughout and the incoming range is disjoint from the range of every queued segment with
another `seq`. -/
theorem queue_tcp_scan_disjoint (seq datalen : Nat) (psh : Bool) (data : List Nat) :
    ∀ (q : List segment), forward_ascending q → forward_disjoint q →
      (∀ s ∈ q, s.seq ≠ seq → range_disjoint s.seq s.len seq datalen) →
      forward_disjoint (queue_tcp_scan seq datalen psh data q) := by
  intro q
  induction q with
  | nil =>
    intro _ _ _
    exact List.pairwise_singleton _ _
  | cons s rest ih =>
    intro hasc hdis hnew
    have hasc1 := List.pairwise_cons.mp hasc
    have hdis1 := List.pairwise_cons.mp hdis
    have hne : ∀ r ∈ rest, r.seq ≠ s.seq := by
      intro r hr he
      have h := hasc1.1 r hr
      rw [he, (compare_u32_eq_zero_iff s.seq s.seq).mpr rfl] at h
      exact absurd h (by decide)
    unfold queue_tcp_scan
    by_cases h1 : compare_u32 s.seq seq < 0
    · rw [if_pos h1]
      have hs : s.seq ≠ seq := by
        intro he
        rw [he, (compare_u32_eq_zero_iff seq seq).mpr rfl] at h1
        exact absurd h1 (by decide)
      refine List.pairwise_cons.mpr ⟨?_, ih hasc1.2 hdis1.2
        (fun x hx => hnew x (List.mem_cons_of_mem _ hx))⟩
      intro x hx
      rcases queue_tcp_scan_mem seq datalen psh data rest x hx with h | h
      · exact hdis1.1 x h
      · show range_disjoint s.seq s.len x.seq x.len
        rw [h.1, h.2]
        exact hnew s (List.mem_cons_self _ _) hs
    · rw [if_neg h1]
      by_cases h2 : compare_u32 s.seq seq > 0
      · rw [if_pos h2]
        refine List.pairwise_cons.mpr ⟨?_, hdis⟩
        intro r hr
        have hrs : r.seq ≠ seq := by
          rcases List.mem_cons.mp hr with h | h
          · intro he
            rw [h] at he
            rw [he, (compare_u32_eq_zero_iff seq seq).mpr rfl] at h2
            exact absurd h2 (by decide)
          · intro he
            have := hasc1.1 r h
            rw [he] at this
            omega
        exact range_disjoint_symm _ _ _ _ (hnew r hr hrs)
      · rw [if_neg h2]
        by_cases h3 : s.seq = seq
        · rw [if_pos h3]
          by_cases h4 : s.len ≠ datalen
          · rw [if_pos h4]
            refine List.pairwise_cons.mpr ⟨?_, hdis1.2⟩
            intro r hr
            have hrs : r.seq ≠ seq := by rw [← h3]; exact hne r hr
            show range_disjoint s.seq datalen r.seq r.len
            rw [h3]
            exact range_disjoint_symm _ _ _ _
              (hnew r (List.mem_cons_of_mem _ hr) hrs)
          · rw [if_neg h4]; exact hdis
        · rw [if_neg h3]; exact hdis

/-- C4 (counterexample). The queue holds one segment with bytes `[100, 110)`; `queue_tcp`
enqueues an incoming segment with bytes `[105, 115)` behind it. The ranges were pairwise
disjoint before and share the sequence number 105 afterwards. -/
theorem queue_tcp_overlap :
    forward_disjoint (tcp_with 100 [seg 100 10]).forward
      ∧ (queue_tcp (hdr_seq 105) (tcp_with 100 [seg 100 10]) (List.replicate 10 7) 10).forward
        = [seg 100 10, seg 105 10]
      ∧ ¬ forward_disjoint
          (queue_tcp (hdr_seq 105) (tcp_with 100 [seg 100 10]) (List.replicate 10 7) 10).forward := by
  refine ⟨List.pairwise_singleton _ _, by decide, ?_⟩
  have e : (queue_tcp (hdr_seq 105) (tcp_with 100 [seg 100 10]) (List.replicate 10 7) 10).forward
      = [seg 100 10, seg 105 10] := by decide
  rw [e]
  intro hd
  have h := (List.pairwise_cons.mp hd).1 (seg 105 10) (List.mem_singleton_self _)
  exact h 105 (by norm_num) ⟨by decide, by decide⟩

/-- C4 (amended). `queue_tcp` does not test for overlap. For a forward queue that is ascending
throughout under `compare_u32` and whose byte ranges are pairwise disjoint, and an incoming
segment whose range `[seq, seq + datalen)` is disjoint from the range of every queued segment
with another `seq`, the byte ranges after `queue_tcp` are pairwise disjoint. -/
theorem queue_tcp_disjoint (hdr : tcphdr) (cur : tcp_session) (data : List Nat) (datalen : Nat)
    (hasc : forward_ascending cur.forward) (hdis : forward_disjoint cur.forward)
    (hnew : ∀ s ∈ cur.forward, s.seq ≠ ntohl hdr.seq →
      range_disjoint s.seq s.len (ntohl hdr.seq) datalen) :
    forward_disjoint (queue_tcp hdr cur data datalen).forward := by
  unfold queue_tcp
  by_cases h : compare_u32 (ntohl hdr.seq) cur.remote_seq ≥ 0
  · simp only [h, if_true]
    exact queue_tcp_scan_disjoint _ _ _ _ _ hasc hdis hnew
  · simp only [h, if_false]
    exact hdis

/-- Witness of `queue_tcp_disjoint`: the queue holds bytes `[100, 110)` and the incoming
segment brings bytes `[110, 120)`. -/
theorem queue_tcp_disjoint_witness :
    forward_ascending (tcp_with 100 [seg 100 10]).forward
      ∧ forward_disjoint (tcp_with 100 [seg 100 10]).forward
      ∧ forward_disjoint
          (queue_tcp (hdr_seq 110) (tcp_with 100 [seg 100 10]) (List.replicate 10 7) 10).forward :=
  have hasc : forward_ascending (tcp_with 100 [seg 100 10]).forward := by decide
  have hdis : forward_disjoint (tcp_with 100 [seg 100 10]).forward :=
    List.pairwise_singleton _ _
  ⟨hasc, hdis, queue_tcp_disjoint (hdr_seq 110) (tcp_with 100 [seg 100 10])
    (List.replicate 10 7) 10 hasc hdis (by
      intro s hs _
      have hs1 : s = seg 100 10 := List.mem_singleton.mp hs
      subst hs1
      have e : ntohl (hdr_seq 110).seq = 110 := by decide
      rw [e]
      intro x _ hx
      have h1 : (x + 2 ^ 32 - 100) % 2 ^ 32 < 10 := hx.1
      have h2 : (x + 2 ^ 32 - 110) % 2 ^ 32 < 10 := hx.2
      omega)⟩

/-- The scan of `queue_tcp` on a queue built by hand: `[0, 0x50000000, 0xA0000000]` is strictly
ascending (each seq compares below its successor) and holds a segment with seq `0xA0000000`
and length 1. For an incoming segment with that seq and length `queue_tcp` puts a second copy
in front of the queue, because the head already compares above the incoming seq. No run
reaches this queue with `remote_seq = 0xA0000000`; `queue_tcp_duplicate_reachable` has a
duplicate in a reachable queue. -/
theorem queue_tcp_duplicate_inserted :
    forward_sorted [seg 0 1, seg 0x50000000 1, seg 0xA0000000 1]
      ∧ seg 0xA0000000 1 ∈ [seg 0 1, seg 0x50000000 1, seg 0xA0000000 1]
      ∧ (queue_tcp (hdr_seq 0xA0000000)
          (tcp_with 0xA0000000 [seg 0 1, seg 0x50000000 1, seg 0xA0000000 1]) [7] 1).forward
        = [seg 0xA0000000 1, seg 0 1, seg 0x50000000 1, seg 0xA0000000 1] := by
  decide

/-- What `queue_tcp` leaves alone: the session is unchanged when the incoming `seq` precedes
`remote_seq`, and when the queue holds a segment with the same `seq` and the same length and
every segment queued in front of it compares below the incoming `seq`. -/
theorem queue_tcp_unchanged (hdr : tcphdr) (cur : tcp_session) (data : List Nat)
    (datalen : Nat)
    (h : compare_u32 (ntohl hdr.seq) cur.remote_seq < 0
      ∨ ∃ pre s post, cur.forward = pre ++ s :: post
          ∧ (∀ a ∈ pre, compare_u32 a.seq (ntohl hdr.seq) < 0)
          ∧ s.seq = ntohl hdr.seq ∧ s.len = datalen) :
    queue_tcp hdr cur data datalen = cur := by
  unfold queue_tcp
  by_cases hc : compare_u32 (ntohl hdr.seq) cur.remote_seq ≥ 0
  · simp only [hc, if_true]
    rcases h with h | ⟨pre, s, post, hq, hpre, hseq, hlen⟩
    · omega
    · have hz : compare_u32 s.seq (ntohl hdr.seq) = 0 :=
        (compare_u32_eq_zero_iff _ _).mpr hseq
      have e : queue_tcp_scan (ntohl hdr.seq) datalen hdr.psh data cur.forward = cur.forward := by
        rw [hq, queue_tcp_scan_skip _ _ _ _ pre (s :: post) hpre, queue_tcp_scan]
        rw [if_neg (by omega), if_neg (by omega), if_pos hseq, if_neg (by simp [hlen])]
      rw [e]
  · simp only [hc, if_false]

/-- Witness of `queue_tcp_unchanged`: a retransmission of the second queued segment. -/
theorem queue_tcp_unchanged_witness :
    queue_tcp (hdr_seq 110) (tcp_with 100 [seg 100 10, seg 110 10]) (List.replicate 10 7) 10
      = tcp_with 100 [seg 100 10, seg 110 10] :=
  queue_tcp_unchanged (hdr_seq 110) (tcp_with 100 [seg 100 10, seg 110 10])
    (List.replicate 10 7) 10
    (Or.inr ⟨[seg 100 10], seg 110 10, [], rfl, by decide, by decide, rfl⟩)

/-- C7 (counterexample). The queue holds a segment with seq 100 and length 5 while
`remote_seq` is 101. An incoming segment with seq 100 and length 3 precedes `remote_seq`:
`queue_tcp` drops it and the queued segment keeps length 5. -/
theorem queue_tcp_no_replace_behind :
    (queue_tcp (hdr_seq 100) (tcp_with 101 [seg 100 5]) [7, 7, 7] 3).forward = [seg 100 5] := by
  decide

/-- C7 (amended). When the incoming `seq` does not precede `remote_seq`, the forward queue
holds a segment with the same `seq` but another length, and every segment queued in front of it
compares below the incoming `seq`, `queue_tcp` overwrites length and data of that segment in
place: the segments before and after it, their order and its other fields are unchanged. -/
theorem queue_tcp_replace (hdr : tcphdr) (cur : tcp_session) (data : List Nat) (datalen : Nat)
    (pre post : List segment) (s : segment)
    (hrs : compare_u32 (ntohl hdr.seq) cur.remote_seq ≥ 0)
    (hq : cur.forward = pre ++ s :: post)
    (hpre : ∀ a ∈ pre, compare_u32 a.seq (ntohl hdr.seq) < 0)
    (hseq : s.seq = ntohl hdr.seq) (hlen : s.len ≠ datalen) :
    (queue_tcp hdr cur data datalen).forward
      = pre ++ { s with len := datalen, data := data.take datalen } :: post := by
  unfold queue_tcp
  simp only [hrs, if_true]
  have hz : compare_u32 s.seq (ntohl hdr.seq) = 0 := (compare_u32_eq_zero_iff _ _).mpr hseq
  rw [hq, queue_tcp_scan_skip _ _ _ _ pre (s :: post) hpre, queue_tcp_scan]
  rw [if_neg (by omega), if_neg (by omega), if_pos hseq, if_pos hlen]

/-- Witness of `queue_tcp_replace`: the second queued segment is sent again with 4 bytes
instead of 10. -/
theorem queue_tcp_replace_witness :
    (queue_tcp (hdr_seq 110) (tcp_with 100 [seg 100 10, seg 110 10]) [1, 2, 3, 4] 4).forward
      = [seg 100 10, { seg 110 10 with len := 4, data := [1, 2, 3, 4] }] :=
  queue_tcp_replace (hdr_seq 110) (tcp_with 100 [seg 100 10, seg 110 10]) [1, 2, 3, 4] 4
    [seg 100 10] [] (seg 110 10) (by decide) rfl (by decide) (by decide) (by decide)

/-! ## The option loop -/

/-- The bound on the iterations of `handle_tcp_options` is never what ends the loop: with any
bound above `optlen` the result is the same, so `none` stands for a loop that makes no
progress. -/
theorem handle_tcp_options_fuel :
    ∀ (fuel : Nat) (optlen : Int) (options : List Nat) (mss ws : Nat), optlen.toNat < fuel →
      ∀ k, handle_tcp_options (fuel + k) optlen options mss ws
        = handle_tcp_options fuel optlen options mss ws := by
  intro fuel
  induction fuel with
  | zero => intro optlen _ _ _ h; exact absurd h (Nat.not_lt_zero _)
  | succ n ih =>
    intro optlen options mss ws h k
    rw [Nat.add_right_comm]
    unfold handle_tcp_options
    by_cases hpos : optlen > 0
    · simp only [hpos, if_true]
      by_cases hk0 : options.getD 0 0 = 0
      · simp only [hk0, if_true]
      · simp only [hk0, if_false]
        by_cases hk1 : options.getD 0 0 = 1
        · simp only [hk1, if_true]
          exact ih _ _ _ _ (by omega) k
        · simp only [hk1, if_false]
          by_cases hl : options.getD 1 0 = 0
          · simp only [hl, if_true]
          · simp only [hl, if_false]
            exact ih _ _ _ _ (by omega) k
    · simp only [hpos, if_false]

/-! ## Session steps keep the flow -/

/-- A property of both branches of a conditional holds for the conditional. -/
theorem ite_ind {α : Sort _} (P : α → Prop) (c : Prop) [Decidable c] (a b : α)
    (ha : c → P a) (hb : ¬ c → P b) : P (if c then a else b) := by
  by_cases h : c
  · rw [if_pos h]; exact ha h
  · rw [if_neg h]; exact hb h

/-- The RST writer `write_rst` keeps the endpoint fields. -/
theorem write_rst_key (res : Int) (t : tcp_session) :
    tcp_key (write_rst res t).1 = tcp_key t := by
  unfold write_rst
  dsimp only
  split_ifs <;> rfl

/-- The ACK writer `write_ack` keeps the endpoint fields. -/
theorem write_ack_key (res : Int) (t : tcp_session) :
    tcp_key (write_ack res t).1 = tcp_key t := by
  unfold write_ack
  dsimp only
  split_ifs <;> rfl

/-- Enqueueing with `queue_tcp` keeps the endpoint fields. -/
theorem queue_tcp_key (hdr : tcphdr) (t : tcp_session) (data : List Nat) (datalen : Nat) :
    tcp_key (queue_tcp hdr t data datalen) = tcp_key t := by
  unfold queue_tcp
  dsimp only
  split_ifs <;> rfl

/-- The bookkeeping `handle_tcp_refresh` keeps the endpoint fields. -/
theorem handle_tcp_refresh_key (env : handle_tcp_env) (p : tcp_input) (t : tcp_session) :
    tcp_key (handle_tcp_refresh env p t) = tcp_key t := by
  unfold handle_tcp_refresh
  dsimp only
  split_ifs <;> rfl

/-- The flag analysis `handle_tcp_flags` keeps the protocol tag and the endpoint fields. -/
theorem handle_tcp_flags_key (env : handle_tcp_env) (p : tcp_input) (cur : ng_session)
    (t3 : tcp_session) : same_flow cur t3 (handle_tcp_flags env p cur t3) := by
  unfold handle_tcp_flags
  dsimp only
  repeat' (apply ite_ind (same_flow cur t3) <;> intro _)
  all_goals
    refine ⟨rfl, ?_⟩
    first
    | rfl
    | exact write_ack_key env.tun_write _
    | exact write_rst_key env.tun_write _

/-- The step `handle_tcp_session` keeps the protocol tag and the endpoint fields. -/
theorem handle_tcp_session_key (env : handle_tcp_env) (p : tcp_input) (cur : ng_session) :
    same_flow cur cur.tcp (handle_tcp_session env p cur) := by
  unfold handle_tcp_session
  dsimp only
  apply ite_ind (same_flow cur cur.tcp) <;> intro _
  · exact ⟨rfl, (write_rst_key env.tun_write _).trans (handle_tcp_refresh_key _ _ _)⟩
  apply ite_ind (same_flow cur cur.tcp) <;> intro _
  · exact ⟨rfl, (write_rst_key env.tun_write _).trans (handle_tcp_refresh_key _ _ _)⟩
  refine ⟨(handle_tcp_flags_key _ _ _ _).1, ?_⟩
  rw [(handle_tcp_flags_key _ _ _ _).2]
  split_ifs
  · exact (queue_tcp_key _ _ _ _).trans (handle_tcp_refresh_key _ _ _)
  · exact handle_tcp_refresh_key _ _ _

/-- Whether two sessions share their TCP tuple depends on the protocol tag and the endpoint
fields of the first only. -/
theorem tcp_same_tuple_congr_left (a a1 b : ng_session) (hp : a1.protocol = a.protocol)
    (hk : tcp_key a1.tcp = tcp_key a.tcp) : tcp_same_tuple a1 b ↔ tcp_same_tuple a b := by
  unfold tcp_key at hk
  simp only [Prod.mk.injEq] at hk
  obtain ⟨h1, h2, h3, h4, h5⟩ := hk
  unfold tcp_same_tuple
  rw [hp, h1, h2, h3, h4, h5]

/-- Whether two sessions share their TCP tuple depends on the protocol tag and the endpoint
fields of the second only. -/
theorem tcp_same_tuple_congr_right (a b b1 : ng_session) (hp : b1.protocol = b.protocol)
    (hk : tcp_key b1.tcp = tcp_key b.tcp) : tcp_same_tuple a b1 ↔ tcp_same_tuple a b := by
  unfold tcp_key at hk
  simp only [Prod.mk.injEq] at hk
  obtain ⟨h1, h2, h3, h4, h5⟩ := hk
  unfold tcp_same_tuple
  rw [hp, h1, h2, h3, h4, h5]

/-- Every session of the list after `session_update` is a session of the list before or the
session put in. -/
theorem session_update_mem (f : ng_session → Bool) (s1 : ng_session) :
    ∀ (l : List ng_session) (x : ng_session), x ∈ session_update f s1 l → x ∈ l ∨ x = s1 := by
  intro l
  induction l with
  | nil => intro x hx; simp [session_update] at hx
  | cons d rest ih =>
    intro x hx
    unfold session_update at hx
    split_ifs at hx with hd
    · rcases List.mem_cons.mp hx with h | h
      · right; exact h
      · left; exact List.mem_cons_of_mem _ h
    · rcases List.mem_cons.mp hx with h | h
      · left; rw [h]; exact List.mem_cons_self _ _
      · rcases ih x h with h | h
        · left; exact List.mem_cons_of_mem _ h
        · right; exact h

/-- Replacing the first session that the lookup stops at by a session that is related to the
others only if the replaced one is keeps a list pairwise unrelated. -/
theorem session_update_pairwise (R : ng_session → ng_session → Prop) (f : ng_session → Bool)
    (s1 : ng_session) :
    ∀ (l : List ng_session) (cur : ng_session), l.find? f = some cur →
      (∀ x, R s1 x → R cur x) → (∀ x, R x s1 → R x cur) →
      l.Pairwise (fun a b => ¬ R a b) → (session_update f s1 l).Pairwise (fun a b => ¬ R a b) := by
  intro l
  induction l with
  | nil => intro cur h; simp at h
  | cons c rest ih =>
    intro cur hfind hleft hright hu
    have hu1 := List.pairwise_cons.mp hu
    unfold session_update
    by_cases hc : f c = true
    · rw [if_pos hc]
      have hcur : c = cur := by
        rw [List.find?_cons_of_pos _ hc] at hfind
        exact Option.some.inj hfind
      subst hcur
      refine List.pairwise_cons.mpr ⟨?_, hu1.2⟩
      intro x hx hsame
      exact hu1.1 x hx (hleft x hsame)
    · rw [if_neg hc]
      have hfind1 : rest.find? f = some cur := by
        rw [List.find?_cons_of_neg _ hc] at hfind
        exact hfind
      refine List.pairwise_cons.mpr ⟨?_, ih cur hfind1 hleft hright hu1.2⟩
      intro x hx hsame
      rcases session_update_mem f s1 rest x hx with h | h
      · exact hu1.1 x h hsame
      · have hcurmem : cur ∈ rest := List.mem_of_find?_eq_some hfind1
        rw [h] at hsame
        exact hu1.1 cur hcurmem (hright c hsame)

/-- Replacing the first session that the lookup stops at by one with the same protocol tag and
endpoint fields keeps the TCP tuples of the list pairwise distinct. -/
theorem session_update_unique (f : ng_session → Bool) (s1 : ng_session)
    (l : List ng_session) (cur : ng_session) (hfind : l.find? f = some cur)
    (hp : s1.protocol = cur.protocol) (hk : tcp_key s1.tcp = tcp_key cur.tcp)
    (hu : tcp_unique l) : tcp_unique (session_update f s1 l) :=
  session_update_pairwise tcp_same_tuple f s1 l cur hfind
    (fun x hx => (tcp_same_tuple_congr_left cur s1 x hp hk).mp hx)
    (fun x hx => (tcp_same_tuple_congr_right x cur s1 hp hk).mp hx) hu

/-- A session whose tuple equals the tuple of the session that `handle_tcp` builds for a packet
is a session that the lookup for that packet stops at. -/
theorem handle_tcp_new_same_tuple (env : handle_tcp_env) (p : tcp_input) (uid : Int)
    (mss ws : Nat) (sock : Int) (c : ng_session)
    (h : tcp_same_tuple (handle_tcp_new env p uid mss ws sock) c) :
    handle_tcp_match p c = true := by
  unfold tcp_same_tuple handle_tcp_new at h
  dsimp only at h
  obtain ⟨_, hc, hv, hs, hd, ha⟩ := h
  unfold handle_tcp_match
  rw [decide_eq_true_iff]
  refine ⟨hc, hv.symm, hs.symm, hd.symm, ?_⟩
  by_cases h4 : p.version = 4
  · rw [if_pos h4] at ha
    rw [if_pos h4]
    simp only [h4, if_true] at ha
    exact ⟨ha.1.symm, ha.2.symm⟩
  · rw [if_neg h4] at ha
    rw [if_neg h4]
    simp only [h4, if_false, List.take_take, min_self] at ha
    exact ⟨ha.1.symm, ha.2.symm⟩

/-- C10. `handle_tcp` keeps the TCP sessions unique: if no two TCP sessions of the list share
(family, source address, source port, destination address, destination port), then after
`handle_tcp` has processed a guest segment no two TCP sessions of the list share that tuple. The
lookup compares the tuple of the packet with every session, a new session is linked only when
the lookup found none, and a session that is updated keeps its tuple. -/
theorem handle_tcp_unique (h : athena_h) (env : handle_tcp_env) (sessions : List ng_session)
    (p : tcp_input) (uid allowed : Int) (r : tcp_result) (hu : tcp_unique sessions)
    (hr : handle_tcp h env sessions p uid allowed = some r) : tcp_unique r.sessions := by
  revert r
  show after_handle_tcp tcp_unique (handle_tcp h env sessions p uid allowed)
  unfold handle_tcp
  dsimp only
  apply ite_ind (after_handle_tcp tcp_unique) <;> intro _
  · intro r hr; cases hr; exact hu
  cases hfind : List.find? (handle_tcp_match p) sessions with
  | none =>
    have hnone : ∀ c ∈ sessions, ¬ handle_tcp_match p c = true :=
      fun c hc => by
        have := List.find?_eq_none.mp hfind c hc
        simpa using this
    dsimp only
    apply ite_ind (after_handle_tcp tcp_unique) <;> intro _
    · cases hopt : handle_tcp_options
          (((((p.tcphdr.doff : Int) - 5) * 4) % 256).toNat + 1)
          ((((p.tcphdr.doff : Int) - 5) * 4) % 256) p.tcpoptions (get_default_mss p.version) 0 with
      | none => intro r hr; cases hr
      | some mw =>
        obtain ⟨mss, ws⟩ := mw
        dsimp only
        apply ite_ind (after_handle_tcp tcp_unique) <;> intro _
        · intro r hr; cases hr; exact hu
        apply ite_ind (after_handle_tcp tcp_unique) <;> intro _
        · intro r hr; cases hr; exact hu
        apply ite_ind (after_handle_tcp tcp_unique) <;> intro _
        · intro r hr; cases hr
          refine List.pairwise_cons.mpr ⟨?_, hu⟩
          intro c hc hsame
          refine hnone c hc (handle_tcp_new_same_tuple env p uid mss ws
            (open_tcp_socket env.open_socket) c ?_)
          refine (tcp_same_tuple_congr_left
            (handle_tcp_new env p uid mss ws (open_tcp_socket env.open_socket)) _ c ?_ ?_).mp hsame
          · rfl
          · exact write_rst_key env.tun_write _
        · intro r hr; cases hr
          refine List.pairwise_cons.mpr ⟨?_, hu⟩
          intro c hc hsame
          refine hnone c hc (handle_tcp_new_same_tuple env p uid mss ws
            (open_tcp_socket env.open_socket) c ?_)
          refine (tcp_same_tuple_congr_left
            (handle_tcp_new env p uid mss ws (open_tcp_socket env.open_socket)) _ c ?_ ?_).mp hsame
          · rfl
          · rfl
    · intro r hr; cases hr; exact hu
  | some cur =>
    dsimp only
    apply ite_ind (after_handle_tcp tcp_unique) <;> intro _
    · intro r hr; cases hr
      exact session_update_unique _ _ sessions cur hfind rfl (write_rst_key env.tun_write _) hu
    · intro r hr; cases hr
      exact session_update_unique _ _ sessions cur hfind
        (handle_tcp_session_key env p cur).1 (handle_tcp_session_key env p cur).2 hu

/-- Witness of `handle_tcp_unique`: the first SYN of a flow on an empty session list. -/
theorem handle_tcp_unique_witness :
    handle_tcp consts env_ok [] syn_input 0 1
        = some { sessions := [syn_session], tun := [], ret := 1 }
      ∧ tcp_unique [syn_session] :=
  have hr : handle_tcp consts env_ok [] syn_input 0 1
      = some { sessions := [syn_session], tun := [], ret := 1 } := by decide
  ⟨hr, handle_tcp_unique consts env_ok [] syn_input 0 1 _ List.Pairwise.nil hr⟩

/-! ## The head of the forward queue -/

/-- The ACK writer `write_ack` keeps the forward queue. -/
theorem write_ack_forward (res : Int) (t : tcp_session) :
    (write_ack res t).1.forward = t.forward := by
  unfold write_ack
  dsimp only
  split_ifs <;> rfl

/-- The ACK writer `write_ack` keeps `remote_seq`. -/
theorem write_ack_remote_seq (res : Int) (t : tcp_session) :
    (write_ack res t).1.remote_seq = t.remote_seq := by
  unfold write_ack
  dsimp only
  split_ifs <;> rfl

/-- The ACK writer `write_ack` keeps the state or moves it to CLOSING. -/
theorem write_ack_state (res : Int) (t : tcp_session) :
    (write_ack res t).1.state = t.state ∨ (write_ack res t).1.state = TCP_CLOSING := by
  unfold write_ack
  dsimp only
  split_ifs
  · right; rfl
  · left; rfl

/-- The RST writer `write_rst` keeps the forward queue. -/
theorem write_rst_forward (res : Int) (t : tcp_session) :
    (write_rst res t).1.forward = t.forward := by
  unfold write_rst
  dsimp only
  split_ifs <;> rfl

/-- Outside LISTEN the RST writer `write_rst` keeps `remote_seq`. -/
theorem write_rst_remote_seq (res : Int) (t : tcp_session) (h : t.state ≠ TCP_LISTEN) :
    (write_rst res t).1.remote_seq = t.remote_seq := by
  unfold write_rst
  dsimp only
  split_ifs <;> first | rfl | contradiction

/-- The RST writer `write_rst` leaves the state CLOSING, or CLOSE when it was CLOSE. -/
theorem write_rst_state (res : Int) (t : tcp_session) :
    (write_rst res t).1.state = TCP_CLOSING
      ∨ ((write_rst res t).1.state = TCP_CLOSE ∧ t.state = TCP_CLOSE) := by
  unfold write_rst
  dsimp only
  split_ifs with h1 h2 h3
  · left; rfl
  · right; exact ⟨not_not.mp h2, not_not.mp h2⟩
  · left; rfl
  · right; exact ⟨not_not.mp h3, not_not.mp h3⟩

/-- Outside LISTEN the RST writer `write_rst` keeps the head of the queue at or after
`remote_seq`. -/
theorem write_rst_head_ok (res : Int) (t : tcp_session) (h : t.state ≠ TCP_LISTEN)
    (hk : head_ok t) : head_ok (write_rst res t).1 := by
  unfold head_ok
  rw [write_rst_forward, write_rst_remote_seq res t h]
  exact hk

/-- With an empty forward queue the session that `write_ack` leaves has no head to test. -/
theorem write_ack_head_ok_nil (res : Int) (t : tcp_session) (h : t.forward = []) :
    head_ok (write_ack res t).1 := by
  unfold head_ok
  rw [write_ack_forward, h]
  trivial

/-- The scan of `queue_tcp` for a `seq` that does not precede `remote_seq` keeps the head of the
queue at or after `remote_seq`. -/
theorem queue_tcp_scan_head_ok (remote_seq seq datalen : Nat) (psh : Bool) (data : List Nat)
    (q : List segment) (hs : compare_u32 seq remote_seq ≥ 0) (hq : queue_head_ok remote_seq q) :
    queue_head_ok remote_seq (queue_tcp_scan seq datalen psh data q) := by
  cases q with
  | nil => exact hs
  | cons s rest =>
    unfold queue_tcp_scan
    split_ifs with h1 h2 h3 h4
    · exact hq
    · exact hs
    · exact hq
    · exact hq
    · exact hq

/-- Enqueueing with `queue_tcp` keeps the head of the queue at or after `remote_seq`. -/
theorem queue_tcp_head_ok (hdr : tcphdr) (t : tcp_session) (data : List Nat) (datalen : Nat)
    (hk : head_ok t) : head_ok (queue_tcp hdr t data datalen) := by
  unfold queue_tcp
  dsimp only
  split_ifs with h
  · exact queue_tcp_scan_head_ok _ _ _ _ _ _ h hk
  · exact hk

/-- Enqueueing with `queue_tcp` keeps the state. -/
theorem queue_tcp_state (hdr : tcphdr) (t : tcp_session) (data : List Nat) (datalen : Nat) :
    (queue_tcp hdr t data datalen).state = t.state := by
  unfold queue_tcp
  dsimp only
  split_ifs <;> rfl

/-- The bookkeeping `handle_tcp_refresh` keeps state, `remote_seq` and the forward queue. -/
theorem handle_tcp_refresh_frame (env : handle_tcp_env) (p : tcp_input) (t : tcp_session) :
    (handle_tcp_refresh env p t).state = t.state
      ∧ (handle_tcp_refresh env p t).remote_seq = t.remote_seq
      ∧ (handle_tcp_refresh env p t).forward = t.forward := by
  unfold handle_tcp_refresh
  dsimp only
  split_ifs <;> exact ⟨rfl, rfl, rfl⟩

/-- Outside LISTEN and FIN_WAIT1 the flag analysis `handle_tcp_flags` keeps the head of the
queue at or after `remote_seq`. -/
theorem handle_tcp_flags_head_ok (env : handle_tcp_env) (p : tcp_input) (cur : ng_session)
    (t3 : tcp_session) (h3 : head_ok t3) (hl : t3.state ≠ TCP_LISTEN)
    (hf : t3.state ≠ TCP_FIN_WAIT1) :
    result_ok (fun s => head_ok s.tcp) (handle_tcp_flags env p cur t3) := by
  unfold handle_tcp_flags
  dsimp only
  repeat' (apply ite_ind (result_ok (fun s => head_ok s.tcp)) <;> intro _)
  all_goals
    first
    | exact h3
    | exact write_rst_head_ok env.tun_write t3 hl h3
    | exact absurd (by assumption) hf
    | exact write_ack_head_ok_nil env.tun_write _ (by assumption)

/-- Outside LISTEN and FIN_WAIT1 the step `handle_tcp_session` keeps the head of the queue at
or after `remote_seq`. -/
theorem handle_tcp_session_head_ok (env : handle_tcp_env) (p : tcp_input) (cur : ng_session)
    (hk : head_ok cur.tcp) (hl : cur.tcp.state ≠ TCP_LISTEN)
    (hf : cur.tcp.state ≠ TCP_FIN_WAIT1) :
    result_ok (fun s => head_ok s.tcp) (handle_tcp_session env p cur) := by
  have hfr := handle_tcp_refresh_frame env p cur.tcp
  have hl2 : (handle_tcp_refresh env p cur.tcp).state ≠ TCP_LISTEN := by rw [hfr.1]; exact hl
  have hf2 : (handle_tcp_refresh env p cur.tcp).state ≠ TCP_FIN_WAIT1 := by rw [hfr.1]; exact hf
  have hk2 : head_ok (handle_tcp_refresh env p cur.tcp) := by
    unfold head_ok; rw [hfr.2.1, hfr.2.2]; exact hk
  unfold handle_tcp_session
  dsimp only
  apply ite_ind (result_ok (fun s => head_ok s.tcp)) <;> intro _
  · exact write_rst_head_ok env.tun_write _ hl2 hk2
  apply ite_ind (result_ok (fun s => head_ok s.tcp)) <;> intro _
  · exact write_rst_head_ok env.tun_write _ hl2 hk2
  apply handle_tcp_flags_head_ok
  · split_ifs
    · exact queue_tcp_head_ok _ _ _ _ hk2
    · exact hk2
  · split_ifs
    · rw [queue_tcp_state]; exact hl2
    · exact hl2
  · split_ifs
    · rw [queue_tcp_state]; exact hf2
    · exact hf2

/-- The session that `handle_tcp` builds for a SYN has its queued data, if any, at
`remote_seq`. -/
theorem handle_tcp_new_head_ok (env : handle_tcp_env) (p : tcp_input) (uid : Int)
    (mss ws : Nat) (sock : Int) : head_ok (handle_tcp_new env p uid mss ws sock).tcp := by
  unfold head_ok handle_tcp_new
  dsimp only
  split_ifs
  · show compare_u32 (ntohl p.tcphdr.seq) (ntohl p.tcphdr.seq) ≥ 0
    rw [(compare_u32_eq_zero_iff _ _).mpr rfl]
  · trivial

/-- The FIN/ACK writer `write_fin_ack` keeps `remote_seq` and the forward queue. -/
theorem write_fin_ack_frame (res : Int) (t : tcp_session) :
    (write_fin_ack res t).1.remote_seq = t.remote_seq
      ∧ (write_fin_ack res t).1.forward = t.forward := by
  unfold write_fin_ack
  dsimp only
  split_ifs <;> exact ⟨rfl, rfl⟩

/-- The data writer `write_data` keeps `remote_seq` and the forward queue. -/
theorem write_data_frame (res : Int) (t : tcp_session) (buffer : List Nat) (length : Nat) :
    (write_data res t buffer length).1.remote_seq = t.remote_seq
      ∧ (write_data res t buffer length).1.forward = t.forward := by
  unfold write_data
  dsimp only
  split_ifs <;> exact ⟨rfl, rfl⟩

/-- The ACK writer `write_ack` keeps the head of the queue at or after `remote_seq`. -/
theorem write_ack_head_ok (res : Int) (t : tcp_session) (hk : head_ok t) :
    head_ok (write_ack res t).1 := by
  unfold head_ok
  rw [write_ack_forward, write_ack_remote_seq]
  exact hk

/-- The FIN/ACK writer `write_fin_ack` keeps the head of the queue at or after
`remote_seq`. -/
theorem write_fin_ack_head_ok (res : Int) (t : tcp_session) (hk : head_ok t) :
    head_ok (write_fin_ack res t).1 := by
  unfold head_ok
  rw [(write_fin_ack_frame res t).1, (write_fin_ack_frame res t).2]
  exact hk

/-- The data writer `write_data` keeps the head of the queue at or after `remote_seq`. -/
theorem write_data_head_ok (res : Int) (t : tcp_session) (buffer : List Nat) (length : Nat)
    (hk : head_ok t) : head_ok (write_data res t buffer length).1 := by
  unfold head_ok
  rw [(write_data_frame res t buffer length).1, (write_data_frame res t buffer length).2]
  exact hk

/-- Outside LISTEN the drain loop of `check_tcp_socket` leaves the head of the queue at or after
`remote_seq`, when every queued segment starts at or after the end of its predecessor. -/
theorem check_tcp_socket_drain_head_ok (env : check_tcp_socket_env) :
    ∀ (q : List segment) (i : Nat) (t : tcp_session) (buffer_size : Nat) (fwd : Bool)
      (host : List (List Nat)), t.state ≠ TCP_LISTEN → queue_head_ok t.remote_seq q →
      forward_chained q →
      head_ok (check_tcp_socket_drain env i t buffer_size fwd host q).t := by
  intro q
  induction q with
  | nil =>
    intro i t buffer_size fwd host _ _ _
    trivial
  | cons f rest ih =>
    intro i t buffer_size fwd host hl hk hch
    unfold check_tcp_socket_drain
    dsimp only
    apply ite_ind (fun r : drain_result => head_ok r.t) <;> intro _
    · apply ite_ind (fun r : drain_result => head_ok r.t) <;> intro _
      · apply ite_ind (fun r : drain_result => head_ok r.t) <;> intro _
        · exact hk
        · exact write_rst_head_ok (env.tun_write 0) { t with forward := f :: rest } hl hk
      · apply ite_ind (fun r : drain_result => head_ok r.t) <;> intro hfull
        · apply ih
          · exact hl
          · cases rest with
            | nil => trivial
            | cons b rest2 =>
              have hb : compare_u32 b.seq ((f.seq + f.len) % 2 ^ 32) ≥ 0 := hch.1
              show compare_u32 b.seq
                ((f.seq + (f.sent + (env.send i).toNat) % 2 ^ 16) % 2 ^ 32) ≥ 0
              have e : (f.sent + (env.send i).toNat) % 2 ^ 16 = f.len := hfull.symm
              rw [e]
              exact hb
          · cases rest with
            | nil => trivial
            | cons b rest2 => exact hch.2
        · exact hk
    · exact hk

/-- The window update of `check_tcp_socket` keeps the head of the queue at or after
`remote_seq`. -/
theorem check_tcp_socket_window_head_ok (h : athena_h) (env : check_tcp_socket_env)
    (s : ng_session) (d : drain_result) (hk : head_ok d.t) :
    head_ok (check_tcp_socket_window h env s d).1.tcp := by
  unfold check_tcp_socket_window
  dsimp only
  have hw : head_ok
      (write_ack (env.tun_write d.tun.length)
        (if d.fwd = true ∧ d.t.forward = [] ∧ d.t.state = TCP_CLOSE_WAIT then
          { d.t with recv_window := get_receive_window h env.probe_window { s with tcp := d.t },
                     remote_seq := (d.t.remote_seq + 1) % 2 ^ 32 }
        else
          { d.t with recv_window :=
              get_receive_window h env.probe_window { s with tcp := d.t } })).1 := by
    apply write_ack_head_ok
    apply ite_ind head_ok <;> intro hc
    · show queue_head_ok _ d.t.forward
      rw [hc.2.1]
      trivial
    · exact hk
  apply ite_ind (fun r : ng_session × List tcp_packet => head_ok r.1.tcp) <;> intro _
  · apply ite_ind (fun r : ng_session × List tcp_packet => head_ok r.1.tcp) <;> intro _
    · exact hw
    · exact hw
  · exact hk

/-- The state change after the FIN/ACK keeps `remote_seq` and the forward queue. -/
theorem check_tcp_socket_fin_state_frame (t : tcp_session) :
    (check_tcp_socket_fin_state t).remote_seq = t.remote_seq
      ∧ (check_tcp_socket_fin_state t).forward = t.forward := by
  unfold check_tcp_socket_fin_state
  split_ifs <;> exact ⟨rfl, rfl⟩

/-- Outside LISTEN the end-of-stream handling of `check_tcp_socket` keeps the head of the queue
at or after `remote_seq`. -/
theorem check_tcp_socket_eof_head_ok (env : check_tcp_socket_env) (t : tcp_session) (n : Nat)
    (hl : t.state ≠ TCP_LISTEN) (hk : head_ok t) :
    head_ok (check_tcp_socket_eof env t n).1 := by
  unfold check_tcp_socket_eof
  dsimp only
  apply ite_ind (fun r : tcp_session × tcp_packet => head_ok r.1) <;> intro _
  · show queue_head_ok (check_tcp_socket_fin_state _).remote_seq
      (check_tcp_socket_fin_state _).forward
    rw [(check_tcp_socket_fin_state_frame _).1, (check_tcp_socket_fin_state_frame _).2]
    apply ite_ind head_ok <;> intro _
    · exact write_fin_ack_head_ok (env.tun_write n) t hk
    · exact write_fin_ack_head_ok (env.tun_write n) t hk
  · exact write_rst_head_ok (env.tun_write n) t hl hk

/-- The read from the host socket in `check_tcp_socket` keeps the head of the queue at or after
`remote_seq`. -/
theorem check_tcp_socket_recv_head_ok (env : check_tcp_socket_env) (s : ng_session)
    (out : List tcp_packet) (hk : head_ok s.tcp) :
    head_ok (check_tcp_socket_recv env s out).1.tcp := by
  unfold check_tcp_socket_recv
  dsimp only
  apply ite_ind (fun r : ng_session × List tcp_packet => head_ok r.1.tcp) <;> intro hst
  · have hl : s.tcp.state ≠ TCP_LISTEN := by
      rcases hst with h1 | h1 <;> rw [h1] <;> decide
    apply ite_ind (fun r : ng_session × List tcp_packet => head_ok r.1.tcp) <;> intro _
    · apply ite_ind (fun r : ng_session × List tcp_packet => head_ok r.1.tcp) <;> intro _
      · apply ite_ind (fun r : ng_session × List tcp_packet => head_ok r.1.tcp) <;> intro _
        · exact write_rst_head_ok (env.tun_write out.length)
            { s.tcp with time := env.now_in } hl hk
        · exact hk
      · apply ite_ind (fun r : ng_session × List tcp_packet => head_ok r.1.tcp) <;> intro _
        · exact check_tcp_socket_eof_head_ok env { s.tcp with time := env.now_in } out.length
            hl hk
        · apply ite_ind (fun r : ng_session × List tcp_packet => head_ok r.1.tcp)
            <;> intro _
          · exact write_data_head_ok (env.tun_write out.length) _ env.recv_buffer _ hk
          · exact write_data_head_ok (env.tun_write out.length) _ env.recv_buffer _ hk
    · exact hk
  · exact hk

/-- Outside LISTEN the readiness handler `check_tcp_socket` keeps the head of the queue at or
after `remote_seq`, when every queued segment starts at or after the end of its
predecessor. -/
theorem check_tcp_socket_head_ok (h : athena_h) (c : socks5_config)
    (env : check_tcp_socket_env) (s : ng_session) (hl : s.tcp.state ≠ TCP_LISTEN)
    (hk : head_ok s.tcp) (hch : forward_chained s.tcp.forward) :
    head_ok (check_tcp_socket h c env s).s.tcp := by
  unfold check_tcp_socket
  dsimp only
  apply ite_ind (fun r : socket_result => head_ok r.s.tcp) <;> intro _
  · exact write_rst_head_ok (env.tun_write 0) { s.tcp with time := env.now } hl hk
  apply ite_ind (fun r : socket_result => head_ok r.s.tcp) <;> intro hst
  · exact absurd hst hl
  · apply check_tcp_socket_recv_head_ok
    apply check_tcp_socket_window_head_ok
    split_ifs
    · exact check_tcp_socket_drain_head_ok env _ _ _ _ _ _ hl hk hch
    · exact hk

/-- C5 (code bug). `handle_tcp` builds `syn_session` from a SYN that carries one byte: the byte
is queued at seq `0x1000`, which is `remote_seq`. When the host socket becomes writable,
`check_tcp_socket` advances `remote_seq` to `0x1001` for the SYN/ACK and enters SYN_RECV; the
head of the forward queue still has seq `0x1000`, which precedes `remote_seq`, in a reachable
session list. After the guest's ACK the session `wedged_session` is in ESTABLISHED with the
head still behind `remote_seq`, and a write-readiness event changes nothing: the drain loop
sends only a head whose seq is `remote_seq`, so the byte is never forwarded. -/
theorem head_behind_after_syn_ack :
    handle_tcp consts env_ok [] syn_input 0 1
        = some { sessions := [syn_session], tun := [], ret := 1 }
      ∧ head_ok syn_session.tcp
      ∧ (check_tcp_socket consts no_socks5 (env_writable 48) syn_session).s.tcp.state = TCP_SYN_RECV
      ∧ (check_tcp_socket consts no_socks5 (env_writable 48) syn_session).s.tcp.remote_seq = 0x1001
      ∧ ((check_tcp_socket consts no_socks5 (env_writable 48) syn_session).s.tcp.forward.map
          (fun f => (f.seq, compare_u32 f.seq 0x1001))) = [(0x1000, -1)]
      ∧ ¬ head_ok (check_tcp_socket consts no_socks5 (env_writable 48) syn_session).s.tcp
      ∧ reachable consts no_socks5
          [(check_tcp_socket consts no_socks5 (env_writable 48) syn_session).s]
      ∧ handle_tcp consts env_ok
          [(check_tcp_socket consts no_socks5 (env_writable 48) syn_session).s] ack_input 0 1
          = some { sessions := [wedged_session], tun := [], ret := 1 }
      ∧ reachable consts no_socks5 [wedged_session]
      ∧ wedged_session.tcp.state = TCP_ESTABLISHED
      ∧ ¬ head_ok wedged_session.tcp
      ∧ check_tcp_socket consts no_socks5 (env_writable 40) wedged_session
          = { s := wedged_session, tun := [], host := [] } := by
  have h1 : handle_tcp consts env_ok [] syn_input 0 1
      = some { sessions := [syn_session], tun := [], ret := 1 } := by decide
  have r1 : reachable consts no_socks5
      [(check_tcp_socket consts no_socks5 (env_writable 48) syn_session).s] :=
    reachable.socket [] syn_session [] (env_writable 48)
      (reachable.handle [] env_ok syn_input 0 1 _ reachable.init h1) rfl
  have h2 : handle_tcp consts env_ok
      [(check_tcp_socket consts no_socks5 (env_writable 48) syn_session).s] ack_input 0 1
      = some { sessions := [wedged_session], tun := [], ret := 1 } := by decide
  exact ⟨h1, by decide, by decide, by decide, by decide, by decide, r1, h2,
    reachable.handle _ env_ok ack_input 0 1 _ r1 h2, by decide, by decide, by decide⟩

/-- If the head of every session's forward queue is at or after `remote_seq`, the same holds
after `handle_tcp`, provided that the session of the segment, if it has one, is not in LISTEN or
FIN_WAIT1 and that a SYN which is refused (`allowed = 0`) carries no data. -/
theorem handle_tcp_head_ok (h : athena_h) (env : handle_tcp_env) (sessions : List ng_session)
    (p : tcp_input) (uid allowed : Int) (r : tcp_result)
    (hall : ∀ s ∈ sessions, head_ok s.tcp)
    (hstate : ∀ cur, sessions.find? (handle_tcp_match p) = some cur →
      cur.tcp.state ≠ TCP_LISTEN ∧ cur.tcp.state ≠ TCP_FIN_WAIT1)
    (hsyn : allowed ≠ 0 ∨ p.datalen = 0)
    (hr : handle_tcp h env sessions p uid allowed = some r) :
    ∀ s ∈ r.sessions, head_ok s.tcp := by
  revert r
  show after_handle_tcp (fun l => ∀ s ∈ l, head_ok s.tcp)
    (handle_tcp h env sessions p uid allowed)
  unfold handle_tcp
  dsimp only
  apply ite_ind (after_handle_tcp (fun l => ∀ s ∈ l, head_ok s.tcp)) <;> intro _
  · intro r hr; cases hr; exact hall
  cases hfind : List.find? (handle_tcp_match p) sessions with
  | none =>
    dsimp only
    apply ite_ind (after_handle_tcp (fun l => ∀ s ∈ l, head_ok s.tcp)) <;> intro _
    · cases hopt : handle_tcp_options
          (((((p.tcphdr.doff : Int) - 5) * 4) % 256).toNat + 1)
          ((((p.tcphdr.doff : Int) - 5) * 4) % 256) p.tcpoptions (get_default_mss p.version) 0 with
      | none => intro r hr; cases hr
      | some mw =>
        obtain ⟨mss, ws⟩ := mw
        dsimp only
        apply ite_ind (after_handle_tcp (fun l => ∀ s ∈ l, head_ok s.tcp)) <;> intro _
        · intro r hr; cases hr; exact hall
        apply ite_ind (after_handle_tcp (fun l => ∀ s ∈ l, head_ok s.tcp)) <;> intro _
        · intro r hr; cases hr; exact hall
        apply ite_ind (after_handle_tcp (fun l => ∀ s ∈ l, head_ok s.tcp)) <;> intro ha
        · intro r hr; cases hr
          intro s hs
          rcases List.mem_cons.mp hs with h1 | h1
          · have hd : p.datalen = 0 := by
              rcases hsyn with h2 | h2
              · exact absurd ha h2
              · exact h2
            rw [h1]
            unfold head_ok
            rw [write_rst_forward]
            unfold handle_tcp_new
            dsimp only
            rw [if_neg (not_not.mpr hd)]
            trivial
          · exact hall s h1
        · intro r hr; cases hr
          intro s hs
          rcases List.mem_cons.mp hs with h1 | h1
          · rw [h1]
            exact handle_tcp_new_head_ok env p uid mss ws (open_tcp_socket env.open_socket)
          · exact hall s h1
    · intro r hr; cases hr; exact hall
  | some cur =>
    have hcur : cur ∈ sessions := List.mem_of_find?_eq_some hfind
    dsimp only
    apply ite_ind (after_handle_tcp (fun l => ∀ s ∈ l, head_ok s.tcp)) <;> intro hc
    · intro r hr; cases hr
      intro s hs
      rcases session_update_mem _ _ _ s hs with h1 | h1
      · exact hall s h1
      · rw [h1]
        exact write_rst_head_ok env.tun_write cur.tcp (hstate cur hfind).1 (hall cur hcur)
    · intro r hr; cases hr
      intro s hs
      rcases session_update_mem _ _ _ s hs with h1 | h1
      · exact hall s h1
      · rw [h1]
        exact handle_tcp_session_head_ok env p cur (hall cur hcur) (hstate cur hfind).1
          (hstate cur hfind).2

/-- The steps that keep the head of the queue in place. Let the head of a session's forward queue,
if any, be at or after `remote_seq` (`compare_u32(head.seq, remote_seq) >= 0`). (a) If that holds
for every session of the list, it holds again after `handle_tcp`, provided that the session of the
segment, if it has one, is not in LISTEN or FIN_WAIT1 and that a SYN which is refused
(`allowed = 0`) carries no data; in particular the data of a SYN is queued at `remote_seq`. (b) For a session
that is not in LISTEN and whose queued segments each start at or after the end of their
predecessor (`compare_u32(next.seq, seq + len) >= 0`), it holds again after `check_tcp_socket`. -/
theorem head_ok_steps (h : athena_h) (c : socks5_config) :
    (∀ (env : handle_tcp_env) (sessions : List ng_session) (p : tcp_input) (uid allowed : Int)
        (r : tcp_result),
        (∀ s ∈ sessions, head_ok s.tcp) →
        (∀ cur, sessions.find? (handle_tcp_match p) = some cur →
          cur.tcp.state ≠ TCP_LISTEN ∧ cur.tcp.state ≠ TCP_FIN_WAIT1) →
        (allowed ≠ 0 ∨ p.datalen = 0) →
        handle_tcp h env sessions p uid allowed = some r →
        ∀ s ∈ r.sessions, head_ok s.tcp)
      ∧ (∀ (env : check_tcp_socket_env) (s : ng_session),
          s.tcp.state ≠ TCP_LISTEN → head_ok s.tcp → forward_chained s.tcp.forward →
          head_ok (check_tcp_socket h c env s).s.tcp) :=
  ⟨fun env sessions p uid allowed r hall hstate hsyn hr =>
      handle_tcp_head_ok h env sessions p uid allowed r hall hstate hsyn hr,
    fun env s hl hk hch => check_tcp_socket_head_ok h c env s hl hk hch⟩

/-- Witness of `head_ok_steps`: a data segment for an ESTABLISHED session with an empty forward
queue is queued by `handle_tcp`, and `check_tcp_socket` then forwards its first byte. -/
theorem head_ok_steps_witness :
    handle_tcp consts env_ok [est_session] data_input 0 1
        = some { sessions := [est_data_session], tun := [], ret := 1 }
      ∧ (∀ s ∈ [est_data_session], head_ok s.tcp)
      ∧ forward_chained est_data_session.tcp.forward
      ∧ (check_tcp_socket consts no_socks5 (env_writable 40) est_data_session).s.tcp.forward
          = [{ seq := 0x1001, len := 2, sent := 1, psh := true, data := [72, 73] }]
      ∧ head_ok (check_tcp_socket consts no_socks5 (env_writable 40) est_data_session).s.tcp :=
  have hr : handle_tcp consts env_ok [est_session] data_input 0 1
      = some { sessions := [est_data_session], tun := [], ret := 1 } := by decide
  have hk : ∀ s ∈ [est_data_session], head_ok s.tcp :=
    (head_ok_steps consts no_socks5).1 env_ok [est_session] data_input 0 1 _
      (by decide) (by decide) (by decide) hr
  have hch : forward_chained est_data_session.tcp.forward := by decide
  ⟨hr, hk, hch, by decide,
    (head_ok_steps consts no_socks5).2 (env_writable 40) est_data_session (by decide)
      (hk est_data_session (List.mem_singleton_self _)) hch⟩

/-! ## A closed session has no socket -/

/-- CLOSING is none of FIN_WAIT1, LAST_ACK, CLOSE. -/
theorem closing_not_closed : ¬ closed_state TCP_CLOSING := by decide

/-- CLOSE_WAIT is none of FIN_WAIT1, LAST_ACK, CLOSE. -/
theorem close_wait_not_closed : ¬ closed_state TCP_CLOSE_WAIT := by decide

/-- ESTABLISHED is none of FIN_WAIT1, LAST_ACK, CLOSE. -/
theorem established_not_closed : ¬ closed_state TCP_ESTABLISHED := by decide

/-- LISTEN is none of FIN_WAIT1, LAST_ACK, CLOSE. -/
theorem listen_not_closed : ¬ closed_state TCP_LISTEN := by decide

/-- SYN_RECV is none of FIN_WAIT1, LAST_ACK, CLOSE. -/
theorem syn_recv_not_closed : ¬ closed_state TCP_SYN_RECV := by decide

/-- If the state after `write_ack` is FIN_WAIT1, LAST_ACK or CLOSE, it was so before. -/
theorem closed_state_write_ack (res : Int) (t : tcp_session)
    (h : closed_state (write_ack res t).1.state) : closed_state t.state := by
  rcases write_ack_state res t with e | e
  · rw [e] at h; exact h
  · rw [e] at h; exact absurd h closing_not_closed

/-- If the state after `write_rst` is FIN_WAIT1, LAST_ACK or CLOSE, it was so before. -/
theorem closed_state_write_rst (res : Int) (t : tcp_session)
    (h : closed_state (write_rst res t).1.state) : closed_state t.state := by
  rcases write_rst_state res t with e | ⟨_, e⟩
  · rw [e] at h; exact absurd h closing_not_closed
  · rw [e]; exact Or.inr (Or.inr rfl)

/-- If the state after `write_syn_ack` is FIN_WAIT1, LAST_ACK or CLOSE, it was so before. -/
theorem closed_state_write_syn_ack (res : Int) (t : tcp_session)
    (h : closed_state (write_syn_ack res t).1.state) : closed_state t.state := by
  unfold write_syn_ack at h
  dsimp only at h
  split_ifs at h
  · exact absurd h closing_not_closed
  · exact h

/-- If the state after `write_fin_ack` is FIN_WAIT1, LAST_ACK or CLOSE, it was so before. -/
theorem closed_state_write_fin_ack (res : Int) (t : tcp_session)
    (h : closed_state (write_fin_ack res t).1.state) : closed_state t.state := by
  unfold write_fin_ack at h
  dsimp only at h
  split_ifs at h
  · exact absurd h closing_not_closed
  · exact h

/-- If the state after `write_data` is FIN_WAIT1, LAST_ACK or CLOSE, it was so before. -/
theorem closed_state_write_data (res : Int) (t : tcp_session) (buffer : List Nat)
    (length : Nat) (h : closed_state (write_data res t buffer length).1.state) :
    closed_state t.state := by
  unfold write_data at h
  dsimp only at h
  split_ifs at h
  · exact absurd h closing_not_closed
  · exact h

/-- The flag analysis `handle_tcp_flags` leaves a session without socket whenever it leaves it in
FIN_WAIT1, LAST_ACK or CLOSE, if that held before. -/
theorem handle_tcp_flags_closed (env : handle_tcp_env) (p : tcp_input) (cur : ng_session)
    (t3 : tcp_session) (hinv : closed_state t3.state → cur.socket < 0) :
    result_ok closed_no_socket (handle_tcp_flags env p cur t3) := by
  unfold handle_tcp_flags
  dsimp only
  repeat' (apply ite_ind (result_ok closed_no_socket) <;> intro _)
  all_goals
    first
    | exact hinv
    | exact fun h => absurd h closing_not_closed
    | exact fun h => absurd h close_wait_not_closed
    | exact fun h => absurd h established_not_closed
    | exact fun h => hinv (closed_state_write_ack env.tun_write _ h :)
    | exact fun h => hinv (closed_state_write_rst env.tun_write _ h :)
    | exact fun _ => hinv (Or.inl (by assumption))

/-- The step `handle_tcp_session` keeps `closed_no_socket`. -/
theorem handle_tcp_session_closed (env : handle_tcp_env) (p : tcp_input) (cur : ng_session)
    (hinv : closed_no_socket cur) :
    result_ok closed_no_socket (handle_tcp_session env p cur) := by
  have hfr := handle_tcp_refresh_frame env p cur.tcp
  have h2 : closed_state (handle_tcp_refresh env p cur.tcp).state → cur.socket < 0 := by
    rw [hfr.1]; exact hinv
  unfold handle_tcp_session
  dsimp only
  apply ite_ind (result_ok closed_no_socket) <;> intro _
  · exact fun h => h2 (closed_state_write_rst env.tun_write _ h)
  apply ite_ind (result_ok closed_no_socket) <;> intro _
  · exact fun h => h2 (closed_state_write_rst env.tun_write _ h)
  apply handle_tcp_flags_closed
  split_ifs
  · rw [queue_tcp_state]; exact h2
  · exact h2

/-- The session list that `handle_tcp` leaves has no session in FIN_WAIT1, LAST_ACK or CLOSE
with an open socket, if the list before had none. -/
theorem handle_tcp_closed (h : athena_h) (env : handle_tcp_env) (sessions : List ng_session)
    (p : tcp_input) (uid allowed : Int) (hall : ∀ s ∈ sessions, closed_no_socket s) :
    after_handle_tcp (fun l => ∀ s ∈ l, closed_no_socket s)
      (handle_tcp h env sessions p uid allowed) := by
  unfold handle_tcp
  dsimp only
  apply ite_ind (after_handle_tcp (fun l => ∀ s ∈ l, closed_no_socket s)) <;> intro _
  · intro r hr; cases hr; exact hall
  cases hfind : List.find? (handle_tcp_match p) sessions with
  | none =>
    dsimp only
    apply ite_ind (after_handle_tcp (fun l => ∀ s ∈ l, closed_no_socket s)) <;> intro _
    · cases hopt : handle_tcp_options
          (((((p.tcphdr.doff : Int) - 5) * 4) % 256).toNat + 1)
          ((((p.tcphdr.doff : Int) - 5) * 4) % 256) p.tcpoptions (get_default_mss p.version) 0 with
      | none => intro r hr; cases hr
      | some mw =>
        obtain ⟨mss, ws⟩ := mw
        dsimp only
        apply ite_ind (after_handle_tcp (fun l => ∀ s ∈ l, closed_no_socket s)) <;> intro _
        · intro r hr; cases hr; exact hall
        apply ite_ind (after_handle_tcp (fun l => ∀ s ∈ l, closed_no_socket s)) <;> intro _
        · intro r hr; cases hr; exact hall
        apply ite_ind (after_handle_tcp (fun l => ∀ s ∈ l, closed_no_socket s)) <;> intro _
        · intro r hr; cases hr
          intro s hs
          rcases List.mem_cons.mp hs with h1 | h1
          · rw [h1]
            intro hc
            have := closed_state_write_rst env.tun_write _ hc
            exact absurd this listen_not_closed
          · exact hall s h1
        · intro r hr; cases hr
          intro s hs
          rcases List.mem_cons.mp hs with h1 | h1
          · rw [h1]
            intro hc
            exact absurd hc listen_not_closed
          · exact hall s h1
    · intro r hr; cases hr; exact hall
  | some cur =>
    have hcur : cur ∈ sessions := List.mem_of_find?_eq_some hfind
    dsimp only
    apply ite_ind (after_handle_tcp (fun l => ∀ s ∈ l, closed_no_socket s)) <;> intro hc
    · intro r hr; cases hr
      intro s hs
      rcases session_update_mem _ _ _ s hs with h1 | h1
      · exact hall s h1
      · rw [h1]
        exact fun h => hall cur hcur (closed_state_write_rst env.tun_write _ h)
    · intro r hr; cases hr
      intro s hs
      rcases session_update_mem _ _ _ s hs with h1 | h1
      · exact hall s h1
      · rw [h1]
        exact handle_tcp_session_closed env p cur (hall cur hcur)

/-- The expiry test of `check_tcp_session` keeps `closed_no_socket`. -/
theorem check_tcp_session_expire_closed (h : athena_h) (env : check_tcp_session_env)
    (s : ng_session) (sessions maxsessions : Int) (hinv : closed_no_socket s) :
    closed_no_socket (check_tcp_session_expire h env s sessions maxsessions).1 := by
  unfold check_tcp_session_expire
  dsimp only
  apply ite_ind (fun r : ng_session × List tcp_packet => closed_no_socket r.1) <;> intro _
  · apply ite_ind (fun r : ng_session × List tcp_packet => closed_no_socket r.1) <;> intro _
    · exact fun h => absurd h closing_not_closed
    · exact fun h => hinv (closed_state_write_rst env.tun_write _ h :)
  · exact hinv

/-- After the closing step of `check_tcp_session` a session in FIN_WAIT1, LAST_ACK or CLOSE has
no socket, if that held before. -/
theorem check_tcp_session_close_closed (env : check_tcp_session_env) (s1 : ng_session)
    (hinv : closed_no_socket s1) : closed_no_socket (check_tcp_session_close env s1) := by
  unfold check_tcp_session_close
  dsimp only
  apply ite_ind closed_no_socket <;> intro _
  · intro _
    show (if s1.socket ≥ 0 then ({ s1 with socket := -1 } : ng_session) else s1).socket < 0
    split_ifs with hs
    · show (-1 : Int) < 0
      decide
    · exact not_le.mp hs
  · exact hinv

/-- The counter reset of `check_tcp_session` keeps `closed_no_socket`. -/
theorem check_tcp_session_counters_closed (s2 : ng_session) (hinv : closed_no_socket s2) :
    closed_no_socket (check_tcp_session_counters s2) := by
  unfold check_tcp_session_counters
  apply ite_ind closed_no_socket <;> intro _
  · exact hinv
  · exact hinv

/-- The housekeeping `check_tcp_session` keeps `closed_no_socket`. -/
theorem check_tcp_session_closed (h : athena_h) (env : check_tcp_session_env) (s : ng_session)
    (sessions maxsessions : Int) (hinv : closed_no_socket s) :
    closed_no_socket (check_tcp_session h env s sessions maxsessions).1 := by
  have h3 := check_tcp_session_counters_closed _
    (check_tcp_session_close_closed env _
      (check_tcp_session_expire_closed h env s sessions maxsessions hinv))
  unfold check_tcp_session
  dsimp only
  apply ite_ind (fun r : ng_session × List tcp_packet × Int => closed_no_socket r.1) <;> intro _
  · exact h3
  · exact h3

/-- The send-window test of `monitor_tcp_session` keeps `closed_no_socket`. -/
theorem monitor_tcp_session_window_closed (h : athena_h) (env : monitor_tcp_session_env)
    (s : ng_session) (hinv : closed_no_socket s) :
    closed_no_socket (monitor_tcp_session_window h env s).1 := by
  unfold monitor_tcp_session_window
  dsimp only
  apply ite_ind (fun r : ng_session × List tcp_packet × Int × Nat => closed_no_socket r.1)
    <;> intro _
  · exact hinv
  apply ite_ind (fun r : ng_session × List tcp_packet × Int × Nat => closed_no_socket r.1)
    <;> intro _
  · exact fun h => hinv (closed_state_write_ack env.tun_write _ h :)
  · exact hinv

/-- The forward-queue test of `monitor_tcp_session` does not change the session. -/
theorem monitor_tcp_session_forward_fst (h : athena_h) (env : monitor_tcp_session_env)
    (a : ng_session × List tcp_packet × Int × Nat) :
    (monitor_tcp_session_forward h env a).1 = a.1 := by
  unfold monitor_tcp_session_forward
  split
  · rfl
  · dsimp only
    split_ifs <;> rfl

/-- The housekeeping `monitor_tcp_session` keeps `closed_no_socket`. -/
theorem monitor_tcp_session_closed (h : athena_h) (env : monitor_tcp_session_env)
    (s : ng_session) (hinv : closed_no_socket s) :
    closed_no_socket (monitor_tcp_session h env s).1 := by
  have hr : closed_no_socket
      (if s.tcp.state = TCP_LISTEN then
        if s.tcp.socks5 = SOCKS5_NONE then (s, [], 0, EPOLLERR ||| EPOLLOUT)
        else (s, [], 0, EPOLLERR ||| EPOLLIN)
      else if s.tcp.state = TCP_ESTABLISHED ∨ s.tcp.state = TCP_CLOSE_WAIT then
        monitor_tcp_session_forward h env (monitor_tcp_session_window h env s)
      else ((s, [], 0, EPOLLERR) : ng_session × List tcp_packet × Int × Nat)).1 := by
    apply ite_ind (fun r : ng_session × List tcp_packet × Int × Nat => closed_no_socket r.1)
      <;> intro _
    · apply ite_ind (fun r : ng_session × List tcp_packet × Int × Nat => closed_no_socket r.1)
        <;> intro _
      · exact hinv
      · exact hinv
    apply ite_ind (fun r : ng_session × List tcp_packet × Int × Nat => closed_no_socket r.1)
      <;> intro _
    · show closed_no_socket (monitor_tcp_session_forward h env _).1
      rw [monitor_tcp_session_forward_fst]
      exact monitor_tcp_session_window_closed h env s hinv
    · exact hinv
  unfold monitor_tcp_session
  dsimp only
  apply ite_ind (fun r : ng_session × List tcp_packet × Int => closed_no_socket r.1) <;> intro _
  · apply ite_ind (fun r : ng_session × List tcp_packet × Int => closed_no_socket r.1)
      <;> intro _
    · exact fun h => absurd h closing_not_closed
    · exact hr
  · exact hr

/-- If the state after the SOCKS5 reply handling is FIN_WAIT1, LAST_ACK or CLOSE, it was so
before. -/
theorem check_tcp_socket_listen_reply_state (c : socks5_config) (env : check_tcp_socket_env)
    (t : tcp_session) (h : closed_state (check_tcp_socket_listen_reply c env t).1.state) :
    closed_state t.state := by
  revert h
  unfold check_tcp_socket_listen_reply
  dsimp only
  repeat'
    (apply ite_ind
        (fun r : tcp_session × List tcp_packet =>
          closed_state r.1.state → closed_state t.state) <;>
      intro _)
  all_goals
    first
    | exact fun h => h
    | exact fun h => (closed_state_write_rst (env.tun_write 0) _ h :)

/-- The request half of `check_tcp_socket` in LISTEN keeps `closed_no_socket`. -/
theorem check_tcp_socket_listen_request_closed (c : socks5_config)
    (env : check_tcp_socket_env) (s : ng_session) (out : List tcp_packet)
    (hinv : closed_no_socket s) :
    closed_no_socket (check_tcp_socket_listen_request c env s out).s := by
  unfold check_tcp_socket_listen_request
  dsimp only
  repeat' (apply ite_ind (fun r : socket_result => closed_no_socket r.s) <;> intro _)
  all_goals
    first
    | exact hinv
    | exact fun h => absurd h syn_recv_not_closed
    | exact fun h => hinv (closed_state_write_syn_ack (env.tun_write out.length) _ h :)

/-- If the state after the drain loop is FIN_WAIT1, LAST_ACK or CLOSE, it was so before. -/
theorem check_tcp_socket_drain_state (env : check_tcp_socket_env) :
    ∀ (q : List segment) (i : Nat) (t : tcp_session) (buffer_size : Nat) (fwd : Bool)
      (host : List (List Nat)),
      closed_state (check_tcp_socket_drain env i t buffer_size fwd host q).t.state →
        closed_state t.state := by
  intro q
  induction q with
  | nil =>
    intro i t buffer_size fwd host h
    exact h
  | cons f rest ih =>
    intro i t buffer_size fwd host
    unfold check_tcp_socket_drain
    dsimp only
    apply ite_ind (fun r : drain_result => closed_state r.t.state → closed_state t.state)
      <;> intro _
    · apply ite_ind (fun r : drain_result => closed_state r.t.state → closed_state t.state)
        <;> intro _
      · apply ite_ind (fun r : drain_result => closed_state r.t.state → closed_state t.state)
          <;> intro _
        · exact fun h => h
        · exact fun h => (closed_state_write_rst (env.tun_write 0) _ h :)
      · apply ite_ind (fun r : drain_result => closed_state r.t.state → closed_state t.state)
          <;> intro _
        · exact fun h => (ih _ _ _ _ _ h :)
        · exact fun h => h
    · exact fun h => h

/-- The window update of `check_tcp_socket` keeps `closed_no_socket`, for a drain that did not
bring the state into FIN_WAIT1, LAST_ACK or CLOSE. -/
theorem check_tcp_socket_window_closed (h : athena_h) (env : check_tcp_socket_env)
    (s : ng_session) (d : drain_result) (hinv : closed_state d.t.state → s.socket < 0) :
    closed_no_socket (check_tcp_socket_window h env s d).1 := by
  unfold check_tcp_socket_window
  dsimp only
  apply ite_ind (fun r : ng_session × List tcp_packet => closed_no_socket r.1) <;> intro _
  · have hw : closed_state
        (write_ack (env.tun_write d.tun.length)
          (if d.fwd = true ∧ d.t.forward = [] ∧ d.t.state = TCP_CLOSE_WAIT then
            { d.t with recv_window := get_receive_window h env.probe_window { s with tcp := d.t },
                       remote_seq := (d.t.remote_seq + 1) % 2 ^ 32 }
          else
            { d.t with recv_window :=
                get_receive_window h env.probe_window { s with tcp := d.t } })).1.state →
        s.socket < 0 := by
      intro hc
      have h1 := closed_state_write_ack _ _ hc
      apply hinv
      split_ifs at h1
      · exact h1
      · exact h1
    apply ite_ind (fun r : ng_session × List tcp_packet => closed_no_socket r.1) <;> intro _
    · exact hw
    · exact hw
  · exact hinv

/-- The read from the host socket in `check_tcp_socket` keeps `closed_no_socket`: the states
FIN_WAIT1 and LAST_ACK are entered on the path that closes the socket. -/
theorem check_tcp_socket_recv_closed (env : check_tcp_socket_env) (s : ng_session)
    (out : List tcp_packet) (hinv : closed_no_socket s) :
    closed_no_socket (check_tcp_socket_recv env s out).1 := by
  unfold check_tcp_socket_recv
  dsimp only
  apply ite_ind (fun r : ng_session × List tcp_packet => closed_no_socket r.1) <;> intro _
  · apply ite_ind (fun r : ng_session × List tcp_packet => closed_no_socket r.1) <;> intro _
    · apply ite_ind (fun r : ng_session × List tcp_packet => closed_no_socket r.1) <;> intro _
      · apply ite_ind (fun r : ng_session × List tcp_packet => closed_no_socket r.1) <;> intro _
        · exact fun h => hinv (closed_state_write_rst (env.tun_write out.length) _ h :)
        · exact hinv
      · apply ite_ind (fun r : ng_session × List tcp_packet => closed_no_socket r.1) <;> intro _
        · intro _
          show (if s.socket ≥ 0 then (-1 : Int) else s.socket) < 0
          split_ifs with hs
          · decide
          · exact not_le.mp hs
        · apply ite_ind (fun r : ng_session × List tcp_packet => closed_no_socket r.1)
            <;> intro _
          · exact fun h =>
              hinv (closed_state_write_data (env.tun_write out.length) _ _ _ h :)
          · exact fun h =>
              hinv (closed_state_write_data (env.tun_write out.length) _ _ _ h :)
    · exact hinv
  · exact hinv

/-- The readiness handler `check_tcp_socket` keeps `closed_no_socket`. -/
theorem check_tcp_socket_closed (h : athena_h) (c : socks5_config)
    (env : check_tcp_socket_env) (s : ng_session) (hinv : closed_no_socket s) :
    closed_no_socket (check_tcp_socket h c env s).s := by
  unfold check_tcp_socket
  dsimp only
  apply ite_ind (fun r : socket_result => closed_no_socket r.s) <;> intro _
  · exact fun h => hinv (closed_state_write_rst (env.tun_write 0) _ h :)
  apply ite_ind (fun r : socket_result => closed_no_socket r.s) <;> intro _
  · apply check_tcp_socket_listen_request_closed
    exact fun h => hinv (check_tcp_socket_listen_reply_state c env s.tcp h)
  · apply check_tcp_socket_recv_closed
    apply check_tcp_socket_window_closed
    split_ifs
    · exact fun h => hinv (check_tcp_socket_drain_state env _ _ _ _ _ _ h)
    · exact hinv

/-- Every session of a reachable list that is in FIN_WAIT1, LAST_ACK or CLOSE has no open host
socket. -/
theorem reachable_closed (h : athena_h) (c : socks5_config) (l : List ng_session)
    (hl : reachable h c l) : ∀ s ∈ l, closed_no_socket s := by
  induction hl with
  | init => intro s hs; cases hs
  | handle l env p uid allowed r _ hr ih => exact handle_tcp_closed h env l p uid allowed ih r hr
  | socket pre s post env _ _ ih =>
    intro x hx
    rcases List.mem_append.mp hx with h1 | h1
    · exact ih x (List.mem_append_left _ h1)
    · rcases List.mem_cons.mp h1 with h2 | h2
      · rw [h2]
        exact check_tcp_socket_closed h c env s
          (ih s (List.mem_append_right _ (List.mem_cons_self _ _)))
      · exact ih x (List.mem_append_right _ (List.mem_cons_of_mem _ h2))
  | monitor pre s post env _ _ _ ih =>
    intro x hx
    rcases List.mem_append.mp hx with h1 | h1
    · exact ih x (List.mem_append_left _ h1)
    · rcases List.mem_cons.mp h1 with h2 | h2
      · rw [h2]
        exact monitor_tcp_session_closed h env s
          (ih s (List.mem_append_right _ (List.mem_cons_self _ _)))
      · exact ih x (List.mem_append_right _ (List.mem_cons_of_mem _ h2))
  | check pre s post env sessions maxsessions _ _ ih =>
    intro x hx
    rcases List.mem_append.mp hx with h1 | h1
    · exact ih x (List.mem_append_left _ h1)
    · rcases List.mem_cons.mp h1 with h2 | h2
      · rw [h2]
        exact check_tcp_session_closed h env s sessions maxsessions
          (ih s (List.mem_append_right _ (List.mem_cons_self _ _)))
      · exact ih x (List.mem_append_right _ (List.mem_cons_of_mem _ h2))
  | reap pre s post _ ih =>
    intro x hx
    rcases List.mem_append.mp hx with h1 | h1
    · exact ih x (List.mem_append_left _ h1)
    · exact ih x (List.mem_append_right _ (List.mem_cons_of_mem _ h1))

/-- C8. Every TCP session in state CLOSE has no open host socket (`socket < 0`), in every
session list reachable from the empty list through `handle_tcp`, `check_tcp_socket`,
`monitor_tcp_session`, `check_tcp_session` and the reaper, whatever the kernel answers. The
state CLOSE is entered from CLOSING with the descriptor set to -1, and from FIN_WAIT1, which is
entered on the path that closes the socket. -/
theorem close_has_no_socket (h : athena_h) (c : socks5_config) (l : List ng_session)
    (hl : reachable h c l) (s : ng_session) (hs : s ∈ l) (_hp : s.protocol = IPPROTO_TCP)
    (hc : s.tcp.state = TCP_CLOSE) : s.socket < 0 :=
  reachable_closed h c l hl s hs (Or.inr (Or.inr hc))

/-- Witness of `close_has_no_socket`: the session built from a SYN stays in LISTEN past its
timeout; `check_tcp_session` moves it through CLOSING to CLOSE and its descriptor is -1. -/
theorem close_has_no_socket_witness :
    (check_tcp_session consts env_expired syn_session 0 100).1.tcp.state = TCP_CLOSE
      ∧ (check_tcp_session consts env_expired syn_session 0 100).1.socket < 0 :=
  have hr : handle_tcp consts env_ok [] syn_input 0 1
      = some { sessions := [syn_session], tun := [], ret := 1 } := by decide
  have hc : (check_tcp_session consts env_expired syn_session 0 100).1.tcp.state = TCP_CLOSE := by
    decide
  ⟨hc, close_has_no_socket consts no_socks5
    [(check_tcp_session consts env_expired syn_session 0 100).1]
    (reachable.check [] syn_session [] env_expired 0 100
      (reachable.handle [] env_ok syn_input 0 1 _ reachable.init hr) rfl)
    _ (List.mem_singleton_self _) rfl hc⟩

/-! ## handle_udp -/

/-- C9 (code bug). A guest sends the same datagram to 198.18.0.1 port 53 twice. The first call
of `handle_udp` builds a session whose stored destination is 1.1.1.1; the lookup of the second
call compares that stored destination with 198.18.0.1, finds no session and builds a second
one with the same (family, source address, source port, destination address, destination
port). -/
theorem handle_udp_dns_duplicate :
    (handle_udp env_udp [] dns_input 0 none).sessions = [dns_session]
      ∧ udp_unique [dns_session]
      ∧ (handle_udp env_udp [dns_session] dns_input 0 none).sessions
          = [dns_session, dns_session]
      ∧ udp_same_tuple dns_session dns_session
      ∧ ¬ udp_unique [dns_session, dns_session] := by
  refine ⟨by decide, List.pairwise_singleton _ _, by decide, by decide, ?_⟩
  intro hu
  exact (List.pairwise_cons.mp hu).1 dns_session (List.mem_singleton_self _) (by decide)

/-- Whether two sessions share their UDP tuple depends on the protocol tag and the endpoint
fields of the first only. -/
theorem udp_same_tuple_congr_left (a a1 b : ng_session) (hp : a1.protocol = a.protocol)
    (hk : udp_key a1.udp = udp_key a.udp) : udp_same_tuple a1 b ↔ udp_same_tuple a b := by
  unfold udp_key at hk
  simp only [Prod.mk.injEq] at hk
  obtain ⟨h1, h2, h3, h4, h5⟩ := hk
  unfold udp_same_tuple
  rw [hp, h1, h2, h3, h4, h5]

/-- Whether two sessions share their UDP tuple depends on the protocol tag and the endpoint
fields of the second only. -/
theorem udp_same_tuple_congr_right (a b b1 : ng_session) (hp : b1.protocol = b.protocol)
    (hk : udp_key b1.udp = udp_key b.udp) : udp_same_tuple a b1 ↔ udp_same_tuple a b := by
  unfold udp_key at hk
  simp only [Prod.mk.injEq] at hk
  obtain ⟨h1, h2, h3, h4, h5⟩ := hk
  unfold udp_same_tuple
  rw [hp, h1, h2, h3, h4, h5]

/-- The tail `handle_udp_send` keeps the protocol tag and the endpoint fields. -/
theorem handle_udp_send_key (env : handle_udp_env) (p : udp_input) (redirect : Option allowed)
    (cur : ng_session) :
    (handle_udp_send env p redirect cur).1.protocol = cur.protocol
      ∧ udp_key (handle_udp_send env p redirect cur).1.udp = udp_key cur.udp := by
  unfold handle_udp_send
  dsimp only
  split_ifs <;> exact ⟨rfl, rfl⟩

/-- For a datagram that the DNS redirect does not rewrite, a session whose tuple equals the
tuple of the session that `handle_udp` builds is a session that the lookup stops at. -/
theorem handle_udp_new_same_tuple (env : handle_udp_env) (p : udp_input) (uid : Int)
    (redirect : Option allowed) (sock : Int) (c : ng_session) (hd : ¬ dns_redirected p)
    (h : udp_same_tuple (handle_udp_new env p uid redirect sock) c) :
    handle_udp_match p c = true := by
  unfold udp_same_tuple handle_udp_new at h
  dsimp only at h
  obtain ⟨_, hc, hv, hs, hdst, ha⟩ := h
  unfold handle_udp_match
  rw [decide_eq_true_iff]
  refine ⟨hc, hv.symm, hs.symm, hdst.symm, ?_⟩
  by_cases h4 : p.version = 4
  · rw [if_pos h4] at ha
    rw [if_pos h4]
    have hnot : ¬ (p.daddr.ip4 = htonl 0xC6120001 ∧ ntohs p.udphdr.dest = 53) :=
      fun hh => hd ⟨h4, hh.1, hh.2⟩
    simp only [h4, if_true, hnot, if_false] at ha
    exact ⟨ha.1.symm, ha.2.symm⟩
  · rw [if_neg h4] at ha
    rw [if_neg h4]
    simp only [h4, if_false, List.take_take, min_self] at ha
    exact ⟨ha.1.symm, ha.2.symm⟩

/-- Apart from the DNS redirect, `handle_udp` keeps the UDP sessions unique: for a guest
datagram that is not addressed to 198.18.0.1 port 53 over IPv4, a list in which no two UDP
sessions share their tuple is again such a list after `handle_udp`. -/
theorem handle_udp_unique (env : handle_udp_env) (sessions : List ng_session) (p : udp_input)
    (uid : Int) (redirect : Option allowed) (hd : ¬ dns_redirected p)
    (hu : udp_unique sessions) : udp_unique (handle_udp env sessions p uid redirect).sessions := by
  unfold handle_udp
  cases hfind : List.find? (handle_udp_match p) sessions with
  | some cur =>
    dsimp only
    apply ite_ind (fun r : udp_result => udp_unique r.sessions) <;> intro _
    · exact hu
    · exact session_update_pairwise udp_same_tuple _ _ sessions cur hfind
        (fun x hx => (udp_same_tuple_congr_left cur _ x
          (handle_udp_send_key env p redirect cur).1
          (handle_udp_send_key env p redirect cur).2).mp hx)
        (fun x hx => (udp_same_tuple_congr_right x cur _
          (handle_udp_send_key env p redirect cur).1
          (handle_udp_send_key env p redirect cur).2).mp hx) hu
  | none =>
    have hnone : ∀ c ∈ sessions, ¬ handle_udp_match p c = true :=
      fun c hc => by
        have := List.find?_eq_none.mp hfind c hc
        simpa using this
    dsimp only
    apply ite_ind (fun r : udp_result => udp_unique r.sessions) <;> intro _
    · exact hu
    apply ite_ind (fun r : udp_result => udp_unique r.sessions) <;> intro _
    · exact hu
    · refine List.pairwise_cons.mpr ⟨?_, hu⟩
      intro c hc hsame
      refine hnone c hc (handle_udp_new_same_tuple env p uid redirect (open_udp_socket env) c hd ?_)
      exact (udp_same_tuple_congr_left
        (handle_udp_new env p uid redirect (open_udp_socket env)) _ c
        (handle_udp_send_key env p redirect _).1
        (handle_udp_send_key env p redirect _).2).mp hsame

/-! ## calc_checksum -/

/-- Folding a sum `65536 * q + r` of two 16-bit halves is folding `q + r`. -/
theorem ones_fold_qr (q r : Nat) (hq : q < 65536) (hr : r < 65536) :
    ones_fold (65536 * q + r) = ones_fold (q + r) := by
  unfold ones_fold
  split_ifs <;> omega

/-- A 16-bit value is its own representative. -/
theorem ones_fold_small (x : Nat) (hx : x < 65536) : ones_fold x = x := by
  unfold ones_fold
  split_ifs <;> omega

/-- Two iterations of the folding loop of `calc_checksum` turn a `uint32_t` sum into its
ones'-complement representative. -/
theorem calc_checksum_fold_eq (x : Nat) (hx : x < 2 ^ 32) :
    calc_checksum_fold 2 x = ones_fold x := by
  obtain ⟨q, r, rfl, hr⟩ : ∃ q r, x = 65536 * q + r ∧ r < 65536 :=
    ⟨x / 65536, x % 65536, by omega, by omega⟩
  have hq : q < 65536 := by omega
  rw [ones_fold_qr q r hq hr]
  unfold calc_checksum_fold calc_checksum_fold calc_checksum_fold
  norm_num
  have e1 : (65536 * q + r) / 65536 = q := by omega
  have e2 : (65536 * q + r) % 65536 = r := by omega
  rw [e1, e2]
  have e3 : (r + q) % 4294967296 = r + q := by omega
  rw [e3]
  by_cases h0 : q = 0
  · subst h0
    simp
    exact (ones_fold_small r hr).symm
  · rw [if_neg h0]
    by_cases h1 : r + q < 65536
    · have : (r + q) / 65536 = 0 := by omega
      have h2 : q + r < 65536 := by omega
      rw [if_pos this, ones_fold_small _ h2]
      omega
    · have : ¬ (r + q) / 65536 = 0 := by omega
      rw [if_neg this]
      unfold ones_fold
      split_ifs <;> omega

/-- One iteration of the folding loop of `calc_checksum`. -/
theorem calc_checksum_fold_succ (n y : Nat) :
    calc_checksum_fold (n + 1) y
      = if y / 2 ^ 16 ≠ 0 then calc_checksum_fold n ((y % 2 ^ 16 + y / 2 ^ 16) % 2 ^ 32)
        else y := rfl

/-- Once `sum >> 16` is 0 the folding loop of `calc_checksum` has ended, whatever the bound on
its iterations. -/
theorem calc_checksum_fold_stop (n y : Nat) (hy : y / 2 ^ 16 = 0) :
    calc_checksum_fold n y = y := by
  cases n with
  | zero => rfl
  | succ n => rw [calc_checksum_fold_succ, if_neg (not_not.mpr hy)]

/-- The bound of two iterations in `calc_checksum` is never the reason the folding loop ends:
for a `uint32_t` sum the loop condition `sum >> 16` is false after two iterations, and a larger
bound gives the same value. -/
theorem calc_checksum_fold_done (x : Nat) (hx : x < 2 ^ 32) (k : Nat) :
    calc_checksum_fold 2 x / 2 ^ 16 = 0
      ∧ calc_checksum_fold (2 + k) x = calc_checksum_fold 2 x := by
  have hlt : calc_checksum_fold 2 x < 65536 := by
    rw [calc_checksum_fold_eq x hx]
    unfold ones_fold
    split_ifs <;> omega
  have hadd : ∀ (n k y : Nat), calc_checksum_fold (n + k) y
      = calc_checksum_fold k (calc_checksum_fold n y) := by
    intro n
    induction n with
    | zero => intro k y; simp [calc_checksum_fold]
    | succ n ih =>
      intro k y
      rw [Nat.add_right_comm, calc_checksum_fold_succ, calc_checksum_fold_succ]
      by_cases hy : y / 2 ^ 16 = 0
      · rw [if_neg (not_not.mpr hy), if_neg (not_not.mpr hy), calc_checksum_fold_stop k y hy]
      · rw [if_pos hy, if_pos hy]
        exact ih k _
  refine ⟨by omega, ?_⟩
  rw [hadd 2 k x]
  exact calc_checksum_fold_stop k _ (by omega)

/-- A representative is a 16-bit value. -/
theorem ones_fold_lt (x : Nat) : ones_fold x < 65536 := by
  unfold ones_fold
  split_ifs <;> omega

/-- Folding may be done before or after an addition. -/
theorem ones_fold_add (a b : Nat) : ones_fold (ones_fold a + b) = ones_fold (a + b) := by
  unfold ones_fold
  split_ifs <;> omega

/-- A sum and the complement of its representative add up to the representative `0xFFFF`. -/
theorem ones_fold_complement (x : Nat) : ones_fold (x + (65535 - ones_fold x)) = 65535 := by
  by_cases hx : x = 0
  · subst hx
    decide
  · have h1 : ones_fold x = (x - 1) % 65535 + 1 := by
      unfold ones_fold
      rw [if_neg hx]
    rw [h1]
    unfold ones_fold
    split_ifs <;> omega

/-- The summation loop of `calc_checksum` adds the words of the buffer to the start value,
modulo `2^32`. -/
theorem calc_checksum_sum_eq (l : List Nat) :
    ∀ s : Nat, s < 2 ^ 32 → calc_checksum_sum s l = (s + word_sum l) % 2 ^ 32 := by
  induction l using word_sum.induct with
  | case1 => intro s hs; simp [calc_checksum_sum, word_sum]; omega
  | case2 b0 => intro s hs; simp [calc_checksum_sum, word_sum]
  | case3 b0 b1 rest ih =>
    intro s hs
    rw [calc_checksum_sum, ih _ (Nat.mod_lt _ (by norm_num)), word_sum]
    omega

/-- The words of a buffer of bytes add up to at most `0xFFFF` per word. -/
theorem word_sum_le (l : List Nat) :
    (∀ b ∈ l, b < 256) → word_sum l ≤ 65535 * ((l.length + 1) / 2) := by
  induction l using word_sum.induct with
  | case1 => intro _; simp [word_sum]
  | case2 b0 => intro hb; simp [word_sum]; have := hb b0 (by simp); omega
  | case3 b0 b1 rest ih =>
    intro hb
    have h0 := hb b0 (by simp)
    have h1 := hb b1 (by simp)
    have h2 := ih (fun b hm => hb b (by simp [hm]))
    simp only [word_sum, List.length_cons]
    omega

/-- Behind a buffer of even length the words of the next buffer start at a word boundary. -/
theorem word_sum_append (a : List Nat) :
    ∀ b : List Nat, a.length % 2 = 0 → word_sum (a ++ b) = word_sum a + word_sum b := by
  induction a using word_sum.induct with
  | case1 => intro b _; simp [word_sum]
  | case2 b0 => intro b h; simp at h
  | case3 b0 b1 rest ih =>
    intro b h
    have h2 : rest.length % 2 = 0 := by simp only [List.length_cons] at h; omega
    show word_sum (b0 :: b1 :: (rest ++ b)) = _
    rw [word_sum, ih b h2, word_sum]
    omega

/-- For a 16-bit start value and at most 131070 bytes, `calc_checksum` returns the
representative of the start value plus the words of the buffer: the `uint32_t` accumulator
does not wrap. -/
theorem calc_checksum_eq (s : Nat) (l : List Nat) (n : Nat) (hs : s < 2 ^ 16)
    (hb : ∀ b ∈ l, b < 256) (hn : n ≤ 131070) :
    calc_checksum s l n = ones_fold (s + word_sum (l.take n)) := by
  have hb2 : ∀ b ∈ l.take n, b < 256 := fun b hm => hb b (List.mem_of_mem_take hm)
  have hle := word_sum_le (l.take n) hb2
  have hlen : (l.take n).length ≤ n := by simp
  have hw : word_sum (l.take n) ≤ 65535 * 65535 := by
    calc word_sum (l.take n) ≤ 65535 * (((l.take n).length + 1) / 2) := hle
      _ ≤ 65535 * 65535 := by apply Nat.mul_le_mul_left; omega
  unfold calc_checksum
  rw [Nat.mod_eq_of_lt hs, calc_checksum_sum_eq _ _ (by omega),
    Nat.mod_eq_of_lt (by omega : s + word_sum (l.take n) < 2 ^ 32),
    calc_checksum_fold_eq _ (by omega)]
  exact Nat.mod_eq_of_lt (by have := ones_fold_lt (s + word_sum (l.take n)); omega)

/-- The result of `calc_checksum` is a 16-bit value. -/
theorem calc_checksum_lt (s : Nat) (l : List Nat) (n : Nat) : calc_checksum s l n < 65536 := by
  unfold calc_checksum
  exact Nat.mod_lt _ (by norm_num)

/-- Over the first `n` bytes `calc_checksum` does not read what follows them. -/
theorem calc_checksum_head (s : Nat) (a b : List Nat) (n : Nat) (h : a.length = n) :
    calc_checksum s (a ++ b) n = calc_checksum s a n := by
  unfold calc_checksum
  rw [← h, List.take_left, List.take_length]

/-- The chain of calls in `write_tcp` and `write_udp`: pseudo-header, transport header with a
zero checksum field, options, payload, each call starting from the result of the one before,
returns the representative of the sum of all their words. -/
theorem calc_checksum_chain (P H0 O D : List Nat) (np nh no nd : Nat)
    (hnp : P.length = np) (hnh : H0.length = nh) (hno : O.length = no)
    (hPb : ∀ b ∈ P, b < 256) (hHb : ∀ b ∈ H0, b < 256) (hOb : ∀ b ∈ O, b < 256)
    (hDb : ∀ b ∈ D, b < 256)
    (hp : np ≤ 131070) (hh : nh ≤ 131070) (ho : no ≤ 131070) (hd : nd ≤ 131070) :
    calc_checksum (calc_checksum (calc_checksum (calc_checksum 0 P np) H0 nh) O no) D nd
      = ones_fold (word_sum P + word_sum H0 + word_sum O + word_sum (D.take nd)) := by
  have tP : P.take np = P := by rw [← hnp]; exact List.take_length P
  have tH : H0.take nh = H0 := by rw [← hnh]; exact List.take_length H0
  have tO : O.take no = O := by rw [← hno]; exact List.take_length O
  rw [calc_checksum_eq 0 P np (by norm_num) hPb hp, tP, Nat.zero_add,
    calc_checksum_eq _ H0 nh (ones_fold_lt _) hHb hh, tH, ones_fold_add,
    calc_checksum_eq _ O no (ones_fold_lt _) hOb ho, tO, ones_fold_add,
    calc_checksum_eq _ D nd (ones_fold_lt _) hDb hd, ones_fold_add]

/-- The check a receiver makes: when the checksum field of the transport header holds the
complement of the chained `calc_checksum`, one pass of `calc_checksum` over pseudo-header,
header, options and payload gives `0xFFFF`. The three leading parts have even length, so the
words of each part start at a word boundary; the payload may have odd length. -/
theorem calc_checksum_verify (P H0 Hc O D : List Nat) (np nh no nd : Nat)
    (hnp : P.length = np) (hnh : H0.length = nh) (hnc : Hc.length = nh) (hno : O.length = no)
    (hPb : ∀ b ∈ P, b < 256) (hHb : ∀ b ∈ H0, b < 256) (hCb : ∀ b ∈ Hc, b < 256)
    (hOb : ∀ b ∈ O, b < 256) (hDb : ∀ b ∈ D, b < 256)
    (ep : np % 2 = 0) (eh : nh % 2 = 0) (eo : no % 2 = 0)
    (hlen : np + nh + no + nd ≤ 131070)
    (hw : word_sum Hc = word_sum H0 + (65535
      - calc_checksum (calc_checksum (calc_checksum (calc_checksum 0 P np) H0 nh) O no) D nd)) :
    calc_checksum 0 (P ++ (Hc ++ O ++ D.take nd)) (P ++ (Hc ++ O ++ D.take nd)).length
      = 65535 := by
  have hchain := calc_checksum_chain P H0 O D np nh no nd hnp hnh hno hPb hHb hOb hDb
    (by omega) (by omega) (by omega) (by omega)
  rw [hchain] at hw
  have hDb2 : ∀ b ∈ D.take nd, b < 256 := fun b hm => hDb b (List.mem_of_mem_take hm)
  have hall : ∀ b ∈ P ++ (Hc ++ O ++ D.take nd), b < 256 := by
    intro b hm
    simp only [List.mem_append] at hm
    rcases hm with h | (h | h) | h
    · exact hPb b h
    · exact hCb b h
    · exact hOb b h
    · exact hDb2 b h
  have hl : (P ++ (Hc ++ O ++ D.take nd)).length ≤ 131070 := by
    have : (D.take nd).length ≤ nd := by simp
    simp only [List.length_append]
    omega
  rw [calc_checksum_eq 0 _ _ (by norm_num) hall hl, List.take_length, Nat.zero_add,
    word_sum_append P _ (by omega), List.append_assoc,
    word_sum_append Hc _ (by omega), word_sum_append O _ (by omega), hw]
  have := ones_fold_complement (word_sum P + word_sum H0 + word_sum O + word_sum (D.take nd))
  have e : word_sum P + (word_sum H0 + (65535
      - ones_fold (word_sum P + word_sum H0 + word_sum O + word_sum (D.take nd)))
      + (word_sum O + word_sum (D.take nd)))
      = word_sum P + word_sum H0 + word_sum O + word_sum (D.take nd) + (65535
      - ones_fold (word_sum P + word_sum H0 + word_sum O + word_sum (D.take nd))) := by
    omega
  rw [e]
  exact this

/-! ## Packets in memory -/

/-- Every element of the image of a `struct iphdr` is a byte. -/
theorem iphdr_mem_bytes (tl p c s d : Nat) : ∀ b ∈ iphdr_mem tl p c s d, b < 256 := by
  intro b hb
  simp only [iphdr_mem, mem16, mem32, List.cons_append, List.nil_append, List.mem_cons,
    List.mem_singleton, List.not_mem_nil, or_false] at hb
  omega

/-- The checksum field of a `struct iphdr` enters the words of the header as one word. -/
theorem iphdr_mem_word_sum (tl p c s d : Nat) (hc : c < 65536) :
    word_sum (iphdr_mem tl p c s d) = word_sum (iphdr_mem tl p 0 s d) + c := by
  simp only [iphdr_mem, mem16, mem32, List.cons_append, List.nil_append, word_sum]
  omega

/-- The image of a `struct iphdr` has 20 bytes. -/
theorem iphdr_mem_take (tl p c s d : Nat) :
    (iphdr_mem tl p c s d).take 20 = iphdr_mem tl p c s d := by
  simp [iphdr_mem, mem16, mem32]

/-- An IPv4 header whose checksum field holds the complement of `calc_checksum` over the header
with a zero checksum field sums to `0xFFFF`. -/
theorem iphdr_mem_checksum (tl p s d : Nat) :
    calc_checksum 0 (iphdr_mem tl p (0xFFFF - calc_checksum 0 (iphdr_mem tl p 0 s d) 20) s d) 20
      = 0xFFFF := by
  rw [calc_checksum_eq 0 _ 20 (by norm_num) (iphdr_mem_bytes _ _ _ _ _) (by norm_num),
    calc_checksum_eq 0 _ 20 (by norm_num) (iphdr_mem_bytes _ _ _ _ _) (by norm_num),
    iphdr_mem_take, iphdr_mem_take, iphdr_mem_word_sum _ _ _ _ _ (by omega)]
  simp only [Nat.zero_add]
  exact ones_fold_complement _

/-- The result of `memcpy_bytes n` has `n` bytes. -/
theorem memcpy_bytes_length (n : Nat) : ∀ l : List Nat, (memcpy_bytes n l).length = n := by
  induction n with
  | zero => intro l; rfl
  | succ n ih =>
    intro l
    cases l with
    | nil => simp [memcpy_bytes, ih]
    | cons b rest => simp [memcpy_bytes, ih]

/-- Every element of the result of `memcpy_bytes` is a byte. -/
theorem memcpy_bytes_bytes (n : Nat) : ∀ l : List Nat, ∀ b ∈ memcpy_bytes n l, b < 256 := by
  induction n with
  | zero => intro l b hb; simp [memcpy_bytes] at hb
  | succ n ih =>
    intro l b hb
    cases l with
    | nil =>
      simp only [memcpy_bytes, List.mem_cons] at hb
      rcases hb with h | h
      · omega
      · exact ih _ b h
    | cons c rest =>
      simp only [memcpy_bytes, List.mem_cons] at hb
      rcases hb with h | h
      · omega
      · exact ih _ b h

/-- The image of `struct ippseudo` has 12 bytes. -/
theorem ippseudo_mem_length (s d p len : Nat) : (ippseudo_mem s d p len).length = 12 := by
  simp [ippseudo_mem, mem16, mem32]

/-- Every element of the image of `struct ippseudo` is a byte. -/
theorem ippseudo_mem_bytes (s d p len : Nat) : ∀ b ∈ ippseudo_mem s d p len, b < 256 := by
  intro b hb
  simp only [ippseudo_mem, mem16, mem32, List.cons_append, List.nil_append, List.mem_cons,
    List.mem_singleton, List.not_mem_nil, or_false] at hb
  omega

/-- The image of `struct ip6_hdr_pseudo` has 40 bytes. -/
theorem ip6_hdr_pseudo_mem_length (s d : List Nat) (len nxt : Nat) :
    (ip6_hdr_pseudo_mem s d len nxt).length = 40 := by
  simp [ip6_hdr_pseudo_mem, mem32, memcpy_bytes_length]

/-- Every element of the image of `struct ip6_hdr_pseudo` is a byte. -/
theorem ip6_hdr_pseudo_mem_bytes (s d : List Nat) (len nxt : Nat) :
    ∀ b ∈ ip6_hdr_pseudo_mem s d len nxt, b < 256 := by
  intro b hb
  simp only [ip6_hdr_pseudo_mem, mem32, List.mem_append, List.mem_cons,
    List.mem_singleton, List.not_mem_nil, or_false] at hb
  rcases hb with ((h | h) | h) | h
  · exact memcpy_bytes_bytes _ _ b h
  · exact memcpy_bytes_bytes _ _ b h
  · omega
  · omega

/-- The image of a `struct tcphdr` has 20 bytes. -/
theorem tcphdr_mem_length (t : tcphdr) (c : Nat) : (tcphdr_mem t c).length = 20 := by
  simp [tcphdr_mem, mem16, mem32]

/-- A flag contributes 0 or 1. -/
theorem bool_toNat_le (b : Bool) : b.toNat ≤ 1 := by cases b <;> simp

/-- Every element of the image of a `struct tcphdr` is a byte. -/
theorem tcphdr_mem_bytes (t : tcphdr) (c : Nat) : ∀ b ∈ tcphdr_mem t c, b < 256 := by
  intro b hb
  have h1 := bool_toNat_le t.fin
  have h2 := bool_toNat_le t.syn
  have h3 := bool_toNat_le t.rst
  have h4 := bool_toNat_le t.psh
  have h5 := bool_toNat_le t.ack
  have h6 := bool_toNat_le t.urg
  simp only [tcphdr_mem, mem16, mem32, List.cons_append, List.nil_append, List.mem_cons,
    List.mem_singleton, List.not_mem_nil, or_false] at hb
  omega

/-- The checksum field of a `struct tcphdr` enters the words of the header as one word. -/
theorem tcphdr_mem_word_sum (t : tcphdr) (c : Nat) (hc : c < 65536) :
    word_sum (tcphdr_mem t c) = word_sum (tcphdr_mem t 0) + c := by
  simp only [tcphdr_mem, mem16, mem32, List.cons_append, List.nil_append, word_sum]
  omega

/-- The image of a `struct udphdr` has 8 bytes. -/
theorem udphdr_mem_length (u : udphdr) : (udphdr_mem u).length = 8 := by
  simp [udphdr_mem, mem16]

/-- Every element of the image of a `struct udphdr` is a byte. -/
theorem udphdr_mem_bytes (u : udphdr) : ∀ b ∈ udphdr_mem u, b < 256 := by
  intro b hb
  simp only [udphdr_mem, mem16, List.cons_append, List.nil_append, List.mem_cons,
    List.mem_singleton, List.not_mem_nil, or_false] at hb
  omega

/-- The checksum field of the UDP header of `write_udp` enters the words of the header as one
word. -/
theorem write_udp_udphdr_word_sum (cur : udp_session) (datalen c : Nat) (hc : c < 65536) :
    word_sum (udphdr_mem (write_udp_udphdr cur datalen c))
      = word_sum (udphdr_mem (write_udp_udphdr cur datalen 0)) + c := by
  simp only [udphdr_mem, write_udp_udphdr, mem16, List.cons_append, List.nil_append, word_sum]
  omega

/-- The options of `write_tcp` have `optlen` bytes. -/
theorem write_tcp_options_length (cur : tcp_session) (syn : Bool) :
    (write_tcp_options cur syn).length = write_tcp_optlen syn := by
  cases syn <;> simp [write_tcp_options, write_tcp_optlen, mem16]

/-- Every element of the options of `write_tcp` is a byte. -/
theorem write_tcp_options_bytes (cur : tcp_session) (syn : Bool) :
    ∀ b ∈ write_tcp_options cur syn, b < 256 := by
  intro b hb
  cases syn with
  | false => simp [write_tcp_options] at hb
  | true =>
    simp only [write_tcp_options, if_true, mem16, List.cons_append, List.nil_append,
      List.mem_cons, List.mem_singleton, List.not_mem_nil, or_false] at hb
    omega

/-- The pseudo-header of `write_tcp` has 12 bytes for IPv4 and 40 for IPv6. -/
theorem write_tcp_pseudo_length (cur : tcp_session) (datalen : Nat) (syn : Bool) :
    (write_tcp_pseudo cur datalen syn).length = if cur.version = 4 then 12 else 40 := by
  unfold write_tcp_pseudo
  dsimp only
  split_ifs
  · exact ippseudo_mem_length _ _ _ _
  · exact ip6_hdr_pseudo_mem_length _ _ _ _

/-- Every element of the pseudo-header of `write_tcp` is a byte. -/
theorem write_tcp_pseudo_bytes (cur : tcp_session) (datalen : Nat) (syn : Bool) :
    ∀ b ∈ write_tcp_pseudo cur datalen syn, b < 256 := by
  unfold write_tcp_pseudo
  dsimp only
  split_ifs
  · exact ippseudo_mem_bytes _ _ _ _
  · exact ip6_hdr_pseudo_mem_bytes _ _ _ _

/-- The pseudo-header of `write_udp` has 12 bytes for IPv4 and 40 for IPv6. -/
theorem write_udp_pseudo_length (cur : udp_session) (datalen : Nat) :
    (write_udp_pseudo cur datalen).length = if cur.version = 4 then 12 else 40 := by
  unfold write_udp_pseudo
  split_ifs
  · exact ippseudo_mem_length _ _ _ _
  · exact ip6_hdr_pseudo_mem_length _ _ _ _

/-- Every element of the pseudo-header of `write_udp` is a byte. -/
theorem write_udp_pseudo_bytes (cur : udp_session) (datalen : Nat) :
    ∀ b ∈ write_udp_pseudo cur datalen, b < 256 := by
  unfold write_udp_pseudo
  split_ifs
  · exact ippseudo_mem_bytes _ _ _ _
  · exact ip6_hdr_pseudo_mem_bytes _ _ _ _

/-- The IPv4 header of `write_tcp` has 20 bytes. -/
theorem write_tcp_iphdr_length (cur : tcp_session) (datalen : Nat) (syn : Bool)
    (h4 : cur.version = 4) : (write_tcp_iphdr cur datalen syn).length = 20 := by
  unfold write_tcp_iphdr
  simp [h4, iphdr_mem, mem16, mem32]

/-- The IPv4 header of `write_udp` has 20 bytes. -/
theorem write_udp_iphdr_length (cur : udp_session) (datalen : Nat)
    (h4 : cur.version = 4) : (write_udp_iphdr cur datalen).length = 20 := by
  unfold write_udp_iphdr
  simp [h4, iphdr_mem, mem16, mem32]

/-- The transport checksum of `write_tcp`: one pass over the pseudo-header it fills in and the
segment it emits gives `0xFFFF`. -/
theorem write_tcp_checksum (cur : tcp_session) (data : List Nat) (datalen : Nat)
    (syn ack fin rst : Bool) (hb : ∀ b ∈ data, b < 256) (hd : datalen ≤ 65535) :
    calc_checksum 0
        (write_tcp_pseudo cur datalen syn ++ write_tcp_segment cur data datalen syn ack fin rst)
        (write_tcp_pseudo cur datalen syn
          ++ write_tcp_segment cur data datalen syn ack fin rst).length = 0xFFFF := by
  have hopt : write_tcp_optlen syn ≤ 8 := by cases syn <;> simp [write_tcp_optlen]
  have hopt2 : write_tcp_optlen syn % 2 = 0 := by cases syn <;> simp [write_tcp_optlen]
  have hpl : (if cur.version = 4 then 12 else 40) ≤ 40
      ∧ (if cur.version = 4 then 12 else 40) % 2 = 0 := by split_ifs <;> simp
  unfold write_tcp_segment
  exact calc_checksum_verify (write_tcp_pseudo cur datalen syn)
    (tcphdr_mem (write_tcp_tcphdr cur syn ack fin rst) 0) _ (write_tcp_options cur syn) data
    (if cur.version = 4 then 12 else 40) 20 (write_tcp_optlen syn) datalen
    (write_tcp_pseudo_length _ _ _) (tcphdr_mem_length _ _) (tcphdr_mem_length _ _)
    (write_tcp_options_length _ _) (write_tcp_pseudo_bytes _ _ _) (tcphdr_mem_bytes _ _)
    (tcphdr_mem_bytes _ _) (write_tcp_options_bytes _ _) hb hpl.2 (by norm_num) hopt2
    (by omega) (tcphdr_mem_word_sum _ _ (by omega))

/-- The transport checksum of `write_udp`: one pass over the pseudo-header it fills in and the
datagram it emits gives `0xFFFF`. -/
theorem write_udp_checksum (cur : udp_session) (data : List Nat) (datalen : Nat)
    (hb : ∀ b ∈ data, b < 256) (hd : datalen ≤ 65535) :
    calc_checksum 0 (write_udp_pseudo cur datalen ++ write_udp_segment cur data datalen)
      (write_udp_pseudo cur datalen ++ write_udp_segment cur data datalen).length = 0xFFFF := by
  have hpl : (if cur.version = 4 then 12 else 40) ≤ 40
      ∧ (if cur.version = 4 then 12 else 40) % 2 = 0 := by split_ifs <;> simp
  have hz : ∀ s : Nat, s < 65536 → calc_checksum s [] 0 = s := by
    intro s hs
    rw [calc_checksum_eq s [] 0 hs (by simp) (by norm_num)]
    simp only [List.take_nil, word_sum, Nat.add_zero]
    exact ones_fold_small s hs
  have key := calc_checksum_verify (write_udp_pseudo cur datalen)
    (udphdr_mem (write_udp_udphdr cur datalen 0))
    (udphdr_mem (write_udp_udphdr cur datalen (0xFFFF - write_udp_csum cur data datalen)))
    [] data (if cur.version = 4 then 12 else 40) 8 0 datalen
    (write_udp_pseudo_length _ _) (udphdr_mem_length _) (udphdr_mem_length _) rfl
    (write_udp_pseudo_bytes _ _) (udphdr_mem_bytes _) (udphdr_mem_bytes _) (by simp) hb
    hpl.2 (by norm_num) (by norm_num) (by omega)
    (by
      rw [hz _ (calc_checksum_lt _ _ _)]
      exact write_udp_udphdr_word_sum _ _ _ (by omega))
  simpa [write_udp_segment] using key

/-! ## Byte order -/

/-- The byte swap `htonl` on a value given by its four bytes. -/
theorem htonl_bytes (b0 b1 b2 b3 : Nat) (h0 : b0 < 256) (h1 : b1 < 256) (h2 : b2 < 256)
    (h3 : b3 < 256) :
    htonl (b0 + 256 * b1 + 65536 * b2 + 16777216 * b3)
      = b3 + 256 * b2 + 65536 * b1 + 16777216 * b0 := by
  unfold htonl
  omega

/-- On a `uint32_t`, `ntohl` undoes `htonl`. -/
theorem ntohl_htonl (x : Nat) (hx : x < 2 ^ 32) : ntohl (htonl x) = x := by
  obtain ⟨b0, b1, b2, b3, rfl, h0, h1, h2, h3⟩ : ∃ b0 b1 b2 b3, x = b0 + 256 * b1 + 65536 * b2
      + 16777216 * b3 ∧ b0 < 256 ∧ b1 < 256 ∧ b2 < 256 ∧ b3 < 256 :=
    ⟨x % 256, x / 256 % 256, x / 65536 % 256, x / 16777216, by omega, by omega, by omega,
      by omega, by omega⟩
  unfold ntohl
  rw [htonl_bytes b0 b1 b2 b3 h0 h1 h2 h3, htonl_bytes b3 b2 b1 b0 h3 h2 h1 h0]

/-- The result of `htonl` is a `uint32_t`. -/
theorem htonl_lt (x : Nat) : htonl x < 2 ^ 32 := by
  unfold htonl
  omega

/-- The result of `ntohl` is a `uint32_t`. -/
theorem ntohl_lt (x : Nat) : ntohl x < 2 ^ 32 := htonl_lt x

/-- The byte swap `htons` on a value given by its two low bytes and the rest. -/
theorem htons_bytes (b0 b1 k : Nat) (h0 : b0 < 256) (h1 : b1 < 256) :
    htons (b0 + 256 * b1 + 65536 * k) = b1 + 256 * b0 := by
  unfold htons
  omega

/-- `ntohs` undoes `htons` up to the conversion of the argument to `uint16_t`. -/
theorem ntohs_htons (x : Nat) : ntohs (htons x) = x % 2 ^ 16 := by
  obtain ⟨b0, b1, k, rfl, h0, h1⟩ : ∃ b0 b1 k, x = b0 + 256 * b1 + 65536 * k
      ∧ b0 < 256 ∧ b1 < 256 :=
    ⟨x % 256, x / 256 % 256, x / 65536, by omega, by omega, by omega⟩
  unfold ntohs
  rw [htons_bytes b0 b1 k h0 h1]
  have := htons_bytes b1 b0 0 h1 h0
  simp only [Nat.mul_zero, Nat.add_zero] at this
  rw [this]
  omega

/-- The result of `htons` is a `uint16_t`. -/
theorem htons_lt (x : Nat) : htons x < 2 ^ 16 := by
  unfold htons
  omega

/-- A value stored through `htons` lies in memory high byte first. -/
theorem mem16_htons (x : Nat) : mem16 (htons x) = [x / 256 % 256, x % 256] := by
  obtain ⟨b0, b1, k, rfl, h0, h1⟩ : ∃ b0 b1 k, x = b0 + 256 * b1 + 65536 * k
      ∧ b0 < 256 ∧ b1 < 256 :=
    ⟨x % 256, x / 256 % 256, x / 65536, by omega, by omega, by omega⟩
  rw [htons_bytes b0 b1 k h0 h1]
  have e1 : (b0 + 256 * b1 + 65536 * k) / 256 = b1 + 256 * k := by omega
  have e2 : (b0 + 256 * b1 + 65536 * k) % 256 = b0 := by omega
  have e3 : (b1 + 256 * b0) % 256 = b1 := by omega
  have e4 : (b1 + 256 * b0) / 256 = b0 := by omega
  simp only [mem16, e1, e2, e3, e4, List.cons.injEq, and_true]
  constructor <;> omega

/-- For an IPv4 session the pseudo-header that `write_tcp` fills in repeats the source and
destination address of the IP header it emits and its protocol byte, followed by the length of
TCP header, options and payload, high byte first. -/
theorem write_tcp_pseudo_of_iphdr (cur : tcp_session) (datalen : Nat) (syn : Bool)
    (h4 : cur.version = 4) :
    write_tcp_pseudo cur datalen syn
      = ((write_tcp_iphdr cur datalen syn).drop 12).take 8
        ++ [0, (write_tcp_iphdr cur datalen syn).getD 9 0]
        ++ [(20 + write_tcp_optlen syn + datalen) / 256 % 256,
            (20 + write_tcp_optlen syn + datalen) % 256] := by
  unfold write_tcp_pseudo write_tcp_iphdr
  dsimp only
  rw [if_pos h4, if_pos h4]
  unfold ippseudo_mem iphdr_mem
  rw [mem16_htons]
  simp [mem16, mem32]

/-! ## Checksums of emitted packets -/

/-- C13. For an IPv4 session, `calc_checksum` with start 0 over the first 20 bytes of the buffer
that `write_tcp` hands to the TUN write, and over the first 20 bytes of the buffer of
`write_udp`, gives `0xFFFF`: the IPv4 header, checksum field included, verifies. This holds for
every session record, every flag combination and every payload. -/
theorem ipv4_header_checksum (tcur : tcp_session) (ucur : udp_session) (res : Int)
    (tdata udata : List Nat) (tdatalen udatalen : Nat) (syn ack fin rst : Bool)
    (ht : tcur.version = 4) (hu : ucur.version = 4) :
    calc_checksum 0 (write_tcp_buffer tcur tdata tdatalen syn ack fin rst) 20 = 0xFFFF
      ∧ calc_checksum 0 (write_udp res ucur udata udatalen).1 20 = 0xFFFF := by
  constructor
  · unfold write_tcp_buffer
    rw [calc_checksum_head _ _ _ _ (write_tcp_iphdr_length tcur tdatalen syn ht)]
    unfold write_tcp_iphdr
    dsimp only
    rw [if_pos ht]
    exact iphdr_mem_checksum _ _ _ _
  · unfold write_udp
    dsimp only
    rw [calc_checksum_head _ _ _ _ (write_udp_iphdr_length ucur udatalen hu)]
    unfold write_udp_iphdr
    dsimp only
    rw [if_pos hu]
    exact iphdr_mem_checksum _ _ _ _

/-- Witness of `ipv4_header_checksum`: the SYN/ACK for `syn_session` and a three-byte reply for
`dns_session`, whose IPv4 header is spelled out. -/
theorem ipv4_header_checksum_witness :
    calc_checksum 0 (write_tcp_buffer syn_session.tcp [] 0 true true false false) 20 = 0xFFFF
      ∧ calc_checksum 0 (write_udp 31 dns_session.udp [4, 5, 6] 3).1 20 = 0xFFFF
      ∧ (write_udp 31 dns_session.udp [4, 5, 6] 3).1.take 20
          = [69, 0, 0, 31, 0, 0, 0, 0, 64, 17, 170, 185, 198, 18, 0, 1, 10, 0, 0, 2] :=
  have w := ipv4_header_checksum syn_session.tcp dns_session.udp 31 [] [4, 5, 6] 0 3
    true true false false (by decide) (by decide)
  ⟨w.1, w.2, by decide⟩

/-- C14. For every session (IPv4 or IPv6), every flag combination and every payload of at most
65535 bytes, of odd or even length, one pass of `calc_checksum` with start 0 over the
pseudo-header that `write_tcp` fills in followed by the TCP header, options and payload it
emits, checksum field included, gives `0xFFFF`; the same holds for the pseudo-header and the
datagram of `write_udp`. The callers pass at most a 16-bit `mss` of payload. -/
theorem transport_checksum_verifies (tcur : tcp_session) (ucur : udp_session)
    (tdata udata : List Nat) (tdatalen udatalen : Nat) (syn ack fin rst : Bool)
    (htb : ∀ b ∈ tdata, b < 256) (hub : ∀ b ∈ udata, b < 256)
    (htl : tdatalen ≤ 65535) (hul : udatalen ≤ 65535) :
    calc_checksum 0
        (write_tcp_pseudo tcur tdatalen syn
          ++ write_tcp_segment tcur tdata tdatalen syn ack fin rst)
        (write_tcp_pseudo tcur tdatalen syn
          ++ write_tcp_segment tcur tdata tdatalen syn ack fin rst).length = 0xFFFF
      ∧ calc_checksum 0
          (write_udp_pseudo ucur udatalen ++ write_udp_segment ucur udata udatalen)
          (write_udp_pseudo ucur udatalen ++ write_udp_segment ucur udata udatalen).length
          = 0xFFFF :=
  ⟨write_tcp_checksum tcur tdata tdatalen syn ack fin rst htb htl,
    write_udp_checksum ucur udata udatalen hub hul⟩

/-- Witness of `transport_checksum_verifies`: a data segment with the three bytes 72, 73, 74
for `est_session` and a three-byte reply for `dns_session`; the TCP segment is spelled out. -/
theorem transport_checksum_verifies_witness :
    calc_checksum 0
        (write_tcp_pseudo est_session.tcp 3 false
          ++ write_tcp_segment est_session.tcp [72, 73, 74] 3 false true false false)
        (write_tcp_pseudo est_session.tcp 3 false
          ++ write_tcp_segment est_session.tcp [72, 73, 74] 3 false true false false).length
        = 0xFFFF
      ∧ calc_checksum 0
          (write_udp_pseudo dns_session.udp 3 ++ write_udp_segment dns_session.udp [4, 5, 6] 3)
          (write_udp_pseudo dns_session.udp 3
            ++ write_udp_segment dns_session.udp [4, 5, 6] 3).length = 0xFFFF
      ∧ write_tcp_segment est_session.tcp [72, 73, 74] 3 false true false false
          = [0, 80, 156, 64, 0, 0, 0, 8, 0, 0, 16, 1, 80, 16, 255, 254, 49, 19, 0, 0,
              72, 73, 74] :=
  have w := transport_checksum_verifies est_session.tcp dns_session.udp [72, 73, 74] [4, 5, 6]
    3 3 false true false false (by decide) (by decide) (by decide) (by decide)
  ⟨w.1, w.2, by decide⟩

/-! ## The TCP header of `write_tcp`, decoded -/

/-- The six flag bits of byte 13 of a TCP header are read back as they were stored. -/
theorem flags_bits (f0 f1 f2 f3 f4 f5 : Bool) :
    decide ((f0.toNat + 2 * f1.toNat + 4 * f2.toNat + 8 * f3.toNat + 16 * f4.toNat
        + 32 * f5.toNat) % 2 = 1) = f0
      ∧ decide ((f0.toNat + 2 * f1.toNat + 4 * f2.toNat + 8 * f3.toNat + 16 * f4.toNat
        + 32 * f5.toNat) / 2 % 2 = 1) = f1
      ∧ decide ((f0.toNat + 2 * f1.toNat + 4 * f2.toNat + 8 * f3.toNat + 16 * f4.toNat
        + 32 * f5.toNat) / 4 % 2 = 1) = f2
      ∧ decide ((f0.toNat + 2 * f1.toNat + 4 * f2.toNat + 8 * f3.toNat + 16 * f4.toNat
        + 32 * f5.toNat) / 8 % 2 = 1) = f3
      ∧ decide ((f0.toNat + 2 * f1.toNat + 4 * f2.toNat + 8 * f3.toNat + 16 * f4.toNat
        + 32 * f5.toNat) / 16 % 2 = 1) = f4
      ∧ decide ((f0.toNat + 2 * f1.toNat + 4 * f2.toNat + 8 * f3.toNat + 16 * f4.toNat
        + 32 * f5.toNat) / 32 % 2 = 1) = f5 := by
  cases f0 <;> cases f1 <;> cases f2 <;> cases f3 <;> cases f4 <;> cases f5 <;> simp

/-- Reading a `struct tcphdr` back from its memory image gives the fields that were stored,
each reduced to the width of its member. -/
theorem tcphdr_load_mem (t : tcphdr) (c : Nat) (rest : List Nat) :
    tcphdr_load (tcphdr_mem t c ++ rest)
      = { t with source := t.source % 2 ^ 16, dest := t.dest % 2 ^ 16, seq := t.seq % 2 ^ 32,
                 ack_seq := t.ack_seq % 2 ^ 32, doff := t.doff % 16,
                 window := t.window % 2 ^ 16 } := by
  obtain ⟨source, dest, seq, ack_seq, doff, fin, syn, rst, psh, ack, urg, window⟩ := t
  have hf := flags_bits fin syn rst psh ack urg
  simp only [tcphdr_load, tcphdr_mem, load16, load32, mem16, mem32, List.cons_append,
    List.nil_append, List.getD_cons_zero, List.getD_cons_succ, tcphdr.mk.injEq]
  exact ⟨by omega, by omega, by omega, by omega, by omega, hf.1, hf.2.1, hf.2.2.1,
    hf.2.2.2.1, hf.2.2.2.2.1, hf.2.2.2.2.2, by omega⟩

/-- The record that `write_tcp` returns and the bytes of `write_tcp_buffer` describe the same
segment: the header fields are those of the record, the payload is its payload, and for a
`uint8_t` window scale the option bytes are its option bytes. -/
theorem write_tcp_record (res : Int) (cur : tcp_session) (data : List Nat) (datalen : Nat)
    (syn ack fin rst : Bool) :
    write_tcp_tcphdr cur syn ack fin rst
        = { source := (write_tcp res cur data datalen syn ack fin rst).1.source
            dest := (write_tcp res cur data datalen syn ack fin rst).1.dest
            seq := (write_tcp res cur data datalen syn ack fin rst).1.seq
            ack_seq := (write_tcp res cur data datalen syn ack fin rst).1.ack_seq
            doff := (write_tcp res cur data datalen syn ack fin rst).1.doff
            fin := (write_tcp res cur data datalen syn ack fin rst).1.fin
            syn := (write_tcp res cur data datalen syn ack fin rst).1.syn
            rst := (write_tcp res cur data datalen syn ack fin rst).1.rst
            psh := false
            ack := (write_tcp res cur data datalen syn ack fin rst).1.ack
            urg := false
            window := (write_tcp res cur data datalen syn ack fin rst).1.window }
      ∧ data.take datalen = (write_tcp res cur data datalen syn ack fin rst).1.data
      ∧ (cur.recv_scale < 256 →
          write_tcp_options cur syn = (write_tcp res cur data datalen syn ack fin rst).1.options)
      ∧ (write_tcp_buffer cur data datalen syn ack fin rst).length
          = (write_tcp res cur data datalen syn ack fin rst).1.len
            - (datalen - data.length) := by
  refine ⟨rfl, rfl, ?_, ?_⟩
  · intro hs
    have hm : get_default_mss cur.version < 65536 := by
      unfold get_default_mss
      split_ifs <;> exact Nat.mod_lt _ (by norm_num)
    cases syn
    · rfl
    · simp only [write_tcp_options, write_tcp, if_true, mem16, List.cons_append,
        List.nil_append, List.cons.injEq, and_true, true_and]
      exact ⟨by omega, by omega⟩
  · unfold write_tcp_buffer write_tcp_segment write_tcp_iphdr
    simp only [List.length_append, tcphdr_mem_length, write_tcp_options_length, write_tcp,
      List.length_take]
    by_cases h4 : cur.version = 4
    · simp only [if_pos h4]
      have : (iphdr_mem (htons (20 + 20 + write_tcp_optlen syn + datalen)) IPPROTO_TCP
          (0xFFFF - calc_checksum 0
            (iphdr_mem (htons (20 + 20 + write_tcp_optlen syn + datalen)) IPPROTO_TCP 0
              cur.daddr.ip4 cur.saddr.ip4) 20) cur.daddr.ip4 cur.saddr.ip4).length = 20 := by
        simp [iphdr_mem, mem16, mem32]
      rw [this]
      unfold write_tcp_optlen
      omega
    · simp only [if_neg h4]
      have : (ip6_hdr_mem (htons (40 + 20 + write_tcp_optlen syn + datalen - 40)) IPPROTO_TCP
          cur.daddr.ip6 cur.saddr.ip6).length = 40 := by
        simp [ip6_hdr_mem, mem16, memcpy_bytes_length]
      rw [this]
      unfold write_tcp_optlen
      omega

/-- C15 (counterexample). `est_session` has `remote_seq = 0x1001`. A segment that `write_tcp`
builds for it without the ACK flag (here an RST) decodes to acknowledgment number 0, not to
`remote_seq`: the code clears `ack_seq` when the ACK flag is not set. -/
theorem write_tcp_ack_seq_cleared :
    est_session.tcp.remote_seq = 0x1001
      ∧ ntohl (tcphdr_load
          (write_tcp_segment est_session.tcp [] 0 false false false true)).ack_seq = 0
      ∧ (tcphdr_load (write_tcp_segment est_session.tcp [] 0 false false false true)).rst
          = true
      ∧ (tcphdr_load (write_tcp_segment est_session.tcp [] 0 false false false true)).ack
          = false := by
  refine ⟨by decide, by decide, by decide, by decide⟩

/-- C15 (amended). For every session with `uint32_t` sequence numbers and `recv_scale < 32`
(the counts for which the shift of the source is defined) and every flag combination, reading
the TCP header that `write_tcp` emits the way `handle_tcp` reads a header gives: `ntohl` of
`seq` is `local_seq`; `ntohl` of `ack_seq` is `remote_seq` when the ACK flag is set and 0 when
it is not; the flags SYN, ACK, FIN, RST are the four arguments; `ntohs` of `window` is
`recv_window >> recv_scale` reduced to 16 bits. -/
theorem write_tcp_header_decodes (cur : tcp_session) (data : List Nat) (datalen : Nat)
    (syn ack fin rst : Bool) (hl : cur.local_seq < 2 ^ 32) (hr : cur.remote_seq < 2 ^ 32)
    (_hscale : cur.recv_scale < 32) :
    ntohl (tcphdr_load (write_tcp_segment cur data datalen syn ack fin rst)).seq = cur.local_seq
      ∧ ntohl (tcphdr_load (write_tcp_segment cur data datalen syn ack fin rst)).ack_seq
          = (if ack then cur.remote_seq else 0)
      ∧ (tcphdr_load (write_tcp_segment cur data datalen syn ack fin rst)).syn = syn
      ∧ (tcphdr_load (write_tcp_segment cur data datalen syn ack fin rst)).ack = ack
      ∧ (tcphdr_load (write_tcp_segment cur data datalen syn ack fin rst)).fin = fin
      ∧ (tcphdr_load (write_tcp_segment cur data datalen syn ack fin rst)).rst = rst
      ∧ ntohs (tcphdr_load (write_tcp_segment cur data datalen syn ack fin rst)).window
          = (cur.recv_window >>> cur.recv_scale) % 2 ^ 16 := by
  unfold write_tcp_segment
  rw [List.append_assoc, tcphdr_load_mem]
  simp only [write_tcp_tcphdr]
  refine ⟨?_, ?_, trivial, trivial, trivial, trivial, ?_⟩
  · rw [Nat.mod_eq_of_lt (htonl_lt _), ntohl_htonl _ hl]
  · cases ack
    · simp [ntohl, htonl]
    · simp only [if_true]
      rw [Nat.mod_eq_of_lt (htonl_lt _), ntohl_htonl _ hr]
  · rw [Nat.mod_eq_of_lt (htons_lt _), ntohs_htons]

/-- Witness of `write_tcp_header_decodes`: the SYN/ACK for `syn_session`, whose window
`65534 >> 0` fits 16 bits. -/
theorem write_tcp_header_decodes_witness :
    ntohl (tcphdr_load (write_tcp_segment syn_session.tcp [] 0 true true false false)).seq = 7
      ∧ ntohl (tcphdr_load
          (write_tcp_segment syn_session.tcp [] 0 true true false false)).ack_seq = 0x1000
      ∧ (tcphdr_load (write_tcp_segment syn_session.tcp [] 0 true true false false)).syn = true
      ∧ (tcphdr_load (write_tcp_segment syn_session.tcp [] 0 true true false false)).ack = true
      ∧ (tcphdr_load (write_tcp_segment syn_session.tcp [] 0 true true false false)).fin
          = false
      ∧ (tcphdr_load (write_tcp_segment syn_session.tcp [] 0 true true false false)).rst
          = false
      ∧ ntohs (tcphdr_load
          (write_tcp_segment syn_session.tcp [] 0 true true false false)).window = 65534 :=
  write_tcp_header_decodes syn_session.tcp [] 0 true true false false (by decide) (by decide)
    (by decide)

/-! ## The options of a SYN/ACK, parsed -/

/-- One iteration of the option loop of `handle_tcp`. -/
theorem handle_tcp_options_step (fuel : Nat) (optlen : Int) (options : List Nat)
    (mss ws : Nat) :
    handle_tcp_options (fuel + 1) optlen options mss ws =
    if optlen > 0 then
      let kind := options.getD 0 0
      let len := options.getD 1 0
      if kind = 0 then some (mss, ws)
      else
        let mss1 :=
          if kind = 2 ∧ len = 4 then ntohs (options.getD 2 0 + 256 * options.getD 3 0) else mss
        let ws1 :=
          if kind = 2 ∧ len = 4 then ws
          else if kind = 3 ∧ len = 3 then options.getD 2 0 else ws
        if kind = 1 then handle_tcp_options fuel (optlen - 1) (options.drop 1) mss1 ws1
        else if len = 0 then none
        else handle_tcp_options fuel (optlen - len) (options.drop len) mss1 ws1
    else some (mss, ws) := rfl

/-- The option loop of `handle_tcp` over an MSS option, a window scale option and the
end-of-list byte: the MSS is `ntohs` of the two bytes in memory order. -/
theorem handle_tcp_options_mss_ws (b2 b3 ws mss0 : Nat) :
    handle_tcp_options 9 8 [2, 4, b2, b3, 3, 3, ws, 0] mss0 0
      = some (ntohs (b2 + 256 * b3), ws) := by
  rw [handle_tcp_options_step]
  simp only [List.getD_cons_zero, List.getD_cons_succ]
  norm_num
  rw [handle_tcp_options_step]
  simp only [List.getD_cons_zero, List.getD_cons_succ]
  norm_num
  rw [handle_tcp_options_step]
  simp only [List.getD_cons_zero, List.getD_cons_succ]
  norm_num

/-- C16 (code bug). `write_tcp` stores `get_default_mss` into the MSS option with a plain
`uint16_t` store, without `htons`. The option loop of `handle_tcp`, which reads the MSS with
`ntohs`, recovers from the 8 emitted option bytes the byte-swapped value: 59430 for IPv4, where
`get_default_mss` is 9960, and 54310 for IPv6, where it is 9940. The window scale is recovered
as the session's `recv_scale`. -/
theorem write_tcp_mss_option_swapped (cur : tcp_session) (mss0 : Nat) :
    handle_tcp_options 9 8 (write_tcp_options cur true) mss0 0
        = some (if cur.version = 4 then 59430 else 54310, cur.recv_scale % 256)
      ∧ get_default_mss cur.version = (if cur.version = 4 then 9960 else 9940) := by
  have e : write_tcp_options cur true
      = [2, 4, get_default_mss cur.version % 256, get_default_mss cur.version / 256 % 256,
          3, 3, cur.recv_scale % 256, 0] := by
    simp [write_tcp_options, mem16]
  rw [e, handle_tcp_options_mss_ws]
  by_cases h4 : cur.version = 4
  · simp [get_default_mss, get_mtu, h4, ntohs, htons]
  · simp [get_default_mss, get_mtu, h4, ntohs, htons]

/-! ## write_udp -/

/-- The source address field of the IPv4 header. -/
theorem load32_iphdr_saddr (tl p c s d : Nat) (rest : List Nat) :
    load32 (iphdr_mem tl p c s d ++ rest) 12 = s % 2 ^ 32 := by
  simp only [load32, iphdr_mem, mem16, mem32, List.cons_append, List.nil_append,
    List.getD_cons_zero, List.getD_cons_succ]
  omega

/-- The destination address field of the IPv4 header. -/
theorem load32_iphdr_daddr (tl p c s d : Nat) (rest : List Nat) :
    load32 (iphdr_mem tl p c s d ++ rest) 16 = d % 2 ^ 32 := by
  simp only [load32, iphdr_mem, mem16, mem32, List.cons_append, List.nil_append,
    List.getD_cons_zero, List.getD_cons_succ]
  omega

/-- The port fields of a UDP header behind an IPv4 header. -/
theorem load16_iphdr_udp (tl p c s d : Nat) (u : udphdr) (rest : List Nat) :
    load16 (iphdr_mem tl p c s d ++ (udphdr_mem u ++ rest)) 20 = u.source % 2 ^ 16
      ∧ load16 (iphdr_mem tl p c s d ++ (udphdr_mem u ++ rest)) 22 = u.dest % 2 ^ 16 := by
  simp only [load16, iphdr_mem, udphdr_mem, mem16, mem32, List.cons_append, List.nil_append,
    List.getD_cons_zero, List.getD_cons_succ]
  omega

/-- What the guest reads in an IPv4 datagram of `write_udp`: the source address is
`write_udp_saddr`, the destination address the session's source address, the source port the
session's destination port, the destination port the session's source port. -/
theorem write_udp_endpoints (res : Int) (cur : udp_session) (data : List Nat) (datalen : Nat)
    (h4 : cur.version = 4) :
    load32 (write_udp res cur data datalen).1 12 = write_udp_saddr cur % 2 ^ 32
      ∧ load32 (write_udp res cur data datalen).1 16 = cur.saddr.ip4 % 2 ^ 32
      ∧ load16 (write_udp res cur data datalen).1 20 = cur.dest % 2 ^ 16
      ∧ load16 (write_udp res cur data datalen).1 22 = cur.source % 2 ^ 16 := by
  unfold write_udp write_udp_iphdr write_udp_segment
  dsimp only
  rw [if_pos h4]
  refine ⟨load32_iphdr_saddr _ _ _ _ _ _, load32_iphdr_daddr _ _ _ _ _ _, ?_, ?_⟩
  · exact (load16_iphdr_udp _ _ _ _ _ _ _).1
  · exact (load16_iphdr_udp _ _ _ _ _ _ _).2

/-- Off the destination 1.1.1.1 port 53, the source address of an IPv4 datagram of `write_udp`
is the session's destination address. -/
theorem write_udp_saddr_plain (cur : udp_session)
    (h : ¬ (cur.daddr.ip4 = htonl 0x01010101 ∧ ntohs cur.dest = 53)) :
    write_udp_saddr cur = cur.daddr.ip4 := by
  unfold write_udp_saddr
  rw [if_neg h]

/-- C11 (code bug). A guest sends an IPv4 datagram to 1.1.1.1 port 53 itself. `handle_udp`
builds a session whose destination is 1.1.1.1 port 53, the same record that it builds for a
datagram to 198.18.0.1 port 53. `write_udp` rewrites the source of every reply of a session
with that destination: the reply carries source address 198.18.0.1, not the address 1.1.1.1
that the guest sent to. -/
theorem write_udp_direct_dns_rewritten :
    direct_dns_input.daddr.ip4 = htonl 0x01010101
      ∧ ntohs direct_dns_input.udphdr.dest = 53
      ∧ (handle_udp env_udp [] direct_dns_input 0 none).sessions = [dns_session]
      ∧ load32 (write_udp 31 dns_session.udp [4, 5, 6] 3).1 12 = htonl 0xC6120001
      ∧ htonl 0xC6120001 ≠ htonl 0x01010101 := by
  refine ⟨by decide, by decide, by decide, by decide, by decide⟩

/-- C12. A guest IPv4 datagram to 198.18.0.1 port 53 that matches no session, with a host
socket that opens and registers: `handle_udp` links a new session whose destination is 1.1.1.1
with the port 53 of the datagram, hands the payload to `sendto` for that address (when the
classifier gave no redirect target), and every datagram that `write_udp` frames for that
session carries source 198.18.0.1 port 53 and, as destination, the source address and port of
the guest's datagram. -/
theorem handle_udp_dns_redirect (env : handle_udp_env) (sessions : List ng_session)
    (p : udp_input) (uid : Int) (redirect : Option allowed)
    (hv : p.version = 4) (hd : p.daddr.ip4 = htonl 0xC6120001) (hp : ntohs p.udphdr.dest = 53)
    (hnone : sessions.find? (handle_udp_match p) = none)
    (hsock : 0 ≤ env.socket_res) (hep : env.epoll_ctl_res = 0)
    (hsa : p.saddr.ip4 < 2 ^ 32) (hsp : p.udphdr.source < 2 ^ 16)
    (hdp : p.udphdr.dest < 2 ^ 16) :
    ∃ s : ng_session,
      (handle_udp env sessions p uid redirect).sessions = s :: sessions
        ∧ s.udp.version = 4
        ∧ s.udp.daddr.ip4 = htonl 0x01010101
        ∧ ntohs s.udp.dest = 53
        ∧ (redirect = none → (handle_udp env sessions p uid redirect).host
            = [(udp_target.addr4 (htonl 0x01010101) p.udphdr.dest, p.data.take p.datalen)])
        ∧ ∀ (res : Int) (data : List Nat) (datalen : Nat),
            load32 (write_udp res s.udp data datalen).1 12 = htonl 0xC6120001
              ∧ ntohs (load16 (write_udp res s.udp data datalen).1 20) = 53
              ∧ load32 (write_udp res s.udp data datalen).1 16 = p.saddr.ip4
              ∧ load16 (write_udp res s.udp data datalen).1 22 = p.udphdr.source := by
  have hs : ¬ open_udp_socket env < 0 := by
    unfold open_udp_socket
    split_ifs <;> omega
  have hk := handle_udp_send_key env p redirect
    (handle_udp_new env p uid redirect (open_udp_socket env))
  have hnew : udp_key (handle_udp_new env p uid redirect (open_udp_socket env)).udp
      = (4, p.udphdr.source, p.udphdr.dest, { ip4 := p.saddr.ip4, ip6 := [] },
          { ip4 := htonl 0x01010101, ip6 := [] }) := by
    simp [udp_key, handle_udp_new, hv, hd, hp]
  rw [hnew] at hk
  have hkey := hk.2
  simp only [udp_key, Prod.mk.injEq] at hkey
  obtain ⟨k1, k2, k3, k4, k5⟩ := hkey
  refine ⟨(handle_udp_send env p redirect
    (handle_udp_new env p uid redirect (open_udp_socket env))).1, ?_, k1, ?_, ?_, ?_, ?_⟩
  · unfold handle_udp
    rw [hnone]
    simp only [if_neg hs, hep, ne_eq, not_true_eq_false, if_false]
  · rw [k5]
  · rw [k3]; exact hp
  · intro hr
    subst hr
    unfold handle_udp
    rw [hnone]
    simp only [if_neg hs, hep, ne_eq, not_true_eq_false, if_false]
    unfold handle_udp_send
    dsimp only
    have e1 : (handle_udp_new env p uid none (open_udp_socket env)).udp.version = 4 := by
      simp [handle_udp_new, hv]
    have e2 : (handle_udp_new env p uid none (open_udp_socket env)).udp.daddr.ip4
        = htonl 0x01010101 := by
      simp [handle_udp_new, hv, hd, hp]
    have e3 : (handle_udp_new env p uid none (open_udp_socket env)).udp.dest
        = p.udphdr.dest := rfl
    rw [if_pos e1, e2, e3]
    split_ifs <;> rfl
  · intro res data datalen
    have hw := write_udp_endpoints res (handle_udp_send env p redirect
      (handle_udp_new env p uid redirect (open_udp_socket env))).1.udp data datalen k1
    have hsrc : write_udp_saddr (handle_udp_send env p redirect
        (handle_udp_new env p uid redirect (open_udp_socket env))).1.udp
        = htonl 0xC6120001 := by
      unfold write_udp_saddr
      rw [k5, k3, if_pos ⟨rfl, hp⟩]
    rw [hsrc, k4, k3, k2] at hw
    refine ⟨?_, ?_, ?_, ?_⟩
    · rw [hw.1]; decide
    · rw [hw.2.2.1, Nat.mod_eq_of_lt hdp]; exact hp
    · rw [hw.2.1, Nat.mod_eq_of_lt hsa]
    · rw [hw.2.2.2, Nat.mod_eq_of_lt hsp]

/-- Witness of `handle_udp_dns_redirect`: the datagram `dns_input` on an empty session list and
a three-byte reply. -/
theorem handle_udp_dns_redirect_witness :
    (handle_udp env_udp [] dns_input 0 none).sessions = [dns_session]
      ∧ (handle_udp env_udp [] dns_input 0 none).host
          = [(udp_target.addr4 (htonl 0x01010101) (htons 53), [1, 2, 3])]
      ∧ load32 (write_udp 31 dns_session.udp [4, 5, 6] 3).1 12 = htonl 0xC6120001
      ∧ ntohs (load16 (write_udp 31 dns_session.udp [4, 5, 6] 3).1 20) = 53
      ∧ load32 (write_udp 31 dns_session.udp [4, 5, 6] 3).1 16 = htonl 0x0A000002
      ∧ load16 (write_udp 31 dns_session.udp [4, 5, 6] 3).1 22 = htons 5353 := by
  have hr : (handle_udp env_udp [] dns_input 0 none).sessions = [dns_session] := by decide
  obtain ⟨s, h1, -, -, -, h5, h6⟩ := handle_udp_dns_redirect env_udp [] dns_input 0 none
    (by decide) (by decide) (by decide) (by decide) (by decide) (by decide) (by decide)
    (by decide) (by decide)
  rw [hr] at h1
  have hs : s = dns_session := (List.cons.inj h1).1.symm
  subst hs
  exact ⟨hr, h5 rfl, h6 31 [4, 5, 6] 3⟩

/-! ## get_send_window and get_tcp_timeout -/

/-- C17 (counterexample). With `local_seq = 0x20000`, `acked = 0`, `unconfirmed = 0` and a guest
window of `0x30000`, the claimed outstanding amount is `(0x20000 mod 2^16) + 40 = 40`, so the
claimed result is `0x30000 - 40`; the code subtracts the full distance and returns
`0x30000 - 0x20000 - 40`. -/
theorem get_send_window_beyond_64k :
    get_send_window far_session = 0x30000 - 0x20000 - 40
      ∧ get_send_window_spec far_session = 0x30000 - 40 := by
  constructor <;> decide

/-- C17 (amended). When `local_seq` and `acked` are less than `2^16` apart
(`acked <= local_seq < acked + 2^16`, or `local_seq < acked <= local_seq + 2^16`),
`get_send_window` returns `send_window` minus outstanding, floored at 0, where outstanding is
`((local_seq - acked) mod 2^16) + (unconfirmed + 1) * 40`. Beyond that distance the code does
not reduce modulo `2^16`: it takes `local_seq - acked` in full when `acked <= local_seq`. -/
theorem get_send_window_near (cur : tcp_session) (hu : cur.unconfirmed < 2 ^ 16)
    (h1 : cur.local_seq < cur.acked + 2 ^ 16) (h2 : cur.acked ≤ cur.local_seq + 2 ^ 16) :
    get_send_window cur = get_send_window_spec cur := by
  unfold get_send_window get_send_window_spec
  dsimp only
  by_cases hle : cur.acked ≤ cur.local_seq
  · rw [if_pos hle]
    have e : (((cur.local_seq : Int) - (cur.acked : Int)) % 2 ^ 16).toNat
        = cur.local_seq - cur.acked := by omega
    rw [e]
    split_ifs <;> omega
  · rw [if_neg hle]
    have e : (((cur.local_seq : Int) - (cur.acked : Int)) % 2 ^ 16).toNat
        = (0x10000 + cur.local_seq + 2 ^ 32 - cur.acked) % 2 ^ 32 := by omega
    rw [e]
    split_ifs <;> omega

/-- Witness of `get_send_window_near`: `est_session` has `local_seq = acked = 8` and a guest
window of 65535. -/
theorem get_send_window_near_witness :
    get_send_window est_session.tcp = get_send_window_spec est_session.tcp
      ∧ get_send_window est_session.tcp = 65535 - 40 :=
  ⟨get_send_window_near est_session.tcp (by decide) (by decide) (by decide), by decide⟩

/-- C18. For `maxsessions > 0`, `get_tcp_timeout` returns
`base * (100 - sessions * 100 / maxsessions) / 100` with truncating division, where `base` is
`TCP_INIT_TIMEOUT` in LISTEN and SYN_RECV, `TCP_IDLE_TIMEOUT` in ESTABLISHED and
`TCP_CLOSE_TIMEOUT` in every other state; the result is `base` at `sessions = 0` and 0 at
`sessions = maxsessions`; and for a timeout constant that is not negative the result does not
increase as `sessions` grows from 0 to `maxsessions`. The `int` arithmetic of the code is taken
without overflow. -/
theorem get_tcp_timeout_scaled (h : athena_h) (t : tcp_session) (maxsessions : Int)
    (hm : 0 < maxsessions) :
    (∀ sessions : Int, get_tcp_timeout h t sessions maxsessions
        = Int.tdiv (tcp_timeout_base h t.state
            * (100 - Int.tdiv (sessions * 100) maxsessions)) 100)
      ∧ get_tcp_timeout h t 0 maxsessions = tcp_timeout_base h t.state
      ∧ get_tcp_timeout h t maxsessions maxsessions = 0
      ∧ (0 ≤ tcp_timeout_base h t.state → ∀ sessions more : Int, 0 ≤ sessions →
          sessions ≤ more → more ≤ maxsessions →
          get_tcp_timeout h t more maxsessions ≤ get_tcp_timeout h t sessions maxsessions) := by
  have hbase : ∀ s m : Int, get_tcp_timeout h t s m
      = Int.tdiv (tcp_timeout_base h t.state * (100 - Int.tdiv (s * 100) m)) 100 := by
    intro s m
    unfold get_tcp_timeout tcp_timeout_base
    dsimp only
    by_cases a : t.state = TCP_LISTEN
    · rw [if_pos (Or.inl a), if_pos a]
    · by_cases b : t.state = TCP_SYN_RECV
      · rw [if_pos (Or.inr b), if_neg a, if_pos b]
      · rw [if_neg (not_or.mpr ⟨a, b⟩), if_neg a, if_neg b]
  refine ⟨fun s => hbase s _, ?_, ?_, ?_⟩
  · rw [hbase]
    simp
  · rw [hbase]
    have : Int.tdiv (maxsessions * 100) maxsessions = 100 := by
      rw [Int.mul_comm]
      exact Int.mul_tdiv_cancel _ (by omega)
    rw [this]
    simp
  · intro hb sessions more h0 h1 h2
    rw [hbase, hbase]
    have q1 : Int.tdiv (sessions * 100) maxsessions = sessions * 100 / maxsessions :=
      Int.tdiv_eq_ediv (by omega) (by omega)
    have q2 : Int.tdiv (more * 100) maxsessions = more * 100 / maxsessions :=
      Int.tdiv_eq_ediv (by omega) (by omega)
    have m1 : sessions * 100 / maxsessions ≤ more * 100 / maxsessions :=
      Int.ediv_le_ediv hm (by omega)
    have m2 : more * 100 / maxsessions ≤ 100 := by
      have := Int.ediv_le_ediv hm (by omega : more * 100 ≤ 100 * maxsessions)
      rwa [Int.mul_ediv_cancel _ (by omega : maxsessions ≠ 0)] at this
    rw [q1, q2]
    have n1 : 0 ≤ tcp_timeout_base h t.state * (100 - more * 100 / maxsessions) :=
      Int.mul_nonneg hb (by omega)
    have n2 : tcp_timeout_base h t.state * (100 - more * 100 / maxsessions)
        ≤ tcp_timeout_base h t.state * (100 - sessions * 100 / maxsessions) :=
      Int.mul_le_mul_of_nonneg_left (by omega) hb
    rw [Int.tdiv_eq_ediv n1 (by norm_num), Int.tdiv_eq_ediv (by omega) (by norm_num)]
    exact Int.ediv_le_ediv (by norm_num) n2

/-- Witness of `get_tcp_timeout_scaled`: an ESTABLISHED session with the sample constants
(`TCP_IDLE_TIMEOUT` 3600) and a budget of 40 sessions. -/
theorem get_tcp_timeout_scaled_witness :
    get_tcp_timeout consts est_session.tcp 10 40 = 2700
      ∧ get_tcp_timeout consts est_session.tcp 0 40 = 3600
      ∧ get_tcp_timeout consts est_session.tcp 40 40 = 0
      ∧ get_tcp_timeout consts est_session.tcp 30 40
          ≤ get_tcp_timeout consts est_session.tcp 10 40 :=
  have w := get_tcp_timeout_scaled consts est_session.tcp 40 (by decide)
  ⟨(w.1 10).trans (by decide), w.2.1.trans (by decide), w.2.2.1,
    w.2.2.2 (by decide) 10 30 (by decide) (by decide) (by decide)⟩

/-! ## The stateless RST and the SYN/ACK -/

/-- C19 (code bug). The segment `stray_input` (ACK, seq `0x2000`, ack `0x3000`, no data)
matches no session. `handle_tcp` writes the RST `stray_rst`: its acknowledgment field is 0 and
its ACK flag is clear, while the acknowledgment number to send is
`seq + datalen + 0 = 0x2000`. `handle_tcp` stores that number in the `remote_seq` of the
scratch record it hands to `write_rst`, but `write_rst` sets the ACK flag for a record in
LISTEN only and `write_tcp` clears `ack_seq` without the flag, so the stored number never
reaches the segment. -/
theorem stateless_rst_ack_zero :
    handle_tcp consts env_ok [] stray_input 0 1
        = some { sessions := [], tun := [stray_rst], ret := 0 }
      ∧ ntohl stray_rst.ack_seq = 0
      ∧ stray_rst.ack = false
      ∧ (ntohl stray_input.tcphdr.seq + stray_input.datalen
          + (if stray_input.tcphdr.fin then 1 else 0)) % 2 ^ 32 = 0x2000 := by
  refine ⟨by decide, by decide, by decide, by decide⟩

/-- The stateless RST as the code writes it. For every guest TCP segment without SYN and without
URG that matches no session, `handle_tcp` returns, leaves the session list as it was and writes
exactly one segment: an RST without SYN, FIN and ACK whose sequence number is the acknowledgment
number of the guest segment and whose acknowledgment field is 0. The value
`seq + datalen + (1 if FIN)` is stored in the scratch record only; `write_tcp` clears `ack_seq` because `write_rst` sets
the ACK flag in LISTEN only. -/
theorem handle_tcp_stateless_rst (h : athena_h) (env : handle_tcp_env)
    (sessions : List ng_session) (p : tcp_input) (uid : Int) (allowed : Int)
    (hnone : sessions.find? (handle_tcp_match p) = none)
    (hsyn : p.tcphdr.syn = false) (hurg : p.tcphdr.urg = false) :
    ∃ k : tcp_packet,
      handle_tcp h env sessions p uid allowed
          = some { sessions := sessions, tun := [k], ret := 0 }
        ∧ k.rst = true ∧ k.syn = false ∧ k.fin = false ∧ k.ack = false
        ∧ ntohl k.seq = ntohl p.tcphdr.ack_seq
        ∧ k.ack_seq = 0 := by
  unfold handle_tcp
  simp only [hurg, hsyn, hnone, Bool.false_eq_true, if_false, false_or]
  refine ⟨_, rfl, ?_⟩
  simp only [write_rst, write_tcp]
  simp
  exact ntohl_htonl _ (ntohl_lt _)

/-- Witness of `handle_tcp_stateless_rst`: the segment `stray_input` on an empty session
list. -/
theorem handle_tcp_stateless_rst_witness :
    ∃ k : tcp_packet,
      handle_tcp consts env_ok [] stray_input 0 1
          = some { sessions := [], tun := [k], ret := 0 }
        ∧ k.rst = true ∧ k.syn = false ∧ k.fin = false ∧ k.ack = false
        ∧ ntohl k.seq = 0x3000
        ∧ k.ack_seq = 0 :=
  handle_tcp_stateless_rst consts env_ok [] stray_input 0 1 (by decide) (by decide) (by decide)

/-- When the TUN write returns the length of the SYN/ACK, `write_syn_ack` leaves the session
as it was and returns 0. -/
theorem write_syn_ack_ok (res : Int) (t : tcp_session)
    (hres : res = (((if t.version = 4 then 20 else 40) + 20 + 8 : Nat) : Int)) :
    write_syn_ack res t = (t, (write_tcp res t [] 0 true true false false).1, 0) := by
  have h2 : (write_tcp res t [] 0 true true false false).2 = res := by
    simp only [write_tcp, if_true, Nat.add_zero]
    rw [if_neg (not_not.mpr hres)]
  have h3 : ¬ (write_tcp res t [] 0 true true false false).2 < 0 := by
    rw [h2, hres]
    omega
  unfold write_syn_ack
  dsimp only
  rw [if_neg h3]

/-- C20. For a session in LISTEN with SOCKS5 sub-state NONE and no proxy configured, an event
with `EPOLLOUT` and without `EPOLLERR` whose TUN write returns the length of the SYN/ACK (48
bytes for IPv4, 68 for IPv6): `check_tcp_socket` writes exactly one segment, with SYN and ACK
and without FIN and RST, whose sequence number is the session's `local_seq` (a `uint32_t`) and
whose acknowledgment number is `remote_seq + 1`; afterwards the session is in SYN_RECV and
`local_seq` and `remote_seq` are each one greater than before, in `uint32_t` arithmetic. -/
theorem check_tcp_socket_syn_ack (h : athena_h) (c : socks5_config) (env : check_tcp_socket_env)
    (s : ng_session) (hl : s.tcp.state = TCP_LISTEN) (hn : s.tcp.socks5 = SOCKS5_NONE)
    (hc : socks5_enabled c = false) (herr : env.events &&& EPOLLERR = 0)
    (hout : env.events &&& EPOLLOUT ≠ 0)
    (hw : env.tun_write 0 = (((if s.tcp.version = 4 then 20 else 40) + 20 + 8 : Nat) : Int))
    (hls : s.tcp.local_seq < 2 ^ 32) :
    ∃ k : tcp_packet,
      (check_tcp_socket h c env s).tun = [k]
        ∧ k.syn = true ∧ k.ack = true ∧ k.fin = false ∧ k.rst = false
        ∧ ntohl k.seq = s.tcp.local_seq
        ∧ ntohl k.ack_seq = (s.tcp.remote_seq + 1) % 2 ^ 32
        ∧ (check_tcp_socket h c env s).s.tcp.state = TCP_SYN_RECV
        ∧ (check_tcp_socket h c env s).s.tcp.local_seq = (s.tcp.local_seq + 1) % 2 ^ 32
        ∧ (check_tcp_socket h c env s).s.tcp.remote_seq = (s.tcp.remote_seq + 1) % 2 ^ 32 := by
  have hr : check_tcp_socket_listen_reply c env s.tcp
      = ({ s.tcp with socks5 := SOCKS5_CONNECTED }, []) := by
    unfold check_tcp_socket_listen_reply
    rw [if_pos hn, if_pos hout, hc]
    rfl
  have hs := write_syn_ack_ok (env.tun_write 0)
    { s.tcp with socks5 := SOCKS5_CONNECTED, remote_seq := (s.tcp.remote_seq + 1) % 2 ^ 32 } hw
  have hres : check_tcp_socket h c env s
      = { s := { s with tcp :=
                  { s.tcp with socks5 := SOCKS5_CONNECTED,
                               remote_seq := (s.tcp.remote_seq + 1) % 2 ^ 32,
                               time := env.now,
                               local_seq := (s.tcp.local_seq + 1) % 2 ^ 32,
                               state := TCP_SYN_RECV } },
          tun := [(write_tcp (env.tun_write 0)
            { s.tcp with socks5 := SOCKS5_CONNECTED,
                         remote_seq := (s.tcp.remote_seq + 1) % 2 ^ 32 }
            [] 0 true true false false).1],
          host := [] } := by
    unfold check_tcp_socket
    rw [if_neg (not_not.mpr herr), if_pos hl]
    dsimp only
    rw [hr]
    unfold check_tcp_socket_listen_request
    dsimp only
    rw [if_neg (by decide), if_neg (by decide), if_neg (by decide), if_pos rfl]
    simp only [List.length_nil]
    rw [hs]
    rfl
  rw [hres]
  refine ⟨_, rfl, rfl, rfl, rfl, rfl, ?_, ?_, rfl, rfl, rfl⟩
  · exact ntohl_htonl _ hls
  · exact ntohl_htonl _ (Nat.mod_lt _ (by norm_num))

/-- Witness of `check_tcp_socket_syn_ack`: `syn_session` (`local_seq = 7`,
`remote_seq = 0x1000`) becomes writable and the TUN write of 48 bytes succeeds. -/
theorem check_tcp_socket_syn_ack_witness :
    ∃ k : tcp_packet,
      (check_tcp_socket consts no_socks5 (env_writable 48) syn_session).tun = [k]
        ∧ k.syn = true ∧ k.ack = true ∧ k.fin = false ∧ k.rst = false
        ∧ ntohl k.seq = 7
        ∧ ntohl k.ack_seq = 0x1001
        ∧ (check_tcp_socket consts no_socks5 (env_writable 48) syn_session).s.tcp.state
            = TCP_SYN_RECV
        ∧ (check_tcp_socket consts no_socks5 (env_writable 48) syn_session).s.tcp.local_seq = 8
        ∧ (check_tcp_socket consts no_socks5 (env_writable 48) syn_session).s.tcp.remote_seq
            = 0x1001 :=
  check_tcp_socket_syn_ack consts no_socks5 (env_writable 48) syn_session (by decide)
    (by decide) (by decide) (by decide) (by decide) (by decide) (by decide)

/-! ## The loops of calc_checksum end -/

/-- The accumulator of the summation loop of `calc_checksum` stays a `uint32_t`. -/
theorem calc_checksum_sum_lt (l : List Nat) :
    ∀ s : Nat, s < 2 ^ 32 → calc_checksum_sum s l < 2 ^ 32 := by
  induction l using word_sum.induct with
  | case1 => intro s hs; simpa [calc_checksum_sum] using hs
  | case2 b0 => intro s _; exact Nat.mod_lt _ (by norm_num)
  | case3 b0 b1 rest ih =>
    intro s _
    rw [calc_checksum_sum]
    exact ih _ (Nat.mod_lt _ (by norm_num))

/-- For every start value, buffer and length, the folding loop of `calc_checksum` has ended
after the two iterations that the model allows: its condition `sum >> 16` is false at the
value reached, and a larger bound on the iterations gives the same value. The summation loop is
a recursion on the buffer. -/
theorem calc_checksum_returns (start : Nat) (buffer : List Nat) (length k : Nat) :
    calc_checksum_fold 2 (calc_checksum_sum (start % 2 ^ 16) (buffer.take length)) / 2 ^ 16 = 0
      ∧ calc_checksum_fold (2 + k) (calc_checksum_sum (start % 2 ^ 16) (buffer.take length))
          = calc_checksum_fold 2 (calc_checksum_sum (start % 2 ^ 16) (buffer.take length)) :=
  calc_checksum_fold_done _
    (calc_checksum_sum_lt _ _ (by have := Nat.mod_lt start (by norm_num : 0 < 2 ^ 16); omega)) k

/-! ## The pseudo-headers against the emitted IP headers -/

/-- For an IPv4 session the pseudo-header that `write_udp` fills in repeats the source and
destination address of the IP header it emits and its protocol byte, followed by the length of
UDP header and payload, high byte first. -/
theorem write_udp_pseudo_of_iphdr (cur : udp_session) (datalen : Nat)
    (h4 : cur.version = 4) :
    write_udp_pseudo cur datalen
      = ((write_udp_iphdr cur datalen).drop 12).take 8
        ++ [0, (write_udp_iphdr cur datalen).getD 9 0]
        ++ [(8 + datalen) / 256 % 256, (8 + datalen) % 256] := by
  unfold write_udp_pseudo write_udp_iphdr
  dsimp only
  rw [if_pos h4, if_pos h4]
  unfold ippseudo_mem iphdr_mem
  rw [mem16_htons]
  simp [mem16, mem32]

/-- The IPv6 pseudo-header as the code fills it in (the two addresses in the order
`ip6_dst`, `ip6_src`, the 16-bit `plen` stored into the 32-bit `ip6ph_len`) has the same 16-bit
words, up to their order, as the standard layout: source, destination, the length as a 32-bit
value in network byte order, three zero bytes and the next-header byte. -/
theorem ip6_hdr_pseudo_mem_standard (src dst : List Nat) (len nxt : Nat) (hl : len < 65536) :
    word_sum (ip6_hdr_pseudo_mem src dst len nxt)
      = word_sum (memcpy_bytes 16 dst ++ (memcpy_bytes 16 src
          ++ ([0, 0] ++ mem16 len ++ [0, 0, 0, nxt % 256]))) := by
  have e16 : ∀ a : List Nat, (memcpy_bytes 16 a).length % 2 = 0 := by
    intro a
    rw [memcpy_bytes_length]
  unfold ip6_hdr_pseudo_mem
  rw [List.append_assoc, List.append_assoc, word_sum_append _ _ (e16 src),
    word_sum_append _ _ (e16 dst), word_sum_append _ _ (e16 dst),
    word_sum_append _ _ (e16 src)]
  simp only [mem32, mem16, List.cons_append, List.nil_append, word_sum]
  omega

/-! ## handle_ip: admission, fragments, the classifier, extension headers, bounds -/

/-- The bounds check of `handle_ip` for TCP. -/
theorem handle_ip_transport_tcp (pkt : List Nat) (length off : Nat) :
    handle_ip_transport pkt length IPPROTO_TCP off
      = if (((length : Int) - (off : Int)) % 2 ^ 64).toNat < 20 then none
        else some (tcphdr_load (pkt.drop off)).syn := by
  unfold handle_ip_transport
  simp

/-- C23: with `sessions >= maxsessions`, `handle_ip` given a datagram that its header analysis
takes for TCP and whose TCP header has SYN set returns with the session list unchanged, nothing
written to the TUN (no RST) or sent to the host, and no handler invoked. -/
theorem handle_ip_budget_drops_syn (h : athena_h) (env : handle_ip_env) (l : List ng_session)
    (pkt : List Nat) (length off : Nat) (sessions maxsessions : Int)
    (hb : sessions ≥ maxsessions)
    (hp : handle_ip_header env.loglevel pkt length = some (some (IPPROTO_TCP, off)))
    (hsyn : (tcphdr_load (pkt.drop off)).syn = true) :
    handle_ip h env l pkt length sessions maxsessions = some (ip_dropped l) := by
  unfold handle_ip
  simp only [hp, handle_ip_transport_tcp]
  by_cases h1 : (((length : Int) - (off : Int)) % 2 ^ 64).toNat < 20
  · simp only [if_pos h1]
    rfl
  · simp only [if_neg h1, hsyn]
    rw [if_pos ⟨hb, Or.inr (Or.inr ⟨trivial, trivial⟩)⟩]
    rfl

/-- The theorem `handle_ip_budget_drops_syn` at the SYN `syn_packet 40000` with one session
counted and a budget of one. -/
theorem handle_ip_budget_drops_syn_witness :
    handle_ip_header env_ip.loglevel (syn_packet 40000) 40 = some (some (IPPROTO_TCP, 20))
      ∧ (tcphdr_load ((syn_packet 40000).drop 20)).syn = true
      ∧ handle_ip consts env_ip [dns_session] (syn_packet 40000) 40 1 1
          = some (ip_dropped [dns_session]) :=
  ⟨by decide, by decide,
    handle_ip_budget_drops_syn consts env_ip [dns_session] (syn_packet 40000) 40 20 1 1
      (by decide) (by decide) (by decide)⟩

/-- C24: `handle_ip` does not drop every IPv4 datagram with More-Fragments set. The test
`ip4hdr->frag_off & IP_MF` is made on the field as the little-endian machine loads it, so
`0x2000` selects bit `0x20` of header byte 7. The datagram `mf_packet` has bit `0x20` of byte 6
set: `handle_udp` is invoked for it, a session is created and the payload is sent to the host.
The datagram `offset_packet` has the flag clear and is dropped. -/
theorem handle_ip_more_fragments_passes :
    mf_packet.getD 6 0 &&& 0x20 = 0x20
      ∧ (handle_ip consts env_ip [] mf_packet 31 0 10).map
          (fun r => (r.call, r.sessions.length, r.host.length)) = some (ip_call.udp 20, 1, 1)
      ∧ offset_packet.getD 6 0 &&& 0x20 = 0
      ∧ handle_ip consts env_ip [] offset_packet 31 0 10 = some (ip_dropped []) := by
  decide

/-- A denied TCP datagram in `handle_ip`: when `filter_tcp_packet` returns false for a datagram
that the header analysis takes for TCP, `handle_ip` does not call `handle_tcp`: the session list is
unchanged, nothing is written to the TUN, nothing is sent to the host. -/
theorem handle_ip_denied_tcp (h : athena_h) (env : handle_ip_env) (l : List ng_session)
    (pkt : List Nat) (length off : Nat) (sessions maxsessions : Int)
    (hf : env.filter_tcp = false)
    (hp : handle_ip_header env.loglevel pkt length = some (some (IPPROTO_TCP, off))) :
    handle_ip h env l pkt length sessions maxsessions = some (ip_dropped l) := by
  unfold handle_ip
  simp only [hp, handle_ip_transport_tcp]
  by_cases h1 : (((length : Int) - (off : Int)) % 2 ^ 64).toNat < 20
  · simp only [if_pos h1]
    rfl
  · simp only [if_neg h1, hf]
    simp [ip_dropped]

/-- The theorem `handle_ip_denied_tcp` at the SYN `syn_packet 40000`. -/
theorem handle_ip_denied_tcp_witness :
    env_ip_denied.filter_tcp = false
      ∧ handle_ip_header env_ip_denied.loglevel (syn_packet 40000) 40
          = some (some (IPPROTO_TCP, 20))
      ∧ handle_ip consts env_ip_denied [] (syn_packet 40000) 40 0 10 = some (ip_dropped []) :=
  ⟨rfl, by decide,
    handle_ip_denied_tcp consts env_ip_denied [] (syn_packet 40000) 40 20 0 10 rfl
      (by decide)⟩

/-- C25 (code bug). For the SYN `syn_packet 40000`, which matches no session, and a classifier
that returns false, `handle_ip` creates no session and writes no RST. The branch of
`handle_tcp` that resets a denied SYN (`allowed = 0`) does create the session and write the
RST, but `handle_ip` never takes it: it passes `allowed = 1` and skips the call when the
classifier denies. -/
theorem handle_ip_denied_syn_no_rst :
    handle_ip consts env_ip_denied [] (syn_packet 40000) 40 0 10 = some (ip_dropped [])
      ∧ (handle_tcp consts env_ok [] (handle_tcp_input (syn_packet 40000) 40 20) (-1) 0).map
          (fun r => (r.sessions.length, r.tun.map (fun q => q.rst))) = some (1, [true]) := by
  decide

/-- C26: `handle_ip` does not find the upper-layer protocol behind an IPv6 extension header.
The datagram `ext_packet` is a fixed header, one hop-by-hop options header of 8 bytes and a TCP
header at offset 48. The header analysis yields protocol 0 and payload offset 40, not TCP at 48:
inside the loop `protocol` only takes lower-layer values, so the test after the loop always
resets it. No handler is invoked and no session is created. -/
theorem handle_ip_extension_header_lost :
    ext_packet.getD 6 0 = 0 ∧ ext_packet.getD 40 0 = IPPROTO_TCP
      ∧ (tcphdr_load (ext_packet.drop 48)).syn = true
      ∧ handle_ip_header 5 ext_packet 68 = some (some (0, 40))
      ∧ handle_ip consts env_ip [] ext_packet 68 0 10 = some (ip_dropped []) := by
  decide

/-- C27: `handle_ip` dispatches to `handle_tcp` with a TCP header outside the datagram. The
datagram `ihl_packet` has 40 bytes and `ihl` 15, so `payload` is 60 bytes past `pkt`; the
subtraction `length - (payload - pkt)` wraps as a `size_t` and the test against
`sizeof(struct tcphdr)` passes. With `ihl` 4 the offset is 272. -/
theorem handle_ip_dispatch_out_of_bounds :
    (handle_ip consts env_ip [] ihl_packet 40 0 10).map (fun r => r.call)
        = some (ip_call.tcp 60 1)
      ∧ ¬ (60 + 20 ≤ 40)
      ∧ (handle_ip consts env_ip [] ((syn_packet 40000).set 0 0x44) 40 0 10).map
          (fun r => r.call) = some (ip_call.tcp 272 1) := by
  decide

/-! ## check_tcp_socket: the end of the host stream -/

/-- The ACK writer `write_ack` returns 0 and leaves the session alone when the TUN write returns
the length of the segment. -/
theorem write_ack_ok (res : Int) (t : tcp_session)
    (hres : res = (((if t.version = 4 then 20 else 40) + 20 : Nat) : Int)) :
    write_ack res t = (t, (write_tcp res t [] 0 false true false false).1, 0) := by
  have h2 : (write_tcp res t [] 0 false true false false).2 = res := by
    simp only [write_tcp, Bool.false_eq_true, if_false, Nat.add_zero]
    rw [if_neg (not_not.mpr hres)]
  have h3 : ¬ (write_tcp res t [] 0 false true false false).2 < 0 := by
    rw [h2, hres]
    omega
  unfold write_ack
  dsimp only
  rw [if_neg h3]

/-- The FIN writer `write_fin_ack` returns 0 and leaves the session alone when the TUN write
returns the length of the segment. -/
theorem write_fin_ack_ok (res : Int) (t : tcp_session)
    (hres : res = (((if t.version = 4 then 20 else 40) + 20 : Nat) : Int)) :
    write_fin_ack res t = (t, (write_tcp res t [] 0 false true true false).1, 0) := by
  have h2 : (write_tcp res t [] 0 false true true false).2 = res := by
    simp only [write_tcp, Bool.false_eq_true, if_false, Nat.add_zero]
    rw [if_neg (not_not.mpr hres)]
  have h3 : ¬ (write_tcp res t [] 0 false true true false).2 < 0 := by
    rw [h2, hres]
    omega
  unfold write_fin_ack
  dsimp only
  rw [if_neg h3]

/-- The relation `window_kept` is reflexive. -/
theorem window_kept_refl (t : tcp_session) : window_kept t t :=
  ⟨Or.inl rfl, rfl, rfl, rfl, rfl⟩

/-- Two records related by `window_kept` have the same `get_send_window`. -/
theorem window_kept_send_window (t t1 : tcp_session) (h : window_kept t t1) :
    get_send_window t1 = get_send_window t := by
  unfold get_send_window
  rw [h.2.1, h.2.2.1, h.2.2.2.1, h.2.2.2.2]

/-- The relation `window_kept` is transitive. -/
theorem window_kept_trans (a b c : tcp_session) (h1 : window_kept a b) (h2 : window_kept b c) :
    window_kept a c := by
  refine ⟨?_, h2.2.1.trans h1.2.1, h2.2.2.1.trans h1.2.2.1, h2.2.2.2.1.trans h1.2.2.2.1,
    h2.2.2.2.2.trans h1.2.2.2.2⟩
  rcases h2.1 with e | e
  · rcases h1.1 with f | f
    · left; rw [e, f]
    · right; rw [e, f]
  · right; exact e

/-- The RST writer `write_rst` keeps the fields that `get_send_window` reads, and the state
unless it moves it to CLOSING. -/
theorem write_rst_window_kept (res : Int) (t : tcp_session) :
    window_kept t (write_rst res t).1 := by
  constructor
  · rcases write_rst_state res t with e | ⟨e, f⟩
    · right; exact e
    · left; rw [e, f]
  · unfold write_rst
    dsimp only
    split_ifs <;> exact ⟨rfl, rfl, rfl, rfl⟩

/-- The ACK writer `write_ack` keeps the fields that `get_send_window` reads, and the state
unless it moves it to CLOSING. -/
theorem write_ack_window_kept (res : Int) (t : tcp_session) :
    window_kept t (write_ack res t).1 := by
  constructor
  · exact write_ack_state res t
  · unfold write_ack
    dsimp only
    split_ifs <;> exact ⟨rfl, rfl, rfl, rfl⟩

/-- The segment that `write_rst` writes has no FIN. -/
theorem write_rst_no_fin (res : Int) (t : tcp_session) : (write_rst res t).2.fin = false := rfl

/-- The segment that `write_ack` writes has no FIN. -/
theorem write_ack_no_fin (res : Int) (t : tcp_session) : (write_ack res t).2.1.fin = false := by
  unfold write_ack
  dsimp only
  split_ifs <;> rfl

/-- The drain loop of `check_tcp_socket` keeps the fields that `get_send_window` reads, keeps
the state unless it moves it to CLOSING, and writes no FIN. -/
theorem check_tcp_socket_drain_kept (env : check_tcp_socket_env) :
    ∀ (q : List segment) (i : Nat) (t : tcp_session) (buffer_size : Nat) (fwd : Bool)
      (host : List (List Nat)),
      window_kept t (check_tcp_socket_drain env i t buffer_size fwd host q).t
        ∧ ∀ p ∈ (check_tcp_socket_drain env i t buffer_size fwd host q).tun, p.fin = false := by
  intro q
  induction q with
  | nil =>
    intro i t buffer_size fwd host
    exact ⟨⟨Or.inl rfl, rfl, rfl, rfl, rfl⟩, fun p hp => by cases hp⟩
  | cons f rest ih =>
    intro i t buffer_size fwd host
    unfold check_tcp_socket_drain
    dsimp only
    apply ite_ind (fun r : drain_result =>
      window_kept t r.t ∧ ∀ p ∈ r.tun, p.fin = false) <;> intro _
    · apply ite_ind (fun r : drain_result =>
        window_kept t r.t ∧ ∀ p ∈ r.tun, p.fin = false) <;> intro _
      · apply ite_ind (fun r : drain_result =>
          window_kept t r.t ∧ ∀ p ∈ r.tun, p.fin = false) <;> intro _
        · exact ⟨⟨Or.inl rfl, rfl, rfl, rfl, rfl⟩, fun p hp => by cases hp⟩
        · refine ⟨window_kept_trans t { t with forward := f :: rest } _
            ⟨Or.inl rfl, rfl, rfl, rfl, rfl⟩ (write_rst_window_kept (env.tun_write 0) _), ?_⟩
          intro p hp
          rw [List.mem_singleton] at hp
          rw [hp]
          rfl
      · apply ite_ind (fun r : drain_result =>
          window_kept t r.t ∧ ∀ p ∈ r.tun, p.fin = false) <;> intro _
        · have h1 := ih (i + 1)
            { t with sent := (t.sent + (env.send i).toNat) % 2 ^ 64,
                     remote_seq := (f.seq + (f.sent + (env.send i).toNat) % 2 ^ 16) % 2 ^ 32 }
            ((buffer_size + 2 ^ 32 - (env.send i).toNat % 2 ^ 32) % 2 ^ 32) true
            (host ++ [(f.data.drop f.sent).take
              ((((f.len : Int) - (f.sent : Int)) % 2 ^ 64).toNat)])
          exact ⟨window_kept_trans t _ _ ⟨Or.inl rfl, rfl, rfl, rfl, rfl⟩ h1.1, h1.2⟩
        · exact ⟨⟨Or.inl rfl, rfl, rfl, rfl, rfl⟩, fun p hp => by cases hp⟩
    · exact ⟨⟨Or.inl rfl, rfl, rfl, rfl, rfl⟩, fun p hp => by cases hp⟩

/-- The window update of `check_tcp_socket` keeps the fields that `get_send_window` reads and
the forward queue, keeps the state unless it moves it to CLOSING, and writes no FIN. -/
theorem check_tcp_socket_window_kept (h : athena_h) (env : check_tcp_socket_env)
    (s : ng_session) (d : drain_result) (hd : ∀ p ∈ d.tun, p.fin = false) :
    window_kept d.t (check_tcp_socket_window h env s d).1.tcp
      ∧ (check_tcp_socket_window h env s d).1.tcp.forward = d.t.forward
      ∧ ∀ p ∈ (check_tcp_socket_window h env s d).2, p.fin = false := by
  unfold check_tcp_socket_window
  dsimp only
  apply ite_ind (fun r : ng_session × List tcp_packet =>
    window_kept d.t r.1.tcp ∧ r.1.tcp.forward = d.t.forward ∧ ∀ p ∈ r.2, p.fin = false)
    <;> intro _
  · have hk : ∀ t3 : tcp_session, window_kept d.t t3 → t3.forward = d.t.forward →
        (window_kept d.t (write_ack (env.tun_write d.tun.length) t3).1
          ∧ (write_ack (env.tun_write d.tun.length) t3).1.forward = d.t.forward
          ∧ ∀ p ∈ d.tun ++ [(write_ack (env.tun_write d.tun.length) t3).2.1],
              p.fin = false) := by
      intro t3 h3 hf
      refine ⟨window_kept_trans _ _ _ h3 (write_ack_window_kept _ _), ?_, ?_⟩
      · rw [write_ack_forward, hf]
      · intro p hp
        rcases List.mem_append.mp hp with h1 | h1
        · exact hd p h1
        · rw [List.mem_singleton] at h1
          rw [h1]
          exact write_ack_no_fin _ _
    have hk3 := hk
      (if d.fwd = true ∧ d.t.forward = [] ∧ d.t.state = TCP_CLOSE_WAIT then
        { d.t with recv_window := get_receive_window h env.probe_window { s with tcp := d.t },
                   remote_seq := (d.t.remote_seq + 1) % 2 ^ 32 }
      else
        { d.t with recv_window :=
            get_receive_window h env.probe_window { s with tcp := d.t } })
      (by split_ifs <;> exact ⟨Or.inl rfl, rfl, rfl, rfl, rfl⟩) (by split_ifs <;> rfl)
    apply ite_ind (fun r : ng_session × List tcp_packet =>
      window_kept d.t r.1.tcp ∧ r.1.tcp.forward = d.t.forward ∧ ∀ p ∈ r.2, p.fin = false)
      <;> intro _
    · exact ⟨⟨hk3.1.1, hk3.1.2⟩, hk3.2.1, hk3.2.2⟩
    · exact hk3
  · exact ⟨⟨Or.inl rfl, rfl, rfl, rfl, rfl⟩, rfl, hd⟩

/-- The read from the host socket of `check_tcp_socket` at the end of the stream with queued
data: the session ends in CLOSING and no FIN is written. -/
theorem check_tcp_socket_recv_eof_rst (env : check_tcp_socket_env) (s : ng_session)
    (out : List tcp_packet)
    (hst : s.tcp.state = TCP_ESTABLISHED ∨ s.tcp.state = TCP_CLOSE_WAIT
      ∨ s.tcp.state = TCP_CLOSING)
    (hq : s.tcp.forward ≠ []) (hin : env.events &&& EPOLLIN ≠ 0)
    (hw : get_send_window s.tcp > 0) (hrecv : env.recv = 0)
    (hout : ∀ p ∈ out, p.fin = false) :
    (check_tcp_socket_recv env s out).1.tcp.state = TCP_CLOSING
      ∧ ∀ p ∈ (check_tcp_socket_recv env s out).2, p.fin = false := by
  unfold check_tcp_socket_recv
  by_cases h1 : s.tcp.state = TCP_ESTABLISHED ∨ s.tcp.state = TCP_CLOSE_WAIT
  · have hne : s.tcp.state ≠ TCP_CLOSE := by
      rcases h1 with e | e <;> rw [e] <;> decide
    have hrst : ∀ t : tcp_session, t.state = s.tcp.state →
        (write_rst (env.tun_write out.length) t).1.state = TCP_CLOSING := by
      intro t ht
      rcases write_rst_state (env.tun_write out.length) t with e | ⟨_, e⟩
      · exact e
      · rw [ht] at e
        exact absurd e hne
    simp only [if_pos h1, if_pos (And.intro hin hw), hrecv, lt_irrefl, if_false, if_true,
      check_tcp_socket_eof, if_neg hq]
    refine ⟨hrst _ rfl, ?_⟩
    intro p hp
    rcases List.mem_append.mp hp with h2 | h2
    · exact hout p h2
    · rw [List.mem_singleton] at h2
      rw [h2]
      rfl
  · rw [if_neg h1]
    rcases hst with e | e | e
    · exact absurd (Or.inl e) h1
    · exact absurd (Or.inr e) h1
    · exact ⟨e, hout⟩

/-- The read from the host socket of `check_tcp_socket` at the end of the stream with an empty
forward queue, when the TUN write succeeds: the FIN/ACK is written, `local_seq` advances, the
state follows, the socket is closed. -/
theorem check_tcp_socket_recv_eof_fin (env : check_tcp_socket_env) (s : ng_session)
    (out : List tcp_packet)
    (hst : s.tcp.state = TCP_ESTABLISHED ∨ s.tcp.state = TCP_CLOSE_WAIT)
    (hq : s.tcp.forward = []) (hin : env.events &&& EPOLLIN ≠ 0)
    (hw : get_send_window s.tcp > 0) (hrecv : env.recv = 0)
    (hres : env.tun_write out.length
      = (((if s.tcp.version = 4 then 20 else 40) + 20 : Nat) : Int))
    (hsock : 0 ≤ s.socket) :
    check_tcp_socket_recv env s out
      = ({ s with
           socket := -1,
           tcp := { s.tcp with
                    time := env.now_in,
                    local_seq := (s.tcp.local_seq + 1) % 2 ^ 32,
                    state := if s.tcp.state = TCP_ESTABLISHED then TCP_FIN_WAIT1
                             else TCP_LAST_ACK } },
         out ++ [(write_tcp (env.tun_write out.length) { s.tcp with time := env.now_in }
                   [] 0 false true true false).1]) := by
  have hf := write_fin_ack_ok (env.tun_write out.length) { s.tcp with time := env.now_in } hres
  unfold check_tcp_socket_recv
  simp only [if_pos hst, if_pos (And.intro hin hw), hrecv, lt_irrefl, if_false, if_true,
    check_tcp_socket_eof, if_pos hq, hf, ge_iff_le, le_refl, if_pos hsock,
    check_tcp_socket_fin_state]
  rcases hst with e | e
  · simp only [e, if_true]
  · have h8 : ¬ (TCP_CLOSE_WAIT = TCP_ESTABLISHED) := by decide
    simp only [e, if_neg h8, if_true]

/-- The window update of `check_tcp_socket` after a drain that forwarded nothing and wrote
nothing, when the TUN write of an ACK succeeds: only `recv_window` and the activity time of the
session change. -/
theorem check_tcp_socket_window_idle (h : athena_h) (env : check_tcp_socket_env)
    (s : ng_session) (d : drain_result) (hf : d.fwd = false) (ht : d.tun = [])
    (hres : env.tun_write 0 = (((if d.t.version = 4 then 20 else 40) + 20 : Nat) : Int)) :
    ∃ T : Int,
      (check_tcp_socket_window h env s d).1
        = { s with tcp :=
            { d.t with
              recv_window := get_receive_window h env.probe_window { s with tcp := d.t },
              time := T } } := by
  have ha := write_ack_ok (env.tun_write 0)
    { d.t with recv_window := get_receive_window h env.probe_window { s with tcp := d.t } } hres
  unfold check_tcp_socket_window
  simp only [hf, ht, Bool.false_eq_true, false_and, if_false, false_or, List.length_nil, ha,
    ge_iff_le, le_refl, if_true]
  split_ifs
  · exact ⟨env.now, rfl⟩
  · exact ⟨d.t.time, rfl⟩

/-- C21: a session in ESTABLISHED or CLOSE_WAIT with a positive send window gets an event with
`EPOLLIN` and without `EPOLLERR`, and `recv` on the host socket returns 0. With an empty forward
queue, an open host socket and TUN writes that succeed, the last segment that
`check_tcp_socket` writes is a FIN/ACK without data whose seq is `local_seq` and whose ack is
`remote_seq` (an ACK for a window that opened may precede it); afterwards `local_seq` is one
greater, the state is FIN_WAIT1 (from ESTABLISHED) or LAST_ACK (from CLOSE_WAIT), the socket
is -1. With a forward queue that is not empty at the read, the session ends in CLOSING and no
segment written carries FIN. -/
theorem check_tcp_socket_end_of_stream (h : athena_h) (c : socks5_config)
    (env : check_tcp_socket_env) (s : ng_session)
    (hst : s.tcp.state = TCP_ESTABLISHED ∨ s.tcp.state = TCP_CLOSE_WAIT)
    (herr : env.events &&& EPOLLERR = 0) (hin : env.events &&& EPOLLIN ≠ 0)
    (hw : get_send_window s.tcp > 0) (hrecv : env.recv = 0) :
    (s.tcp.forward = [] →
      (∀ k, env.tun_write k = (((if s.tcp.version = 4 then 20 else 40) + 20 : Nat) : Int)) →
      0 ≤ s.socket →
      ∃ (pre : List tcp_packet) (k : tcp_packet),
        (check_tcp_socket h c env s).tun = pre ++ [k]
          ∧ (∀ p ∈ pre, p.fin = false)
          ∧ k.fin = true ∧ k.ack = true ∧ k.syn = false ∧ k.rst = false ∧ k.data = []
          ∧ k.seq = htonl s.tcp.local_seq ∧ k.ack_seq = htonl s.tcp.remote_seq
          ∧ (check_tcp_socket h c env s).s.tcp.local_seq = (s.tcp.local_seq + 1) % 2 ^ 32
          ∧ (check_tcp_socket h c env s).s.tcp.remote_seq = s.tcp.remote_seq
          ∧ (check_tcp_socket h c env s).s.tcp.state
              = (if s.tcp.state = TCP_ESTABLISHED then TCP_FIN_WAIT1 else TCP_LAST_ACK)
          ∧ (check_tcp_socket h c env s).s.socket = -1)
      ∧ (queue_at_recv h env s ≠ [] →
          (check_tcp_socket h c env s).s.tcp.state = TCP_CLOSING
            ∧ ∀ p ∈ (check_tcp_socket h c env s).tun, p.fin = false) := by
  have hl : s.tcp.state ≠ TCP_LISTEN := by
    rcases hst with e | e <;> rw [e] <;> decide
  have hcs : check_tcp_socket h c env s
      = (let d : drain_result :=
          if env.events &&& EPOLLOUT ≠ 0 then
            check_tcp_socket_drain env 0 s.tcp (get_receive_buffer h env.probe_drain s) false []
              s.tcp.forward
          else { t := s.tcp, fwd := false, tun := [], host := [] }
        let a := check_tcp_socket_window h env s d
        let b := check_tcp_socket_recv env a.1 a.2
        { s := b.1, tun := b.2, host := d.host }) := by
    unfold check_tcp_socket
    rw [if_neg (not_not.mpr herr), if_neg hl]
  constructor
  · intro hq hwr hsock
    have hd : (if env.events &&& EPOLLOUT ≠ 0 then
            check_tcp_socket_drain env 0 s.tcp (get_receive_buffer h env.probe_drain s) false []
              s.tcp.forward
          else ({ t := s.tcp, fwd := false, tun := [], host := [] } : drain_result))
        = { t := s.tcp, fwd := false, tun := [], host := [] } := by
      have he : ({ s.tcp with forward := [] } : tcp_session) = s.tcp := by
        rw [← hq]
      split_ifs
      · rw [hq]
        unfold check_tcp_socket_drain
        rw [he]
      · rfl
    obtain ⟨T, hT⟩ := check_tcp_socket_window_idle h env s
      { t := s.tcp, fwd := false, tun := [], host := [] } rfl rfl (hwr 0)
    have hno := (check_tcp_socket_window_kept h env s
      { t := s.tcp, fwd := false, tun := [], host := [] } (fun p hp => by cases hp)).2.2
    have hfin := check_tcp_socket_recv_eof_fin env
      (check_tcp_socket_window h env s { t := s.tcp, fwd := false, tun := [], host := [] }).1
      (check_tcp_socket_window h env s { t := s.tcp, fwd := false, tun := [], host := [] }).2
      (by rw [hT]; exact hst) (by rw [hT]; exact hq) hin (by rw [hT]; exact hw) hrecv
      (by rw [hT]; exact hwr _) (by rw [hT]; exact hsock)
    rw [hcs]
    dsimp only
    rw [hd, hfin]
    refine ⟨_, _, rfl, hno, rfl, rfl, rfl, rfl, rfl, ?_, ?_, ?_, ?_, ?_, rfl⟩
    · rw [hT]; rfl
    · rw [hT]; rfl
    · rw [hT]
    · rw [hT]
    · rw [hT]
  · intro hq
    have hdk := check_tcp_socket_drain_kept env s.tcp.forward 0 s.tcp
      (get_receive_buffer h env.probe_drain s) false []
    have hd : window_kept s.tcp
          (if env.events &&& EPOLLOUT ≠ 0 then
            check_tcp_socket_drain env 0 s.tcp (get_receive_buffer h env.probe_drain s) false []
              s.tcp.forward
          else ({ t := s.tcp, fwd := false, tun := [], host := [] } : drain_result)).t
        ∧ (∀ p ∈ (if env.events &&& EPOLLOUT ≠ 0 then
            check_tcp_socket_drain env 0 s.tcp (get_receive_buffer h env.probe_drain s) false []
              s.tcp.forward
          else ({ t := s.tcp, fwd := false, tun := [], host := [] } : drain_result)).tun,
            p.fin = false)
        ∧ (if env.events &&& EPOLLOUT ≠ 0 then
            check_tcp_socket_drain env 0 s.tcp (get_receive_buffer h env.probe_drain s) false []
              s.tcp.forward
          else ({ t := s.tcp, fwd := false, tun := [], host := [] } : drain_result)).t.forward
            = queue_at_recv h env s := by
      unfold queue_at_recv
      split_ifs
      · exact ⟨hdk.1, hdk.2, rfl⟩
      · exact ⟨window_kept_refl _, (fun p hp => by cases hp), rfl⟩
    rw [hcs]
    dsimp only
    generalize (if env.events &&& EPOLLOUT ≠ 0 then
            check_tcp_socket_drain env 0 s.tcp (get_receive_buffer h env.probe_drain s) false []
              s.tcp.forward
          else ({ t := s.tcp, fwd := false, tun := [], host := [] } : drain_result)) = d at hd
    obtain ⟨k1, k2, k3⟩ := check_tcp_socket_window_kept h env s d hd.2.1
    have kk := window_kept_trans _ _ _ hd.1 k1
    apply check_tcp_socket_recv_eof_rst env _ _ _ _ hin _ hrecv k3
    · rcases kk.1 with e | e
      · rw [e]
        rcases hst with f | f
        · exact Or.inl f
        · exact Or.inr (Or.inl f)
      · exact Or.inr (Or.inr e)
    · rw [k2, hd.2.2]
      exact hq
    · rw [window_kept_send_window _ _ kk]
      exact hw

/-- The theorem `check_tcp_socket_end_of_stream` at `est_session`, whose forward queue is empty,
and at `est_data_session`, which has two bytes queued, for the answers `env_eof`. -/
theorem check_tcp_socket_end_of_stream_witness :
    (get_send_window est_session.tcp > 0 ∧ est_session.tcp.forward = []
      ∧ ∃ (pre : List tcp_packet) (k : tcp_packet),
          (check_tcp_socket consts no_socks5 env_eof est_session).tun = pre ++ [k]
            ∧ (∀ p ∈ pre, p.fin = false)
            ∧ k.fin = true ∧ k.ack = true ∧ k.syn = false ∧ k.rst = false ∧ k.data = []
            ∧ k.seq = htonl est_session.tcp.local_seq
            ∧ k.ack_seq = htonl est_session.tcp.remote_seq
            ∧ (check_tcp_socket consts no_socks5 env_eof est_session).s.tcp.local_seq
                = (est_session.tcp.local_seq + 1) % 2 ^ 32
            ∧ (check_tcp_socket consts no_socks5 env_eof est_session).s.tcp.remote_seq
                = est_session.tcp.remote_seq
            ∧ (check_tcp_socket consts no_socks5 env_eof est_session).s.tcp.state
                = (if est_session.tcp.state = TCP_ESTABLISHED then TCP_FIN_WAIT1
                   else TCP_LAST_ACK)
            ∧ (check_tcp_socket consts no_socks5 env_eof est_session).s.socket = -1)
      ∧ (get_send_window est_data_session.tcp > 0
          ∧ queue_at_recv consts env_eof est_data_session ≠ []
          ∧ (check_tcp_socket consts no_socks5 env_eof est_data_session).s.tcp.state
              = TCP_CLOSING
          ∧ ∀ p ∈ (check_tcp_socket consts no_socks5 env_eof est_data_session).tun,
              p.fin = false) :=
  ⟨⟨by decide, rfl,
      (check_tcp_socket_end_of_stream consts no_socks5 env_eof est_session (Or.inl rfl)
        (by decide) (by decide) (by decide) rfl).1 rfl (fun _ => rfl) (by decide)⟩,
    ⟨by decide, by decide,
      (check_tcp_socket_end_of_stream consts no_socks5 env_eof est_data_session (Or.inl rfl)
        (by decide) (by decide) (by decide) rfl).2 (by decide)⟩⟩

/-! ## handle_tcp: a retransmitted SYN -/

/-- The bookkeeping `handle_tcp_refresh` for a SYN leaves the sequence numbers, the state and
the activity time alone. -/
theorem handle_tcp_refresh_syn (env : handle_tcp_env) (p : tcp_input) (t : tcp_session)
    (hsyn : p.tcphdr.syn = true) :
    (handle_tcp_refresh env p t).local_seq = t.local_seq
      ∧ (handle_tcp_refresh env p t).remote_seq = t.remote_seq
      ∧ (handle_tcp_refresh env p t).state = t.state
      ∧ (handle_tcp_refresh env p t).time = t.time := by
  unfold handle_tcp_refresh
  simp [hsyn]

/-- The enqueueing `queue_tcp` changes the forward queue only. -/
theorem queue_tcp_frame (hdr : tcphdr) (t : tcp_session) (data : List Nat) (datalen : Nat) :
    (queue_tcp hdr t data datalen).local_seq = t.local_seq
      ∧ (queue_tcp hdr t data datalen).remote_seq = t.remote_seq
      ∧ (queue_tcp hdr t data datalen).state = t.state
      ∧ (queue_tcp hdr t data datalen).time = t.time
      ∧ (queue_tcp hdr t data datalen).acked = t.acked := by
  unfold queue_tcp
  dsimp only
  split_ifs <;> exact ⟨rfl, rfl, rfl, rfl, rfl⟩

/-- C28: for a session in LISTEN that the lookup of `handle_tcp` finds, a segment with SYN set
and ACK, RST and URG clear (FIN either way) leaves `local_seq`, `remote_seq`, the state and the
activity time of the session as they were; nothing is written to the TUN and the call returns 1.
Payload on the segment presupposes the host socket that a session in LISTEN of a reachable list
has (`reachable_listen_socket`). -/
theorem handle_tcp_syn_retransmit (h : athena_h) (env : handle_tcp_env)
    (sessions : List ng_session) (p : tcp_input) (uid : Int) (allowed : Int) (cur : ng_session)
    (hfind : sessions.find? (handle_tcp_match p) = some cur)
    (hst : cur.tcp.state = TCP_LISTEN)
    (hsyn : p.tcphdr.syn = true) (hack : p.tcphdr.ack = false) (hrst : p.tcphdr.rst = false)
    (hurg : p.tcphdr.urg = false) (hsock : p.datalen = 0 ∨ 0 ≤ cur.socket) :
    ∃ cur1 : ng_session,
      handle_tcp h env sessions p uid allowed
          = some { sessions := session_update (handle_tcp_match p) cur1 sessions, tun := [],
                   ret := 1 }
        ∧ cur1.tcp.local_seq = cur.tcp.local_seq ∧ cur1.tcp.remote_seq = cur.tcp.remote_seq
        ∧ cur1.tcp.state = cur.tcp.state ∧ cur1.tcp.time = cur.tcp.time
        ∧ cur1.socket = cur.socket := by
  obtain ⟨r1, r2, r3, r4⟩ := handle_tcp_refresh_syn env p cur.tcp hsyn
  have hc : ¬ (cur.tcp.state = TCP_CLOSING ∨ cur.tcp.state = TCP_CLOSE) := by
    rw [hst]; decide
  have h1 : ¬ (p.datalen ≠ 0 ∧ cur.socket < 0) := by
    rintro ⟨a, b⟩
    rcases hsock with c | c
    · exact a c
    · omega
  have h2 : ¬ (p.datalen ≠ 0 ∧ (handle_tcp_refresh env p cur.tcp).state = TCP_CLOSE_WAIT) := by
    rintro ⟨_, b⟩
    rw [r3, hst] at b
    exact absurd b (by decide)
  have hs : handle_tcp_session env p cur
      = ({ cur with tcp :=
            (if p.datalen ≠ 0 then
              queue_tcp p.tcphdr (handle_tcp_refresh env p cur.tcp) p.data p.datalen
             else handle_tcp_refresh env p cur.tcp) }, [], 1) := by
    unfold handle_tcp_session
    dsimp only
    rw [if_neg h1, if_neg h2]
    unfold handle_tcp_flags
    simp only [hrst, hack, hsyn, Bool.false_eq_true, if_false, not_false_eq_true, true_or,
      if_true]
  refine ⟨{ cur with tcp :=
            (if p.datalen ≠ 0 then
              queue_tcp p.tcphdr (handle_tcp_refresh env p cur.tcp) p.data p.datalen
             else handle_tcp_refresh env p cur.tcp) }, ?_, ?_, ?_, ?_, ?_, rfl⟩
  · unfold handle_tcp
    simp only [hurg, hfind, Bool.false_eq_true, if_false, if_neg hc, hs]
  · show (if p.datalen ≠ 0 then _ else _ : tcp_session).local_seq = _
    split_ifs
    · rw [(queue_tcp_frame _ _ _ _).1, r1]
    · exact r1
  · show (if p.datalen ≠ 0 then _ else _ : tcp_session).remote_seq = _
    split_ifs
    · rw [(queue_tcp_frame _ _ _ _).2.1, r2]
    · exact r2
  · show (if p.datalen ≠ 0 then _ else _ : tcp_session).state = _
    split_ifs
    · rw [(queue_tcp_frame _ _ _ _).2.2.1, r3]
    · exact r3
  · show (if p.datalen ≠ 0 then _ else _ : tcp_session).time = _
    split_ifs
    · rw [(queue_tcp_frame _ _ _ _).2.2.2.1, r4]
    · exact r4

/-- The theorem `handle_tcp_syn_retransmit` at the session `syn_session` and the SYN
`syn_input` that created it, handed in a second time at a later clock reading. -/
theorem handle_tcp_syn_retransmit_witness :
    [syn_session].find? (handle_tcp_match syn_input) = some syn_session
      ∧ syn_session.tcp.state = TCP_LISTEN
      ∧ ∃ cur1 : ng_session,
          handle_tcp consts { env_ok with now := 1003 } [syn_session] syn_input 0 1
              = some { sessions := session_update (handle_tcp_match syn_input) cur1
                                     [syn_session],
                       tun := [], ret := 1 }
            ∧ cur1.tcp.local_seq = syn_session.tcp.local_seq
            ∧ cur1.tcp.remote_seq = syn_session.tcp.remote_seq
            ∧ cur1.tcp.state = syn_session.tcp.state ∧ cur1.tcp.time = syn_session.tcp.time
            ∧ cur1.socket = syn_session.socket :=
  ⟨by decide, rfl,
    handle_tcp_syn_retransmit consts { env_ok with now := 1003 } [syn_session] syn_input 0 1
      syn_session (by decide) rfl rfl rfl rfl rfl (Or.inr (by decide))⟩

/-! ## monitor_tcp_session: the keep-alive -/

/-- The forward-queue test of `monitor_tcp_session` does not change the segments written. -/
theorem monitor_tcp_session_forward_tun (h : athena_h) (env : monitor_tcp_session_env)
    (a : ng_session × List tcp_packet × Int × Nat) :
    (monitor_tcp_session_forward h env a).2.1 = a.2.1 := by
  unfold monitor_tcp_session_forward
  split
  · rfl
  · dsimp only
    split_ifs <;> rfl

/-- The session and the segments that `monitor_tcp_session` leaves in ESTABLISHED or CLOSE_WAIT
are those of the send-window test, up to the event mask and a state CLOSING after a failed
`epoll_ctl`. -/
theorem monitor_tcp_session_established (h : athena_h) (env : monitor_tcp_session_env)
    (s : ng_session) (hst : s.tcp.state = TCP_ESTABLISHED ∨ s.tcp.state = TCP_CLOSE_WAIT) :
    (monitor_tcp_session h env s).2.1 = (monitor_tcp_session_window h env s).2.1
      ∧ (monitor_tcp_session h env s).1.tcp.last_keep_alive
          = (monitor_tcp_session_window h env s).1.tcp.last_keep_alive
      ∧ (monitor_tcp_session h env s).1.tcp.remote_seq
          = (monitor_tcp_session_window h env s).1.tcp.remote_seq := by
  have hl : s.tcp.state ≠ TCP_LISTEN := by
    rcases hst with h1 | h1 <;> rw [h1] <;> decide
  unfold monitor_tcp_session
  simp only [if_neg hl, if_pos hst]
  split_ifs <;>
    simp only [monitor_tcp_session_forward_fst, monitor_tcp_session_forward_tun, and_self]

/-- A call of `monitor_tcp_session` writes a segment only when more than `EPOLL_MIN_CHECK`
milliseconds have passed since `last_keep_alive`. -/
theorem monitor_tcp_session_tun_time (h : athena_h) (env : monitor_tcp_session_env)
    (s : ng_session) (hne : (monitor_tcp_session h env s).2.1 ≠ []) :
    env.ms - s.tcp.last_keep_alive > h.EPOLL_MIN_CHECK := by
  by_cases hst : s.tcp.state = TCP_ESTABLISHED ∨ s.tcp.state = TCP_CLOSE_WAIT
  · rw [(monitor_tcp_session_established h env s hst).1] at hne
    unfold monitor_tcp_session_window at hne
    by_contra hc
    apply hne
    split_ifs
    · rfl
    · rfl
  · exfalso
    apply hne
    unfold monitor_tcp_session
    simp only [if_neg hst]
    split_ifs <;> rfl

/-- C29: for a session in ESTABLISHED or CLOSE_WAIT whose `get_send_window` is 0,
`monitor_tcp_session` writes a segment exactly when more than `EPOLL_MIN_CHECK` milliseconds
have passed since `last_keep_alive`: one ACK without data, with seq `local_seq` and ack
`remote_seq - 1`. It then sets `last_keep_alive` to the current time, and leaves it alone
otherwise; `remote_seq` after the call is what it was. A later call for the session, as long as
`last_keep_alive` is what this call left, writes a segment only more than `EPOLL_MIN_CHECK`
milliseconds after this one did. -/
theorem monitor_tcp_session_keep_alive (h : athena_h) (env : monitor_tcp_session_env)
    (s : ng_session) (hst : s.tcp.state = TCP_ESTABLISHED ∨ s.tcp.state = TCP_CLOSE_WAIT)
    (hw : get_send_window s.tcp = 0) (hr : s.tcp.remote_seq < 2 ^ 32) :
    ((monitor_tcp_session h env s).2.1 =
        if env.ms - s.tcp.last_keep_alive > h.EPOLL_MIN_CHECK then
          [(write_tcp env.tun_write
              { s.tcp with last_keep_alive := env.ms,
                           remote_seq := (s.tcp.remote_seq + 2 ^ 32 - 1) % 2 ^ 32 }
              [] 0 false true false false).1]
        else [])
      ∧ (∀ p ∈ (monitor_tcp_session h env s).2.1,
          p.ack = true ∧ p.syn = false ∧ p.fin = false ∧ p.rst = false ∧ p.data = []
            ∧ p.seq = htonl s.tcp.local_seq
            ∧ p.ack_seq = htonl ((s.tcp.remote_seq + 2 ^ 32 - 1) % 2 ^ 32))
      ∧ (monitor_tcp_session h env s).1.tcp.last_keep_alive
          = (if env.ms - s.tcp.last_keep_alive > h.EPOLL_MIN_CHECK then env.ms
             else s.tcp.last_keep_alive)
      ∧ (monitor_tcp_session h env s).1.tcp.remote_seq = s.tcp.remote_seq
      ∧ (∀ (env2 : monitor_tcp_session_env) (s2 : ng_session),
          s2.tcp.last_keep_alive = (monitor_tcp_session h env s).1.tcp.last_keep_alive →
          (monitor_tcp_session h env s).2.1 ≠ [] →
          (monitor_tcp_session h env2 s2).2.1 ≠ [] →
          env2.ms - env.ms > h.EPOLL_MIN_CHECK) := by
  obtain ⟨e1, e2, e3⟩ := monitor_tcp_session_established h env s hst
  have hw0 : ¬ get_send_window s.tcp > 0 := by omega
  have hwin : monitor_tcp_session_window h env s
      = if env.ms - s.tcp.last_keep_alive > h.EPOLL_MIN_CHECK then
          (let t1 : tcp_session :=
            { s.tcp with last_keep_alive := env.ms,
                         remote_seq := (s.tcp.remote_seq + 2 ^ 32 - 1) % 2 ^ 32 }
          let w := write_ack env.tun_write t1
          ({ s with tcp := { w.1 with remote_seq := (w.1.remote_seq + 1) % 2 ^ 32 } },
            [w.2.1], 1, EPOLLERR))
        else (s, [], 1, EPOLLERR) := by
    unfold monitor_tcp_session_window
    rw [if_neg hw0]
  have hback : ((s.tcp.remote_seq + 2 ^ 32 - 1) % 2 ^ 32 + 1) % 2 ^ 32 = s.tcp.remote_seq := by
    omega
  have h1 : (monitor_tcp_session h env s).2.1 =
        if env.ms - s.tcp.last_keep_alive > h.EPOLL_MIN_CHECK then
          [(write_tcp env.tun_write
              { s.tcp with last_keep_alive := env.ms,
                           remote_seq := (s.tcp.remote_seq + 2 ^ 32 - 1) % 2 ^ 32 }
              [] 0 false true false false).1]
        else [] := by
    rw [e1, hwin]
    split_ifs
    · dsimp only [write_ack]
      split_ifs <;> rfl
    · rfl
  have h3 : (monitor_tcp_session h env s).1.tcp.last_keep_alive
          = (if env.ms - s.tcp.last_keep_alive > h.EPOLL_MIN_CHECK then env.ms
             else s.tcp.last_keep_alive) := by
    rw [e2, hwin]
    split_ifs
    · dsimp only [write_ack]
      split_ifs <;> rfl
    · rfl
  have h4 : (monitor_tcp_session h env s).1.tcp.remote_seq = s.tcp.remote_seq := by
    rw [e3, hwin]
    split_ifs
    · dsimp only [write_ack]
      split_ifs <;> exact hback
    · rfl
  refine ⟨h1, ?_, h3, h4, ?_⟩
  · intro p hp
    rw [h1] at hp
    split_ifs at hp
    · rw [List.mem_singleton] at hp
      rw [hp]
      exact ⟨rfl, rfl, rfl, rfl, rfl, rfl, rfl⟩
    · cases hp
  · intro env2 s2 hk hne hne2
    have ht := monitor_tcp_session_tun_time h env2 s2 hne2
    rw [hk, h3] at ht
    rw [h1] at hne
    split_ifs at hne ht with hc
    · exact ht
    · exact absurd rfl hne

/-- The theorem `monitor_tcp_session_keep_alive` at the session `zero_window_session`, whose
last keep-alive was at 0 ms, with the clock at 5000 ms: the keep-alive is written, since
`EPOLL_MIN_CHECK` is 100 in `consts`. -/
theorem monitor_tcp_session_keep_alive_witness :
    get_send_window zero_window_session.tcp = 0
      ∧ (monitor_tcp_session consts env_monitor zero_window_session).2.1 =
          (if env_monitor.ms - zero_window_session.tcp.last_keep_alive > consts.EPOLL_MIN_CHECK
           then
            [(write_tcp env_monitor.tun_write
                { zero_window_session.tcp with
                  last_keep_alive := env_monitor.ms,
                  remote_seq := (zero_window_session.tcp.remote_seq + 2 ^ 32 - 1) % 2 ^ 32 }
                [] 0 false true false false).1]
           else [])
      ∧ (monitor_tcp_session consts env_monitor zero_window_session).1.tcp.remote_seq
          = zero_window_session.tcp.remote_seq :=
  ⟨by decide,
    (monitor_tcp_session_keep_alive consts env_monitor zero_window_session (Or.inl rfl)
      (by decide) (by decide)).1,
    (monitor_tcp_session_keep_alive consts env_monitor zero_window_session (Or.inl rfl)
      (by decide) (by decide)).2.2.2.1⟩

/-! ## The highest acknowledgment and local_seq -/

/-- The result of `compare_u32` is at most 0 exactly when the arguments are equal or the first
precedes the second in the order that the code implements. -/
theorem compare_u32_le_iff (a l : Nat) :
    compare_u32 a l ≤ 0
      ↔ a = l ∨ (a < l ∧ l - a < 0x7FFFFFFF) ∨ (a > l ∧ a - l > 0x7FFFFFFF) := by
  unfold compare_u32
  by_cases h1 : a = l
  · simp [h1]
  · rw [if_neg h1]
    by_cases h2 : (a < l ∧ l - a < 0x7FFFFFFF) ∨ (a > l ∧ a - l > 0x7FFFFFFF)
    · rw [if_pos h2]
      simp [h2]
    · rw [if_neg h2]
      simp [h1, h2]

/-- A value in `[2^32, 2^33)` wraps once. -/
theorem mod_wrap_once (x : Nat) (h1 : 2 ^ 32 ≤ x) (h2 : x < 2 ^ 33) :
    x % 2 ^ 32 = x - 2 ^ 32 := by
  rw [Nat.mod_eq_sub_mod h1, Nat.mod_eq_of_lt (by omega)]

/-- The value of `get_send_window` when `acked` is not above `local_seq`. -/
theorem get_send_window_le (a l u sw : Nat) (t : tcp_session) (h1 : t.acked = a)
    (h2 : t.local_seq = l) (h3 : t.unconfirmed = u) (h4 : t.send_window = sw) (hal : a ≤ l) :
    get_send_window t
      = if (l - a + (u + 1) * 40) % 2 ^ 32 < sw then sw - (l - a + (u + 1) * 40) % 2 ^ 32
        else 0 := by
  unfold get_send_window
  rw [h1, h2, h3, h4]
  simp only [if_pos hal]

/-- The value of `get_send_window` when `acked` is above `local_seq`. -/
theorem get_send_window_gt (a l u sw : Nat) (t : tcp_session) (h1 : t.acked = a)
    (h2 : t.local_seq = l) (h3 : t.unconfirmed = u) (h4 : t.send_window = sw) (hal : ¬ a ≤ l) :
    get_send_window t
      = if ((0x10000 + l + 2 ^ 32 - a) % 2 ^ 32 + (u + 1) * 40) % 2 ^ 32 < sw then
          sw - ((0x10000 + l + 2 ^ 32 - a) % 2 ^ 32 + (u + 1) * 40) % 2 ^ 32
        else 0 := by
  unfold get_send_window
  rw [h1, h2, h3, h4]
  simp only [if_neg hal]

/-- The arithmetic of `acked_advance`, with the fields of the record named. -/
theorem acked_advance_nat (a l u sw b : Nat) (t : tcp_session) (h1 : t.acked = a)
    (h2 : t.local_seq = l) (h3 : t.unconfirmed = u) (h4 : t.send_window = sw)
    (ha : a < 2 ^ 32) (hl : l < 2 ^ 32) (hu : u < 2 ^ 16) (hsw : sw < 2 ^ 31)
    (hinv : a = l ∨ (a < l ∧ l - a < 0x7FFFFFFF) ∨ (a > l ∧ a - l > 0x7FFFFFFF))
    (hb : b ≤ get_send_window t) (hb0 : b ≠ 0) :
    a = (l + b) % 2 ^ 32 ∨ (a < (l + b) % 2 ^ 32 ∧ (l + b) % 2 ^ 32 - a < 0x7FFFFFFF)
      ∨ (a > (l + b) % 2 ^ 32 ∧ a - (l + b) % 2 ^ 32 > 0x7FFFFFFF) := by
  by_cases hal : a ≤ l
  · rw [get_send_window_le a l u sw t h1 h2 h3 h4 hal] at hb
    have e1 : (l - a + (u + 1) * 40) % 2 ^ 32 = l - a + (u + 1) * 40 :=
      Nat.mod_eq_of_lt (by omega)
    rw [e1] at hb
    by_cases hw : l - a + (u + 1) * 40 < sw
    · rw [if_pos hw] at hb
      by_cases hlt : l + b < 2 ^ 32
      · rw [Nat.mod_eq_of_lt hlt]
        omega
      · rw [mod_wrap_once (l + b) (by omega) (by omega)]
        omega
    · rw [if_neg hw] at hb
      omega
  · rw [get_send_window_gt a l u sw t h1 h2 h3 h4 hal] at hb
    have e1 : (0x10000 + l + 2 ^ 32 - a) % 2 ^ 32 = 0x10000 + l + 2 ^ 32 - a :=
      Nat.mod_eq_of_lt (by omega)
    rw [e1] at hb
    have e2 : (0x10000 + l + 2 ^ 32 - a + (u + 1) * 40) % 2 ^ 32
        = 0x10000 + l + 2 ^ 32 - a + (u + 1) * 40 :=
      Nat.mod_eq_of_lt (by omega)
    rw [e2] at hb
    by_cases hw : 0x10000 + l + 2 ^ 32 - a + (u + 1) * 40 < sw
    · rw [if_pos hw] at hb
      have hlt : l + b < 2 ^ 32 := by omega
      rw [Nat.mod_eq_of_lt hlt]
      omega
    · rw [if_neg hw] at hb
      omega

/-- A step that advances `local_seq` by at most `get_send_window` keeps
`compare_u32(acked, local_seq) <= 0`, for a send window below `2^31`. -/
theorem acked_advance (t : tcp_session) (b : Nat) (ha : t.acked < 2 ^ 32)
    (hl : t.local_seq < 2 ^ 32) (hu : t.unconfirmed < 2 ^ 16) (hsw : t.send_window < 2 ^ 31)
    (hinv : compare_u32 t.acked t.local_seq ≤ 0) (hb : b ≤ get_send_window t) :
    compare_u32 t.acked ((t.local_seq + b) % 2 ^ 32) ≤ 0 := by
  rw [compare_u32_le_iff] at hinv ⊢
  by_cases hb0 : b = 0
  · rw [hb0, Nat.add_zero, Nat.mod_eq_of_lt hl]
    exact hinv
  · exact acked_advance_nat _ _ _ _ b t rfl rfl rfl rfl ha hl hu hsw hinv hb hb0

/-- A step that advances `local_seq` by one keeps `compare_u32(acked, local_seq) <= 0` when
the distance from `acked` to `local_seq` stays below `0x7FFFFFFF`. -/
theorem acked_advance_one (t : tcp_session) (ha : t.acked < 2 ^ 32)
    (hl : t.local_seq < 2 ^ 32) (hd : acked_distance t + 1 < 0x7FFFFFFF) :
    compare_u32 t.acked ((t.local_seq + 1) % 2 ^ 32) ≤ 0 := by
  rw [compare_u32_le_iff]
  unfold acked_distance at hd
  generalize t.acked = a at *
  generalize t.local_seq = l at *
  by_cases hal : a ≤ l
  · have e1 : (l + 2 ^ 32 - a) % 2 ^ 32 = l - a := by
      rw [show l + 2 ^ 32 - a = (l - a) + 2 ^ 32 by omega, Nat.add_mod_right,
        Nat.mod_eq_of_lt (by omega)]
    rw [e1] at hd
    by_cases hlt : l + 1 < 2 ^ 32
    · rw [Nat.mod_eq_of_lt hlt]
      omega
    · rw [mod_wrap_once (l + 1) (by omega) (by omega)]
      omega
  · have e1 : (l + 2 ^ 32 - a) % 2 ^ 32 = l + 2 ^ 32 - a := Nat.mod_eq_of_lt (by omega)
    rw [e1] at hd
    rw [Nat.mod_eq_of_lt (by omega)]
    omega

/-- The ACK writer `write_ack` keeps `compare_u32(acked, local_seq) <= 0`. -/
theorem write_ack_acked (res : Int) (t : tcp_session)
    (h : compare_u32 t.acked t.local_seq ≤ 0) :
    compare_u32 (write_ack res t).1.acked (write_ack res t).1.local_seq ≤ 0 := by
  rw [(write_ack_window_kept res t).2.1, (write_ack_window_kept res t).2.2.1]
  exact h

/-- The RST writer `write_rst` keeps `compare_u32(acked, local_seq) <= 0`. -/
theorem write_rst_acked (res : Int) (t : tcp_session)
    (h : compare_u32 t.acked t.local_seq ≤ 0) :
    compare_u32 (write_rst res t).1.acked (write_rst res t).1.local_seq ≤ 0 := by
  rw [(write_rst_window_kept res t).2.1, (write_rst_window_kept res t).2.2.1]
  exact h

/-- The flag analysis `handle_tcp_flags` keeps `compare_u32(acked, local_seq) <= 0`: `acked`
is set to an acknowledgment number that equals `local_seq` or precedes it. -/
theorem handle_tcp_flags_acked (env : handle_tcp_env) (p : tcp_input) (cur : ng_session)
    (t3 : tcp_session) (hinv : compare_u32 t3.acked t3.local_seq ≤ 0) :
    result_ok acked_behind (handle_tcp_flags env p cur t3) := by
  unfold handle_tcp_flags
  dsimp only
  apply ite_ind (result_ok acked_behind) <;> intro _
  · exact hinv
  apply ite_ind (result_ok acked_behind) <;> intro hor
  · apply ite_ind (result_ok acked_behind) <;> intro _
    · exact hinv
    apply ite_ind (result_ok acked_behind) <;> intro _
    · apply ite_ind (result_ok acked_behind) <;> intro _
      · apply ite_ind (result_ok acked_behind) <;> intro _
        · apply ite_ind (result_ok acked_behind) <;> intro _
          · exact write_ack_acked env.tun_write
              { t3 with remote_seq := (t3.remote_seq + 1) % 2 ^ 32 } hinv
          · exact write_ack_acked env.tun_write
              { t3 with remote_seq := (t3.remote_seq + 1) % 2 ^ 32 } hinv
        · exact hinv
      apply ite_ind (result_ok acked_behind) <;> intro _
      · exact hinv
      apply ite_ind (result_ok acked_behind) <;> intro _
      · apply ite_ind (result_ok acked_behind) <;> intro _
        · exact write_ack_acked env.tun_write
              { t3 with remote_seq := (t3.remote_seq + 1) % 2 ^ 32 } hinv
        · exact write_ack_acked env.tun_write
              { t3 with remote_seq := (t3.remote_seq + 1) % 2 ^ 32 } hinv
      · exact hinv
    apply ite_ind (result_ok acked_behind) <;> intro hack
    · have h4 : compare_u32 (ntohl p.tcphdr.ack_seq) t3.local_seq ≤ 0 := by
        rcases hor with h | h
        · exact absurd hack h
        · rw [h]
          exact le_of_eq ((compare_u32_eq_zero_iff _ _).mpr rfl)
      apply ite_ind (result_ok acked_behind) <;> intro _
      · exact h4
      apply ite_ind (result_ok acked_behind) <;> intro _
      · exact h4
      apply ite_ind (result_ok acked_behind) <;> intro _
      · exact h4
      apply ite_ind (result_ok acked_behind) <;> intro _
      · exact h4
      apply ite_ind (result_ok acked_behind) <;> intro _
      · exact h4
      · exact h4
    · exact hinv
  · apply ite_ind (result_ok acked_behind) <;> intro _
    · exact hinv
    apply ite_ind (result_ok acked_behind) <;> intro hlt
    · apply ite_ind (result_ok acked_behind) <;> intro _
      · exact hinv
      · exact le_of_lt hlt
    · exact write_rst_acked env.tun_write t3 hinv

/-- The step `handle_tcp_session` keeps `compare_u32(acked, local_seq) <= 0`. -/
theorem handle_tcp_session_acked (env : handle_tcp_env) (p : tcp_input) (cur : ng_session)
    (hinv : acked_behind cur) :
    result_ok acked_behind (handle_tcp_session env p cur) := by
  have h2 : compare_u32 (handle_tcp_refresh env p cur.tcp).acked
      (handle_tcp_refresh env p cur.tcp).local_seq ≤ 0 := by
    unfold handle_tcp_refresh
    dsimp only
    split_ifs <;> exact hinv
  unfold handle_tcp_session
  dsimp only
  apply ite_ind (result_ok acked_behind) <;> intro _
  · exact write_rst_acked env.tun_write _ h2
  apply ite_ind (result_ok acked_behind) <;> intro _
  · exact write_rst_acked env.tun_write _ h2
  apply handle_tcp_flags_acked
  split_ifs
  · rw [(queue_tcp_frame _ _ _ _).1, (queue_tcp_frame _ _ _ _).2.2.2.2]
    exact h2
  · exact h2

/-- The session list that `handle_tcp` leaves has `compare_u32(acked, local_seq) <= 0` in every
session if the list before had, provided the value `rand()` is below `0x7FFFFFFF`. -/
theorem handle_tcp_acked (h : athena_h) (env : handle_tcp_env) (sessions : List ng_session)
    (p : tcp_input) (uid allowed : Int) (hall : ∀ s ∈ sessions, acked_behind s)
    (hrand : (env.rand % 2 ^ 32).toNat < 0x7FFFFFFF) :
    after_handle_tcp (fun l => ∀ s ∈ l, acked_behind s)
      (handle_tcp h env sessions p uid allowed) := by
  have hnew : compare_u32 0 (env.rand % 2 ^ 32).toNat ≤ 0 := by
    rw [compare_u32_le_iff]
    omega
  unfold handle_tcp
  dsimp only
  apply ite_ind (after_handle_tcp (fun l => ∀ s ∈ l, acked_behind s)) <;> intro _
  · intro r hr; cases hr; exact hall
  cases hfind : List.find? (handle_tcp_match p) sessions with
  | none =>
    dsimp only
    apply ite_ind (after_handle_tcp (fun l => ∀ s ∈ l, acked_behind s)) <;> intro _
    · cases hopt : handle_tcp_options
          (((((p.tcphdr.doff : Int) - 5) * 4) % 256).toNat + 1)
          ((((p.tcphdr.doff : Int) - 5) * 4) % 256) p.tcpoptions (get_default_mss p.version) 0 with
      | none => intro r hr; cases hr
      | some mw =>
        obtain ⟨mss, ws⟩ := mw
        dsimp only
        apply ite_ind (after_handle_tcp (fun l => ∀ s ∈ l, acked_behind s)) <;> intro _
        · intro r hr; cases hr; exact hall
        apply ite_ind (after_handle_tcp (fun l => ∀ s ∈ l, acked_behind s)) <;> intro _
        · intro r hr; cases hr; exact hall
        apply ite_ind (after_handle_tcp (fun l => ∀ s ∈ l, acked_behind s)) <;> intro _
        · intro r hr; cases hr
          intro s hs
          rcases List.mem_cons.mp hs with h1 | h1
          · rw [h1]
            exact write_rst_acked env.tun_write _ hnew
          · exact hall s h1
        · intro r hr; cases hr
          intro s hs
          rcases List.mem_cons.mp hs with h1 | h1
          · rw [h1]
            exact hnew
          · exact hall s h1
    · intro r hr; cases hr; exact hall
  | some cur =>
    have hcur : cur ∈ sessions := List.mem_of_find?_eq_some hfind
    dsimp only
    apply ite_ind (after_handle_tcp (fun l => ∀ s ∈ l, acked_behind s)) <;> intro hc
    · intro r hr; cases hr
      intro s hs
      rcases session_update_mem _ _ _ s hs with h1 | h1
      · exact hall s h1
      · rw [h1]
        exact write_rst_acked env.tun_write _ (hall cur hcur)
    · intro r hr; cases hr
      intro s hs
      rcases session_update_mem _ _ _ s hs with h1 | h1
      · exact hall s h1
      · rw [h1]
        exact handle_tcp_session_acked env p cur (hall cur hcur)

/-- The SOCKS5 reply handling of `check_tcp_socket` keeps `acked` and `local_seq`. -/
theorem check_tcp_socket_listen_reply_seq (c : socks5_config) (env : check_tcp_socket_env)
    (t : tcp_session) :
    (check_tcp_socket_listen_reply c env t).1.acked = t.acked
      ∧ (check_tcp_socket_listen_reply c env t).1.local_seq = t.local_seq := by
  unfold check_tcp_socket_listen_reply
  dsimp only
  repeat'
    (apply ite_ind
        (fun r : tcp_session × List tcp_packet =>
          r.1.acked = t.acked ∧ r.1.local_seq = t.local_seq) <;>
      intro _)
  all_goals
    first
    | exact ⟨rfl, rfl⟩
    | exact ⟨(write_rst_window_kept (env.tun_write 0) t).2.1,
        (write_rst_window_kept (env.tun_write 0) t).2.2.1⟩
    | exact ⟨(write_rst_window_kept (env.tun_write 0) { t with socks5 := 0 }).2.1,
        (write_rst_window_kept (env.tun_write 0) { t with socks5 := 0 }).2.2.1⟩

/-- The SYN/ACK writer `write_syn_ack` keeps `acked` and `local_seq`. -/
theorem write_syn_ack_seq (res : Int) (t : tcp_session) :
    (write_syn_ack res t).1.acked = t.acked
      ∧ (write_syn_ack res t).1.local_seq = t.local_seq := by
  unfold write_syn_ack
  dsimp only
  split_ifs <;> exact ⟨rfl, rfl⟩

/-- The FIN writer `write_fin_ack` keeps `acked` and `local_seq`. -/
theorem write_fin_ack_seq (res : Int) (t : tcp_session) :
    (write_fin_ack res t).1.acked = t.acked
      ∧ (write_fin_ack res t).1.local_seq = t.local_seq := by
  unfold write_fin_ack
  dsimp only
  split_ifs <;> exact ⟨rfl, rfl⟩

/-- The data writer `write_data` keeps `acked` and `local_seq`. -/
theorem write_data_seq (res : Int) (t : tcp_session) (buffer : List Nat) (length : Nat) :
    (write_data res t buffer length).1.acked = t.acked
      ∧ (write_data res t buffer length).1.local_seq = t.local_seq := by
  unfold write_data
  dsimp only
  split_ifs <;> exact ⟨rfl, rfl⟩

/-- The request half of `check_tcp_socket` in LISTEN keeps `compare_u32(acked, local_seq) <= 0`
when the relation also holds for `local_seq + 1`, the value after a SYN/ACK. -/
theorem check_tcp_socket_listen_request_acked (c : socks5_config)
    (env : check_tcp_socket_env) (s : ng_session) (out : List tcp_packet)
    (hinv : acked_behind s)
    (hone : compare_u32 s.tcp.acked ((s.tcp.local_seq + 1) % 2 ^ 32) ≤ 0) :
    acked_behind (check_tcp_socket_listen_request c env s out).s := by
  have hw := write_syn_ack_seq (env.tun_write out.length)
    { s.tcp with remote_seq := (s.tcp.remote_seq + 1) % 2 ^ 32 }
  unfold check_tcp_socket_listen_request
  dsimp only
  apply ite_ind (fun r : socket_result => acked_behind r.s) <;> intro _
  · exact hinv
  apply ite_ind (fun r : socket_result => acked_behind r.s) <;> intro _
  · exact hinv
  apply ite_ind (fun r : socket_result => acked_behind r.s) <;> intro _
  · apply ite_ind (fun r : socket_result => acked_behind r.s) <;> intro _
    · exact hinv
    · exact hinv
  apply ite_ind (fun r : socket_result => acked_behind r.s) <;> intro _
  · apply ite_ind (fun r : socket_result => acked_behind r.s) <;> intro _
    · show compare_u32 (write_syn_ack _ _).1.acked
        (((write_syn_ack _ _).1.local_seq + 1) % 2 ^ 32) ≤ 0
      rw [hw.1, hw.2]
      exact hone
    · show compare_u32 (write_syn_ack _ _).1.acked (write_syn_ack _ _).1.local_seq ≤ 0
      rw [hw.1, hw.2]
      exact hinv
  · exact hinv

/-- The state change after the FIN/ACK keeps `acked` and `local_seq`. -/
theorem check_tcp_socket_fin_state_seq (t : tcp_session) :
    (check_tcp_socket_fin_state t).acked = t.acked
      ∧ (check_tcp_socket_fin_state t).local_seq = t.local_seq := by
  unfold check_tcp_socket_fin_state
  split_ifs <;> exact ⟨rfl, rfl⟩

/-- The read from the host socket of `check_tcp_socket` keeps
`compare_u32(acked, local_seq) <= 0` when `recv` returns no more than `get_send_window`, for a
send window below `2^31`. -/
theorem check_tcp_socket_recv_acked (env : check_tcp_socket_env) (s : ng_session)
    (out : List tcp_packet) (hinv : acked_behind s) (ha : s.tcp.acked < 2 ^ 32)
    (hl : s.tcp.local_seq < 2 ^ 32) (hu : s.tcp.unconfirmed < 2 ^ 16)
    (hsw : s.tcp.send_window < 2 ^ 31) (hrecv : env.recv ≤ get_send_window s.tcp) :
    acked_behind (check_tcp_socket_recv env s out).1 := by
  unfold check_tcp_socket_recv
  dsimp only
  apply ite_ind (fun r : ng_session × List tcp_packet => acked_behind r.1) <;> intro _
  · apply ite_ind (fun r : ng_session × List tcp_packet => acked_behind r.1) <;> intro hw
    · apply ite_ind (fun r : ng_session × List tcp_packet => acked_behind r.1) <;> intro _
      · apply ite_ind (fun r : ng_session × List tcp_packet => acked_behind r.1) <;> intro _
        · exact write_rst_acked (env.tun_write out.length) { s.tcp with time := env.now_in }
            hinv
        · exact hinv
      · apply ite_ind (fun r : ng_session × List tcp_packet => acked_behind r.1) <;> intro _
        · show compare_u32
              (check_tcp_socket_eof env { s.tcp with time := env.now_in } out.length).1.acked
              (check_tcp_socket_eof env { s.tcp with time := env.now_in }
                out.length).1.local_seq ≤ 0
          have hf := write_fin_ack_seq (env.tun_write out.length)
            { s.tcp with time := env.now_in }
          have h1 : (1 : Nat) ≤ get_send_window s.tcp := hw.2
          have hadv := acked_advance s.tcp 1 ha hl hu hsw hinv h1
          unfold check_tcp_socket_eof
          dsimp only
          split_ifs
          · rw [(check_tcp_socket_fin_state_seq _).1, (check_tcp_socket_fin_state_seq _).2]
            show compare_u32 (write_fin_ack _ _).1.acked
              (((write_fin_ack _ _).1.local_seq + 1) % 2 ^ 32) ≤ 0
            rw [hf.1, hf.2]
            exact hadv
          · rw [(check_tcp_socket_fin_state_seq _).1, (check_tcp_socket_fin_state_seq _).2,
              hf.1, hf.2]
            exact hinv
          · exact write_rst_acked (env.tun_write out.length)
              { s.tcp with time := env.now_in } hinv
        · have hd := write_data_seq (env.tun_write out.length)
            { s.tcp with time := env.now_in,
                         received := (s.tcp.received + env.recv.toNat) % 2 ^ 64 }
            env.recv_buffer env.recv.toNat
          have hb : env.recv.toNat ≤ get_send_window s.tcp := by
            omega
          have hadv := acked_advance s.tcp env.recv.toNat ha hl hu hsw hinv hb
          apply ite_ind (fun r : ng_session × List tcp_packet => acked_behind r.1)
            <;> intro _
          · show compare_u32 (write_data _ _ _ _).1.acked
              (((write_data _ _ _ _).1.local_seq + env.recv.toNat) % 2 ^ 32) ≤ 0
            rw [hd.1, hd.2]
            exact hadv
          · show compare_u32 (write_data _ _ _ _).1.acked (write_data _ _ _ _).1.local_seq ≤ 0
            rw [hd.1, hd.2]
            exact hinv
    · exact hinv
  · exact hinv

/-- The readiness handler `check_tcp_socket` keeps `compare_u32(acked, local_seq) <= 0` when
`recv` returns no more than `get_send_window`, the send window is below `2^31`, and in LISTEN
the distance from `acked` to `local_seq` leaves room for the SYN. -/
theorem check_tcp_socket_acked (h : athena_h) (c : socks5_config)
    (env : check_tcp_socket_env) (s : ng_session) (hinv : acked_behind s)
    (ha : s.tcp.acked < 2 ^ 32) (hl : s.tcp.local_seq < 2 ^ 32)
    (hu : s.tcp.unconfirmed < 2 ^ 16) (hsw : s.tcp.send_window < 2 ^ 31)
    (hrecv : env.recv ≤ get_send_window s.tcp)
    (hlisten : s.tcp.state = TCP_LISTEN → acked_distance s.tcp + 1 < 0x7FFFFFFF) :
    acked_behind (check_tcp_socket h c env s).s := by
  unfold check_tcp_socket
  dsimp only
  apply ite_ind (fun r : socket_result => acked_behind r.s) <;> intro _
  · exact write_rst_acked (env.tun_write 0) { s.tcp with time := env.now } hinv
  apply ite_ind (fun r : socket_result => acked_behind r.s) <;> intro hst
  · have hr := check_tcp_socket_listen_reply_seq c env s.tcp
    apply check_tcp_socket_listen_request_acked
    · show compare_u32 (check_tcp_socket_listen_reply c env s.tcp).1.acked
        (check_tcp_socket_listen_reply c env s.tcp).1.local_seq ≤ 0
      rw [hr.1, hr.2]
      exact hinv
    · show compare_u32 (check_tcp_socket_listen_reply c env s.tcp).1.acked
        (((check_tcp_socket_listen_reply c env s.tcp).1.local_seq + 1) % 2 ^ 32) ≤ 0
      rw [hr.1, hr.2]
      exact acked_advance_one s.tcp ha hl (hlisten hst)
  · have hd : window_kept s.tcp
          (if env.events &&& EPOLLOUT ≠ 0 then
            check_tcp_socket_drain env 0 s.tcp (get_receive_buffer h env.probe_drain s) false []
              s.tcp.forward
          else ({ t := s.tcp, fwd := false, tun := [], host := [] } : drain_result)).t
        ∧ (∀ p ∈ (if env.events &&& EPOLLOUT ≠ 0 then
            check_tcp_socket_drain env 0 s.tcp (get_receive_buffer h env.probe_drain s) false []
              s.tcp.forward
          else ({ t := s.tcp, fwd := false, tun := [], host := [] } : drain_result)).tun,
            p.fin = false) := by
      split_ifs
      · exact check_tcp_socket_drain_kept env s.tcp.forward 0 s.tcp _ false []
      · exact ⟨window_kept_refl _, fun p hp => by cases hp⟩
    generalize (if env.events &&& EPOLLOUT ≠ 0 then
            check_tcp_socket_drain env 0 s.tcp (get_receive_buffer h env.probe_drain s) false []
              s.tcp.forward
          else ({ t := s.tcp, fwd := false, tun := [], host := [] } : drain_result)) = d at hd
    have kk := window_kept_trans _ _ _ hd.1 (check_tcp_socket_window_kept h env s d hd.2).1
    apply check_tcp_socket_recv_acked
    · show compare_u32 (check_tcp_socket_window h env s d).1.tcp.acked
        (check_tcp_socket_window h env s d).1.tcp.local_seq ≤ 0
      rw [kk.2.1, kk.2.2.1]
      exact hinv
    · rw [kk.2.1]; exact ha
    · rw [kk.2.2.1]; exact hl
    · rw [kk.2.2.2.1]; exact hu
    · rw [kk.2.2.2.2]; exact hsw
    · rw [window_kept_send_window _ _ kk]; exact hrecv

/-- C30 (code bug). The session that `handle_tcp` builds for the SYN `syn_input` when `rand()`
returns `0x7FFFFFFF` is in a reachable session list and has `acked = 0` and
`local_seq = 0x7FFFFFFF`, for which `compare_u32` returns 1: the distance `0x7FFFFFFF` is the
boundary at which `compare_u32` returns +1 in both directions. By the signed-delta rule
`acked` precedes `local_seq` there. -/
theorem handle_tcp_acked_ahead :
    handle_tcp consts { env_ok with rand := 0x7FFFFFFF } [] syn_input 0 1
        = some { sessions := [rand_max_session], tun := [], ret := 1 }
      ∧ reachable consts no_socks5 [rand_max_session]
      ∧ rand_max_session.tcp.acked = 0 ∧ rand_max_session.tcp.local_seq = 0x7FFFFFFF
      ∧ compare_u32 rand_max_session.tcp.acked rand_max_session.tcp.local_seq = 1
      ∧ compare_u32 rand_max_session.tcp.local_seq rand_max_session.tcp.acked = 1
      ∧ compare_u32_spec rand_max_session.tcp.acked rand_max_session.tcp.local_seq = -1 := by
  have h1 : handle_tcp consts { env_ok with rand := 0x7FFFFFFF } [] syn_input 0 1
      = some { sessions := [rand_max_session], tun := [], ret := 1 } := by decide
  exact ⟨h1, reachable.handle [] _ _ _ _ _ reachable.init h1, rfl, rfl, by decide, by decide,
    by decide⟩

/-- Away from the boundary of `compare_u32`: `compare_u32(acked, local_seq) <= 0` is kept by
`handle_tcp`, for
the sessions it updates and, when `rand()` returns less than `0x7FFFFFFF`, for the session it
creates; and by `check_tcp_socket` (SYN/ACK, FIN/ACK, data from the host) for a session whose
sequence numbers are `uint32_t`, whose `unconfirmed` is a `uint16_t` and whose send window is
below `2^31`, when `recv` returns no more than `get_send_window` and, in LISTEN, the distance
from `acked` to `local_seq` is below `0x7FFFFFFE`. -/
theorem acked_behind_kept (h : athena_h) (c : socks5_config) :
    (∀ (env : handle_tcp_env) (sessions : List ng_session) (p : tcp_input) (uid allowed : Int)
        (r : tcp_result),
        (∀ s ∈ sessions, acked_behind s) → (env.rand % 2 ^ 32).toNat < 0x7FFFFFFF →
        handle_tcp h env sessions p uid allowed = some r → ∀ s ∈ r.sessions, acked_behind s)
      ∧ (∀ (env : check_tcp_socket_env) (s : ng_session),
          acked_behind s → s.tcp.acked < 2 ^ 32 → s.tcp.local_seq < 2 ^ 32 →
          s.tcp.unconfirmed < 2 ^ 16 → s.tcp.send_window < 2 ^ 31 →
          env.recv ≤ get_send_window s.tcp →
          (s.tcp.state = TCP_LISTEN → acked_distance s.tcp + 1 < 0x7FFFFFFF) →
          acked_behind (check_tcp_socket h c env s).s) :=
  ⟨fun env sessions p uid allowed r hall hrand hr =>
      handle_tcp_acked h env sessions p uid allowed hall hrand r hr,
    fun env s hinv ha hl hu hsw hrecv hlisten =>
      check_tcp_socket_acked h c env s hinv ha hl hu hsw hrecv hlisten⟩

/-- The theorem `acked_behind_kept` at the SYN `syn_input` with `rand()` returning 7, which
creates `syn_session`, and at `syn_session` when its socket becomes writable and the SYN/ACK is
written. -/
theorem acked_behind_kept_witness :
    (∀ s ∈ [syn_session], acked_behind s)
      ∧ acked_behind (check_tcp_socket consts no_socks5 (env_writable 48) syn_session).s
      ∧ (check_tcp_socket consts no_socks5 (env_writable 48) syn_session).s.tcp.local_seq
          = 8 :=
  ⟨(acked_behind_kept consts no_socks5).1 env_ok [] syn_input 0 1
      { sessions := [syn_session], tun := [], ret := 1 }
      (fun s hs => by cases hs) (by decide) (by decide),
    (acked_behind_kept consts no_socks5).2 (env_writable 48) syn_session
      ((compare_u32_le_iff _ _).mpr (by decide)) (by decide) (by decide) (by decide)
      (by decide) (by decide) (fun _ => by decide),
    by decide⟩

/-! ## The session budget -/

/-- Replacing the session that the lookup stops at by one that is counted only if the old one
was does not raise the count of `handle_events`. -/
theorem session_update_count (f : ng_session → Bool) (s1 : ng_session) :
    ∀ (l : List ng_session) (cur : ng_session), l.find? f = some cur →
      (handle_events_counts s1 = true → handle_events_counts cur = true) →
      (session_update f s1 l).countP handle_events_counts ≤ l.countP handle_events_counts := by
  intro l
  induction l with
  | nil => intro cur hf; simp at hf
  | cons d rest ih =>
    intro cur hf hc
    unfold session_update
    by_cases hd : f d = true
    · rw [if_pos hd]
      rw [List.find?_cons_of_pos _ hd] at hf
      have hcd : cur = d := (Option.some.inj hf).symm
      subst hcd
      rw [List.countP_cons, List.countP_cons]
      by_cases h1 : handle_events_counts s1 = true
      · rw [if_pos h1, if_pos (hc h1)]
      · rw [if_neg h1]
        split_ifs <;> omega
    · rw [if_neg hd]
      rw [List.find?_cons_of_neg _ hd] at hf
      rw [List.countP_cons, List.countP_cons]
      have := ih cur hf hc
      omega

/-- A session found by the lookup of `handle_udp` in state ACTIVE is counted. -/
theorem handle_udp_match_counts (p : udp_input) (cur : ng_session)
    (hm : handle_udp_match p cur = true) (ha : cur.udp.state = UDP_ACTIVE) :
    handle_events_counts cur = true := by
  unfold handle_udp_match at hm
  have hp : cur.protocol = IPPROTO_UDP := (of_decide_eq_true hm).1
  unfold handle_events_counts
  rw [hp]
  simp [ha]

/-- A session found by the lookup of `handle_tcp` is counted exactly when its state is neither
CLOSING nor CLOSE, also after its TCP record is replaced. -/
theorem handle_tcp_match_counts (p : tcp_input) (cur : ng_session) (t : tcp_session)
    (hm : handle_tcp_match p cur = true) :
    handle_events_counts { cur with tcp := t }
      = decide (t.state ≠ TCP_CLOSING ∧ t.state ≠ TCP_CLOSE) := by
  unfold handle_tcp_match at hm
  have hp : cur.protocol = IPPROTO_TCP := (of_decide_eq_true hm).1
  unfold handle_events_counts
  simp [hp]

/-- One call of `handle_udp` raises the count of `handle_events` by at most one, and not at
all when the datagram has a session. -/
theorem handle_udp_count (env : handle_udp_env) (l : List ng_session) (p : udp_input)
    (uid : Int) (redirect : Option allowed) :
    (handle_udp env l p uid redirect).sessions.countP handle_events_counts
      ≤ l.countP handle_events_counts
        + (if (l.find? (handle_udp_match p)).isSome then 0 else 1) := by
  unfold handle_udp
  cases hfind : List.find? (handle_udp_match p) l with
  | some cur =>
    have hm : handle_udp_match p cur = true := List.find?_some hfind
    dsimp only
    simp only [Option.isSome_some, if_true, Nat.add_zero]
    by_cases h1 : cur.udp.state = UDP_ACTIVE
    · rw [if_neg (not_not.mpr h1)]
      exact session_update_count _ _ l cur hfind
        (fun _ => handle_udp_match_counts p cur hm h1)
    · rw [if_pos h1]
  | none =>
    dsimp only
    simp only [Option.isSome_none, Bool.false_eq_true, if_false]
    by_cases h1 : open_udp_socket env < 0
    · rw [if_pos h1]
      exact Nat.le_add_right _ _
    · rw [if_neg h1]
      by_cases h2 : env.epoll_ctl_res ≠ 0
      · rw [if_pos h2]
        exact Nat.le_add_right _ _
      · rw [if_neg h2, List.countP_cons]
        split_ifs <;> omega

/-- One call of `handle_tcp` that returns raises the count of `handle_events` by at most one,
and not at all unless the segment is a SYN without session. -/
theorem handle_tcp_count (h : athena_h) (env : handle_tcp_env) (l : List ng_session)
    (p : tcp_input) (uid allowed : Int) (r : tcp_result)
    (hr : handle_tcp h env l p uid allowed = some r) :
    r.sessions.countP handle_events_counts
      ≤ l.countP handle_events_counts + (if p.tcphdr.syn = true then 1 else 0) := by
  revert hr
  unfold handle_tcp
  dsimp only
  apply ite_ind (fun o : Option tcp_result => o = some r →
    r.sessions.countP handle_events_counts
      ≤ l.countP handle_events_counts + (if p.tcphdr.syn = true then 1 else 0)) <;> intro _
  · intro hr; cases hr; exact Nat.le_add_right _ _
  cases hfind : List.find? (handle_tcp_match p) l with
  | none =>
    dsimp only
    apply ite_ind (fun o : Option tcp_result => o = some r →
      r.sessions.countP handle_events_counts
        ≤ l.countP handle_events_counts + (if p.tcphdr.syn = true then 1 else 0))
      <;> intro hsyn
    · rw [if_pos hsyn]
      cases hopt : handle_tcp_options
          (((((p.tcphdr.doff : Int) - 5) * 4) % 256).toNat + 1)
          ((((p.tcphdr.doff : Int) - 5) * 4) % 256) p.tcpoptions (get_default_mss p.version) 0 with
      | none => intro hr; cases hr
      | some mw =>
        obtain ⟨mss, ws⟩ := mw
        dsimp only
        split_ifs
        · intro hr; cases hr; exact Nat.le_add_right _ _
        · intro hr; cases hr; exact Nat.le_add_right _ _
        · intro hr; cases hr
          rw [List.countP_cons]
          split_ifs <;> omega
        · intro hr; cases hr
          rw [List.countP_cons]
          split_ifs <;> omega
    · intro hr; cases hr; exact Nat.le_add_right _ _
  | some cur =>
    have hm : handle_tcp_match p cur = true := List.find?_some hfind
    dsimp only
    apply ite_ind (fun o : Option tcp_result => o = some r →
      r.sessions.countP handle_events_counts
        ≤ l.countP handle_events_counts + (if p.tcphdr.syn = true then 1 else 0))
      <;> intro hc
    · intro hr; cases hr
      have := session_update_count (handle_tcp_match p)
        { cur with tcp := (write_rst env.tun_write cur.tcp).1 } l cur hfind (by
          rw [handle_tcp_match_counts p cur _ hm]
          intro hcount
          have h2 := of_decide_eq_true hcount
          rcases write_rst_state env.tun_write cur.tcp with e | ⟨e, _⟩
          · exact absurd e h2.1
          · exact absurd e h2.2)
      exact Nat.le_trans this (Nat.le_add_right _ _)
    · intro hr; cases hr
      have hcounted : handle_events_counts cur = true := by
        have := handle_tcp_match_counts p cur cur.tcp hm
        rw [show ({ cur with tcp := cur.tcp } : ng_session) = cur from rfl] at this
        rw [this]
        exact decide_eq_true (not_or.mp hc)
      have := session_update_count (handle_tcp_match p) (handle_tcp_session env p cur).1 l cur
        hfind (fun _ => hcounted)
      exact Nat.le_trans this (Nat.le_add_right _ _)

/-- The lookup of `has_udp_session` is the lookup of `handle_udp`. -/
theorem has_udp_session_match_eq (pkt : List Nat) (length payload : Nat) :
    has_udp_session_match pkt payload
      = handle_udp_match (handle_udp_input pkt length payload) := by
  funext cur
  unfold has_udp_session_match handle_udp_match handle_udp_input
  simp [List.take_take]

/-- One call of `handle_ip` that returns raises the count of `handle_events` by at most one,
and not at all when `sessions >= maxsessions`, for a datagram that is not an ICMP datagram
which the classifier allows and is not a UDP datagram to port 53 while DNS forwarding is
off. -/
theorem handle_ip_count (h : athena_h) (env : handle_ip_env) (l : List ng_session)
    (pkt : List Nat) (length : Nat) (sessions maxsessions : Int) (r : ip_result)
    (hdns : ¬ dns_exempt { env := env, pkt := pkt, length := length })
    (hicmp : ¬ icmp_allowed { env := env, pkt := pkt, length := length })
    (hr : handle_ip h env l pkt length sessions maxsessions = some r) :
    r.sessions.countP handle_events_counts
      ≤ l.countP handle_events_counts + (if sessions ≥ maxsessions then 0 else 1) := by
  unfold handle_ip at hr
  cases hh : handle_ip_header env.loglevel pkt length with
  | none => rw [hh] at hr; cases hr
  | some o =>
    rw [hh] at hr
    cases o with
    | none =>
      dsimp only at hr
      cases hr
      exact Nat.le_add_right _ _
    | some pp =>
      obtain ⟨protocol, payload⟩ := pp
      dsimp only at hr
      cases ht : handle_ip_transport pkt length protocol payload with
      | none =>
        rw [ht] at hr
        cases hr
        exact Nat.le_add_right _ _
      | some syn =>
        rw [ht] at hr
        dsimp only at hr
        by_cases hadm : sessions ≥ maxsessions
            ∧ ((protocol = IPPROTO_ICMP ∨ protocol = IPPROTO_ICMPV6)
              ∨ (protocol = IPPROTO_UDP ∧ ¬ has_udp_session env.fwd53 l pkt payload)
              ∨ (protocol = IPPROTO_TCP ∧ syn))
        · rw [if_pos hadm] at hr
          cases hr
          exact Nat.le_add_right _ _
        · rw [if_neg hadm] at hr
          by_cases hp1 : protocol = IPPROTO_ICMP ∨ protocol = IPPROTO_ICMPV6
          · have hic : env.filter_icmp = false := by
              cases hfi : env.filter_icmp with
              | false => rfl
              | true => exact absurd ⟨hfi, protocol, payload, hh, hp1⟩ hicmp
            rw [if_pos hp1, hic] at hr
            cases hr
            exact Nat.le_add_right _ _
          · rw [if_neg hp1] at hr
            by_cases hp2 : protocol = IPPROTO_UDP
            · rw [if_pos hp2] at hr
              by_cases hf : env.filter_udp = true
              · rw [if_pos hf] at hr
                cases hr
                dsimp only
                have hc := handle_udp_count env.udp l (handle_udp_input pkt length payload)
                  (-1) none
                by_cases hb : sessions ≥ maxsessions
                · rw [if_pos hb]
                  have hhas : has_udp_session env.fwd53 l pkt payload = true := by
                    by_contra hn
                    exact hadm ⟨hb, Or.inr (Or.inl ⟨hp2, hn⟩)⟩
                  have hsome : (l.find? (handle_udp_match
                      (handle_udp_input pkt length payload))).isSome = true := by
                    rw [← has_udp_session_match_eq]
                    unfold has_udp_session at hhas
                    have hcond : ¬ (ntohs (udphdr_load (pkt.drop payload)).dest = 53
                        ∧ ¬ env.fwd53 = true) :=
                      fun hx => hdns ⟨by simpa using hx.2, payload, hp2 ▸ hh, hx.1⟩
                    rw [if_neg hcond] at hhas
                    exact hhas
                  rw [if_pos hsome] at hc
                  exact hc
                · rw [if_neg hb]
                  refine Nat.le_trans hc ?_
                  split_ifs <;> omega
              · rw [if_neg hf] at hr
                cases hr
                exact Nat.le_add_right _ _
            · rw [if_neg hp2] at hr
              by_cases hp3 : protocol = IPPROTO_TCP
              · rw [if_pos hp3] at hr
                by_cases hf : env.filter_tcp = true
                · rw [if_pos hf] at hr
                  cases htcp : handle_tcp h env.tcp l (handle_tcp_input pkt length payload)
                      (-1) 1 with
                  | none => rw [htcp] at hr; cases hr
                  | some rt =>
                    rw [htcp] at hr
                    cases hr
                    dsimp only
                    have hc := handle_tcp_count h env.tcp l
                      (handle_tcp_input pkt length payload) (-1) 1 rt htcp
                    have hsyn : syn = (handle_tcp_input pkt length payload).tcphdr.syn := by
                      rw [hp3, handle_ip_transport_tcp] at ht
                      split_ifs at ht
                      exact (Option.some.inj ht).symm
                    by_cases hb : sessions ≥ maxsessions
                    · rw [if_pos hb]
                      have hns : ¬ syn = true := fun hs =>
                        hadm ⟨hb, Or.inr (Or.inr ⟨hp3, hs⟩)⟩
                      rw [← hsyn, if_neg hns] at hc
                      exact hc
                    · rw [if_neg hb]
                      refine Nat.le_trans hc ?_
                      split_ifs <;> omega
                · rw [if_neg hf] at hr
                  cases hr
                  exact Nat.le_add_right _ _
              · rw [if_neg hp3] at hr
                cases hr
                exact Nat.le_add_right _ _

/-- The TUN branch of one iteration of `handle_events` raises the count of `handle_events` by
at most one per datagram read, and not at all when `sessions >= maxsessions`, for datagrams
that are not ICMP datagrams which the classifier allows and are not UDP datagrams to port 53
while DNS forwarding is off. -/
theorem handle_events_tun_count (h : athena_h) (sessions maxsessions : Int) :
    ∀ (n : Nat) (reads : List tun_read) (l l1 : List ng_session),
      (∀ r ∈ reads, ¬ dns_exempt r ∧ ¬ icmp_allowed r) →
      handle_events_tun h sessions maxsessions n reads l = some l1 →
      l1.countP handle_events_counts
        ≤ l.countP handle_events_counts
          + (if sessions ≥ maxsessions then 0 else min n reads.length) := by
  intro n
  induction n with
  | zero =>
    intro reads l l1 _ hr
    unfold handle_events_tun at hr
    cases hr
    exact Nat.le_add_right _ _
  | succ n ih =>
    intro reads l l1 hreads hr
    cases reads with
    | nil =>
      unfold handle_events_tun at hr
      cases hr
      exact Nat.le_add_right _ _
    | cons r rest =>
      unfold handle_events_tun at hr
      cases hip : handle_ip h r.env l r.pkt r.length sessions maxsessions with
      | none => rw [hip] at hr; cases hr
      | some res =>
        rw [hip] at hr
        dsimp only at hr
        have h1 := handle_ip_count h r.env l r.pkt r.length sessions maxsessions res
          (hreads r (List.mem_cons_self _ _)).1 (hreads r (List.mem_cons_self _ _)).2 hip
        have h2 := ih rest res.sessions l1
          (fun x hx => hreads x (List.mem_cons_of_mem _ hx)) hr
        rw [List.length_cons]
        split_ifs at h1 h2 ⊢ <;> omega

/-- C22 (counterexample). With a budget of one session and an empty session
list, one iteration that reads the two SYNs `syn_packet 40000` and `syn_packet 40001` leaves two
live sessions: both calls of `handle_ip` get the count 0 of the start of the iteration. With a
budget of one session and the live session `syn_session`, the UDP datagram `dns_packet 5353` to
port 53 is admitted while DNS forwarding is off, and two sessions are live. -/
theorem handle_events_tun_exceeds :
    handle_events_sessions [] = 0
      ∧ (handle_events_tun consts (handle_events_sessions []) 1 10
          [{ env := env_ip, pkt := syn_packet 40000, length := 40 },
           { env := env_ip, pkt := syn_packet 40001, length := 40 }] []).map
          handle_events_sessions = some 2
      ∧ handle_events_sessions [syn_session] = 1
      ∧ (handle_events_tun consts (handle_events_sessions [syn_session]) 1 10
          [{ env := env_ip, pkt := dns_packet 5353, length := 31 }] [syn_session]).map
          handle_events_sessions = some 2 := by
  decide

/-- C22 (amended). One iteration of the TUN branch of `handle_events` that starts with the
count `sessions` of the list `l`, at most `maxsessions`, and reads datagrams none of which is a
UDP datagram to port 53 while DNS forwarding is off (`dns_exempt`) or an ICMP datagram that the
classifier allows (`icmp_allowed`), leaves at most one more live session per datagram read; it
leaves at most `maxsessions` live sessions when the count had reached `maxsessions` or when it
reads a single datagram. TCP segments and UDP datagrams to other ports are covered whatever
their bytes are. -/
theorem handle_events_tun_budget (h : athena_h) (maxsessions : Int) (n : Nat)
    (reads : List tun_read) (l l1 : List ng_session)
    (hreads : ∀ r ∈ reads, ¬ dns_exempt r ∧ ¬ icmp_allowed r)
    (hl : handle_events_sessions l ≤ maxsessions)
    (hr : handle_events_tun h (handle_events_sessions l) maxsessions n reads l = some l1) :
    handle_events_sessions l1 ≤ handle_events_sessions l + (min n reads.length : Nat)
      ∧ (handle_events_sessions l = maxsessions → handle_events_sessions l1 ≤ maxsessions)
      ∧ (min n reads.length ≤ 1 → handle_events_sessions l1 ≤ maxsessions) := by
  have hc := handle_events_tun_count h (handle_events_sessions l) maxsessions n reads l l1
    hreads hr
  unfold handle_events_sessions at hl hc ⊢
  refine ⟨?_, ?_, ?_⟩
  · split_ifs at hc <;> omega
  · intro he
    rw [if_pos (by omega)] at hc
    omega
  · intro h1
    split_ifs at hc <;> omega

/-- The SYN `syn_packet 40001` read with the answers `env_ip` (DNS forwarding off, the
classifier allows everything) is a TCP segment: neither a UDP datagram to port 53 nor an ICMP
datagram. -/
theorem syn_read_counted :
    ¬ dns_exempt { env := env_ip, pkt := syn_packet 40001, length := 40 }
      ∧ ¬ icmp_allowed { env := env_ip, pkt := syn_packet 40001, length := 40 } := by
  have hh : handle_ip_header env_ip.loglevel (syn_packet 40001) 40
      = some (some (IPPROTO_TCP, 20)) := by decide
  constructor
  · rintro ⟨_, payload, hp, _⟩
    change handle_ip_header env_ip.loglevel (syn_packet 40001) 40 = _ at hp
    rw [hh] at hp
    have e : IPPROTO_TCP = IPPROTO_UDP :=
      congrArg Prod.fst (Option.some.inj (Option.some.inj hp))
    exact absurd e (by decide)
  · rintro ⟨_, protocol, payload, hp, hq⟩
    change handle_ip_header env_ip.loglevel (syn_packet 40001) 40 = _ at hp
    rw [hh] at hp
    have e : IPPROTO_TCP = protocol := congrArg Prod.fst (Option.some.inj (Option.some.inj hp))
    rw [← e] at hq
    exact absurd hq (by decide)

/-- Witness of `handle_events_tun_budget` with DNS forwarding off and a budget of one session:
read into an empty session list, the SYN `syn_packet 40001` creates a session; read into the
list `[syn_session]`, whose count has reached the budget, it is dropped. -/
theorem handle_events_tun_budget_witness :
    (handle_events_tun consts (handle_events_sessions []) 1 10
        [{ env := env_ip, pkt := syn_packet 40001, length := 40 }] []).map
        handle_events_sessions = some 1
      ∧ handle_events_tun consts (handle_events_sessions [syn_session]) 1 10
          [{ env := env_ip, pkt := syn_packet 40001, length := 40 }] [syn_session]
            = some [syn_session]
      ∧ handle_events_sessions [syn_session] ≤ 1 :=
  ⟨by decide, by decide,
    (handle_events_tun_budget consts 1 10
      [{ env := env_ip, pkt := syn_packet 40001, length := 40 }] [syn_session]
      [syn_session] (fun r hr => by
        rw [List.mem_singleton] at hr
        rw [hr]
        exact syn_read_counted) (by decide) (by decide)).2.1 (by decide)⟩

/-! ## The extension-header loop of handle_ip -/

/-- A protocol number that `is_lower_layer` accepts is not one that `is_upper_layer` accepts. -/
theorem is_lower_not_upper (x : Nat) (h : is_lower_layer x = true) :
    is_upper_layer x = false := by
  unfold is_lower_layer at h
  unfold is_upper_layer
  have h1 := of_decide_eq_true h
  apply decide_eq_false
  rintro (e | e | e | e) <;> rw [e] at h1 <;> revert h1 <;> decide

/-- One iteration of the extension-header loop. -/
theorem handle_ip_ext_succ (pkt : List Nat) (fuel off protocol : Nat) :
    handle_ip_ext pkt (fuel + 1) off protocol
      = if is_lower_layer (pkt.getD off 0) ∧ ¬ is_upper_layer protocol then
          handle_ip_ext pkt fuel ((off + (8 + pkt.getD (off + 1) 0)) % 2 ^ 16) (pkt.getD off 0)
        else some (off, protocol) := rfl

/-- The extension-header loop leaves `protocol` at a value that `is_upper_layer` rejects, if it
was entered with one: the walk never reaches an upper-layer protocol. -/
theorem handle_ip_ext_not_upper (pkt : List Nat) :
    ∀ (n off p : Nat) (r : Nat × Nat), is_upper_layer p = false →
      handle_ip_ext pkt n off p = some r → is_upper_layer r.2 = false := by
  intro n
  induction n with
  | zero => intro off p r _ hr; cases hr
  | succ n ih =>
    intro off p r hp hr
    unfold handle_ip_ext at hr
    split_ifs at hr with hc
    · exact ih _ _ r (is_lower_not_upper _ hc.1) hr
    · cases hr
      exact hp

/-- For an IPv6 datagram the head of `handle_ip`, when it goes on, has the next-header byte of
the fixed header as `protocol` and 40 as the payload offset, whatever extension headers
follow. -/
theorem handle_ip_header_ipv6 (loglevel : Int) (pkt : List Nat) (length : Nat) (p off : Nat)
    (hv : pkt.getD 0 0 / 16 = 6)
    (hr : handle_ip_header loglevel pkt length = some (some (p, off))) :
    p = pkt.getD 6 0 ∧ off = 40 := by
  unfold handle_ip_header at hr
  dsimp only at hr
  rw [if_neg (by rw [hv]; decide), if_pos hv] at hr
  by_cases h1 : length < 40
  · rw [if_pos h1] at hr
    cases hr
  · rw [if_neg h1] at hr
    by_cases h2 : ¬ is_upper_layer (pkt.getD 6 0) = true
    · rw [if_pos h2] at hr
      cases hext : handle_ip_ext pkt (2 ^ 16 + 1) 40 (pkt.getD 6 0) with
      | none => rw [hext] at hr; cases hr
      | some r =>
        rw [hext] at hr
        dsimp only at hr
        have hnu := handle_ip_ext_not_upper pkt _ _ _ r (by simpa using h2) hext
        rw [if_pos (by rw [hnu]; decide)] at hr
        cases hr
        exact ⟨rfl, rfl⟩
    · rw [if_neg h2] at hr
      cases hr
      exact ⟨rfl, rfl⟩

/-- When the extension-header loop is not left within `n` iterations, the first `n` cursors all
point at a next-header byte that `is_lower_layer` accepts. -/
theorem handle_ip_ext_none (pkt : List Nat) :
    ∀ (n off p : Nat), handle_ip_ext pkt n off p = none →
      ∀ k < n, is_lower_layer (pkt.getD ((handle_ip_ext_next pkt)^[k] off) 0) = true := by
  intro n
  induction n with
  | zero => intro off p _ k hk; omega
  | succ n ih =>
    intro off p hr k hk
    unfold handle_ip_ext at hr
    split_ifs at hr with hc
    cases k with
    | zero => exact hc.1
    | succ k =>
      rw [Function.iterate_succ_apply]
      exact ih _ _ hr k (by omega)

/-- When the first `n` cursors all point at a next-header byte that `is_lower_layer` accepts,
the extension-header loop is not left within `n` iterations. -/
theorem handle_ip_ext_loops (pkt : List Nat) :
    ∀ (n off p : Nat), is_upper_layer p = false →
      (∀ k < n, is_lower_layer (pkt.getD ((handle_ip_ext_next pkt)^[k] off) 0) = true) →
      handle_ip_ext pkt n off p = none := by
  intro n
  induction n with
  | zero => intro off p _ _; rfl
  | succ n ih =>
    intro off p hp hk
    unfold handle_ip_ext
    have h0 : is_lower_layer (pkt.getD off 0) = true := hk 0 (by omega)
    rw [if_pos ⟨h0, by rw [hp]; decide⟩]
    apply ih _ _ (is_lower_not_upper _ h0)
    intro k hlt
    have := hk (k + 1) (by omega)
    rw [Function.iterate_succ_apply] at this
    exact this

/-- Every cursor of the extension-header loop after the first is a `uint16_t`. -/
theorem handle_ip_ext_next_lt (pkt : List Nat) (off : Nat) (hoff : off < 2 ^ 16) :
    ∀ k, (handle_ip_ext_next pkt)^[k] off < 2 ^ 16 := by
  intro k
  cases k with
  | zero => exact hoff
  | succ k =>
    rw [Function.iterate_succ_apply']
    unfold handle_ip_ext_next
    exact Nat.mod_lt _ (by norm_num)

/-- A property that holds at the first `2^16 + 1` cursors of the extension-header loop holds at
every cursor: two of these cursors coincide, and from there on the cursors repeat. -/
theorem handle_ip_ext_cycle (pkt : List Nat) (off : Nat) (hoff : off < 2 ^ 16)
    (P : Nat → Prop) (hP : ∀ k ≤ 2 ^ 16, P ((handle_ip_ext_next pkt)^[k] off)) :
    ∀ k, P ((handle_ip_ext_next pkt)^[k] off) := by
  obtain ⟨x, y, hxy, hf⟩ := Fintype.exists_ne_map_eq_of_card_lt
    (fun k : Fin (2 ^ 16 + 1) =>
      (⟨(handle_ip_ext_next pkt)^[k.val] off, handle_ip_ext_next_lt pkt off hoff k.val⟩ :
        Fin (2 ^ 16)))
    (by rw [Fintype.card_fin, Fintype.card_fin]; omega)
  have hval : (handle_ip_ext_next pkt)^[x.val] off = (handle_ip_ext_next pkt)^[y.val] off :=
    congrArg Fin.val hf
  have hper : ∀ a b : Nat, a < b → b ≤ 2 ^ 16 →
      (handle_ip_ext_next pkt)^[a] off = (handle_ip_ext_next pkt)^[b] off →
      ∀ k, P ((handle_ip_ext_next pkt)^[k] off) := by
    intro a b hab hb he k
    induction k using Nat.strong_induction_on with
    | _ k ih =>
      by_cases hk : k ≤ 2 ^ 16
      · exact hP k hk
      · have e1 : k = (k - b) + b := by omega
        have e2 : (handle_ip_ext_next pkt)^[k] off
            = (handle_ip_ext_next pkt)^[k - b + a] off := by
          rw [e1, Function.iterate_add_apply, ← he, ← Function.iterate_add_apply]
          congr 1
          omega
        rw [e2]
        exact ih (k - b + a) (by omega)
  have hx := x.isLt
  have hy := y.isLt
  rcases Nat.lt_or_gt_of_ne (fun e => hxy (Fin.ext e)) with hlt | hgt
  · exact hper x.val y.val hlt (by omega) hval
  · exact hper y.val x.val hgt (by omega) hval.symm

/-- The extension-header loop of `handle_ip` that is not left within `2^16 + 1` iterations is
never left: the result `none` of `handle_ip_ext` stands for a loop that does not end, whatever
number of iterations is allowed. -/
theorem handle_ip_ext_fuel (pkt : List Nat) (off p : Nat) (hoff : off < 2 ^ 16)
    (hn : handle_ip_ext pkt (2 ^ 16 + 1) off p = none) :
    ∀ n, handle_ip_ext pkt n off p = none := by
  have hk := handle_ip_ext_none pkt _ _ _ hn
  have hp : is_upper_layer p = false := by
    by_contra hc
    have hnot : ¬ (is_lower_layer (pkt.getD off 0) = true ∧ ¬ is_upper_layer p = true) :=
      fun hx => hx.2 (by simpa using hc)
    rw [handle_ip_ext_succ, if_neg hnot] at hn
    cases hn
  have hall := handle_ip_ext_cycle pkt off hoff
    (fun o => is_lower_layer (pkt.getD o 0) = true) (fun k hk1 => hk k (by omega))
  intro n
  exact handle_ip_ext_loops pkt n off p hp (fun k _ => hall k)

/-! ## A session in LISTEN has a socket -/

/-- CLOSING is not LISTEN. -/
theorem closing_ne_listen : TCP_CLOSING ≠ TCP_LISTEN := by decide

/-- CLOSE is not LISTEN. -/
theorem close_ne_listen : TCP_CLOSE ≠ TCP_LISTEN := by decide

/-- CLOSE_WAIT is not LISTEN. -/
theorem close_wait_ne_listen : TCP_CLOSE_WAIT ≠ TCP_LISTEN := by decide

/-- ESTABLISHED is not LISTEN. -/
theorem established_ne_listen : TCP_ESTABLISHED ≠ TCP_LISTEN := by decide

/-- SYN_RECV is not LISTEN. -/
theorem syn_recv_ne_listen : TCP_SYN_RECV ≠ TCP_LISTEN := by decide

/-- After `write_rst` the state is not LISTEN. -/
theorem write_rst_not_listen (res : Int) (t : tcp_session) :
    (write_rst res t).1.state ≠ TCP_LISTEN := by
  rcases write_rst_state res t with e | ⟨e, _⟩
  · rw [e]; decide
  · rw [e]; decide

/-- If the state after `write_ack` is LISTEN, it was so before. -/
theorem write_ack_listen (res : Int) (t : tcp_session)
    (h : (write_ack res t).1.state = TCP_LISTEN) : t.state = TCP_LISTEN := by
  rcases write_ack_state res t with e | e
  · rw [e] at h; exact h
  · rw [e] at h; exact absurd h closing_ne_listen

/-- If the state after `write_syn_ack` is LISTEN, it was so before. -/
theorem write_syn_ack_listen (res : Int) (t : tcp_session)
    (h : (write_syn_ack res t).1.state = TCP_LISTEN) : t.state = TCP_LISTEN := by
  unfold write_syn_ack at h
  dsimp only at h
  split_ifs at h
  · exact absurd h closing_ne_listen
  · exact h

/-- If the state after `write_fin_ack` is LISTEN, it was so before. -/
theorem write_fin_ack_listen (res : Int) (t : tcp_session)
    (h : (write_fin_ack res t).1.state = TCP_LISTEN) : t.state = TCP_LISTEN := by
  unfold write_fin_ack at h
  dsimp only at h
  split_ifs at h
  · exact absurd h closing_ne_listen
  · exact h

/-- If the state after `write_data` is LISTEN, it was so before. -/
theorem write_data_listen (res : Int) (t : tcp_session) (buffer : List Nat) (length : Nat)
    (h : (write_data res t buffer length).1.state = TCP_LISTEN) : t.state = TCP_LISTEN := by
  unfold write_data at h
  dsimp only at h
  split_ifs at h
  · exact absurd h closing_ne_listen
  · exact h

/-- The flag analysis `handle_tcp_flags` keeps `listen_has_socket`. -/
theorem handle_tcp_flags_listen (env : handle_tcp_env) (p : tcp_input) (cur : ng_session)
    (t3 : tcp_session) (hinv : t3.state = TCP_LISTEN → 0 ≤ cur.socket) :
    result_ok listen_has_socket (handle_tcp_flags env p cur t3) := by
  unfold handle_tcp_flags
  dsimp only
  repeat' (apply ite_ind (result_ok listen_has_socket) <;> intro _)
  all_goals
    first
    | exact hinv
    | exact fun h => absurd h closing_ne_listen
    | exact fun h => absurd h close_ne_listen
    | exact fun h => absurd h close_wait_ne_listen
    | exact fun h => absurd h established_ne_listen
    | exact fun h => hinv (write_ack_listen env.tun_write
        { t3 with remote_seq := (t3.remote_seq + 1) % 2 ^ 32 } h)
    | exact fun h => absurd h (write_rst_not_listen env.tun_write t3)

/-- The step `handle_tcp_session` keeps `listen_has_socket`. -/
theorem handle_tcp_session_listen (env : handle_tcp_env) (p : tcp_input) (cur : ng_session)
    (hinv : listen_has_socket cur) :
    result_ok listen_has_socket (handle_tcp_session env p cur) := by
  have hfr := handle_tcp_refresh_frame env p cur.tcp
  have h2 : (handle_tcp_refresh env p cur.tcp).state = TCP_LISTEN → 0 ≤ cur.socket := by
    rw [hfr.1]; exact hinv
  unfold handle_tcp_session
  dsimp only
  apply ite_ind (result_ok listen_has_socket) <;> intro _
  · exact fun h => absurd h (write_rst_not_listen env.tun_write _)
  apply ite_ind (result_ok listen_has_socket) <;> intro _
  · exact fun h => absurd h (write_rst_not_listen env.tun_write _)
  apply handle_tcp_flags_listen
  split_ifs
  · rw [queue_tcp_state]; exact h2
  · exact h2

/-- The session list that `handle_tcp` leaves has an open socket in every session in LISTEN, if
the list before had: a new session is linked only with the descriptor that `open_tcp_socket`
returned. -/
theorem handle_tcp_listen (h : athena_h) (env : handle_tcp_env) (sessions : List ng_session)
    (p : tcp_input) (uid allowed : Int) (hall : ∀ s ∈ sessions, listen_has_socket s) :
    after_handle_tcp (fun l => ∀ s ∈ l, listen_has_socket s)
      (handle_tcp h env sessions p uid allowed) := by
  unfold handle_tcp
  dsimp only
  apply ite_ind (after_handle_tcp (fun l => ∀ s ∈ l, listen_has_socket s)) <;> intro _
  · intro r hr; cases hr; exact hall
  cases hfind : List.find? (handle_tcp_match p) sessions with
  | none =>
    dsimp only
    apply ite_ind (after_handle_tcp (fun l => ∀ s ∈ l, listen_has_socket s)) <;> intro _
    · cases hopt : handle_tcp_options
          (((((p.tcphdr.doff : Int) - 5) * 4) % 256).toNat + 1)
          ((((p.tcphdr.doff : Int) - 5) * 4) % 256) p.tcpoptions (get_default_mss p.version) 0 with
      | none => intro r hr; cases hr
      | some mw =>
        obtain ⟨mss, ws⟩ := mw
        dsimp only
        apply ite_ind (after_handle_tcp (fun l => ∀ s ∈ l, listen_has_socket s))
          <;> intro hsock
        · intro r hr; cases hr; exact hall
        apply ite_ind (after_handle_tcp (fun l => ∀ s ∈ l, listen_has_socket s)) <;> intro _
        · intro r hr; cases hr; exact hall
        apply ite_ind (after_handle_tcp (fun l => ∀ s ∈ l, listen_has_socket s)) <;> intro _
        · intro r hr; cases hr
          intro s hs
          rcases List.mem_cons.mp hs with h1 | h1
          · rw [h1]
            exact fun _ => not_lt.mp hsock
          · exact hall s h1
        · intro r hr; cases hr
          intro s hs
          rcases List.mem_cons.mp hs with h1 | h1
          · rw [h1]
            exact fun _ => not_lt.mp hsock
          · exact hall s h1
    · intro r hr; cases hr; exact hall
  | some cur =>
    have hcur : cur ∈ sessions := List.mem_of_find?_eq_some hfind
    dsimp only
    apply ite_ind (after_handle_tcp (fun l => ∀ s ∈ l, listen_has_socket s)) <;> intro hc
    · intro r hr; cases hr
      intro s hs
      rcases session_update_mem _ _ _ s hs with h1 | h1
      · exact hall s h1
      · rw [h1]
        exact fun h => absurd h (write_rst_not_listen env.tun_write _)
    · intro r hr; cases hr
      intro s hs
      rcases session_update_mem _ _ _ s hs with h1 | h1
      · exact hall s h1
      · rw [h1]
        exact handle_tcp_session_listen env p cur (hall cur hcur)

/-- The housekeeping `check_tcp_session` keeps `listen_has_socket`: it closes the socket only
of a session that it leaves in CLOSE. -/
theorem check_tcp_session_listen (h : athena_h) (env : check_tcp_session_env) (s : ng_session)
    (sessions maxsessions : Int) (hinv : listen_has_socket s) :
    listen_has_socket (check_tcp_session h env s sessions maxsessions).1 := by
  have h1 : listen_has_socket (check_tcp_session_expire h env s sessions maxsessions).1 := by
    unfold check_tcp_session_expire
    dsimp only
    apply ite_ind (fun r : ng_session × List tcp_packet => listen_has_socket r.1) <;> intro _
    · apply ite_ind (fun r : ng_session × List tcp_packet => listen_has_socket r.1)
        <;> intro _
      · exact fun h => absurd h closing_ne_listen
      · exact fun h => absurd h (write_rst_not_listen env.tun_write _)
    · exact hinv
  have h2 : ∀ s1, listen_has_socket s1 → listen_has_socket (check_tcp_session_close env s1) := by
    intro s1 hs1
    unfold check_tcp_session_close
    dsimp only
    apply ite_ind listen_has_socket <;> intro _
    · exact fun h => absurd h close_ne_listen
    · exact hs1
  have h3 : ∀ s2, listen_has_socket s2 → listen_has_socket (check_tcp_session_counters s2) := by
    intro s2 hs2
    unfold check_tcp_session_counters
    apply ite_ind listen_has_socket <;> intro _
    · exact hs2
    · exact hs2
  have h4 := h3 _ (h2 _ h1)
  unfold check_tcp_session
  dsimp only
  apply ite_ind (fun r : ng_session × List tcp_packet × Int => listen_has_socket r.1)
    <;> intro _
  · exact h4
  · exact h4

/-- The housekeeping `monitor_tcp_session` keeps `listen_has_socket`. -/
theorem monitor_tcp_session_listen (h : athena_h) (env : monitor_tcp_session_env)
    (s : ng_session) (hinv : listen_has_socket s) :
    listen_has_socket (monitor_tcp_session h env s).1 := by
  have hw : listen_has_socket (monitor_tcp_session_window h env s).1 := by
    unfold monitor_tcp_session_window
    dsimp only
    apply ite_ind (fun r : ng_session × List tcp_packet × Int × Nat => listen_has_socket r.1)
      <;> intro _
    · exact hinv
    apply ite_ind (fun r : ng_session × List tcp_packet × Int × Nat => listen_has_socket r.1)
      <;> intro _
    · exact fun h => hinv (write_ack_listen env.tun_write _ h :)
    · exact hinv
  have hr : listen_has_socket
      (if s.tcp.state = TCP_LISTEN then
        if s.tcp.socks5 = SOCKS5_NONE then (s, [], 0, EPOLLERR ||| EPOLLOUT)
        else (s, [], 0, EPOLLERR ||| EPOLLIN)
      else if s.tcp.state = TCP_ESTABLISHED ∨ s.tcp.state = TCP_CLOSE_WAIT then
        monitor_tcp_session_forward h env (monitor_tcp_session_window h env s)
      else ((s, [], 0, EPOLLERR) : ng_session × List tcp_packet × Int × Nat)).1 := by
    apply ite_ind (fun r : ng_session × List tcp_packet × Int × Nat => listen_has_socket r.1)
      <;> intro _
    · apply ite_ind (fun r : ng_session × List tcp_packet × Int × Nat => listen_has_socket r.1)
        <;> intro _
      · exact hinv
      · exact hinv
    apply ite_ind (fun r : ng_session × List tcp_packet × Int × Nat => listen_has_socket r.1)
      <;> intro _
    · show listen_has_socket (monitor_tcp_session_forward h env _).1
      rw [monitor_tcp_session_forward_fst]
      exact hw
    · exact hinv
  unfold monitor_tcp_session
  dsimp only
  apply ite_ind (fun r : ng_session × List tcp_packet × Int => listen_has_socket r.1)
    <;> intro _
  · apply ite_ind (fun r : ng_session × List tcp_packet × Int => listen_has_socket r.1)
      <;> intro _
    · exact fun h => absurd h closing_ne_listen
    · exact hr
  · exact hr

/-- If the state after the SOCKS5 reply handling is LISTEN, it was so before. -/
theorem check_tcp_socket_listen_reply_listen (c : socks5_config) (env : check_tcp_socket_env)
    (t : tcp_session) (h : (check_tcp_socket_listen_reply c env t).1.state = TCP_LISTEN) :
    t.state = TCP_LISTEN := by
  revert h
  unfold check_tcp_socket_listen_reply
  dsimp only
  repeat'
    (apply ite_ind
        (fun r : tcp_session × List tcp_packet =>
          r.1.state = TCP_LISTEN → t.state = TCP_LISTEN) <;>
      intro _)
  all_goals
    first
    | exact fun h => h
    | exact fun h => absurd h (write_rst_not_listen (env.tun_write 0) t)
    | exact fun h => absurd h (write_rst_not_listen (env.tun_write 0) { t with socks5 := 0 })

/-- The request half of `check_tcp_socket` in LISTEN keeps `listen_has_socket`. -/
theorem check_tcp_socket_listen_request_listen (c : socks5_config)
    (env : check_tcp_socket_env) (s : ng_session) (out : List tcp_packet)
    (hinv : listen_has_socket s) :
    listen_has_socket (check_tcp_socket_listen_request c env s out).s := by
  unfold check_tcp_socket_listen_request
  dsimp only
  repeat' (apply ite_ind (fun r : socket_result => listen_has_socket r.s) <;> intro _)
  all_goals
    first
    | exact hinv
    | exact fun h => absurd h syn_recv_ne_listen
    | exact fun h => hinv (write_syn_ack_listen (env.tun_write out.length)
        { s.tcp with remote_seq := (s.tcp.remote_seq + 1) % 2 ^ 32 } h)

/-- If the state after the state change that follows the FIN/ACK is LISTEN, it was so
before. -/
theorem check_tcp_socket_fin_state_listen (t : tcp_session)
    (h : (check_tcp_socket_fin_state t).state = TCP_LISTEN) : t.state = TCP_LISTEN := by
  unfold check_tcp_socket_fin_state at h
  split_ifs at h with h1 h2
  · exact absurd h (show TCP_FIN_WAIT1 ≠ TCP_LISTEN by decide)
  · exact absurd h (show TCP_LAST_ACK ≠ TCP_LISTEN by decide)
  · exact h

/-- The read from the host socket of `check_tcp_socket` does not leave a session in LISTEN that
was not in LISTEN. -/
theorem check_tcp_socket_recv_not_listen (env : check_tcp_socket_env) (s : ng_session)
    (out : List tcp_packet) (hs : s.tcp.state ≠ TCP_LISTEN) :
    (check_tcp_socket_recv env s out).1.tcp.state ≠ TCP_LISTEN := by
  unfold check_tcp_socket_recv
  dsimp only
  apply ite_ind (fun r : ng_session × List tcp_packet => r.1.tcp.state ≠ TCP_LISTEN)
    <;> intro hst
  · apply ite_ind (fun r : ng_session × List tcp_packet => r.1.tcp.state ≠ TCP_LISTEN)
      <;> intro _
    · apply ite_ind (fun r : ng_session × List tcp_packet => r.1.tcp.state ≠ TCP_LISTEN)
        <;> intro _
      · apply ite_ind (fun r : ng_session × List tcp_packet => r.1.tcp.state ≠ TCP_LISTEN)
          <;> intro _
        · exact write_rst_not_listen (env.tun_write out.length) _
        · exact hs
      · apply ite_ind (fun r : ng_session × List tcp_packet => r.1.tcp.state ≠ TCP_LISTEN)
          <;> intro _
        · show (check_tcp_socket_eof env { s.tcp with time := env.now_in } out.length).1.state
            ≠ TCP_LISTEN
          unfold check_tcp_socket_eof
          dsimp only
          split_ifs
          · intro h
            have h1 := check_tcp_socket_fin_state_listen _ h
            exact hs (write_fin_ack_listen (env.tun_write out.length)
              { s.tcp with time := env.now_in } h1)
          · intro h
            have h1 := check_tcp_socket_fin_state_listen _ h
            exact hs (write_fin_ack_listen (env.tun_write out.length)
              { s.tcp with time := env.now_in } h1)
          · exact write_rst_not_listen (env.tun_write out.length) _
        · apply ite_ind (fun r : ng_session × List tcp_packet => r.1.tcp.state ≠ TCP_LISTEN)
            <;> intro _
          · exact fun h => hs (write_data_listen (env.tun_write out.length)
              { s.tcp with time := env.now_in,
                           received := (s.tcp.received + env.recv.toNat) % 2 ^ 64 }
              env.recv_buffer env.recv.toNat h)
          · exact fun h => hs (write_data_listen (env.tun_write out.length)
              { s.tcp with time := env.now_in,
                           received := (s.tcp.received + env.recv.toNat) % 2 ^ 64 }
              env.recv_buffer env.recv.toNat h)
    · exact hs
  · exact hs

/-- The readiness handler `check_tcp_socket` keeps `listen_has_socket`: it closes the socket
only on a path that leaves ESTABLISHED or CLOSE_WAIT for FIN_WAIT1, LAST_ACK or CLOSING. -/
theorem check_tcp_socket_listen (h : athena_h) (c : socks5_config)
    (env : check_tcp_socket_env) (s : ng_session) (hinv : listen_has_socket s) :
    listen_has_socket (check_tcp_socket h c env s).s := by
  unfold check_tcp_socket
  dsimp only
  apply ite_ind (fun r : socket_result => listen_has_socket r.s) <;> intro _
  · exact fun h => absurd h (write_rst_not_listen (env.tun_write 0) _)
  apply ite_ind (fun r : socket_result => listen_has_socket r.s) <;> intro hst
  · apply check_tcp_socket_listen_request_listen
    exact fun _ => hinv hst
  · have hd : window_kept s.tcp
          (if env.events &&& EPOLLOUT ≠ 0 then
            check_tcp_socket_drain env 0 s.tcp (get_receive_buffer h env.probe_drain s) false []
              s.tcp.forward
          else ({ t := s.tcp, fwd := false, tun := [], host := [] } : drain_result)).t
        ∧ (∀ p ∈ (if env.events &&& EPOLLOUT ≠ 0 then
            check_tcp_socket_drain env 0 s.tcp (get_receive_buffer h env.probe_drain s) false []
              s.tcp.forward
          else ({ t := s.tcp, fwd := false, tun := [], host := [] } : drain_result)).tun,
            p.fin = false) := by
      split_ifs
      · exact check_tcp_socket_drain_kept env s.tcp.forward 0 s.tcp _ false []
      · exact ⟨window_kept_refl _, fun p hp => by cases hp⟩
    generalize (if env.events &&& EPOLLOUT ≠ 0 then
            check_tcp_socket_drain env 0 s.tcp (get_receive_buffer h env.probe_drain s) false []
              s.tcp.forward
          else ({ t := s.tcp, fwd := false, tun := [], host := [] } : drain_result)) = d at hd
    have kk := window_kept_trans _ _ _ hd.1 (check_tcp_socket_window_kept h env s d hd.2).1
    have hne : (check_tcp_socket_window h env s d).1.tcp.state ≠ TCP_LISTEN := by
      rcases kk.1 with e | e
      · rw [e]; exact hst
      · rw [e]; exact closing_ne_listen
    exact fun hl => absurd hl (check_tcp_socket_recv_not_listen env _ _ hne)

/-- Every session in LISTEN of a reachable session list has an open host socket. -/
theorem reachable_listen_socket (h : athena_h) (c : socks5_config) (l : List ng_session)
    (hl : reachable h c l) : ∀ s ∈ l, listen_has_socket s := by
  induction hl with
  | init => intro s hs; cases hs
  | handle l env p uid allowed r _ hr ih => exact handle_tcp_listen h env l p uid allowed ih r hr
  | socket pre s post env _ _ ih =>
    intro x hx
    rcases List.mem_append.mp hx with h1 | h1
    · exact ih x (List.mem_append_left _ h1)
    · rcases List.mem_cons.mp h1 with h2 | h2
      · rw [h2]
        exact check_tcp_socket_listen h c env s
          (ih s (List.mem_append_right _ (List.mem_cons_self _ _)))
      · exact ih x (List.mem_append_right _ (List.mem_cons_of_mem _ h2))
  | monitor pre s post env _ _ _ ih =>
    intro x hx
    rcases List.mem_append.mp hx with h1 | h1
    · exact ih x (List.mem_append_left _ h1)
    · rcases List.mem_cons.mp h1 with h2 | h2
      · rw [h2]
        exact monitor_tcp_session_listen h env s
          (ih s (List.mem_append_right _ (List.mem_cons_self _ _)))
      · exact ih x (List.mem_append_right _ (List.mem_cons_of_mem _ h2))
  | check pre s post env sessions maxsessions _ _ ih =>
    intro x hx
    rcases List.mem_append.mp hx with h1 | h1
    · exact ih x (List.mem_append_left _ h1)
    · rcases List.mem_cons.mp h1 with h2 | h2
      · rw [h2]
        exact check_tcp_session_listen h env s sessions maxsessions
          (ih s (List.mem_append_right _ (List.mem_cons_self _ _)))
      · exact ih x (List.mem_append_right _ (List.mem_cons_of_mem _ h2))
  | reap pre s post _ ih =>
    intro x hx
    rcases List.mem_append.mp hx with h1 | h1
    · exact ih x (List.mem_append_left _ h1)
    · exact ih x (List.mem_append_right _ (List.mem_cons_of_mem _ h1))

/-! ## The option loop of a guest SYN, pass by pass -/

/-- A pass of the option loop that leaves the loop state as it found it is repeated without
end: no number of passes leaves the loop. -/
theorem handle_tcp_options_passes_fixed (st : options_state)
    (hst : handle_tcp_options_pass st = Sum.inr st) :
    ∀ n, handle_tcp_options_passes n st = none := by
  intro n
  induction n with
  | zero => rfl
  | succ n ih =>
    unfold handle_tcp_options_passes
    rw [hst]
    exact ih

/-- A result of the bounded option loop `handle_tcp_options` is the result of the loop of the
source after as many passes. -/
theorem handle_tcp_options_passes_of_some :
    ∀ (fuel : Nat) (optlen : Int) (options : List Nat) (mss ws : Nat) (r : Nat × Nat),
      handle_tcp_options fuel optlen options mss ws = some r →
      handle_tcp_options_passes fuel
        { optlen := optlen, options := options, mss := mss, ws := ws } = some r := by
  intro fuel
  induction fuel with
  | zero => intro optlen options mss ws r h; exact absurd h (by simp [handle_tcp_options])
  | succ n ih =>
    intro optlen options mss ws r h
    rw [handle_tcp_options_step] at h
    unfold handle_tcp_options_passes handle_tcp_options_pass
    dsimp only at h ⊢
    by_cases hpos : optlen > 0
    · rw [if_pos hpos] at h ⊢
      by_cases hk0 : options.getD 0 0 = 0
      · rw [if_pos hk0] at h ⊢
        exact h
      · rw [if_neg hk0] at h ⊢
        by_cases hk1 : options.getD 0 0 = 1
        · rw [if_pos hk1] at h ⊢
          exact ih _ _ _ _ _ h
        · rw [if_neg hk1] at h ⊢
          by_cases hl : options.getD 1 0 = 0
          · rw [if_pos hl] at h
            exact absurd h (by simp)
          · rw [if_neg hl] at h
            exact ih _ _ _ _ _ h
    · rw [if_neg hpos] at h ⊢
      exact h

/-- A result of the loop of the source after some number of passes is the result of the bounded
option loop `handle_tcp_options` with the bound `optlen + 1` that `handle_tcp` gives it. -/
theorem handle_tcp_options_of_passes :
    ∀ (n : Nat) (optlen : Int) (options : List Nat) (mss ws : Nat) (r : Nat × Nat),
      handle_tcp_options_passes n
        { optlen := optlen, options := options, mss := mss, ws := ws } = some r →
      handle_tcp_options (optlen.toNat + 1) optlen options mss ws = some r := by
  intro n
  induction n with
  | zero => intro optlen options mss ws r h; exact absurd h (by simp [handle_tcp_options_passes])
  | succ n ih =>
    intro optlen options mss ws r h
    unfold handle_tcp_options_passes handle_tcp_options_pass at h
    rw [handle_tcp_options_step]
    dsimp only at h ⊢
    by_cases hpos : optlen > 0
    · rw [if_pos hpos] at h ⊢
      by_cases hk0 : options.getD 0 0 = 0
      · rw [if_pos hk0] at h ⊢
        exact h
      · rw [if_neg hk0] at h ⊢
        by_cases hk1 : options.getD 0 0 = 1
        · rw [if_pos hk1] at h ⊢
          have e : optlen.toNat = (optlen - 1).toNat + 1 := by omega
          rw [e]
          exact ih _ _ _ _ _ h
        · rw [if_neg hk1] at h ⊢
          by_cases hl : options.getD 1 0 = 0
          · rw [if_pos hl]
            rw [hl] at h
            have e4 : ¬ (options.getD 0 0 = 2 ∧ 0 = 4) := fun hc => absurd hc.2 (by decide)
            have e3 : ¬ (options.getD 0 0 = 3 ∧ 0 = 3) := fun hc => absurd hc.2 (by decide)
            rw [if_neg e4, if_neg e4, if_neg e3, Nat.cast_zero, Int.sub_zero, List.drop_zero] at h
            have h1 := ih _ _ _ _ _ h
            rw [handle_tcp_options_step] at h1
            dsimp only at h1
            rw [if_pos hpos, if_neg hk0, if_neg hk1, if_pos hl] at h1
            exact h1
          · rw [if_neg hl]
            have h1 := ih _ _ _ _ _ h
            have hlt : (optlen - (options.getD 1 0 : Nat)).toNat + 1 ≤ optlen.toNat := by omega
            obtain ⟨k, hk⟩ := Nat.exists_eq_add_of_le hlt
            rw [hk, handle_tcp_options_fuel _ _ _ _ _ (by omega) k]
            exact h1
    · rw [if_neg hpos] at h ⊢
      exact h

/-- The bounded option loop `handle_tcp_options`, with the bound that `handle_tcp` gives it,
returns `r` exactly when the loop of the source returns `r` after finitely many passes; so it
is `none` exactly when the loop of the source never ends. -/
theorem handle_tcp_options_returns_iff (optlen : Int) (options : List Nat) (mss ws : Nat)
    (r : Nat × Nat) :
    handle_tcp_options (optlen.toNat + 1) optlen options mss ws = some r
      ↔ ∃ n, handle_tcp_options_passes n
          { optlen := optlen, options := options, mss := mss, ws := ws } = some r :=
  ⟨fun h => ⟨_, handle_tcp_options_passes_of_some _ _ _ _ _ _ h⟩,
    fun h => h.elim (fun n hn => handle_tcp_options_of_passes n _ _ _ _ _ hn)⟩

/-- C38 (code bug). The option loop of `handle_tcp` does not end on every option area. A guest
SYN with data offset 6 carries the four option bytes `02 00 00 00`: kind 2 with length byte 0.
One pass of the loop (kind is neither 0 nor 1, so `optlen -= len; options += len` with
`len = 0`) leaves counter, cursor, `mss` and `ws` as they were, so no number of passes leaves
the loop and `handle_tcp` never returns, whatever the kernel answers. A length byte of 1 does
end: the area `02 01 02 01` is left after four passes. -/
theorem handle_tcp_options_never_ends :
    handle_tcp_options_pass { optlen := 4, options := [2, 0, 0, 0], mss := 9960, ws := 0 }
        = Sum.inr { optlen := 4, options := [2, 0, 0, 0], mss := 9960, ws := 0 }
      ∧ (∀ n, handle_tcp_options_passes n
          { optlen := 4, options := [2, 0, 0, 0], mss := 9960, ws := 0 } = none)
      ∧ (∀ (h : athena_h) (env : handle_tcp_env) (uid allowed : Int),
          handle_tcp h env [] zero_option_syn uid allowed = none)
      ∧ handle_tcp_options_passes 5
          { optlen := 4, options := [2, 1, 2, 1], mss := 9960, ws := 0 } = some (9960, 0) :=
  ⟨by decide, handle_tcp_options_passes_fixed _ (by decide), fun _ _ _ _ => rfl, by decide⟩

/-! ## The advertised window fits the window field -/

/-- The limit `0xFFFF << recv_scale` of `get_receive_window`, cut to 32 bits and shifted back
by `recv_scale`, is at most `0xFFFF`. -/
theorem window_max_shift (scale : Nat) : ((0xFFFF <<< scale) % 2 ^ 32) >>> scale ≤ 0xFFFF := by
  rw [Nat.shiftLeft_eq, Nat.shiftRight_eq_div_pow]
  calc (0xFFFF * 2 ^ scale) % 2 ^ 32 / 2 ^ scale
      ≤ (0xFFFF * 2 ^ scale) / 2 ^ scale := Nat.div_le_div_right (Nat.mod_le _ _)
    _ = 0xFFFF := Nat.mul_div_cancel _ (Nat.two_pow_pos scale)

/-- The window `get_receive_window` is at most the limit `0xFFFF << recv_scale`, whatever the
send buffer of the host socket and the forward queue hold. -/
theorem get_receive_window_le_max (h : athena_h) (k : sndbuf_probe) (s : ng_session) :
    get_receive_window h k s ≤ (0xFFFF <<< s.tcp.recv_scale) % 2 ^ 32 := by
  unfold get_receive_window
  dsimp only
  split_ifs with h1 h2 h3
  · exact Nat.sub_le _ _
  · exact Nat.zero_le _
  · exact Nat.le_trans (Nat.sub_le _ _) (Nat.le_of_not_lt h1)
  · exact Nat.zero_le _

/-- C40. For a session with `recv_scale < 32` (the range in which the shift of the source is
defined) and any answers of the kernel about the send buffer, `get_receive_window` shifted
right by `recv_scale` is at most `0xFFFF`. Hence, once `recv_window` holds that value, the
window field that `write_tcp` stores, `htons(recv_window >> recv_scale)`, reads back with
`ntohs` as `recv_window >> recv_scale` itself, for every kind of segment: nothing is cut off by
the 16-bit field. -/
theorem get_receive_window_fits (h : athena_h) (k : sndbuf_probe) (s : ng_session)
    (_hscale : s.tcp.recv_scale < 32) :
    get_receive_window h k s >>> s.tcp.recv_scale ≤ 0xFFFF
      ∧ ∀ (res : Int) (data : List Nat) (datalen : Nat) (syn ack fin rst : Bool),
          ntohs (write_tcp res { s.tcp with recv_window := get_receive_window h k s }
              data datalen syn ack fin rst).1.window
            = get_receive_window h k s >>> s.tcp.recv_scale := by
  have hle : get_receive_window h k s >>> s.tcp.recv_scale ≤ 0xFFFF := by
    refine Nat.le_trans ?_ (window_max_shift s.tcp.recv_scale)
    rw [Nat.shiftRight_eq_div_pow, Nat.shiftRight_eq_div_pow]
    exact Nat.div_le_div_right (get_receive_window_le_max h k s)
  refine ⟨hle, ?_⟩
  intro res data datalen syn ack fin rst
  show ntohs (htons (get_receive_window h k s >>> s.tcp.recv_scale)) = _
  rw [ntohs_htons]
  exact Nat.mod_eq_of_lt (by omega)

/-- Witness of `get_receive_window_fits`: the session built from a SYN has `recv_scale` 0 and a
default send buffer of 163840 bytes. -/
theorem get_receive_window_fits_witness :
    get_receive_window consts env_ok.probe syn_session >>> syn_session.tcp.recv_scale ≤ 0xFFFF
      ∧ ∀ (res : Int) (data : List Nat) (datalen : Nat) (syn ack fin rst : Bool),
          ntohs (write_tcp res
              { syn_session.tcp with
                recv_window := get_receive_window consts env_ok.probe syn_session }
              data datalen syn ack fin rst).1.window
            = get_receive_window consts env_ok.probe syn_session
                >>> syn_session.tcp.recv_scale :=
  get_receive_window_fits consts env_ok.probe syn_session (by decide)

/-! ## check_tcp_session: CLOSING is left, the return value -/

/-- The expiry test of `check_tcp_session` puts a live session whose timeout has passed into
CLOSING and keeps its descriptor. -/
theorem check_tcp_session_expire_closing (h : athena_h) (env : check_tcp_session_env)
    (s : ng_session) (sessions maxsessions : Int)
    (hlive : s.tcp.state ≠ TCP_CLOSING ∧ s.tcp.state ≠ TCP_CLOSE)
    (hold : s.tcp.time + get_tcp_timeout h s.tcp sessions maxsessions < env.now) :
    (check_tcp_session_expire h env s sessions maxsessions).1.tcp.state = TCP_CLOSING
      ∧ (check_tcp_session_expire h env s sessions maxsessions).1.socket = s.socket := by
  unfold check_tcp_session_expire
  dsimp only
  rw [if_pos ⟨hlive.1, hlive.2, hold⟩]
  by_cases hl : s.tcp.state = TCP_LISTEN
  · rw [if_pos hl]
    exact ⟨rfl, rfl⟩
  · rw [if_neg hl]
    refine ⟨?_, rfl⟩
    show (write_rst env.tun_write s.tcp).1.state = TCP_CLOSING
    exact (write_rst_state env.tun_write s.tcp).resolve_right (fun hx => hlive.2 hx.2)

/-- The expiry test of `check_tcp_session` leaves a session in CLOSING as it is. -/
theorem check_tcp_session_expire_skip (h : athena_h) (env : check_tcp_session_env)
    (s : ng_session) (sessions maxsessions : Int) (hc : s.tcp.state = TCP_CLOSING) :
    check_tcp_session_expire h env s sessions maxsessions = (s, []) := by
  unfold check_tcp_session_expire
  dsimp only
  rw [if_neg (fun hx => hx.1 hc)]

/-- The expiry test of `check_tcp_session` brings no session into CLOSE, and a session in CLOSE
stays as it is. -/
theorem check_tcp_session_expire_state (h : athena_h) (env : check_tcp_session_env)
    (s : ng_session) (sessions maxsessions : Int) :
    (check_tcp_session_expire h env s sessions maxsessions).1.tcp.state = TCP_CLOSING
      ∨ (check_tcp_session_expire h env s sessions maxsessions).1 = s := by
  unfold check_tcp_session_expire
  dsimp only
  by_cases hx : s.tcp.state ≠ TCP_CLOSING ∧ s.tcp.state ≠ TCP_CLOSE
      ∧ s.tcp.time + get_tcp_timeout h s.tcp sessions maxsessions < env.now
  · rw [if_pos hx]
    by_cases hl : s.tcp.state = TCP_LISTEN
    · rw [if_pos hl]
      exact Or.inl rfl
    · rw [if_neg hl]
      refine Or.inl ?_
      show (write_rst env.tun_write s.tcp).1.state = TCP_CLOSING
      exact (write_rst_state env.tun_write s.tcp).resolve_right (fun hc => hx.2.1 hc.2)
  · rw [if_neg hx]
    exact Or.inr rfl

/-- The closing step of `check_tcp_session` on a session in CLOSING: the state becomes CLOSE
and a descriptor that was open or -1 is -1 afterwards. -/
theorem check_tcp_session_close_closing (env : check_tcp_session_env) (s1 : ng_session)
    (hc : s1.tcp.state = TCP_CLOSING) (hsock : -1 ≤ s1.socket) :
    (check_tcp_session_close env s1).tcp.state = TCP_CLOSE
      ∧ (check_tcp_session_close env s1).socket = -1 := by
  unfold check_tcp_session_close
  dsimp only
  rw [if_pos hc]
  by_cases h0 : s1.socket ≥ 0
  · rw [if_pos h0]
    exact ⟨rfl, rfl⟩
  · rw [if_neg h0]
    refine ⟨rfl, ?_⟩
    show s1.socket = -1
    omega

/-- CLOSE is not CLOSING. -/
theorem close_ne_closing : TCP_CLOSE ≠ TCP_CLOSING := by decide

/-- The closing step of `check_tcp_session` leaves no session in CLOSING. -/
theorem check_tcp_session_close_not_closing (env : check_tcp_session_env) (s1 : ng_session) :
    (check_tcp_session_close env s1).tcp.state ≠ TCP_CLOSING := by
  unfold check_tcp_session_close
  dsimp only
  by_cases hc : s1.tcp.state = TCP_CLOSING
  · rw [if_pos hc]
    exact close_ne_closing
  · rw [if_neg hc]
    exact hc

/-- The counter reset of `check_tcp_session` changes neither state nor descriptor nor time. -/
theorem check_tcp_session_counters_frame (s2 : ng_session) :
    (check_tcp_session_counters s2).tcp.state = s2.tcp.state
      ∧ (check_tcp_session_counters s2).socket = s2.socket
      ∧ (check_tcp_session_counters s2).tcp.time = s2.tcp.time := by
  unfold check_tcp_session_counters
  split_ifs
  · exact ⟨rfl, rfl, rfl⟩
  · exact ⟨rfl, rfl, rfl⟩

/-- C36. For a positive `maxsessions` (with `maxsessions = 0` the source divides by zero in
`get_tcp_timeout`): after `check_tcp_session` the session is not in CLOSING, whatever the kernel
answers. A session whose descriptor is open or -1 and that entered the call in CLOSING, or in a
state other than CLOSING and CLOSE with `time + get_tcp_timeout < now`, leaves it in CLOSE with
`socket = -1`. The call returns 1 exactly when, after these updates, the state is CLOSE and
`time + TCP_KEEP_TIMEOUT < now`, and 0 in every other case. The condition on the descriptor holds for
every session of a reachable list (`reachable_socket_known`). -/
theorem check_tcp_session_closes (h : athena_h) (env : check_tcp_session_env) (s : ng_session)
    (sessions maxsessions : Int) (hsock : -1 ≤ s.socket) (_hmax : 0 < maxsessions) :
    (check_tcp_session h env s sessions maxsessions).1.tcp.state ≠ TCP_CLOSING
      ∧ (s.tcp.state = TCP_CLOSING
          ∨ (s.tcp.state ≠ TCP_CLOSING ∧ s.tcp.state ≠ TCP_CLOSE
              ∧ s.tcp.time + get_tcp_timeout h s.tcp sessions maxsessions < env.now) →
          (check_tcp_session h env s sessions maxsessions).1.tcp.state = TCP_CLOSE
            ∧ (check_tcp_session h env s sessions maxsessions).1.socket = -1)
      ∧ ((check_tcp_session h env s sessions maxsessions).2.2 = 1
          ↔ (check_tcp_session h env s sessions maxsessions).1.tcp.state = TCP_CLOSE
            ∧ (check_tcp_session h env s sessions maxsessions).1.tcp.time
                + h.TCP_KEEP_TIMEOUT < env.now)
      ∧ ((check_tcp_session h env s sessions maxsessions).2.2 = 1
          ∨ (check_tcp_session h env s sessions maxsessions).2.2 = 0) := by
  have e1 : (check_tcp_session h env s sessions maxsessions).1
      = check_tcp_session_counters (check_tcp_session_close env
          (check_tcp_session_expire h env s sessions maxsessions).1) := by
    unfold check_tcp_session
    dsimp only
    split_ifs <;> rfl
  have hf := check_tcp_session_counters_frame (check_tcp_session_close env
    (check_tcp_session_expire h env s sessions maxsessions).1)
  refine ⟨?_, ?_, ?_, ?_⟩
  · rw [e1, hf.1]
    exact check_tcp_session_close_not_closing _ _
  · intro hin
    have hcl : (check_tcp_session_expire h env s sessions maxsessions).1.tcp.state = TCP_CLOSING
        ∧ (check_tcp_session_expire h env s sessions maxsessions).1.socket = s.socket := by
      rcases hin with hc | hl
      · rw [check_tcp_session_expire_skip h env s sessions maxsessions hc]
        exact ⟨hc, rfl⟩
      · exact check_tcp_session_expire_closing h env s sessions maxsessions ⟨hl.1, hl.2.1⟩ hl.2.2
    have hc := check_tcp_session_close_closing env _ hcl.1 (by rw [hcl.2]; exact hsock)
    rw [e1, hf.1, hf.2.1]
    exact hc
  · rw [e1]
    unfold check_tcp_session
    dsimp only
    split_ifs with hr
    · exact ⟨fun _ => hr, fun _ => rfl⟩
    · exact ⟨fun h1 => absurd (show (0 : Int) = 1 from h1) (by decide), fun h1 => absurd h1 hr⟩
  · unfold check_tcp_session
    dsimp only
    split_ifs
    · exact Or.inl rfl
    · exact Or.inr rfl

/-- Witness of `check_tcp_session_closes`: the session built from a SYN, still in LISTEN at
time 2000, is closed (its descriptor 5 becomes -1) and is not reaped in the same call. -/
theorem check_tcp_session_closes_witness :
    (check_tcp_session consts env_expired syn_session 0 100).1.tcp.state ≠ TCP_CLOSING
      ∧ (syn_session.tcp.state = TCP_CLOSING
          ∨ (syn_session.tcp.state ≠ TCP_CLOSING ∧ syn_session.tcp.state ≠ TCP_CLOSE
              ∧ syn_session.tcp.time + get_tcp_timeout consts syn_session.tcp 0 100
                  < env_expired.now) →
          (check_tcp_session consts env_expired syn_session 0 100).1.tcp.state = TCP_CLOSE
            ∧ (check_tcp_session consts env_expired syn_session 0 100).1.socket = -1)
      ∧ ((check_tcp_session consts env_expired syn_session 0 100).2.2 = 1
          ↔ (check_tcp_session consts env_expired syn_session 0 100).1.tcp.state = TCP_CLOSE
            ∧ (check_tcp_session consts env_expired syn_session 0 100).1.tcp.time
                + consts.TCP_KEEP_TIMEOUT < env_expired.now)
      ∧ ((check_tcp_session consts env_expired syn_session 0 100).2.2 = 1
          ∨ (check_tcp_session consts env_expired syn_session 0 100).2.2 = 0) :=
  check_tcp_session_closes consts env_expired syn_session 0 100 (by decide) (by decide)

/-! ## check_tcp_socket: the SOCKS5 reply table -/

/-- The RST writer `write_rst` on a session in LISTEN: the state becomes CLOSING, the SOCKS5
sub-state is kept. -/
theorem write_rst_from_listen (res : Int) (t : tcp_session) (hl : t.state = TCP_LISTEN) :
    (write_rst res t).1.state = TCP_CLOSING ∧ (write_rst res t).1.socks5 = t.socks5 := by
  have hc : t.state ≠ TCP_CLOSE := by rw [hl]; decide
  unfold write_rst
  dsimp only
  rw [if_pos hl]
  dsimp only
  rw [if_pos hc]
  exact ⟨rfl, rfl⟩

/-- The request half of `check_tcp_socket` in LISTEN changes the session and writes to the TUN
only in the sub-state CONNECTED, and never changes the sub-state. -/
theorem check_tcp_socket_listen_request_idle (c : socks5_config) (env : check_tcp_socket_env)
    (s : ng_session) (out : List tcp_packet) :
    (check_tcp_socket_listen_request c env s out).s.tcp.socks5 = s.tcp.socks5
      ∧ (s.tcp.socks5 ≠ SOCKS5_CONNECTED →
          (check_tcp_socket_listen_request c env s out).s = s
            ∧ (check_tcp_socket_listen_request c env s out).tun = out) := by
  unfold check_tcp_socket_listen_request
  dsimp only
  by_cases h1 : s.tcp.socks5 = SOCKS5_HELLO
  · rw [if_pos h1]
    exact ⟨rfl, fun _ => ⟨rfl, rfl⟩⟩
  rw [if_neg h1]
  by_cases h2 : s.tcp.socks5 = SOCKS5_AUTH
  · rw [if_pos h2]
    exact ⟨rfl, fun _ => ⟨rfl, rfl⟩⟩
  rw [if_neg h2]
  by_cases h3 : s.tcp.socks5 = SOCKS5_CONNECT
  · rw [if_pos h3]
    split_ifs <;> exact ⟨rfl, fun _ => ⟨rfl, rfl⟩⟩
  rw [if_neg h3]
  by_cases h4 : s.tcp.socks5 = SOCKS5_CONNECTED
  · rw [if_pos h4]
    refine ⟨?_, fun hn => absurd h4 hn⟩
    unfold write_syn_ack
    dsimp only
    split_ifs <;> rfl
  rw [if_neg h4]
  exact ⟨rfl, fun _ => ⟨rfl, rfl⟩⟩

/-- The reply half of `check_tcp_socket` for a session in LISTEN in one of the sub-states
HELLO, AUTH, CONNECT when the host socket is readable: it follows `socks5_reply_spec`. Where
the table names a sub-state, only the sub-state changes and nothing is written; where the
session is reset, the state is CLOSING and one RST is written. -/
theorem check_tcp_socket_listen_reply_table (c : socks5_config) (env : check_tcp_socket_env)
    (t : tcp_session) (hin : env.events &&& EPOLLIN ≠ 0) (hl : t.state = TCP_LISTEN)
    (hsub : t.socks5 = SOCKS5_HELLO ∨ t.socks5 = SOCKS5_AUTH ∨ t.socks5 = SOCKS5_CONNECT) :
    (∀ n, socks5_reply_spec t.version t.socks5 env.socks5_recv env.socks5_buffer = some n →
        check_tcp_socket_listen_reply c env t = ({ t with socks5 := n }, []))
      ∧ (socks5_reply_spec t.version t.socks5 env.socks5_recv env.socks5_buffer = none →
          (check_tcp_socket_listen_reply c env t).1.state = TCP_CLOSING
            ∧ (check_tcp_socket_listen_reply c env t).1.socks5 ≠ SOCKS5_CONNECTED
            ∧ ∃ rst, (check_tcp_socket_listen_reply c env t).2 = [rst] ∧ rst.rst = true) := by
  have hnone : t.socks5 ≠ SOCKS5_NONE := by
    rcases hsub with h1 | h1 | h1 <;> rw [h1] <;> decide
  have hnc : t.socks5 ≠ SOCKS5_CONNECTED := by
    rcases hsub with h1 | h1 | h1 <;> rw [h1] <;> decide
  have hfail : ∀ (t1 : tcp_session), t1.state = TCP_LISTEN → t1.socks5 ≠ SOCKS5_CONNECTED →
      (write_rst (env.tun_write 0) t1).1.state = TCP_CLOSING
        ∧ (write_rst (env.tun_write 0) t1).1.socks5 ≠ SOCKS5_CONNECTED
        ∧ ∃ rst, [(write_rst (env.tun_write 0) t1).2] = [rst] ∧ rst.rst = true := by
    intro t1 h1 h2
    have hw := write_rst_from_listen (env.tun_write 0) t1 h1
    exact ⟨hw.1, by rw [hw.2]; exact h2, _, rfl, rfl⟩
  have hfail0 := hfail { t with socks5 := 0 } hl (show (0 : Nat) ≠ SOCKS5_CONNECTED by decide)
  have hfailt := hfail t hl hnc
  unfold check_tcp_socket_listen_reply socks5_reply_spec
  dsimp only
  rw [if_neg hnone, if_pos hin]
  by_cases hneg : env.socks5_recv < 0
  · rw [if_pos hneg]
    have hb2 : env.socks5_recv ≠ 2 := by omega
    have hb10 : env.socks5_recv ≠ (if t.version = 4 then 10 else 22) := by
      split_ifs <;> omega
    refine ⟨fun n hn => ?_, fun _ => hfailt⟩
    revert hn
    split_ifs <;> simp_all
  rw [if_neg hneg]
  have e23 : (SOCKS5_HELLO = SOCKS5_AUTH) = False := eq_false (by decide)
  have e24 : (SOCKS5_HELLO = SOCKS5_CONNECT) = False := eq_false (by decide)
  have e32 : (SOCKS5_AUTH = SOCKS5_HELLO) = False := eq_false (by decide)
  have e34 : (SOCKS5_AUTH = SOCKS5_CONNECT) = False := eq_false (by decide)
  have e42 : (SOCKS5_CONNECT = SOCKS5_HELLO) = False := eq_false (by decide)
  have e43 : (SOCKS5_CONNECT = SOCKS5_AUTH) = False := eq_false (by decide)
  generalize hF : write_rst (env.tun_write 0) { t with socks5 := 0 } = F at hfail0 ⊢
  have e20 : ((2 : Nat) = 0) = False := eq_false (by decide)
  have e02 : ((0 : Nat) = 2) = False := eq_false (by decide)
  have e64 : (6 : Int) + 4 = 10 := rfl
  have e616 : (6 : Int) + 16 = 22 := rfl
  rcases hsub with h1 | h1 | h1
  · rw [h1]
    simp only [e23, e24, eq_self_iff_true, true_and, false_and, if_true, if_false]
    by_cases hb : env.socks5_recv = 2 <;> by_cases h0 : env.socks5_buffer.getD 0 0 = 5 <;>
      by_cases h10 : env.socks5_buffer.getD 1 0 = 0 <;>
      by_cases h12 : env.socks5_buffer.getD 1 0 = 2 <;>
      simp only [hb, h0, h10, h12, eq_self_iff_true, true_and, false_and, and_self,
        and_false, and_true, if_true, if_false, e20, e02] <;>
      first
        | exact ⟨fun n hn => by rw [← Option.some.inj hn], fun hn => Option.noConfusion hn⟩
        | exact ⟨fun n hn => Option.noConfusion hn, fun _ => hfail0⟩
  · rw [h1]
    simp only [e32, e34, eq_self_iff_true, true_and, false_and, if_true, if_false]
    by_cases hb : env.socks5_recv = 2 <;>
      by_cases h0 : env.socks5_buffer.getD 0 0 = 1 ∨ env.socks5_buffer.getD 0 0 = 5 <;>
      by_cases h10 : env.socks5_buffer.getD 1 0 = 0 <;>
      simp only [hb, h0, h10, eq_self_iff_true, true_and, false_and, and_self,
        and_false, and_true, if_true, if_false, e20, e02] <;>
      first
        | exact ⟨fun n hn => by rw [← Option.some.inj hn], fun hn => Option.noConfusion hn⟩
        | exact ⟨fun n hn => Option.noConfusion hn, fun _ => hfail0⟩
  · rw [h1]
    simp only [e42, e43, eq_self_iff_true, true_and, false_and, if_true, if_false]
    by_cases hv : t.version = 4 <;>
      simp only [hv, if_true, if_false, e64, e616] <;>
      by_cases hb : env.socks5_recv = 10 <;> by_cases hb2 : env.socks5_recv = 22 <;>
      by_cases h0 : env.socks5_buffer.getD 0 0 = 5 <;>
      by_cases h10 : env.socks5_buffer.getD 1 0 = 0 <;>
      simp only [hb, hb2, h0, h10, eq_self_iff_true, true_and, false_and, and_self,
        and_false, and_true, if_true, if_false, e20, e02] <;>
      first
        | exact ⟨fun n hn => by rw [← Option.some.inj hn], fun hn => Option.noConfusion hn⟩
        | exact ⟨fun n hn => Option.noConfusion hn, fun _ => hfail0⟩

/-- C37 (counterexample). A session in LISTEN in the SOCKS5 sub-state AUTH receives the 2-byte
reply `02 00`. The reply has the form `xx 00`, but `check_tcp_socket` accepts a first byte of 1
or 5 only: the sub-state is cleared, a RST is written and the state is CLOSING. The replies
`01 00` and `05 00` lead to CONNECT. -/
theorem check_tcp_socket_auth_reply_reset :
    auth_session.tcp.state = TCP_LISTEN ∧ auth_session.tcp.socks5 = SOCKS5_AUTH
      ∧ (env_reply 2).socks5_recv = 2 ∧ (env_reply 2).socks5_buffer = [2, 0]
      ∧ (check_tcp_socket consts with_socks5 (env_reply 2) auth_session).s.tcp.state
          = TCP_CLOSING
      ∧ (check_tcp_socket consts with_socks5 (env_reply 2) auth_session).s.tcp.socks5 = 0
      ∧ ((check_tcp_socket consts with_socks5 (env_reply 2) auth_session).tun.map
          (fun p => p.rst)) = [true]
      ∧ (check_tcp_socket consts with_socks5 (env_reply 1) auth_session).s.tcp.socks5
          = SOCKS5_CONNECT
      ∧ (check_tcp_socket consts with_socks5 (env_reply 5) auth_session).s.tcp.socks5
          = SOCKS5_CONNECT := by
  decide

/-- C37 (amended). For a session in LISTEN in one of the SOCKS5 sub-states HELLO, AUTH, CONNECT
and an event with `EPOLLIN` and without `EPOLLERR`, `check_tcp_socket` follows the table
`socks5_reply_spec` for every result of `recv` and every buffer content: in HELLO the 2-byte
reply `05 00` leads to CONNECT and `05 02` to AUTH; in AUTH the 2-byte replies `01 00` and
`05 00` lead to CONNECT; in CONNECT a reply of 10 bytes (IPv4) or 22 bytes (otherwise) that
starts `05 00` leads to CONNECTED. Before CONNECTED nothing else of the session changes and
nothing is written to the TUN. Every other reply, and a failed `recv`, resets the session: the
state is CLOSING and one RST is written. -/
theorem check_tcp_socket_socks5_reply (h : athena_h) (c : socks5_config)
    (env : check_tcp_socket_env) (s : ng_session)
    (herr : env.events &&& EPOLLERR = 0) (hin : env.events &&& EPOLLIN ≠ 0)
    (hl : s.tcp.state = TCP_LISTEN)
    (hsub : s.tcp.socks5 = SOCKS5_HELLO ∨ s.tcp.socks5 = SOCKS5_AUTH
      ∨ s.tcp.socks5 = SOCKS5_CONNECT) :
    (∀ n, socks5_reply_spec s.tcp.version s.tcp.socks5 env.socks5_recv env.socks5_buffer
          = some n →
        (check_tcp_socket h c env s).s.tcp.socks5 = n
          ∧ (n ≠ SOCKS5_CONNECTED →
              (check_tcp_socket h c env s).s = { s with tcp := { s.tcp with socks5 := n } }
                ∧ (check_tcp_socket h c env s).tun = []))
      ∧ (socks5_reply_spec s.tcp.version s.tcp.socks5 env.socks5_recv env.socks5_buffer
            = none →
          (check_tcp_socket h c env s).s.tcp.state = TCP_CLOSING
            ∧ ∃ rst, (check_tcp_socket h c env s).tun = [rst] ∧ rst.rst = true) := by
  have ht := check_tcp_socket_listen_reply_table c env s.tcp hin hl hsub
  unfold check_tcp_socket
  dsimp only
  rw [if_neg (not_not.mpr herr), if_pos hl]
  refine ⟨fun n hn => ?_, fun hn => ?_⟩
  · rw [ht.1 n hn]
    have hi := check_tcp_socket_listen_request_idle c env
      { s with tcp := { s.tcp with socks5 := n } } []
    exact ⟨hi.1, hi.2⟩
  · obtain ⟨hst, hnc, rst, hrst, hflag⟩ := ht.2 hn
    have hi := check_tcp_socket_listen_request_idle c env
      { s with tcp := (check_tcp_socket_listen_reply c env s.tcp).1 }
      (check_tcp_socket_listen_reply c env s.tcp).2
    have hi2 := hi.2 hnc
    rw [hi2.1, hi2.2]
    exact ⟨hst, rst, hrst, hflag⟩

/-- Witness of `check_tcp_socket_socks5_reply`: the session in AUTH receives `05 00` and goes on
to CONNECT. -/
theorem check_tcp_socket_socks5_reply_witness :
    (∀ n, socks5_reply_spec auth_session.tcp.version auth_session.tcp.socks5
          (env_reply 5).socks5_recv (env_reply 5).socks5_buffer = some n →
        (check_tcp_socket consts with_socks5 (env_reply 5) auth_session).s.tcp.socks5 = n
          ∧ (n ≠ SOCKS5_CONNECTED →
              (check_tcp_socket consts with_socks5 (env_reply 5) auth_session).s
                  = { auth_session with tcp := { auth_session.tcp with socks5 := n } }
                ∧ (check_tcp_socket consts with_socks5 (env_reply 5) auth_session).tun = []))
      ∧ (socks5_reply_spec auth_session.tcp.version auth_session.tcp.socks5
            (env_reply 5).socks5_recv (env_reply 5).socks5_buffer = none →
          (check_tcp_socket consts with_socks5 (env_reply 5) auth_session).s.tcp.state
              = TCP_CLOSING
            ∧ ∃ rst, (check_tcp_socket consts with_socks5 (env_reply 5) auth_session).tun
                = [rst] ∧ rst.rst = true) :=
  check_tcp_socket_socks5_reply consts with_socks5 (env_reply 5) auth_session
    (by decide) (by decide) (by decide) (by decide)

/-! ## handle_tcp on a session: the expected acknowledgment -/

/-- For a segment without URG whose session `cur` is not in CLOSING or CLOSE, `handle_tcp` is
the step `handle_tcp_session` on `cur`, stored back in place. -/
theorem handle_tcp_found (h : athena_h) (env : handle_tcp_env) (sessions : List ng_session)
    (p : tcp_input) (uid allowed : Int) (cur : ng_session)
    (hfind : sessions.find? (handle_tcp_match p) = some cur)
    (hlive : cur.tcp.state ≠ TCP_CLOSING ∧ cur.tcp.state ≠ TCP_CLOSE)
    (hurg : p.tcphdr.urg = false) :
    handle_tcp h env sessions p uid allowed
      = some { sessions := session_update (handle_tcp_match p) (handle_tcp_session env p cur).1
                 sessions,
               tun := (handle_tcp_session env p cur).2.1,
               ret := (handle_tcp_session env p cur).2.2 } := by
  have hc : ¬ (cur.tcp.state = TCP_CLOSING ∨ cur.tcp.state = TCP_CLOSE) :=
    fun hx => hx.elim hlive.1 hlive.2
  unfold handle_tcp
  simp only [hurg, hfind, Bool.false_eq_true, if_false, if_neg hc]

/-- For a segment without payload the step `handle_tcp_session` is the flag analysis on the
record that the bookkeeping leaves. -/
theorem handle_tcp_session_no_data (env : handle_tcp_env) (p : tcp_input) (cur : ng_session)
    (hd : p.datalen = 0) :
    handle_tcp_session env p cur
      = handle_tcp_flags env p cur (handle_tcp_refresh env p cur.tcp) := by
  have h0 : ¬ p.datalen ≠ 0 := not_not.mpr hd
  unfold handle_tcp_session
  dsimp only
  rw [if_neg (fun hx => h0 hx.1), if_neg (fun hx => h0 hx.1), if_neg h0]

/-- The bookkeeping `handle_tcp_refresh` leaves `local_seq`, `remote_seq`, `acked`, the state
and the forward queue alone. -/
theorem handle_tcp_refresh_keeps (env : handle_tcp_env) (p : tcp_input) (t : tcp_session) :
    (handle_tcp_refresh env p t).local_seq = t.local_seq
      ∧ (handle_tcp_refresh env p t).remote_seq = t.remote_seq
      ∧ (handle_tcp_refresh env p t).acked = t.acked
      ∧ (handle_tcp_refresh env p t).state = t.state
      ∧ (handle_tcp_refresh env p t).forward = t.forward
      ∧ (handle_tcp_refresh env p t).version = t.version := by
  unfold handle_tcp_refresh
  dsimp only
  split_ifs <;> exact ⟨rfl, rfl, rfl, rfl, rfl, rfl⟩

/-- The flag analysis `handle_tcp_flags` for a segment with ACK only whose acknowledgment is
`local_seq`: `acked` is set, SYN_RECV becomes ESTABLISHED, LAST_ACK becomes CLOSING, and
nothing is written. -/
theorem handle_tcp_flags_pure_ack (env : handle_tcp_env) (p : tcp_input) (cur : ng_session)
    (t3 : tcp_session) (hack : p.tcphdr.ack = true) (hsyn : p.tcphdr.syn = false)
    (hfin : p.tcphdr.fin = false) (hrst : p.tcphdr.rst = false)
    (hseq : ntohl p.tcphdr.ack_seq = t3.local_seq) :
    (handle_tcp_flags env p cur t3).1
        = { cur with tcp :=
            { t3 with acked := ntohl p.tcphdr.ack_seq,
                      state := if t3.state = TCP_SYN_RECV then TCP_ESTABLISHED
                               else if t3.state = TCP_LAST_ACK then TCP_CLOSING
                               else t3.state } }
      ∧ (handle_tcp_flags env p cur t3).2.1 = [] := by
  unfold handle_tcp_flags
  simp only [hrst, hack, hsyn, hfin, Bool.false_eq_true, if_false, if_true]
  rw [if_pos (Or.inr hseq)]
  by_cases h1 : t3.state = TCP_SYN_RECV
  · rw [if_pos h1, if_pos h1]
    exact ⟨rfl, rfl⟩
  rw [if_neg h1, if_neg h1]
  by_cases h2 : t3.state = TCP_ESTABLISHED
  · have h9 : t3.state ≠ TCP_LAST_ACK := by rw [h2]; decide
    rw [if_pos h2, if_neg h9]
    exact ⟨rfl, rfl⟩
  rw [if_neg h2]
  by_cases h3 : t3.state = TCP_LAST_ACK
  · rw [if_pos h3, if_pos h3]
    exact ⟨rfl, rfl⟩
  rw [if_neg h3, if_neg h3]
  split_ifs <;> exact ⟨rfl, rfl⟩

/-- C33. For a session that the lookup of `handle_tcp` finds, not in CLOSING or CLOSE, and a
guest segment without payload with ACK set, SYN, FIN, RST and URG clear and
`ack = local_seq`: `handle_tcp` returns, writes nothing to the TUN and stores the session back
with `acked = ack`; the state goes from SYN_RECV to ESTABLISHED and from LAST_ACK to CLOSING
and is unchanged otherwise (so ESTABLISHED, CLOSE_WAIT and FIN_WAIT1 stay); `local_seq` and
`remote_seq` are unchanged. -/
theorem handle_tcp_pure_ack (h : athena_h) (env : handle_tcp_env) (sessions : List ng_session)
    (p : tcp_input) (uid allowed : Int) (cur : ng_session)
    (hfind : sessions.find? (handle_tcp_match p) = some cur)
    (hlive : cur.tcp.state ≠ TCP_CLOSING ∧ cur.tcp.state ≠ TCP_CLOSE)
    (hd : p.datalen = 0) (hack : p.tcphdr.ack = true) (hsyn : p.tcphdr.syn = false)
    (hfin : p.tcphdr.fin = false) (hrst : p.tcphdr.rst = false) (hurg : p.tcphdr.urg = false)
    (hseq : ntohl p.tcphdr.ack_seq = cur.tcp.local_seq) :
    ∃ (cur1 : ng_session) (ret : Nat),
      handle_tcp h env sessions p uid allowed
          = some { sessions := session_update (handle_tcp_match p) cur1 sessions, tun := [],
                   ret := ret }
        ∧ cur1.tcp.acked = ntohl p.tcphdr.ack_seq
        ∧ cur1.tcp.state
            = (if cur.tcp.state = TCP_SYN_RECV then TCP_ESTABLISHED
               else if cur.tcp.state = TCP_LAST_ACK then TCP_CLOSING
               else cur.tcp.state)
        ∧ cur1.tcp.local_seq = cur.tcp.local_seq
        ∧ cur1.tcp.remote_seq = cur.tcp.remote_seq := by
  obtain ⟨k1, k2, _, k4, _, _⟩ := handle_tcp_refresh_keeps env p cur.tcp
  have hf := handle_tcp_flags_pure_ack env p cur (handle_tcp_refresh env p cur.tcp) hack hsyn
    hfin hrst (by rw [k1]; exact hseq)
  refine ⟨(handle_tcp_session env p cur).1, (handle_tcp_session env p cur).2.2, ?_, ?_, ?_, ?_,
    ?_⟩
  · rw [handle_tcp_found h env sessions p uid allowed cur hfind hlive hurg]
    rw [handle_tcp_session_no_data env p cur hd, hf.2]
  · rw [handle_tcp_session_no_data env p cur hd, hf.1]
  · rw [handle_tcp_session_no_data env p cur hd, hf.1]
    show (if (handle_tcp_refresh env p cur.tcp).state = TCP_SYN_RECV then TCP_ESTABLISHED
      else if (handle_tcp_refresh env p cur.tcp).state = TCP_LAST_ACK then TCP_CLOSING
      else (handle_tcp_refresh env p cur.tcp).state) = _
    rw [k4]
  · rw [handle_tcp_session_no_data env p cur hd, hf.1]
    exact k1
  · rw [handle_tcp_session_no_data env p cur hd, hf.1]
    exact k2

/-- Witness of `handle_tcp_pure_ack`: the third segment of the handshake moves the session from
SYN_RECV to ESTABLISHED. -/
theorem handle_tcp_pure_ack_witness :
    ∃ (cur1 : ng_session) (ret : Nat),
      handle_tcp consts env_ok [syn_recv_session] ack_input 0 1
          = some { sessions := session_update (handle_tcp_match ack_input) cur1
                     [syn_recv_session],
                   tun := [], ret := ret }
        ∧ cur1.tcp.acked = ntohl ack_input.tcphdr.ack_seq
        ∧ cur1.tcp.state
            = (if syn_recv_session.tcp.state = TCP_SYN_RECV then TCP_ESTABLISHED
               else if syn_recv_session.tcp.state = TCP_LAST_ACK then TCP_CLOSING
               else syn_recv_session.tcp.state)
        ∧ cur1.tcp.local_seq = syn_recv_session.tcp.local_seq
        ∧ cur1.tcp.remote_seq = syn_recv_session.tcp.remote_seq :=
  handle_tcp_pure_ack consts env_ok [syn_recv_session] ack_input 0 1 syn_recv_session
    (by decide) (by decide) rfl rfl rfl rfl rfl rfl (by decide)

/-! ## The forward queue: sent and len -/

/-- The session `part_session`, whose head segment has 2 of 3 bytes sent, is reached from the
empty session list by a handshake, a data segment and a partial send. -/
theorem part_session_reachable : reachable consts no_socks5 [part_session] := by
  have h1 : handle_tcp consts env_ok [] plain_syn 0 1
      = some { sessions := [listen_session], tun := [], ret := 1 } := by decide
  have r1 : reachable consts no_socks5 [listen_session] :=
    reachable.handle [] env_ok plain_syn 0 1 _ reachable.init h1
  have h2 : (check_tcp_socket consts no_socks5 (env_writable 48) listen_session).s
      = syn_recv_session := by decide
  have r2 : reachable consts no_socks5 [syn_recv_session] := by
    have r := reachable.socket [] listen_session [] (env_writable 48) r1 rfl
    rw [h2] at r
    exact r
  have h3 : handle_tcp consts env_ok [syn_recv_session] ack_input 0 1
      = some { sessions := [open_session], tun := [], ret := 1 } := by decide
  have r3 : reachable consts no_socks5 [open_session] :=
    reachable.handle [syn_recv_session] env_ok ack_input 0 1 _ r2 h3
  have h4 : handle_tcp consts env_ok [open_session] data3_input 0 1
      = some { sessions := [queued_session], tun := [], ret := 1 } := by decide
  have r4 : reachable consts no_socks5 [queued_session] :=
    reachable.handle [open_session] env_ok data3_input 0 1 _ r3 h4
  have h5 : (check_tcp_socket consts no_socks5 env_send2 queued_session).s = part_session := by
    decide
  have r := reachable.socket [] queued_session [] env_send2 r4 rfl
  rw [h5] at r
  exact r

/-- C39 (code bug). The session `part_session` is reachable and its forward queue holds one
segment with `len = 3` and `sent = 2`, so `sent <= len`. The guest sends the segment again
with the same sequence number and one byte of data; `queue_tcp` overwrites `len` and `data` of
the queued segment and leaves `sent` as it is. The session list that `handle_tcp` leaves is
reachable and its segment has `len = 1` and `sent = 2`. The byte count `len - sent` of
`get_receive_window` wraps to `0xFFFFFFFF`, the window is 0, and the drain of
`check_tcp_socket` sends nothing and keeps the segment. -/
theorem queue_tcp_replace_sent_exceeds :
    reachable consts no_socks5 [part_session]
      ∧ forward_sent_ok part_session.tcp.forward
      ∧ handle_tcp consts env_ok [part_session] data1_input 0 1
          = some { sessions := [short_session], tun := [], ret := 1 }
      ∧ reachable consts no_socks5 [short_session]
      ∧ short_session.tcp.forward
          = [{ seq := 0x1001, len := 1, sent := 2, psh := true, data := [72] }]
      ∧ ¬ forward_sent_ok short_session.tcp.forward
      ∧ get_receive_window_toforward short_session.tcp.forward 0 = 0xFFFFFFFF
      ∧ get_receive_window consts env_ok.probe short_session = 0
      ∧ (check_tcp_socket consts no_socks5 env_send2 short_session).host = []
      ∧ (check_tcp_socket consts no_socks5 env_send2 short_session).s.tcp.forward
          = short_session.tcp.forward := by
  have h6 : handle_tcp consts env_ok [part_session] data1_input 0 1
      = some { sessions := [short_session], tun := [], ret := 1 } := by decide
  exact ⟨part_session_reachable, by decide, h6,
    reachable.handle [part_session] env_ok data1_input 0 1 _ part_session_reachable h6,
    rfl, by decide, by decide, by decide, by decide, by decide⟩

/-! ## handle_tcp on a session: FIN -/

/-- The flag analysis `handle_tcp_flags` for a segment with FIN, without SYN and RST, whose
acknowledgment is `local_seq`, when the TUN write of an ACK succeeds. -/
theorem handle_tcp_flags_fin (env : handle_tcp_env) (p : tcp_input) (cur : ng_session)
    (t3 : tcp_session) (hfin : p.tcphdr.fin = true) (hsyn : p.tcphdr.syn = false)
    (hrst : p.tcphdr.rst = false) (hseq : ntohl p.tcphdr.ack_seq = t3.local_seq)
    (hw : env.tun_write = (((if t3.version = 4 then 20 else 40) + 20 : Nat) : Int)) :
    (t3.state = TCP_ESTABLISHED → t3.forward = [] →
        handle_tcp_flags env p cur t3
          = ({ cur with tcp := { t3 with remote_seq := (t3.remote_seq + 1) % 2 ^ 32,
                                         state := TCP_CLOSE_WAIT } },
             [(write_tcp env.tun_write { t3 with remote_seq := (t3.remote_seq + 1) % 2 ^ 32 }
                 [] 0 false true false false).1], 1))
      ∧ (t3.state = TCP_ESTABLISHED → t3.forward ≠ [] →
          handle_tcp_flags env p cur t3
            = ({ cur with tcp := { t3 with state := TCP_CLOSE_WAIT } }, [], 1))
      ∧ (t3.state = TCP_FIN_WAIT1 →
          handle_tcp_flags env p cur t3
            = ({ cur with tcp := { t3 with remote_seq := (t3.remote_seq + 1) % 2 ^ 32,
                                           state := TCP_CLOSE } },
               [(write_tcp env.tun_write { t3 with remote_seq := (t3.remote_seq + 1) % 2 ^ 32 }
                   [] 0 false true false false).1], 1)) := by
  have hok := write_ack_ok env.tun_write { t3 with remote_seq := (t3.remote_seq + 1) % 2 ^ 32 }
    hw
  have h0 : (0 : Int) ≥ 0 := le_refl _
  refine ⟨fun hst hq => ?_, fun hst hq => ?_, fun hst => ?_⟩
  · unfold handle_tcp_flags
    simp only [hrst, hsyn, hfin, Bool.false_eq_true, if_false, if_true]
    rw [if_pos (Or.inr hseq), if_pos hst, if_pos hq, hok]
    dsimp only
    rw [if_pos h0]
  · unfold handle_tcp_flags
    simp only [hrst, hsyn, hfin, Bool.false_eq_true, if_false, if_true]
    rw [if_pos (Or.inr hseq), if_pos hst, if_neg hq]
  · have h1 : t3.state ≠ TCP_ESTABLISHED := by rw [hst]; decide
    have h2 : t3.state ≠ TCP_CLOSE_WAIT := by rw [hst]; decide
    unfold handle_tcp_flags
    simp only [hrst, hsyn, hfin, Bool.false_eq_true, if_false, if_true]
    rw [if_pos (Or.inr hseq), if_neg h1, if_neg h2, if_pos hst, hok]
    dsimp only
    rw [if_pos h0]

/-- C34. For a session that the lookup of `handle_tcp` finds and a guest segment without
payload with FIN set, SYN, RST and URG clear and `ack = local_seq`, when the TUN write of an
ACK returns the length of the segment: in ESTABLISHED with an empty forward queue `handle_tcp`
advances `remote_seq` by 1, writes one ACK that acknowledges the new `remote_seq`, and enters
CLOSE_WAIT; in ESTABLISHED with a non-empty forward queue it enters CLOSE_WAIT, writes nothing
and leaves `remote_seq` as it is; in FIN_WAIT1 it advances `remote_seq` by 1, writes one such
ACK and enters CLOSE. In each case the call returns 1. -/
theorem handle_tcp_fin (h : athena_h) (env : handle_tcp_env) (sessions : List ng_session)
    (p : tcp_input) (uid allowed : Int) (cur : ng_session)
    (hfind : sessions.find? (handle_tcp_match p) = some cur)
    (hd : p.datalen = 0) (hfin : p.tcphdr.fin = true) (hsyn : p.tcphdr.syn = false)
    (hrst : p.tcphdr.rst = false) (hurg : p.tcphdr.urg = false)
    (hseq : ntohl p.tcphdr.ack_seq = cur.tcp.local_seq)
    (hw : env.tun_write = (((if cur.tcp.version = 4 then 20 else 40) + 20 : Nat) : Int)) :
    (cur.tcp.state = TCP_ESTABLISHED → cur.tcp.forward = [] →
        ∃ cur1 : ng_session,
          handle_tcp h env sessions p uid allowed
              = some { sessions := session_update (handle_tcp_match p) cur1 sessions,
                       tun := [(write_tcp env.tun_write cur1.tcp [] 0 false true false false).1],
                       ret := 1 }
            ∧ cur1.tcp.state = TCP_CLOSE_WAIT
            ∧ cur1.tcp.remote_seq = (cur.tcp.remote_seq + 1) % 2 ^ 32
            ∧ cur1.tcp.local_seq = cur.tcp.local_seq)
      ∧ (cur.tcp.state = TCP_ESTABLISHED → cur.tcp.forward ≠ [] →
          ∃ cur1 : ng_session,
            handle_tcp h env sessions p uid allowed
                = some { sessions := session_update (handle_tcp_match p) cur1 sessions,
                         tun := [], ret := 1 }
              ∧ cur1.tcp.state = TCP_CLOSE_WAIT
              ∧ cur1.tcp.remote_seq = cur.tcp.remote_seq
              ∧ cur1.tcp.local_seq = cur.tcp.local_seq)
      ∧ (cur.tcp.state = TCP_FIN_WAIT1 →
          ∃ cur1 : ng_session,
            handle_tcp h env sessions p uid allowed
                = some { sessions := session_update (handle_tcp_match p) cur1 sessions,
                         tun := [(write_tcp env.tun_write cur1.tcp [] 0 false true false
                                   false).1],
                         ret := 1 }
              ∧ cur1.tcp.state = TCP_CLOSE
              ∧ cur1.tcp.remote_seq = (cur.tcp.remote_seq + 1) % 2 ^ 32
              ∧ cur1.tcp.local_seq = cur.tcp.local_seq) := by
  obtain ⟨k1, k2, _, k4, k5, k6⟩ := handle_tcp_refresh_keeps env p cur.tcp
  obtain ⟨f1, f2, f3⟩ := handle_tcp_flags_fin env p cur (handle_tcp_refresh env p cur.tcp) hfin
    hsyn hrst (by rw [k1]; exact hseq) (by rw [k6]; exact hw)
  have hs := handle_tcp_session_no_data env p cur hd
  refine ⟨fun hst hq => ?_, fun hst hq => ?_, fun hst => ?_⟩
  · have hlive : cur.tcp.state ≠ TCP_CLOSING ∧ cur.tcp.state ≠ TCP_CLOSE := by
      rw [hst]; decide
    have hf := f1 (by rw [k4]; exact hst) (by rw [k5]; exact hq)
    refine ⟨(handle_tcp_session env p cur).1, ?_, ?_, ?_, ?_⟩
    · rw [handle_tcp_found h env sessions p uid allowed cur hfind hlive hurg, hs, hf]
      rfl
    · rw [hs, hf]
    · rw [hs, hf]
      show ((handle_tcp_refresh env p cur.tcp).remote_seq + 1) % 2 ^ 32 = _
      rw [k2]
    · rw [hs, hf]
      exact k1
  · have hlive : cur.tcp.state ≠ TCP_CLOSING ∧ cur.tcp.state ≠ TCP_CLOSE := by
      rw [hst]; decide
    have hf := f2 (by rw [k4]; exact hst) (by rw [k5]; exact hq)
    refine ⟨(handle_tcp_session env p cur).1, ?_, ?_, ?_, ?_⟩
    · rw [handle_tcp_found h env sessions p uid allowed cur hfind hlive hurg, hs, hf]
    · rw [hs, hf]
    · rw [hs, hf]
      exact k2
    · rw [hs, hf]
      exact k1
  · have hlive : cur.tcp.state ≠ TCP_CLOSING ∧ cur.tcp.state ≠ TCP_CLOSE := by
      rw [hst]; decide
    have hf := f3 (by rw [k4]; exact hst)
    refine ⟨(handle_tcp_session env p cur).1, ?_, ?_, ?_, ?_⟩
    · rw [handle_tcp_found h env sessions p uid allowed cur hfind hlive hurg, hs, hf]
      rfl
    · rw [hs, hf]
    · rw [hs, hf]
      show ((handle_tcp_refresh env p cur.tcp).remote_seq + 1) % 2 ^ 32 = _
      rw [k2]
    · rw [hs, hf]
      exact k1

/-- Witness of `handle_tcp_fin`: the guest closes the session `open_session`, which is in
ESTABLISHED with an empty forward queue. -/
theorem handle_tcp_fin_witness :
    ∃ cur1 : ng_session,
      handle_tcp consts env_ok [open_session] fin_input 0 1
          = some { sessions := session_update (handle_tcp_match fin_input) cur1 [open_session],
                   tun := [(write_tcp env_ok.tun_write cur1.tcp [] 0 false true false false).1],
                   ret := 1 }
        ∧ cur1.tcp.state = TCP_CLOSE_WAIT
        ∧ cur1.tcp.remote_seq = (open_session.tcp.remote_seq + 1) % 2 ^ 32
        ∧ cur1.tcp.local_seq = open_session.tcp.local_seq :=
  (handle_tcp_fin consts env_ok [open_session] fin_input 0 1 open_session
    (by decide) rfl rfl rfl rfl rfl (by decide) (by decide)).1 (by decide) (by decide)

/-! ## handle_tcp on a session: an acknowledgment behind local_seq -/

/-- The flag analysis `handle_tcp_flags` for a segment with ACK, without RST, whose
acknowledgment precedes `local_seq`: `acked` moves forward to it unless the acknowledgment is
`local_seq - 1` (a keep-alive); nothing else changes and nothing is written. -/
theorem handle_tcp_flags_old_ack (env : handle_tcp_env) (p : tcp_input) (cur : ng_session)
    (t3 : tcp_session) (hack : p.tcphdr.ack = true) (hrst : p.tcphdr.rst = false)
    (hlt : compare_u32 (ntohl p.tcphdr.ack_seq) t3.local_seq < 0) :
    handle_tcp_flags env p cur t3
      = ({ cur with tcp :=
            { t3 with acked :=
                if (ntohl p.tcphdr.ack_seq + 1) % 2 ^ 32 ≠ t3.local_seq
                    ∧ compare_u32 (ntohl p.tcphdr.ack_seq) t3.acked > 0
                then ntohl p.tcphdr.ack_seq else t3.acked } }, [], 1) := by
  have hne : ¬ (¬ p.tcphdr.ack = true ∨ ntohl p.tcphdr.ack_seq = t3.local_seq) := by
    rintro (hx | hx)
    · exact hx hack
    · have hz := (compare_u32_eq_zero_iff (ntohl p.tcphdr.ack_seq) t3.local_seq).mpr hx
      omega
  unfold handle_tcp_flags
  simp only [hrst, Bool.false_eq_true, if_false]
  rw [if_neg hne]
  by_cases hk : (ntohl p.tcphdr.ack_seq + 1) % 2 ^ 32 = t3.local_seq
  · rw [if_pos hk, if_neg (fun hx => hx.1 hk)]
  · rw [if_neg hk, if_pos hlt]
    by_cases hle : compare_u32 (ntohl p.tcphdr.ack_seq) t3.acked ≤ 0
    · rw [if_pos hle, if_neg (fun hx => absurd hx.2 (not_lt.mpr hle))]
    · rw [if_neg hle, if_pos ⟨hk, not_le.mp hle⟩]

/-- C35 (counterexample). The session `sent_session` is in ESTABLISHED with `local_seq = 108`
and `acked = 8`. A guest segment with ACK only acknowledges 107: the acknowledgment precedes
`local_seq` and is ahead of `acked`, but since `ack + 1 = local_seq` the segment is taken as a
keep-alive and `handle_tcp` leaves `acked` at 8. A segment with an old acknowledgment and two
bytes of payload for the session in CLOSE_WAIT is answered with a RST and the state becomes
CLOSING. -/
theorem handle_tcp_old_ack_keep_alive :
    ntohl partial_ack_input.tcphdr.ack_seq = 107
      ∧ compare_u32 107 sent_session.tcp.local_seq < 0
      ∧ compare_u32 107 sent_session.tcp.acked > 0
      ∧ sent_session.tcp.acked = 8
      ∧ handle_tcp consts env_ok [sent_session] partial_ack_input 0 1
          = some { sessions := [sent_session], tun := [], ret := 1 }
      ∧ compare_u32 (ntohl old_ack_data_input.tcphdr.ack_seq)
          half_closed_session.tcp.local_seq < 0
      ∧ half_closed_session.tcp.state = TCP_CLOSE_WAIT
      ∧ (handle_tcp consts env_ok [half_closed_session] old_ack_data_input 0 1).map
          (fun r => (r.sessions.map (fun s => s.tcp.state), r.tun.map (fun q => q.rst), r.ret))
          = some ([TCP_CLOSING], [true], 0) := by
  decide

/-- C35 (amended). For a session that the lookup of `handle_tcp` finds, not in CLOSING or
CLOSE, and a guest segment with ACK set, RST and URG clear, whose acknowledgment precedes
`local_seq`, and which either has no payload or meets an open host socket and a state other
than CLOSE_WAIT: `handle_tcp` returns 1 and writes nothing; `acked` becomes the acknowledgment
when that is not `local_seq - 1` and `compare_u32(ack, acked) > 0`, and stays as it is
otherwise; state, `local_seq` and `remote_seq` are unchanged. -/
theorem handle_tcp_old_ack (h : athena_h) (env : handle_tcp_env) (sessions : List ng_session)
    (p : tcp_input) (uid allowed : Int) (cur : ng_session)
    (hfind : sessions.find? (handle_tcp_match p) = some cur)
    (hlive : cur.tcp.state ≠ TCP_CLOSING ∧ cur.tcp.state ≠ TCP_CLOSE)
    (hack : p.tcphdr.ack = true) (hrst : p.tcphdr.rst = false) (hurg : p.tcphdr.urg = false)
    (hlt : compare_u32 (ntohl p.tcphdr.ack_seq) cur.tcp.local_seq < 0)
    (hdata : p.datalen = 0 ∨ (0 ≤ cur.socket ∧ cur.tcp.state ≠ TCP_CLOSE_WAIT)) :
    ∃ cur1 : ng_session,
      handle_tcp h env sessions p uid allowed
          = some { sessions := session_update (handle_tcp_match p) cur1 sessions, tun := [],
                   ret := 1 }
        ∧ cur1.tcp.acked
            = (if (ntohl p.tcphdr.ack_seq + 1) % 2 ^ 32 ≠ cur.tcp.local_seq
                  ∧ compare_u32 (ntohl p.tcphdr.ack_seq) cur.tcp.acked > 0
               then ntohl p.tcphdr.ack_seq else cur.tcp.acked)
        ∧ cur1.tcp.state = cur.tcp.state
        ∧ cur1.tcp.local_seq = cur.tcp.local_seq
        ∧ cur1.tcp.remote_seq = cur.tcp.remote_seq := by
  obtain ⟨k1, k2, k3, k4, _, _⟩ := handle_tcp_refresh_keeps env p cur.tcp
  have h1 : ¬ (p.datalen ≠ 0 ∧ cur.socket < 0) := by
    rintro ⟨a, b⟩
    rcases hdata with c | c
    · exact a c
    · omega
  have h2 : ¬ (p.datalen ≠ 0 ∧ (handle_tcp_refresh env p cur.tcp).state = TCP_CLOSE_WAIT) := by
    rintro ⟨a, b⟩
    rcases hdata with c | c
    · exact a c
    · rw [k4] at b
      exact c.2 b
  obtain ⟨t3, ht3, q1, q2, q3, q4⟩ : ∃ t3 : tcp_session,
      handle_tcp_session env p cur = handle_tcp_flags env p cur t3
        ∧ t3.local_seq = cur.tcp.local_seq ∧ t3.remote_seq = cur.tcp.remote_seq
        ∧ t3.acked = cur.tcp.acked ∧ t3.state = cur.tcp.state := by
    refine ⟨if p.datalen ≠ 0 then
        queue_tcp p.tcphdr (handle_tcp_refresh env p cur.tcp) p.data p.datalen
      else handle_tcp_refresh env p cur.tcp, ?_, ?_⟩
    · unfold handle_tcp_session
      dsimp only
      rw [if_neg h1, if_neg h2]
    · obtain ⟨g1, g2, g3, _, g5⟩ := queue_tcp_frame p.tcphdr (handle_tcp_refresh env p cur.tcp)
        p.data p.datalen
      split_ifs
      · exact ⟨g1.trans k1, g2.trans k2, g5.trans k3, g3.trans k4⟩
      · exact ⟨k1, k2, k3, k4⟩
  have hf := handle_tcp_flags_old_ack env p cur t3 hack hrst (by rw [q1]; exact hlt)
  refine ⟨(handle_tcp_session env p cur).1, ?_, ?_, ?_, ?_, ?_⟩
  · rw [handle_tcp_found h env sessions p uid allowed cur hfind hlive hurg, ht3, hf]
  · rw [ht3, hf]
    show (if (ntohl p.tcphdr.ack_seq + 1) % 2 ^ 32 ≠ t3.local_seq
      ∧ compare_u32 (ntohl p.tcphdr.ack_seq) t3.acked > 0
      then ntohl p.tcphdr.ack_seq else t3.acked) = _
    rw [q1, q3]
  · rw [ht3, hf]
    exact q4
  · rw [ht3, hf]
    exact q1
  · rw [ht3, hf]
    exact q2

/-- Witness of `handle_tcp_old_ack`: the guest acknowledges 50 of the bytes up to 108 that the
session `sent_session` has written. -/
theorem handle_tcp_old_ack_witness :
    ∃ cur1 : ng_session,
      handle_tcp consts env_ok [sent_session] old_ack_data_input 0 1
          = some { sessions := session_update (handle_tcp_match old_ack_data_input) cur1
                     [sent_session],
                   tun := [], ret := 1 }
        ∧ cur1.tcp.acked
            = (if (ntohl old_ack_data_input.tcphdr.ack_seq + 1) % 2 ^ 32
                    ≠ sent_session.tcp.local_seq
                  ∧ compare_u32 (ntohl old_ack_data_input.tcphdr.ack_seq)
                      sent_session.tcp.acked > 0
               then ntohl old_ack_data_input.tcphdr.ack_seq else sent_session.tcp.acked)
        ∧ cur1.tcp.state = sent_session.tcp.state
        ∧ cur1.tcp.local_seq = sent_session.tcp.local_seq
        ∧ cur1.tcp.remote_seq = sent_session.tcp.remote_seq :=
  handle_tcp_old_ack consts env_ok [sent_session] old_ack_data_input 0 1 sent_session
    (by decide) (by decide) rfl rfl rfl (by decide) (Or.inr (by decide))

/-! ## check_tcp_socket: one pass of the drain loop -/

/-- The `int` difference `len - sent` of a segment with `sent <= len < 2^16`, read as `uint32_t`
or as `size_t`, is the natural number `len - sent`. -/
theorem segment_remaining (f : segment) (hs : f.sent ≤ f.len) (hl : f.len < 2 ^ 16) :
    (((f.len : Int) - (f.sent : Int)) % 2 ^ 32).toNat = f.len - f.sent
      ∧ (((f.len : Int) - (f.sent : Int)) % 2 ^ 64).toNat = f.len - f.sent := by
  have h1 : ((f.len : Int) - (f.sent : Int)) = ((f.len - f.sent : Nat) : Int) := by omega
  rw [h1]
  constructor
  · rw [Int.emod_eq_of_lt (by omega) (by omega)]
    rfl
  · rw [Int.emod_eq_of_lt (by omega) (by omega)]
    rfl

/-- C31. One pass of the drain loop of `check_tcp_socket` over the forward queue `f :: rest`,
where the head `f` has `sent <= len` and `send` returns `n >= 0`. (a) If `f.seq` is not
`remote_seq`, or the remaining bytes of `f` do not fit the buffer, nothing is handed to `send`
and the loop ends with the session as it was. (b) Otherwise the buffer handed to `send` is the
unsent rest of the head `f`; if `send` takes all of it (`sent + n = len`), `remote_seq` becomes
`f.seq + f.len`, the head is unlinked and the loop goes on with `rest`. (c) If `send` takes
less (`sent + n < len`), the loop ends with `remote_seq` unchanged and the head kept with
`sent + n` bytes sent. -/
theorem check_tcp_socket_drain_step (env : check_tcp_socket_env) (i : Nat) (t : tcp_session)
    (buffer_size : Nat) (fwd : Bool) (host : List (List Nat)) (f : segment)
    (rest : List segment) (n : Nat)
    (hs : f.sent ≤ f.len) (hl : f.len < 2 ^ 16) (hn : env.send i = (n : Int)) :
    (f.seq ≠ t.remote_seq ∨ buffer_size ≤ f.len - f.sent →
        check_tcp_socket_drain env i t buffer_size fwd host (f :: rest)
          = { t := { t with forward := f :: rest }, fwd := fwd, tun := [], host := host })
      ∧ (f.seq = t.remote_seq → f.len - f.sent < buffer_size → f.sent + n = f.len →
          check_tcp_socket_drain env i t buffer_size fwd host (f :: rest)
            = check_tcp_socket_drain env (i + 1)
                { t with sent := (t.sent + n) % 2 ^ 64,
                         remote_seq := (f.seq + f.len) % 2 ^ 32 }
                ((buffer_size + 2 ^ 32 - n % 2 ^ 32) % 2 ^ 32) true
                (host ++ [(f.data.drop f.sent).take (f.len - f.sent)]) rest)
      ∧ (f.seq = t.remote_seq → f.len - f.sent < buffer_size → f.sent + n < f.len →
          check_tcp_socket_drain env i t buffer_size fwd host (f :: rest)
            = { t := { t with sent := (t.sent + n) % 2 ^ 64,
                              forward := { f with sent := f.sent + n } :: rest },
                fwd := true, tun := [],
                host := host ++ [(f.data.drop f.sent).take (f.len - f.sent)] }) := by
  obtain ⟨r32, r64⟩ := segment_remaining f hs hl
  have hnn : ¬ env.send i < 0 := by rw [hn]; omega
  have hto : (env.send i).toNat = n := by rw [hn]; rfl
  refine ⟨fun hstop => ?_, fun hseq hroom hfull => ?_, fun hseq hroom hpart => ?_⟩
  · unfold check_tcp_socket_drain
    dsimp only
    rw [r32, if_neg]
    rintro ⟨a, b⟩
    rcases hstop with c | c
    · exact c a
    · omega
  · have hm : (f.sent + n) % 2 ^ 16 = f.len := by
      rw [hfull]
      exact Nat.mod_eq_of_lt hl
    rw [check_tcp_socket_drain]
    dsimp only
    rw [r32, r64, if_pos ⟨hseq, hroom⟩, if_neg hnn, hto, hm, if_pos rfl]
  · have hm : (f.sent + n) % 2 ^ 16 = f.sent + n := Nat.mod_eq_of_lt (by omega)
    unfold check_tcp_socket_drain
    dsimp only
    rw [r32, r64, if_pos ⟨hseq, hroom⟩, if_neg hnn, hto, hm, if_neg (by omega)]

/-- The buffers that `check_tcp_socket` hands to `send` for a session outside LISTEN are those
of the drain loop, which runs on `EPOLLOUT` only, from the head of the forward queue. -/
theorem check_tcp_socket_host (h : athena_h) (c : socks5_config) (env : check_tcp_socket_env)
    (s : ng_session) (herr : env.events &&& EPOLLERR = 0) (hl : s.tcp.state ≠ TCP_LISTEN) :
    (check_tcp_socket h c env s).host
      = if env.events &&& EPOLLOUT ≠ 0 then
          (check_tcp_socket_drain env 0 s.tcp (get_receive_buffer h env.probe_drain s) false []
            s.tcp.forward).host
        else [] := by
  unfold check_tcp_socket
  dsimp only
  rw [if_neg (not_not.mpr herr), if_neg hl]
  split_ifs <;> rfl

/-- Witness of `check_tcp_socket_drain_step`: the head of the queue of `queued_session` has 3
bytes, `send` takes 2 of them; the loop ends with `remote_seq` unchanged and 2 bytes sent. -/
theorem check_tcp_socket_drain_step_witness :
    check_tcp_socket_drain env_send2 0 queued_session.tcp 163840 false []
        [{ seq := 0x1001, len := 3, sent := 0, psh := true, data := [72, 73, 74] }]
      = { t := { queued_session.tcp with
                 sent := (queued_session.tcp.sent + 2) % 2 ^ 64,
                 forward := [{ seq := 0x1001, len := 3, sent := 0 + 2, psh := true,
                               data := [72, 73, 74] }] },
          fwd := true, tun := [],
          host := [] ++ [([72, 73, 74].drop 0).take (3 - 0)] } :=
  (check_tcp_socket_drain_step env_send2 0 queued_session.tcp 163840 false []
    { seq := 0x1001, len := 3, sent := 0, psh := true, data := [72, 73, 74] } [] 2
    (by decide) (by decide) rfl).2.2 rfl (by decide) (by decide)

/-! ## The options of a guest SYN -/

/-- The option loop of `handle_tcp` over the bytes of a well-formed option list, which either
fill the `optlen` bytes of the area or are followed by an end-of-list byte: the loop ends, with
the MSS and the window scale that the list names. -/
theorem handle_tcp_options_wf :
    ∀ (opts : List tcp_option) (fuel : Nat) (optlen : Int) (rest : List Nat) (mss ws : Nat),
      options_wf opts → optlen.toNat < fuel →
      (((options_bytes opts).length : Int) = optlen
        ∨ (((options_bytes opts).length : Int) < optlen ∧ rest.getD 0 0 = 0)) →
      handle_tcp_options fuel optlen (options_bytes opts ++ rest) mss ws
        = some (options_mss_spec opts mss, options_ws_spec opts ws) := by
  intro opts
  induction opts with
  | nil =>
    intro fuel optlen rest mss ws _ hfuel hend
    obtain ⟨k, rfl⟩ : ∃ k, fuel = k + 1 := ⟨fuel - 1, by omega⟩
    rw [handle_tcp_options_step]
    dsimp only [options_bytes, options_mss_spec, options_ws_spec, List.nil_append]
    rcases hend with h0 | ⟨h0, h1⟩
    · have hn : ¬ optlen > 0 := by
        simp only [options_bytes, List.length_nil, Nat.cast_zero] at h0
        omega
      rw [if_neg hn]
    · have hp : optlen > 0 := by
        simp only [options_bytes, List.length_nil, Nat.cast_zero] at h0
        omega
      rw [if_pos hp, if_pos h1]
  | cons o opts ih =>
    intro fuel optlen rest mss ws hwf hfuel hend
    obtain ⟨k, rfl⟩ : ∃ k, fuel = k + 1 := ⟨fuel - 1, by omega⟩
    have hwf1 : options_wf opts := fun x hx => hwf x (List.mem_cons_of_mem _ hx)
    obtain ⟨hk0, hbody⟩ := hwf o (List.mem_cons_self _ _)
    have hlen : (options_bytes (o :: opts)).length
        = (tcp_option_bytes o).length + (options_bytes opts).length := by
      simp only [options_bytes, List.length_append]
    have hmem : options_bytes (o :: opts) ++ rest
        = tcp_option_bytes o ++ (options_bytes opts ++ rest) := by
      simp only [options_bytes, List.append_assoc]
    rw [hlen] at hend
    rw [hmem, handle_tcp_options_step]
    by_cases hk1 : o.kind = 1
    · have hb : tcp_option_bytes o = [1] := by
        unfold tcp_option_bytes
        rw [if_pos hk1]
      rw [hb] at hend ⊢
      simp only [List.length_singleton, Nat.cast_add, Nat.cast_one] at hend
      have hp : optlen > 0 := by omega
      have e2 : ¬ (o.kind = 2 ∧ o.body.length = 2) := by omega
      have e3 : ¬ (o.kind = 3 ∧ o.body.length = 1) := by omega
      simp only [List.singleton_append, List.getD_cons_zero, if_pos hp, one_ne_zero, if_false,
        OfNat.one_ne_ofNat, false_and, if_true, eq_self_iff_true, List.drop_succ_cons,
        List.drop_zero, options_mss_spec, options_ws_spec, if_neg e2, if_neg e3]
      exact ih k (optlen - 1) rest mss ws hwf1 (by omega) (by omega)
    · have hb : tcp_option_bytes o = o.kind :: (o.body.length + 2) :: o.body := by
        unfold tcp_option_bytes
        rw [if_neg hk1]
      obtain ⟨hL, hbytes⟩ := hbody hk1
      rw [hb] at hend ⊢
      simp only [List.length_cons, Nat.cast_add, Nat.cast_one] at hend
      have hp : optlen > 0 := by omega
      have hl0 : ¬ (o.body.length + 2 = 0) := by omega
      simp only [List.cons_append, List.getD_cons_zero, List.getD_cons_succ, if_pos hp,
        if_neg hk0, if_neg hk1, if_neg hl0, List.drop_succ_cons, List.drop_left]
      have hmss : (if o.kind = 2 ∧ o.body.length + 2 = 4 then
            ntohs ((o.body ++ (options_bytes opts ++ rest)).getD 0 0
              + 256 * (o.body ++ (options_bytes opts ++ rest)).getD 1 0)
          else mss)
          = (if o.kind = 2 ∧ o.body.length = 2 then 256 * o.body.getD 0 0 + o.body.getD 1 0
             else mss) := by
        by_cases hc : o.kind = 2 ∧ o.body.length = 2
        · rw [if_pos ⟨hc.1, by omega⟩, if_pos hc]
          obtain ⟨b0, b1, hbd⟩ := List.length_eq_two.mp hc.2
          have h0 : b0 < 256 := hbytes b0 (by rw [hbd]; simp)
          have h1 : b1 < 256 := hbytes b1 (by rw [hbd]; simp)
          rw [hbd]
          simp only [List.cons_append, List.getD_cons_zero, List.getD_cons_succ, ntohs, htons]
          omega
        · rw [if_neg (fun hx => hc ⟨hx.1, by omega⟩), if_neg hc]
      have hws : (if o.kind = 2 ∧ o.body.length + 2 = 4 then ws
          else if o.kind = 3 ∧ o.body.length + 2 = 3 then
            (o.body ++ (options_bytes opts ++ rest)).getD 0 0
          else ws)
          = (if o.kind = 3 ∧ o.body.length = 1 then o.body.getD 0 0 else ws) := by
        by_cases hc : o.kind = 3 ∧ o.body.length = 1
        · rw [if_neg (fun hx => by omega), if_pos ⟨hc.1, by omega⟩, if_pos hc]
          obtain ⟨b0, hbd⟩ := List.length_eq_one.mp hc.2
          rw [hbd]
          rfl
        · have h3 : ¬ (o.kind = 3 ∧ o.body.length + 2 = 3) := fun hx => hc ⟨hx.1, by omega⟩
          rw [if_neg hc, if_neg h3]
          split_ifs <;> rfl
      rw [hmss, hws]
      exact ih k (optlen - ((o.body.length + 2 : Nat) : Int)) rest _ _ hwf1 (by omega)
        (by omega)

/-- The RST writer `write_rst` leaves the MSS and the two window scales of the session alone. -/
theorem write_rst_options (res : Int) (t : tcp_session) :
    (write_rst res t).1.mss = t.mss ∧ (write_rst res t).1.recv_scale = t.recv_scale
      ∧ (write_rst res t).1.send_scale = t.send_scale := by
  unfold write_rst
  dsimp only
  split_ifs <;> exact ⟨rfl, rfl, rfl⟩

/-- C32. For a guest SYN without session whose option area (the `(doff - 5) * 4` bytes at
`tcpoptions`) is a well-formed option list `opts`, followed or not by an end-of-list byte and
anything after it: when the host socket opens and `epoll_ctl` succeeds, `handle_tcp` returns and
stores a new session whose `mss` is the value of the MSS option (kind 2, length byte 4) of
`opts`, or `get_default_mss(version)` if `opts` has none, and whose `recv_scale` and
`send_scale` are both the value of the window scale option (kind 3, length byte 3) of `opts`,
or 0 if `opts` has none. What follows an end-of-list byte has no influence. -/
theorem handle_tcp_syn_options (h : athena_h) (env : handle_tcp_env)
    (sessions : List ng_session) (p : tcp_input) (uid allowed : Int) (opts : List tcp_option)
    (hfind : sessions.find? (handle_tcp_match p) = none)
    (hsyn : p.tcphdr.syn = true) (hurg : p.tcphdr.urg = false)
    (hsock : 0 ≤ open_tcp_socket env.open_socket) (hep : env.epoll_ctl_res = 0)
    (hwf : options_wf opts)
    (harea : option_area ((((p.tcphdr.doff : Int) - 5) * 4) % 256) p.tcpoptions opts) :
    ∃ (s : ng_session) (tun : List tcp_packet),
      handle_tcp h env sessions p uid allowed
          = some { sessions := s :: sessions, tun := tun, ret := 1 }
        ∧ s.tcp.mss = options_mss_spec opts (get_default_mss p.version)
        ∧ s.tcp.recv_scale = options_ws_spec opts 0
        ∧ s.tcp.send_scale = options_ws_spec opts 0 := by
  obtain ⟨rest, hmem, hend⟩ := harea
  have hopt := handle_tcp_options_wf opts
    (((((p.tcphdr.doff : Int) - 5) * 4) % 256).toNat + 1)
    ((((p.tcphdr.doff : Int) - 5) * 4) % 256) rest (get_default_mss p.version) 0 hwf
    (Nat.lt_succ_self _) hend
  unfold handle_tcp
  simp only [hurg, hfind, hsyn, Bool.false_eq_true, if_false, if_true]
  rw [hmem, hopt]
  dsimp only
  rw [if_neg (not_lt.mpr hsock), if_neg (not_not.mpr hep)]
  by_cases ha : allowed = 0
  · rw [if_pos ha]
    refine ⟨_, _, rfl, ?_⟩
    dsimp only
    obtain ⟨w1, w2, w3⟩ := write_rst_options env.tun_write
      { (handle_tcp_new env p uid (options_mss_spec opts (get_default_mss p.version))
          (options_ws_spec opts 0) (open_tcp_socket env.open_socket)).tcp with
        recv_window := get_receive_window h env.probe
          (handle_tcp_new env p uid (options_mss_spec opts (get_default_mss p.version))
            (options_ws_spec opts 0) (open_tcp_socket env.open_socket)) }
    exact ⟨w1, w2, w3⟩
  · rw [if_neg ha]
    exact ⟨_, _, rfl, rfl, rfl, rfl⟩

/-- Witness of `handle_tcp_syn_options`: the SYN `options_syn` names MSS 1460 and window scale
7; the byte after its end-of-list byte is not read. -/
theorem handle_tcp_syn_options_witness :
    ∃ (s : ng_session) (tun : List tcp_packet),
      handle_tcp consts env_ok [] options_syn 0 1
          = some { sessions := s :: [], tun := tun, ret := 1 }
        ∧ s.tcp.mss = options_mss_spec options_syn_list (get_default_mss options_syn.version)
        ∧ s.tcp.recv_scale = options_ws_spec options_syn_list 0
        ∧ s.tcp.send_scale = options_ws_spec options_syn_list 0 :=
  handle_tcp_syn_options consts env_ok [] options_syn 0 1 options_syn_list rfl rfl rfl
    (by decide) rfl (by decide) ⟨[0, 99], by decide, Or.inr ⟨by decide, by decide⟩⟩

/-- The option list of `options_syn` names MSS 1460 and window scale 7. -/
theorem options_syn_values :
    options_mss_spec options_syn_list (get_default_mss 4) = 1460
      ∧ options_ws_spec options_syn_list 0 = 7 := by
  decide

/-! ## The descriptor of a session is open or -1 -/

/-- The flag analysis `handle_tcp_flags` keeps the descriptor. -/
theorem handle_tcp_flags_socket (env : handle_tcp_env) (p : tcp_input) (cur : ng_session)
    (t3 : tcp_session) : (handle_tcp_flags env p cur t3).1.socket = cur.socket := by
  unfold handle_tcp_flags
  dsimp only
  repeat'
    (apply ite_ind (fun r : ng_session × List tcp_packet × Nat => r.1.socket = cur.socket) <;>
      intro _)
  all_goals rfl

/-- The step `handle_tcp_session` keeps the descriptor. -/
theorem handle_tcp_session_socket (env : handle_tcp_env) (p : tcp_input) (cur : ng_session) :
    (handle_tcp_session env p cur).1.socket = cur.socket := by
  unfold handle_tcp_session
  dsimp only
  apply ite_ind (fun r : ng_session × List tcp_packet × Nat => r.1.socket = cur.socket)
    <;> intro _
  · rfl
  apply ite_ind (fun r : ng_session × List tcp_packet × Nat => r.1.socket = cur.socket)
    <;> intro _
  · rfl
  exact handle_tcp_flags_socket env p cur _

/-- The session list that `handle_tcp` leaves has descriptors that are open or -1, if the list
before had. -/
theorem handle_tcp_socket_known (h : athena_h) (env : handle_tcp_env)
    (sessions : List ng_session) (p : tcp_input) (uid allowed : Int)
    (hall : ∀ s ∈ sessions, socket_known s) :
    after_handle_tcp (fun l => ∀ s ∈ l, socket_known s)
      (handle_tcp h env sessions p uid allowed) := by
  unfold handle_tcp
  dsimp only
  apply ite_ind (after_handle_tcp (fun l => ∀ s ∈ l, socket_known s)) <;> intro _
  · intro r hr; cases hr; exact hall
  cases hfind : List.find? (handle_tcp_match p) sessions with
  | none =>
    dsimp only
    apply ite_ind (after_handle_tcp (fun l => ∀ s ∈ l, socket_known s)) <;> intro _
    · cases hopt : handle_tcp_options
          (((((p.tcphdr.doff : Int) - 5) * 4) % 256).toNat + 1)
          ((((p.tcphdr.doff : Int) - 5) * 4) % 256) p.tcpoptions (get_default_mss p.version) 0 with
      | none => intro r hr; cases hr
      | some mw =>
        obtain ⟨mss, ws⟩ := mw
        dsimp only
        have hnew : ∀ sock : Int, ¬ sock < 0 → -1 ≤ sock := fun sock hs => by omega
        apply ite_ind (after_handle_tcp (fun l => ∀ s ∈ l, socket_known s))
          <;> intro hsock
        · intro r hr; cases hr; exact hall
        apply ite_ind (after_handle_tcp (fun l => ∀ s ∈ l, socket_known s)) <;> intro _
        · intro r hr; cases hr; exact hall
        apply ite_ind (after_handle_tcp (fun l => ∀ s ∈ l, socket_known s)) <;> intro _
        · intro r hr; cases hr
          intro s hs
          rcases List.mem_cons.mp hs with h1 | h1
          · rw [h1]
            exact hnew _ hsock
          · exact hall s h1
        · intro r hr; cases hr
          intro s hs
          rcases List.mem_cons.mp hs with h1 | h1
          · rw [h1]
            exact hnew _ hsock
          · exact hall s h1
    · intro r hr; cases hr; exact hall
  | some cur =>
    have hcur : cur ∈ sessions := List.mem_of_find?_eq_some hfind
    dsimp only
    apply ite_ind (after_handle_tcp (fun l => ∀ s ∈ l, socket_known s)) <;> intro hc
    · intro r hr; cases hr
      intro s hs
      rcases session_update_mem _ _ _ s hs with h1 | h1
      · exact hall s h1
      · rw [h1]
        exact hall cur hcur
    · intro r hr; cases hr
      intro s hs
      rcases session_update_mem _ _ _ s hs with h1 | h1
      · exact hall s h1
      · rw [h1]
        show -1 ≤ (handle_tcp_session env p cur).1.socket
        rw [handle_tcp_session_socket]
        exact hall cur hcur

/-- The housekeeping `check_tcp_session` keeps the descriptor or sets it to -1. -/
theorem check_tcp_session_socket (h : athena_h) (env : check_tcp_session_env) (s : ng_session)
    (sessions maxsessions : Int) :
    (check_tcp_session h env s sessions maxsessions).1.socket = s.socket
      ∨ (check_tcp_session h env s sessions maxsessions).1.socket = -1 := by
  have e1 : (check_tcp_session h env s sessions maxsessions).1
      = check_tcp_session_counters (check_tcp_session_close env
          (check_tcp_session_expire h env s sessions maxsessions).1) := by
    unfold check_tcp_session
    dsimp only
    split_ifs <;> rfl
  have hx : (check_tcp_session_expire h env s sessions maxsessions).1.socket = s.socket := by
    unfold check_tcp_session_expire
    dsimp only
    split_ifs <;> rfl
  rw [e1, (check_tcp_session_counters_frame _).2.1]
  unfold check_tcp_session_close
  dsimp only
  split_ifs
  · exact Or.inr rfl
  · exact Or.inl hx
  · exact Or.inl hx

/-- The housekeeping `monitor_tcp_session` keeps the descriptor. -/
theorem monitor_tcp_session_socket (h : athena_h) (env : monitor_tcp_session_env)
    (s : ng_session) : (monitor_tcp_session h env s).1.socket = s.socket := by
  have hw : (monitor_tcp_session_window h env s).1.socket = s.socket := by
    unfold monitor_tcp_session_window
    dsimp only
    split_ifs <;> rfl
  have hr : (if s.tcp.state = TCP_LISTEN then
        if s.tcp.socks5 = SOCKS5_NONE then (s, [], 0, EPOLLERR ||| EPOLLOUT)
        else (s, [], 0, EPOLLERR ||| EPOLLIN)
      else if s.tcp.state = TCP_ESTABLISHED ∨ s.tcp.state = TCP_CLOSE_WAIT then
        monitor_tcp_session_forward h env (monitor_tcp_session_window h env s)
      else ((s, [], 0, EPOLLERR) : ng_session × List tcp_packet × Int × Nat)).1.socket
      = s.socket := by
    split_ifs
    · rfl
    · rfl
    · rw [monitor_tcp_session_forward_fst]
      exact hw
    · rfl
  unfold monitor_tcp_session
  dsimp only
  apply ite_ind (fun r : ng_session × List tcp_packet × Int => r.1.socket = s.socket)
    <;> intro _
  · apply ite_ind (fun r : ng_session × List tcp_packet × Int => r.1.socket = s.socket)
      <;> intro _
    · exact hr
    · exact hr
  · exact hr

/-- The readiness handler `check_tcp_socket` keeps the descriptor or sets it to -1. -/
theorem check_tcp_socket_socket (h : athena_h) (c : socks5_config)
    (env : check_tcp_socket_env) (s : ng_session) :
    (check_tcp_socket h c env s).s.socket = s.socket
      ∨ (check_tcp_socket h c env s).s.socket = -1 := by
  have hreq : ∀ (s1 : ng_session) (out : List tcp_packet),
      (check_tcp_socket_listen_request c env s1 out).s.socket = s1.socket := by
    intro s1 out
    unfold check_tcp_socket_listen_request
    dsimp only
    repeat' (apply ite_ind (fun r : socket_result => r.s.socket = s1.socket) <;> intro _)
    all_goals rfl
  have hwin : ∀ d : drain_result, (check_tcp_socket_window h env s d).1.socket = s.socket := by
    intro d
    unfold check_tcp_socket_window
    dsimp only
    repeat'
      (apply ite_ind (fun r : ng_session × List tcp_packet => r.1.socket = s.socket) <;>
        intro _)
    all_goals rfl
  have hrecv : ∀ (s1 : ng_session) (out : List tcp_packet),
      (check_tcp_socket_recv env s1 out).1.socket = s1.socket
        ∨ (check_tcp_socket_recv env s1 out).1.socket = -1 := by
    intro s1 out
    unfold check_tcp_socket_recv
    dsimp only
    repeat'
      (apply ite_ind (fun r : ng_session × List tcp_packet =>
          r.1.socket = s1.socket ∨ r.1.socket = -1) <;>
        intro _)
    all_goals
      first
      | exact Or.inl rfl
      | exact (if h0 : s1.socket ≥ 0 then Or.inr (if_pos h0) else Or.inl (if_neg h0))
  unfold check_tcp_socket
  dsimp only
  apply ite_ind (fun r : socket_result => r.s.socket = s.socket ∨ r.s.socket = -1) <;> intro _
  · exact Or.inl rfl
  apply ite_ind (fun r : socket_result => r.s.socket = s.socket ∨ r.s.socket = -1) <;> intro _
  · exact Or.inl (hreq _ _)
  · rcases hrecv (check_tcp_socket_window h env s _).1 (check_tcp_socket_window h env s _).2
      with h1 | h1
    · exact Or.inl (h1.trans (hwin _))
    · exact Or.inr h1

/-- Every session of a reachable session list has a descriptor that is open or -1. -/
theorem reachable_socket_known (h : athena_h) (c : socks5_config) (l : List ng_session)
    (hl : reachable h c l) : ∀ s ∈ l, socket_known s := by
  induction hl with
  | init => intro s hs; cases hs
  | handle l env p uid allowed r _ hr ih =>
    exact handle_tcp_socket_known h env l p uid allowed ih r hr
  | socket pre s post env _ _ ih =>
    intro x hx
    rcases List.mem_append.mp hx with h1 | h1
    · exact ih x (List.mem_append_left _ h1)
    · rcases List.mem_cons.mp h1 with h2 | h2
      · have hs : socket_known s := ih s (List.mem_append_right _ (List.mem_cons_self _ _))
        rw [h2]
        unfold socket_known at hs ⊢
        rcases check_tcp_socket_socket h c env s with e | e
        · rw [e]; exact hs
        · rw [e]
      · exact ih x (List.mem_append_right _ (List.mem_cons_of_mem _ h2))
  | monitor pre s post env _ _ _ ih =>
    intro x hx
    rcases List.mem_append.mp hx with h1 | h1
    · exact ih x (List.mem_append_left _ h1)
    · rcases List.mem_cons.mp h1 with h2 | h2
      · have hs : socket_known s := ih s (List.mem_append_right _ (List.mem_cons_self _ _))
        rw [h2]
        unfold socket_known at hs ⊢
        rw [monitor_tcp_session_socket]
        exact hs
      · exact ih x (List.mem_append_right _ (List.mem_cons_of_mem _ h2))
  | check pre s post env sessions maxsessions _ _ ih =>
    intro x hx
    rcases List.mem_append.mp hx with h1 | h1
    · exact ih x (List.mem_append_left _ h1)
    · rcases List.mem_cons.mp h1 with h2 | h2
      · have hs : socket_known s := ih s (List.mem_append_right _ (List.mem_cons_self _ _))
        rw [h2]
        unfold socket_known at hs ⊢
        rcases check_tcp_session_socket h env s sessions maxsessions with e | e
        · rw [e]; exact hs
        · rw [e]
      · exact ih x (List.mem_append_right _ (List.mem_cons_of_mem _ h2))
  | reap pre s post _ ih =>
    intro x hx
    rcases List.mem_append.mp hx with h1 | h1
    · exact ih x (List.mem_append_left _ h1)
    · exact ih x (List.mem_append_right _ (List.mem_cons_of_mem _ h1))

/-! ## The forward queue: what keeps sent within len -/

/-- The scan of `queue_tcp` keeps `sent <= len` in every segment when no queued segment with
the incoming sequence number has more bytes sent than the incoming payload has: a new segment
has nothing sent, and a replaced one keeps its `sent`. -/
theorem queue_tcp_scan_sent_ok (seq datalen : Nat) (psh : Bool) (data : List Nat) :
    ∀ q : List segment, forward_sent_ok q → (∀ s ∈ q, s.seq = seq → s.sent ≤ datalen) →
      forward_sent_ok (queue_tcp_scan seq datalen psh data q) := by
  intro q
  induction q with
  | nil =>
    intro _ _ f hf
    rw [queue_tcp_scan, List.mem_singleton] at hf
    rw [hf]
    exact Nat.zero_le _
  | cons s rest ih =>
    intro hq hseq
    have hs : s.sent ≤ s.len := hq s (List.mem_cons_self _ _)
    have hrest : forward_sent_ok rest := fun x hx => hq x (List.mem_cons_of_mem _ hx)
    rw [queue_tcp_scan]
    split_ifs with h1 h2 h3 h4
    · intro f hf
      rcases List.mem_cons.mp hf with e | e
      · rw [e]; exact hs
      · exact ih hrest (fun x hx => hseq x (List.mem_cons_of_mem _ hx)) f e
    · intro f hf
      rcases List.mem_cons.mp hf with e | e
      · rw [e]; exact Nat.zero_le _
      · exact hq f e
    · intro f hf
      rcases List.mem_cons.mp hf with e | e
      · rw [e]
        exact hseq s (List.mem_cons_self _ _) h3
      · exact hrest f e
    · exact hq
    · exact hq

/-- The drain loop of `check_tcp_socket` keeps `sent <= len` in every segment when `send` never
takes more than the unsent rest of a queued segment: `sent + n <= len` for every result
`n >= 0` of `send` and every queued segment. -/
theorem check_tcp_socket_drain_sent_ok (env : check_tcp_socket_env) :
    ∀ (q : List segment) (i : Nat) (t : tcp_session) (buffer_size : Nat) (fwd : Bool)
      (host : List (List Nat)),
      forward_sent_ok q → (∀ f ∈ q, f.len < 2 ^ 16) →
      (∀ (j : Nat), ∀ f ∈ q, 0 ≤ env.send j → f.sent + (env.send j).toNat ≤ f.len) →
      forward_sent_ok (check_tcp_socket_drain env i t buffer_size fwd host q).t.forward := by
  intro q
  induction q with
  | nil =>
    intro i t buffer_size fwd host _ _ _ f hf
    rw [check_tcp_socket_drain] at hf
    cases hf
  | cons f rest ih =>
    intro i t buffer_size fwd host hq hlen hsend
    have hrest : forward_sent_ok rest := fun x hx => hq x (List.mem_cons_of_mem _ hx)
    rw [check_tcp_socket_drain]
    dsimp only
    apply ite_ind (fun r : drain_result => forward_sent_ok r.t.forward) <;> intro _
    · apply ite_ind (fun r : drain_result => forward_sent_ok r.t.forward) <;> intro hneg
      · apply ite_ind (fun r : drain_result => forward_sent_ok r.t.forward) <;> intro _
        · exact hq
        · show forward_sent_ok
            (write_rst (env.tun_write 0) { t with forward := f :: rest }).1.forward
          rw [write_rst_forward]
          exact hq
      · have hb := hsend i f (List.mem_cons_self _ _) (not_lt.mp hneg)
        have hl := hlen f (List.mem_cons_self _ _)
        have hm : (f.sent + (env.send i).toNat) % 2 ^ 16 = f.sent + (env.send i).toNat :=
          Nat.mod_eq_of_lt (by omega)
        apply ite_ind (fun r : drain_result => forward_sent_ok r.t.forward) <;> intro _
        · exact ih _ _ _ _ _ hrest (fun x hx => hlen x (List.mem_cons_of_mem _ hx))
            (fun j x hx => hsend j x (List.mem_cons_of_mem _ hx))
        · intro x hx
          rcases List.mem_cons.mp hx with e | e
          · rw [e]
            show (f.sent + (env.send i).toNat) % 2 ^ 16 ≤ f.len
            rw [hm]
            exact hb
          · exact hrest x e
    · exact hq

/-! ## queue_tcp: a duplicate in a reachable queue -/

/-- The session `open_session`, in ESTABLISHED with an empty forward queue, is reached from the
empty session list by a handshake. -/
theorem open_session_reachable : reachable consts no_socks5 [open_session] := by
  have h1 : handle_tcp consts env_ok [] plain_syn 0 1
      = some { sessions := [listen_session], tun := [], ret := 1 } := by decide
  have r1 : reachable consts no_socks5 [listen_session] :=
    reachable.handle [] env_ok plain_syn 0 1 _ reachable.init h1
  have h2 : (check_tcp_socket consts no_socks5 (env_writable 48) listen_session).s
      = syn_recv_session := by decide
  have r2 : reachable consts no_socks5 [syn_recv_session] := by
    have r := reachable.socket [] listen_session [] (env_writable 48) r1 rfl
    rw [h2] at r
    exact r
  have h3 : handle_tcp consts env_ok [syn_recv_session] ack_input 0 1
      = some { sessions := [open_session], tun := [], ret := 1 } := by decide
  exact reachable.handle [syn_recv_session] env_ok ack_input 0 1 _ r2 h3

/-- C6 (code bug). The guest of the session `open_session` (`remote_seq = 0x1001`) sends one
byte at seq `0x80001000`, one byte at seq `0x1001`, and the first segment again. The queue of
the reachable session `two_queued_session` is `[0x1001, 0x80001000]`: it holds a segment with
the seq and the length of the incoming one, and the incoming seq does not precede
`remote_seq`. `queue_tcp` does not leave the queue unchanged: it links a second segment with
seq `0x80001000` in front of the head, because `compare_u32(0x1001, 0x80001000)` is +1 (the
distance is `0x7FFFFFFF`, the boundary at which `compare_u32` returns +1 in both directions),
so the scan stops at the head and never reaches the equal segment. By the signed-delta rule
`0x1001` precedes `0x80001000`. -/
theorem queue_tcp_duplicate_reachable :
    reachable consts no_socks5 [two_queued_session]
      ∧ two_queued_session.tcp.remote_seq = 0x1001
      ∧ two_queued_session.tcp.forward
          = [{ seq := 0x1001, len := 1, sent := 0, psh := true, data := [72] },
             { seq := 0x80001000, len := 1, sent := 0, psh := true, data := [72] }]
      ∧ ntohl far_input.tcphdr.seq = 0x80001000 ∧ far_input.datalen = 1
      ∧ compare_u32 (ntohl far_input.tcphdr.seq) two_queued_session.tcp.remote_seq ≥ 0
      ∧ (queue_tcp far_input.tcphdr two_queued_session.tcp far_input.data
          far_input.datalen).forward
          = [{ seq := 0x80001000, len := 1, sent := 0, psh := true, data := [72] },
             { seq := 0x1001, len := 1, sent := 0, psh := true, data := [72] },
             { seq := 0x80001000, len := 1, sent := 0, psh := true, data := [72] }]
      ∧ handle_tcp consts env_ok [two_queued_session] far_input 0 1
          = some { sessions := [dup_session], tun := [], ret := 1 }
      ∧ reachable consts no_socks5 [dup_session]
      ∧ compare_u32 0x1001 0x80001000 = 1 ∧ compare_u32 0x80001000 0x1001 = 1
      ∧ compare_u32_spec 0x1001 0x80001000 = -1 := by
  have h1 : handle_tcp consts env_ok [open_session] far_input 0 1
      = some { sessions := [far_queued_session], tun := [], ret := 1 } := by decide
  have r1 : reachable consts no_socks5 [far_queued_session] :=
    reachable.handle [open_session] env_ok far_input 0 1 _ open_session_reachable h1
  have h2 : handle_tcp consts env_ok [far_queued_session] data1_input 0 1
      = some { sessions := [two_queued_session], tun := [], ret := 1 } := by decide
  have r2 : reachable consts no_socks5 [two_queued_session] :=
    reachable.handle [far_queued_session] env_ok data1_input 0 1 _ r1 h2
  have h3 : handle_tcp consts env_ok [two_queued_session] far_input 0 1
      = some { sessions := [dup_session], tun := [], ret := 1 } := by decide
  exact ⟨r2, rfl, rfl, by decide, rfl, by decide, by decide, h3,
    reachable.handle [two_queued_session] env_ok far_input 0 1 _ r2 h3,
    by decide, by decide, by decide⟩

end Athena
